import Mathlib

/-! # USB mass storage wire protocols (`sys/dev/usb/umass.c`, `umassvar.h`)

A shallow embedding of the Bulk-Only (BBB) and Control/Bulk/Interrupt (CBI)
transfer state machines of the umass driver.

* C `int` values are `Int`; bytes, words and pointers are `Nat` (`0` is `NULL`).
* The softc is the record `umass_softc`; the function-static counter `dCBWtag`
  of `umass_bbb_transfer`, the answers of the transport to `usbd_transfer`,
  the transfers the transport has accepted and not yet completed, and the
  observable calls made by the driver (in order) live in `World`.
* Tracing (`SDT_PROBE`, `DPRINTFM`, `DIF`, `printf`) has no effect on the state
  and is left out; `KASSERT`s are preconditions of the theorems, not checks.
* The completion callback `transfer_cb` is code of the upper layer: a call is
  recorded in the trace as `Event.transfer_cb` and not executed.
-/

namespace Umass

/-! ## Constants of `umassvar.h` -/

def DIR_NONE : Int := 0
def DIR_IN : Int := 1
def DIR_OUT : Int := 2

def UMASS_BULKIN : Nat := 0
def UMASS_BULKOUT : Nat := 1
def UMASS_INTRIN : Nat := 2

def UR_BBB_RESET : Nat := 0xff

def CBWSIGNATURE : Nat := 0x43425355
def CBWFLAGS_OUT : Nat := 0x00
def CBWFLAGS_IN : Nat := 0x80
def CBWCDBLENGTH : Int := 16
def UMASS_BBB_CBW_SIZE : Int := 31

def CSWSIGNATURE : Nat := 0x53425355
def CSWSIGNATURE_OLYMPUS_C1 : Nat := 0x55425355
def CSWSTATUS_GOOD : Nat := 0x0
def CSWSTATUS_FAILED : Nat := 0x1
def CSWSTATUS_PHASE : Nat := 0x2
def UMASS_BBB_CSW_SIZE : Int := 13

def UR_CBI_ADSC : Nat := 0x00

def IDB_TYPE_CCI : Nat := 0x00
def IDB_VALUE_PASS : Nat := 0x00
def IDB_VALUE_FAIL : Nat := 0x01
def IDB_VALUE_PHASE : Nat := 0x02
def IDB_VALUE_PERSISTENT : Nat := 0x03
def IDB_VALUE_STATUS_MASK : Nat := 0x03

def STATUS_CMD_OK : Int := 0
def STATUS_CMD_UNKNOWN : Int := 1
def STATUS_CMD_FAILED : Int := 2
def STATUS_WIRE_FAILED : Int := 3
def STATUS_TIMEOUT : Int := 4

def UMASS_WPROTO_UNSPEC : Nat := 0
def UMASS_WPROTO_BBB : Nat := 1
def UMASS_WPROTO_CBI : Nat := 2
def UMASS_WPROTO_CBI_I : Nat := 3

def UMASS_CPROTO_UNSPEC : Nat := 0
def UMASS_CPROTO_SCSI : Nat := 1
def UMASS_CPROTO_ATAPI : Nat := 2
def UMASS_CPROTO_UFI : Nat := 3
def UMASS_CPROTO_RBC : Nat := 4
def UMASS_CPROTO_ISD_ATA : Nat := 5

def UMASS_QUIRK_WRONG_CSWSIG : Nat := 0x00000001
def UMASS_QUIRK_WRONG_CSWTAG : Nat := 0x00000002
def UMASS_QUIRK_RBC_PAD_TO_12 : Nat := 0x00000004
def UMASS_QUIRK_NOGETMAXLUN : Nat := 0x00000008

def XFER_BBB_CBW : Nat := 0
def XFER_BBB_DATAIN : Nat := 1
def XFER_BBB_DATAOUT : Nat := 2
def XFER_BBB_DCLEAR : Nat := 3
def XFER_BBB_CSW1 : Nat := 4
def XFER_BBB_CSW2 : Nat := 5
def XFER_BBB_SCLEAR : Nat := 6
def XFER_BBB_RESET1 : Nat := 7
def XFER_BBB_RESET2 : Nat := 8
def XFER_BBB_RESET3 : Nat := 9

def XFER_CBI_CB : Nat := 0
def XFER_CBI_DATAIN : Nat := 1
def XFER_CBI_DATAOUT : Nat := 2
def XFER_CBI_STATUS : Nat := 3
def XFER_CBI_DCLEAR : Nat := 4
def XFER_CBI_SCLEAR : Nat := 5
def XFER_CBI_RESET1 : Nat := 6
def XFER_CBI_RESET2 : Nat := 7
def XFER_CBI_RESET3 : Nat := 8

def TSTATE_IDLE : Int := 0
def TSTATE_BBB_COMMAND : Int := 1
def TSTATE_BBB_DATA : Int := 2
def TSTATE_BBB_DCLEAR : Int := 3
def TSTATE_BBB_STATUS1 : Int := 4
def TSTATE_BBB_SCLEAR : Int := 5
def TSTATE_BBB_STATUS2 : Int := 6
def TSTATE_BBB_RESET1 : Int := 7
def TSTATE_BBB_RESET2 : Int := 8
def TSTATE_BBB_RESET3 : Int := 9
def TSTATE_CBI_COMMAND : Int := 10
def TSTATE_CBI_DATA : Int := 11
def TSTATE_CBI_STATUS : Int := 12
def TSTATE_CBI_DCLEAR : Int := 13
def TSTATE_CBI_SCLEAR : Int := 14
def TSTATE_CBI_RESET1 : Int := 15
def TSTATE_CBI_RESET2 : Int := 16
def TSTATE_CBI_RESET3 : Int := 17

/-- The function-static `dCBWtag` of `umass_bbb_transfer` is initialised to 42. -/
def dCBWtag_init : Int := 42

/-- `SEND_DIAGNOSTIC_CMDLEN` of `umass_cbi_reset`. -/
def SEND_DIAGNOSTIC_CMDLEN : Nat := 12

/-! ## What the sources at hand do not define -/

/-- Constants of `usb.h` / `usbdi.h` and the macro `UMASS_BBB`, none of which is
defined in the sources at hand: the model takes their values as parameters. -/
structure usb_h where
  UT_WRITE_ENDPOINT : Nat
  UT_WRITE_CLASS_INTERFACE : Nat
  UR_CLEAR_FEATURE : Nat
  UF_ENDPOINT_HALT : Int
  USBD_SHORT_XFER_OK : Nat
  USBD_DEFAULT_TIMEOUT : Nat
  UMASS_BBB : Nat
deriving DecidableEq, Repr

/-- Modelled from the spec: the type `usbd_status` of `usbdi.h`, which is not in
the sources at hand: "Status space: NORMAL, STALLED, CANCELLED, IN_PROGRESS,
other-error". `USBD_IOERROR` is the error the driver itself returns; `other`
stands for every further error code. `USBD_NORMAL_COMPLETION` is the zero of the
type: `if (err)` reads `err ≠ USBD_NORMAL_COMPLETION`. -/
inductive usbd_status where
  | USBD_NORMAL_COMPLETION
  | USBD_IN_PROGRESS
  | USBD_STALLED
  | USBD_CANCELLED
  | USBD_IOERROR
  | other (code : Nat)
deriving DecidableEq, Repr

/-- A `uDWord` of `usb.h` (`uByte[4]`): its bytes in memory order. -/
abbrev uDWord : Type := List Nat

/-- Modelled from the spec: the macro `USETDW` of `usb.h` (not in the sources at
hand), which stores the low 32 bits of a value into a `uDWord`, least
significant byte first, the byte order of the USB wire format ("Binary layouts
(must match bit-for-bit)"). -/
def USETDW (v : Int) : uDWord :=
  let n := (v % 4294967296).toNat
  [n % 256, n / 256 % 256, n / 65536 % 256, n / 16777216 % 256]

/-- Modelled from the spec: the macro `UGETDW` of `usb.h` (not in the sources at
hand), the unsigned 32-bit value of a `uDWord` read least significant byte
first. -/
def UGETDW (w : uDWord) : Nat :=
  w.getD 0 0 % 256 + 256 * (w.getD 1 0 % 256) + 65536 * (w.getD 2 0 % 256) +
    16777216 * (w.getD 3 0 % 256)

/-- Modelled from the spec: the macro `USETW` of `usb.h` (not in the sources at
hand), which stores the low 16 bits of a value into a `uWord`, least significant
byte first. -/
def USETW (v : Int) : List Nat :=
  let n := (v % 65536).toNat
  [n % 256, n / 256 % 256]

/-- Storing a C `int` into a `uByte` keeps its low eight bits. -/
def to_uByte (v : Int) : Nat := (v % 256).toNat

/-- The `int` read back from a location into which a `uint32_t` was written
(`usbd_get_xfer_status` writes the 32-bit `ux_actlen` through
`&sc->transfer_actlen`): two's complement on 32 bits. -/
def int_of_u32 (n : Nat) : Int :=
  if n % 4294967296 < 2147483648 then ((n % 4294967296 : Nat) : Int)
  else ((n % 4294967296 : Nat) : Int) - 4294967296

/-- The `memcpy(dst, src, n)` of the first `n` bytes of `src` over `dst`. -/
def memcpy (dst src : List Nat) (n : Nat) : List Nat :=
  src.take n ++ dst.drop n

/-! ## Data model -/

/-- The `usb_device_request_t` of a control transfer. -/
structure usb_device_request_t where
  bmRequestType : Nat
  bRequest : Nat
  wValue : List Nat
  wIndex : List Nat
  wLength : List Nat
deriving DecidableEq, Repr

/-- Command Block Wrapper. -/
structure umass_bbb_cbw_t where
  dCBWSignature : uDWord
  dCBWTag : uDWord
  dCBWDataTransferLength : uDWord
  bCBWFlags : Nat
  bCBWLUN : Nat
  bCDBLength : Nat
  CBWCDB : List Nat
deriving DecidableEq, Repr

/-- The bytes of a Command Block Wrapper in memory order (the struct has no
padding: all its members are bytes or byte arrays). -/
def umass_bbb_cbw_t.bytes (c : umass_bbb_cbw_t) : List Nat :=
  c.dCBWSignature ++ c.dCBWTag ++ c.dCBWDataTransferLength ++
    [c.bCBWFlags, c.bCBWLUN, c.bCDBLength] ++ c.CBWCDB

/-- Command Status Wrapper. -/
structure umass_bbb_csw_t where
  dCSWSignature : uDWord
  dCSWTag : uDWord
  dCSWDataResidue : uDWord
  bCSWStatus : Nat
deriving DecidableEq, Repr

/-- The CBI status block, a union of two byte pairs: `common.type` and `ufi.asc`
are byte 0, `common.value` and `ufi.ascq` are byte 1. -/
structure umass_cbi_sbl_t where
  byte0 : Nat
  byte1 : Nat
deriving DecidableEq, Repr

/-- The buffer handed to the transport with a transfer; for the buffers whose
contents the model tracks, the contents at the time of the call. -/
inductive Buf where
  | NULL
  | cbw (bytes : List Nat)
  | cmd (bytes : List Nat)
  | csw
  | sbl
  | datain_buffer
  | dataout_buffer
  | transfer_data
deriving DecidableEq, Repr

/-- The per device structure, restricted to the members the wire protocols use
(the record lists the members of the transfer in progress first). -/
structure umass_softc where
  transfer_state : Int
  transfer_status : Int
  transfer_dir : Int
  transfer_data : Nat
  transfer_datalen : Int
  transfer_actlen : Int
  transfer_cb : Nat
  transfer_priv : Nat
  timeout : Int
  sc_dying : Bool
  sc_sense : Int
  sc_ifaceno : Int
  sc_epaddr : List Nat
  sc_req : usb_device_request_t
  sc_methods : Nat
  sc_wire : Nat
  sc_cmd : Nat
  sc_quirks : Nat
  cbw : umass_bbb_cbw_t
  csw : umass_bbb_csw_t
  cbl : List Nat
  sbl : umass_cbi_sbl_t
deriving DecidableEq, Repr

/-- The calls the driver makes to the transport, to memory and to the upper
layer, as they are recorded in the trace. -/
inductive Event where
  | usbd_setup_xfer (xfer : Nat) (buffer : Buf) (buflen : Int) (flags : Nat) (timeout : Int)
  | usbd_setup_default_xfer (xfer : Nat) (req : usb_device_request_t) (buffer : Buf)
      (buflen : Int) (flags : Nat)
  | usbd_transfer (xfer : Nat) (ret : usbd_status)
  | usbd_clear_endpoint_toggle (endpt : Nat)
  | memcpy (dst src : Buf) (len : Int)
  | transfer_cb (cb priv : Nat) (residue status : Int)
deriving DecidableEq, Repr

/-- The driver together with its environment. The completion callback is handed
`sc`: `cb_state` holds the value of `sc->transfer_state` that each call of the
callback finds, in the order of the calls. -/
structure World where
  trace : List Event
  inflight : List Nat
  usbd_transfer_ret : List usbd_status
  dCBWtag : Int
  sc : umass_softc
  cb_state : List Int
deriving DecidableEq, Repr

/-- Make a call: it is appended to the trace, and a call of the completion
callback finds `sc` as it is at that moment. -/
def World.log (w : World) (e : Event) : World :=
  { w with trace := w.trace ++ [e]
           cb_state := match e with
             | Event.transfer_cb _ _ _ _ => w.cb_state ++ [w.sc.transfer_state]
             | _ => w.cb_state }

/-- Assignment to `sc->transfer_state`. -/
def World.set_state (w : World) (s : Int) : World :=
  { w with sc := { w.sc with transfer_state := s } }

/-- The transfer handles created by `umass_attach` for a BBB device and the
pipe each is created on (`none` is the default control pipe `pipe0`). -/
def bbb_xfer_pipe (xfer : Nat) : Option Nat :=
  if xfer = XFER_BBB_DATAIN then some UMASS_BULKIN
  else if xfer = XFER_BBB_DATAOUT then some UMASS_BULKOUT
  else if xfer = XFER_BBB_CBW then some UMASS_BULKOUT
  else if xfer = XFER_BBB_CSW1 then some UMASS_BULKIN
  else if xfer = XFER_BBB_CSW2 then some UMASS_BULKIN
  else none

/-! ## Generic functions to handle transfers -/

/-- The transport's `usbd_transfer`: its return value is the next answer of the
environment (`USBD_IN_PROGRESS` when none is scripted). A transfer that was not
refused is in flight until its completion is delivered. -/
def usbd_transfer (w : World) (xfer : Nat) : World × usbd_status :=
  let r := w.usbd_transfer_ret.headD usbd_status.USBD_IN_PROGRESS
  let w1 : World := { w with usbd_transfer_ret := w.usbd_transfer_ret.tail,
                             trace := w.trace ++ [Event.usbd_transfer xfer r] }
  if r = usbd_status.USBD_NORMAL_COMPLETION ∨ r = usbd_status.USBD_IN_PROGRESS then
    ({ w1 with inflight := w1.inflight ++ [xfer] }, r)
  else (w1, r)

/-- The function `umass_setup_transfer`; the `pipe` argument is not used by the
body, as in the source. -/
def umass_setup_transfer (K : usb_h) (w : World) (_pipe : Nat) (buffer : Buf) (buflen : Int)
    (flags : Nat) (xfer : Nat) : World × usbd_status :=
  if w.sc.sc_dying then (w, usbd_status.USBD_IOERROR)
  else
    let w1 := if w.sc.sc_methods = K.UMASS_BBB then
        w.log (Event.usbd_setup_xfer xfer buffer buflen flags w.sc.timeout)
      else w
    let r := usbd_transfer w1 xfer
    if r.2 ≠ usbd_status.USBD_NORMAL_COMPLETION ∧ r.2 ≠ usbd_status.USBD_IN_PROGRESS then
      (r.1, r.2)
    else (r.1, usbd_status.USBD_NORMAL_COMPLETION)

/-- The function `umass_setup_ctrl_transfer`; `req` is `&sc->sc_req` at every
call site. -/
def umass_setup_ctrl_transfer (w : World) (buffer : Buf) (buflen : Int)
    (flags : Nat) (xfer : Nat) : World × usbd_status :=
  if w.sc.sc_dying then (w, usbd_status.USBD_IOERROR)
  else
    let w1 := w.log (Event.usbd_setup_default_xfer xfer w.sc.sc_req buffer buflen flags)
    let r := usbd_transfer w1 xfer
    if r.2 ≠ usbd_status.USBD_NORMAL_COMPLETION ∧ r.2 ≠ usbd_status.USBD_IN_PROGRESS then
      (r.1, r.2)
    else (r.1, usbd_status.USBD_NORMAL_COMPLETION)

/-- The function `umass_transfer_done`. -/
def umass_transfer_done (w : World) (residue status : Int) : World :=
  let w1 := w.set_state TSTATE_IDLE
  w1.log (Event.transfer_cb w1.sc.transfer_cb w1.sc.transfer_priv residue status)

/-- The function `umass_transfer_reset`. -/
def umass_transfer_reset (w : World) : World :=
  let w1 := w.set_state TSTATE_IDLE
  if w1.sc.transfer_priv ≠ 0 then
    w1.log (Event.transfer_cb w1.sc.transfer_cb w1.sc.transfer_priv
      w1.sc.transfer_datalen w1.sc.transfer_status)
  else w1

/-- The function `umass_clear_endpoint_stall`. -/
def umass_clear_endpoint_stall (K : usb_h) (w : World) (endpt : Nat) (xfer : Nat) : World :=
  if w.sc.sc_dying then
    umass_transfer_done w w.sc.transfer_datalen STATUS_WIRE_FAILED
  else
    let w1 := w.log (Event.usbd_clear_endpoint_toggle endpt)
    let req : usb_device_request_t :=
      { bmRequestType := K.UT_WRITE_ENDPOINT
        bRequest := K.UR_CLEAR_FEATURE
        wValue := USETW K.UF_ENDPOINT_HALT
        wIndex := USETW (w1.sc.sc_epaddr.getD endpt 0 : Nat)
        wLength := USETW 0 }
    let w2 : World := { w1 with sc := { w1.sc with sc_req := req } }
    let r := umass_setup_ctrl_transfer w2 Buf.NULL 0 0 xfer
    if r.2 ≠ usbd_status.USBD_NORMAL_COMPLETION then
      umass_transfer_done r.1 r.1.sc.transfer_datalen STATUS_WIRE_FAILED
    else r.1

/-! ## Bulk protocol specific functions -/

/-- The function `umass_bbb_reset`. -/
def umass_bbb_reset (K : usb_h) (w : World) (status : Int) : World :=
  if w.sc.sc_dying then
    umass_transfer_done w w.sc.transfer_datalen status
  else
    let req : usb_device_request_t :=
      { bmRequestType := K.UT_WRITE_CLASS_INTERFACE
        bRequest := UR_BBB_RESET
        wValue := USETW 0
        wIndex := USETW w.sc.sc_ifaceno
        wLength := USETW 0 }
    let w1 : World := { w with sc := { w.sc with transfer_state := TSTATE_BBB_RESET1
                                                 transfer_status := status
                                                 sc_req := req } }
    let r := umass_setup_ctrl_transfer w1 Buf.NULL 0 0 XFER_BBB_RESET1
    if r.2 ≠ usbd_status.USBD_NORMAL_COMPLETION then
      umass_transfer_done r.1 r.1.sc.transfer_datalen status
    else r.1

/-- The assignments of `umass_bbb_transfer` on a live session, before the CBW is
sent: the timeout, the Command Block Wrapper (with the tag taken from the static
counter `dCBWtag`, which is then incremented), the details for the data transfer
phase and the move from idle to the command state. `cmd` holds the bytes at the
pointer `cmd`, `data` is the pointer itself. -/
def bbb_transfer_store (K : usb_h) (w : World) (lun : Int) (cmd : List Nat) (cmdlen : Int)
    (data : Nat) (datalen : Int) (dir : Int) (timeout : Nat) (cb : Nat) (priv : Nat) : World :=
  let cbw : umass_bbb_cbw_t :=
    { dCBWSignature := USETDW CBWSIGNATURE
      dCBWTag := USETDW w.dCBWtag
      dCBWDataTransferLength := USETDW datalen
      bCBWFlags := if dir = DIR_IN then CBWFLAGS_IN else CBWFLAGS_OUT
      bCBWLUN := to_uByte lun
      bCDBLength := to_uByte cmdlen
      CBWCDB := memcpy w.sc.cbw.CBWCDB cmd cmdlen.toNat }
  let sc1 : umass_softc :=
    { w.sc with timeout := int_of_u32 (timeout + K.USBD_DEFAULT_TIMEOUT)
                cbw := cbw
                transfer_dir := dir
                transfer_data := data
                transfer_datalen := datalen
                transfer_actlen := 0
                transfer_cb := cb
                transfer_priv := priv
                transfer_status := STATUS_CMD_OK
                transfer_state := TSTATE_BBB_COMMAND }
  { w with sc := sc1, dCBWtag := w.dCBWtag + 1 }

/-- The end of `umass_bbb_transfer`: "Send the CBW from host to device via
bulk-out endpoint". -/
def bbb_send_cbw (K : usb_h) (w : World) (flags : Nat) : World :=
  let r := umass_setup_transfer K w UMASS_BULKOUT (Buf.cbw w.sc.cbw.bytes) UMASS_BBB_CBW_SIZE
    flags XFER_BBB_CBW
  if r.2 ≠ usbd_status.USBD_NORMAL_COMPLETION then
    umass_bbb_reset K r.1 STATUS_WIRE_FAILED
  else r.1

/-- The function `umass_bbb_transfer`. -/
def umass_bbb_transfer (K : usb_h) (w : World) (lun : Int) (cmd : List Nat) (cmdlen : Int)
    (data : Nat) (datalen : Int) (dir : Int) (timeout : Nat) (flags : Nat)
    (cb : Nat) (priv : Nat) : World :=
  if w.sc.sc_dying then
    w.log (Event.transfer_cb cb priv datalen STATUS_WIRE_FAILED)
  else
    bbb_send_cbw K (bbb_transfer_store K w lun cmd cmdlen data datalen dir timeout cb priv) flags

/-- Label `case TSTATE_BBB_RESET3` of `umass_bbb_state`. -/
def bbb_case_RESET3 (w : World) : World :=
  umass_transfer_reset w

/-- Label `case TSTATE_BBB_RESET2` of `umass_bbb_state`. -/
def bbb_case_RESET2 (K : usb_h) (w : World) : World :=
  umass_clear_endpoint_stall K (w.set_state TSTATE_BBB_RESET3) UMASS_BULKOUT XFER_BBB_RESET3

/-- Label `case TSTATE_BBB_RESET1` of `umass_bbb_state`. -/
def bbb_case_RESET1 (K : usb_h) (w : World) : World :=
  umass_clear_endpoint_stall K (w.set_state TSTATE_BBB_RESET2) UMASS_BULKIN XFER_BBB_RESET2

/-- The translation of weird command-status signatures and of invalid
command-status tags in `umass_bbb_state`: the contents of `sc->csw` after the
two quirk statements. -/
def bbb_csw_quirks (sc : umass_softc) : umass_bbb_csw_t :=
  let csw1 : umass_bbb_csw_t :=
    if sc.sc_quirks &&& UMASS_QUIRK_WRONG_CSWSIG ≠ 0 ∧
        UGETDW sc.csw.dCSWSignature = CSWSIGNATURE_OLYMPUS_C1 then
      { sc.csw with dCSWSignature := USETDW CSWSIGNATURE }
    else sc.csw
  if sc.sc_quirks &&& UMASS_QUIRK_WRONG_CSWTAG ≠ 0 then
    { csw1 with dCSWTag := USETDW (UGETDW sc.cbw.dCBWTag) }
  else csw1

/-- The check of the CSW in `umass_bbb_state` ("Check CSW and handle any
error"), with `residue = transfer_datalen - transfer_actlen`. The branch for
`transfer_actlen > transfer_datalen` has no `return`: control leaves the `if`
chain and runs into the label `TSTATE_BBB_RESET1` that follows it. -/
def bbb_csw_check (K : usb_h) (w : World) : World :=
  if UGETDW w.sc.csw.dCSWSignature ≠ CSWSIGNATURE then
    umass_bbb_reset K w STATUS_WIRE_FAILED
  else if UGETDW w.sc.csw.dCSWTag ≠ UGETDW w.sc.cbw.dCBWTag then
    umass_bbb_reset K w STATUS_WIRE_FAILED
  else if w.sc.csw.bCSWStatus > CSWSTATUS_PHASE then
    umass_bbb_reset K w STATUS_WIRE_FAILED
  else if w.sc.csw.bCSWStatus = CSWSTATUS_PHASE then
    umass_bbb_reset K w STATUS_WIRE_FAILED
  else if w.sc.transfer_actlen > w.sc.transfer_datalen then
    bbb_case_RESET1 K w
  else if w.sc.csw.bCSWStatus = CSWSTATUS_FAILED then
    umass_transfer_done w (w.sc.transfer_datalen - w.sc.transfer_actlen) STATUS_CMD_FAILED
  else
    umass_transfer_done w (w.sc.transfer_datalen - w.sc.transfer_actlen) STATUS_CMD_OK

/-- Labels `case TSTATE_BBB_STATUS1` and `case TSTATE_BBB_STATUS2` of
`umass_bbb_state`. -/
def bbb_case_STATUS (K : usb_h) (w : World) (err : usbd_status) : World :=
  if err ≠ usbd_status.USBD_NORMAL_COMPLETION then
    if w.sc.transfer_state = TSTATE_BBB_STATUS1 then
      umass_clear_endpoint_stall K (w.set_state TSTATE_BBB_SCLEAR) UMASS_BULKIN XFER_BBB_SCLEAR
    else
      umass_bbb_reset K w STATUS_WIRE_FAILED
  else
    bbb_csw_check K { w with sc := { w.sc with csw := bbb_csw_quirks w.sc } }

/-- The status transport phase of `umass_bbb_state` ("Read the Command Status
Wrapper via bulk-in endpoint"), after `transfer_state` and `next_xfer` are set. -/
def bbb_read_csw (K : usb_h) (w : World) (next_xfer : Nat) : World :=
  let r := umass_setup_transfer K w UMASS_BULKIN Buf.csw UMASS_BBB_CSW_SIZE 0 next_xfer
  if r.2 ≠ usbd_status.USBD_NORMAL_COMPLETION then
    umass_bbb_reset K r.1 STATUS_WIRE_FAILED
  else r.1

/-- Label `case TSTATE_BBB_SCLEAR` of `umass_bbb_state`, also reached by falling
through from the labels above it. -/
def bbb_case_SCLEAR (K : usb_h) (w : World) (err : usbd_status) : World :=
  if err ≠ usbd_status.USBD_NORMAL_COMPLETION then
    umass_bbb_reset K w STATUS_WIRE_FAILED
  else if w.sc.transfer_state = TSTATE_BBB_COMMAND ∨
      w.sc.transfer_state = TSTATE_BBB_DATA ∨ w.sc.transfer_state = TSTATE_BBB_DCLEAR then
    bbb_read_csw K (w.set_state TSTATE_BBB_STATUS1) XFER_BBB_CSW1
  else
    bbb_read_csw K (w.set_state TSTATE_BBB_STATUS2) XFER_BBB_CSW2

/-- Label `case TSTATE_BBB_DCLEAR` of `umass_bbb_state`, also reached by falling
through from `TSTATE_BBB_DATA`. -/
def bbb_case_DCLEAR (K : usb_h) (w : World) (err : usbd_status) : World :=
  let w1 := if w.sc.transfer_dir = DIR_IN then
      w.log (Event.memcpy Buf.transfer_data Buf.datain_buffer w.sc.transfer_actlen)
    else w
  bbb_case_SCLEAR K w1 err

/-- Label `case TSTATE_BBB_DATA` of `umass_bbb_state`, also reached by falling
through from `TSTATE_BBB_COMMAND` when there is no data phase. `xfer_actlen` is
the length `usbd_get_xfer_status` reports for the completed transfer. -/
def bbb_case_DATA (K : usb_h) (w : World) (xfer_actlen : Nat) (err : usbd_status) : World :=
  if w.sc.transfer_dir ≠ DIR_NONE then
    let w1 : World := { w with sc := { w.sc with transfer_actlen := int_of_u32 xfer_actlen } }
    if err ≠ usbd_status.USBD_NORMAL_COMPLETION then
      if err = usbd_status.USBD_STALLED then
        umass_clear_endpoint_stall K (w1.set_state TSTATE_BBB_DCLEAR)
          (if w1.sc.transfer_dir = DIR_IN then UMASS_BULKIN else UMASS_BULKOUT) XFER_BBB_DCLEAR
      else
        umass_bbb_reset K w1 STATUS_WIRE_FAILED
    else bbb_case_DCLEAR K w1 err
  else bbb_case_DCLEAR K w err

/-- Label `case TSTATE_BBB_COMMAND` of `umass_bbb_state`. -/
def bbb_case_COMMAND (K : usb_h) (w : World) (xfer_actlen : Nat) (err : usbd_status) : World :=
  if err ≠ usbd_status.USBD_NORMAL_COMPLETION then
    umass_bbb_reset K w STATUS_WIRE_FAILED
  else
    let w1 := w.set_state TSTATE_BBB_DATA
    if w1.sc.transfer_dir = DIR_IN then
      let r := umass_setup_transfer K w1 UMASS_BULKIN Buf.datain_buffer w1.sc.transfer_datalen
        K.USBD_SHORT_XFER_OK XFER_BBB_DATAIN
      if r.2 ≠ usbd_status.USBD_NORMAL_COMPLETION then
        umass_bbb_reset K r.1 STATUS_WIRE_FAILED
      else r.1
    else if w1.sc.transfer_dir = DIR_OUT then
      let w2 := w1.log (Event.memcpy Buf.dataout_buffer Buf.transfer_data w1.sc.transfer_datalen)
      let r := umass_setup_transfer K w2 UMASS_BULKOUT Buf.dataout_buffer w2.sc.transfer_datalen
        0 XFER_BBB_DATAOUT
      if r.2 ≠ usbd_status.USBD_NORMAL_COMPLETION then
        umass_bbb_reset K r.1 STATUS_WIRE_FAILED
      else r.1
    else bbb_case_DATA K w1 xfer_actlen err

/-- The function `umass_bbb_state`, the completion handler of every BBB
transfer. `xfer_actlen` is what `usbd_get_xfer_status` reports for `xfer`. -/
def umass_bbb_state (K : usb_h) (w : World) (xfer_actlen : Nat) (err : usbd_status) : World :=
  if err = usbd_status.USBD_CANCELLED then
    umass_transfer_done w 0 STATUS_TIMEOUT
  else if w.sc.sc_dying then
    umass_transfer_done w w.sc.transfer_datalen STATUS_WIRE_FAILED
  else if w.sc.transfer_state = TSTATE_BBB_COMMAND then bbb_case_COMMAND K w xfer_actlen err
  else if w.sc.transfer_state = TSTATE_BBB_DATA then bbb_case_DATA K w xfer_actlen err
  else if w.sc.transfer_state = TSTATE_BBB_DCLEAR then bbb_case_DCLEAR K w err
  else if w.sc.transfer_state = TSTATE_BBB_SCLEAR then bbb_case_SCLEAR K w err
  else if w.sc.transfer_state = TSTATE_BBB_STATUS1 ∨ w.sc.transfer_state = TSTATE_BBB_STATUS2 then
    bbb_case_STATUS K w err
  else if w.sc.transfer_state = TSTATE_BBB_RESET1 then bbb_case_RESET1 K w
  else if w.sc.transfer_state = TSTATE_BBB_RESET2 then bbb_case_RESET2 K w
  else if w.sc.transfer_state = TSTATE_BBB_RESET3 then bbb_case_RESET3 w
  else w

/-! ## Command/Bulk/Interrupt (CBI) specific functions -/

/-- The function `umass_cbi_adsc`. `buffer` holds the bytes at the pointer
`buffer`; the padding of an RBC command block is written into that buffer, whose
new contents travel with the transfer. -/
def umass_cbi_adsc (K : usb_h) (w : World) (buffer : List Nat) (buflen : Int) (flags : Nat)
    (xfer : Nat) : World × usbd_status :=
  let pad := w.sc.sc_cmd = UMASS_CPROTO_RBC ∧
    w.sc.sc_quirks &&& UMASS_QUIRK_RBC_PAD_TO_12 ≠ 0 ∧ buflen < 12
  let buffer1 := if pad then
      buffer.take buflen.toNat ++ List.replicate (12 - buflen).toNat 0 ++ buffer.drop 12
    else buffer
  let buflen1 : Int := if pad then 12 else buflen
  let req : usb_device_request_t :=
    { bmRequestType := K.UT_WRITE_CLASS_INTERFACE
      bRequest := UR_CBI_ADSC
      wValue := USETW 0
      wIndex := USETW w.sc.sc_ifaceno
      wLength := USETW buflen1 }
  let w1 : World := { w with sc := { w.sc with sc_req := req } }
  umass_setup_ctrl_transfer w1 (Buf.cmd buffer1) buflen1 flags xfer

/-- The function `umass_cbi_reset`. -/
def umass_cbi_reset (K : usb_h) (w : World) (status : Int) : World :=
  if w.sc.sc_dying then
    umass_transfer_done w w.sc.transfer_datalen status
  else
    let cbl := [0x1d, 0x04] ++ List.replicate (SEND_DIAGNOSTIC_CMDLEN - 2) 0xff ++
      w.sc.cbl.drop SEND_DIAGNOSTIC_CMDLEN
    let w1 : World := { w with sc := { w.sc with transfer_state := TSTATE_CBI_RESET1
                                                 transfer_status := status
                                                 cbl := cbl } }
    let r := umass_cbi_adsc K w1 w1.sc.cbl SEND_DIAGNOSTIC_CMDLEN 0 XFER_CBI_RESET1
    if r.2 ≠ usbd_status.USBD_NORMAL_COMPLETION then
      umass_transfer_done r.1 r.1.sc.transfer_datalen status
    else r.1

/-- The assignments of `umass_cbi_transfer` on a live session, before the command
block is sent: the timeout, the details for the data transfer phase and the move
from idle to the command state. `data` is the pointer itself. -/
def cbi_transfer_store (K : usb_h) (w : World) (data : Nat) (datalen : Int) (dir : Int)
    (timeout : Nat) (cb : Nat) (priv : Nat) : World :=
  { w with sc :=
    { w.sc with timeout := int_of_u32 (timeout + K.USBD_DEFAULT_TIMEOUT)
                transfer_dir := dir
                transfer_data := data
                transfer_datalen := datalen
                transfer_actlen := 0
                transfer_cb := cb
                transfer_priv := priv
                transfer_status := STATUS_CMD_OK
                transfer_state := TSTATE_CBI_COMMAND } }

/-- The end of `umass_cbi_transfer`: "Send the Command Block from host to device
via control endpoint". `cmd` holds the bytes at the pointer `cmd`. -/
def cbi_send_cb (K : usb_h) (w : World) (cmd : List Nat) (cmdlen : Int) (flags : Nat) : World :=
  let r := umass_cbi_adsc K w cmd cmdlen flags XFER_CBI_CB
  if r.2 ≠ usbd_status.USBD_NORMAL_COMPLETION then
    umass_cbi_reset K r.1 STATUS_WIRE_FAILED
  else r.1

/-- The function `umass_cbi_transfer`; `lun` is not used by the body. -/
def umass_cbi_transfer (K : usb_h) (w : World) (_lun : Int) (cmd : List Nat) (cmdlen : Int)
    (data : Nat) (datalen : Int) (dir : Int) (timeout : Nat) (flags : Nat)
    (cb : Nat) (priv : Nat) : World :=
  if w.sc.sc_dying then
    w.log (Event.transfer_cb cb priv datalen STATUS_WIRE_FAILED)
  else
    cbi_send_cb K (cbi_transfer_store K w data datalen dir timeout cb priv) cmd cmdlen flags

/-- The end of `case TSTATE_CBI_DATA` of `umass_cbi_state`, after the error
handling of the data transfer: the copy of the data read and the status phase. -/
def cbi_data_status (K : usb_h) (w : World) : World :=
  let w2 := if w.sc.transfer_dir = DIR_IN then
      w.log (Event.memcpy Buf.transfer_data Buf.datain_buffer w.sc.transfer_actlen)
    else w
  if w2.sc.sc_wire = UMASS_WPROTO_CBI_I then
    let w3 : World := { w2 with sc := { w2.sc with transfer_state := TSTATE_CBI_STATUS
                                                   sbl := { byte0 := 0, byte1 := 0 } } }
    let r := umass_setup_transfer K w3 UMASS_INTRIN Buf.sbl 2 0 XFER_CBI_STATUS
    if r.2 ≠ usbd_status.USBD_NORMAL_COMPLETION then
      umass_cbi_reset K r.1 STATUS_WIRE_FAILED
    else r.1
  else
    umass_transfer_done w2 (w2.sc.transfer_datalen - w2.sc.transfer_actlen) STATUS_CMD_UNKNOWN

/-- Label `case TSTATE_CBI_DATA` of `umass_cbi_state`, also reached by falling
through from `TSTATE_CBI_COMMAND` when there is no data phase. -/
def cbi_case_DATA (K : usb_h) (w : World) (xfer_actlen : Nat) (err : usbd_status) : World :=
  if w.sc.transfer_dir ≠ DIR_NONE then
    let w1 : World := { w with sc := { w.sc with transfer_actlen := int_of_u32 xfer_actlen } }
    if err ≠ usbd_status.USBD_NORMAL_COMPLETION then
      if err = usbd_status.USBD_STALLED then
        umass_clear_endpoint_stall K (w1.set_state TSTATE_CBI_DCLEAR)
          (if w1.sc.transfer_dir = DIR_IN then UMASS_BULKIN else UMASS_BULKOUT) XFER_CBI_DCLEAR
      else
        umass_cbi_reset K w1 STATUS_WIRE_FAILED
    else cbi_data_status K w1
  else cbi_data_status K w

/-- Label `case TSTATE_CBI_COMMAND` of `umass_cbi_state`. -/
def cbi_case_COMMAND (K : usb_h) (w : World) (xfer_actlen : Nat) (err : usbd_status) : World :=
  if err = usbd_status.USBD_STALLED then
    umass_transfer_done w w.sc.transfer_datalen STATUS_CMD_FAILED
  else if err ≠ usbd_status.USBD_NORMAL_COMPLETION then
    umass_cbi_reset K w STATUS_WIRE_FAILED
  else
    let w1 := w.set_state TSTATE_CBI_DATA
    if w1.sc.transfer_dir = DIR_IN then
      let r := umass_setup_transfer K w1 UMASS_BULKIN Buf.datain_buffer w1.sc.transfer_datalen
        K.USBD_SHORT_XFER_OK XFER_CBI_DATAIN
      if r.2 ≠ usbd_status.USBD_NORMAL_COMPLETION then
        umass_cbi_reset K r.1 STATUS_WIRE_FAILED
      else r.1
    else if w1.sc.transfer_dir = DIR_OUT then
      let w2 := w1.log (Event.memcpy Buf.dataout_buffer Buf.transfer_data w1.sc.transfer_datalen)
      let r := umass_setup_transfer K w2 UMASS_BULKOUT Buf.dataout_buffer w2.sc.transfer_datalen
        0 XFER_CBI_DATAOUT
      if r.2 ≠ usbd_status.USBD_NORMAL_COMPLETION then
        umass_cbi_reset K r.1 STATUS_WIRE_FAILED
      else r.1
    else cbi_case_DATA K w1 xfer_actlen err

/-- Label `case TSTATE_CBI_STATUS` of `umass_cbi_state`. When the actual length
is not 2 the `break` leaves the `switch`, and the function returns. -/
def cbi_case_STATUS (K : usb_h) (w : World) (xfer_actlen : Nat) (err : usbd_status) : World :=
  if err ≠ usbd_status.USBD_NORMAL_COMPLETION then
    if err = usbd_status.USBD_STALLED then
      umass_clear_endpoint_stall K (w.set_state TSTATE_CBI_SCLEAR) UMASS_INTRIN XFER_CBI_SCLEAR
    else
      umass_cbi_reset K w STATUS_WIRE_FAILED
  else if xfer_actlen % 4294967296 ≠ 2 then
    w
  else if w.sc.sc_cmd = UMASS_CPROTO_UFI then
    let status :=
      if (w.sc.sbl.byte0 = 0 ∧ w.sc.sbl.byte1 = 0) ∨ w.sc.sc_sense ≠ 0 then STATUS_CMD_OK
      else STATUS_CMD_FAILED
    umass_transfer_done w (w.sc.transfer_datalen - w.sc.transfer_actlen) status
  else if w.sc.sbl.byte0 = IDB_TYPE_CCI then
    let v := w.sc.sbl.byte1 &&& IDB_VALUE_STATUS_MASK
    let status :=
      if v = IDB_VALUE_PASS then STATUS_CMD_OK
      else if v = IDB_VALUE_FAIL ∨ v = IDB_VALUE_PERSISTENT then STATUS_CMD_FAILED
      else STATUS_WIRE_FAILED
    umass_transfer_done w (w.sc.transfer_datalen - w.sc.transfer_actlen) status
  else
    umass_transfer_done w w.sc.transfer_datalen STATUS_WIRE_FAILED

/-- Labels `case TSTATE_CBI_DCLEAR` and `case TSTATE_CBI_SCLEAR` of
`umass_cbi_state`, which have the same body. -/
def cbi_case_CLEAR (K : usb_h) (w : World) (err : usbd_status) : World :=
  if err ≠ usbd_status.USBD_NORMAL_COMPLETION then
    umass_cbi_reset K w STATUS_WIRE_FAILED
  else
    umass_transfer_done w w.sc.transfer_datalen STATUS_CMD_FAILED

/-- The function `umass_cbi_state`, the completion handler of every CBI
transfer. `xfer_actlen` is what `usbd_get_xfer_status` reports for `xfer`. -/
def umass_cbi_state (K : usb_h) (w : World) (xfer_actlen : Nat) (err : usbd_status) : World :=
  if err = usbd_status.USBD_CANCELLED then
    umass_transfer_done w 0 STATUS_TIMEOUT
  else if w.sc.sc_dying then
    umass_transfer_done w w.sc.transfer_datalen STATUS_WIRE_FAILED
  else if w.sc.transfer_state = TSTATE_CBI_COMMAND then cbi_case_COMMAND K w xfer_actlen err
  else if w.sc.transfer_state = TSTATE_CBI_DATA then cbi_case_DATA K w xfer_actlen err
  else if w.sc.transfer_state = TSTATE_CBI_STATUS then cbi_case_STATUS K w xfer_actlen err
  else if w.sc.transfer_state = TSTATE_CBI_DCLEAR then cbi_case_CLEAR K w err
  else if w.sc.transfer_state = TSTATE_CBI_SCLEAR then cbi_case_CLEAR K w err
  else if w.sc.transfer_state = TSTATE_CBI_RESET1 then
    umass_clear_endpoint_stall K (w.set_state TSTATE_CBI_RESET2) UMASS_BULKIN XFER_CBI_RESET2
  else if w.sc.transfer_state = TSTATE_CBI_RESET2 then
    umass_clear_endpoint_stall K (w.set_state TSTATE_CBI_RESET3) UMASS_BULKOUT XFER_CBI_RESET3
  else if w.sc.transfer_state = TSTATE_CBI_RESET3 then umass_transfer_reset w
  else w

/-! ## The transport delivering completions -/

/-- What the transport delivers with the completion of a transfer: the status
`err`, the actual length, and what the device wrote into the status buffers
(`csw` for a BBB status read, `sbl` for a CBI interrupt status read). `dying`
tells that `umass_detach` or `umass_activate` has marked the session dying
before the completion arrives. -/
structure Completion where
  err : usbd_status
  actlen : Nat
  csw : umass_bbb_csw_t
  sbl : umass_cbi_sbl_t
  dying : Bool
deriving DecidableEq, Repr

/-- The transport completes the transfer in flight of a BBB session: the data
read by a status transfer is in `sc->csw` and `umass_bbb_state` is called.
Without a transfer in flight nothing is delivered. -/
def bbb_complete (K : usb_h) (w : World) (c : Completion) : World :=
  match w.inflight with
  | [] => w
  | _ :: rest =>
    let sc1 : umass_softc :=
      { w.sc with
          sc_dying := w.sc.sc_dying || c.dying
          csw := if w.sc.transfer_state = TSTATE_BBB_STATUS1 ∨
                    w.sc.transfer_state = TSTATE_BBB_STATUS2 then c.csw else w.sc.csw }
    umass_bbb_state K { w with sc := sc1, inflight := rest } c.actlen c.err

/-- The transport completes the transfer in flight of a CBI session: the data
read by the interrupt status transfer is in `sc->sbl` and `umass_cbi_state` is
called. Without a transfer in flight nothing is delivered. -/
def cbi_complete (K : usb_h) (w : World) (c : Completion) : World :=
  match w.inflight with
  | [] => w
  | _ :: rest =>
    let sc1 : umass_softc :=
      { w.sc with
          sc_dying := w.sc.sc_dying || c.dying
          sbl := if w.sc.transfer_state = TSTATE_CBI_STATUS then c.sbl else w.sc.sbl }
    umass_cbi_state K { w with sc := sc1, inflight := rest } c.actlen c.err

/-- Deliver a sequence of completions to a BBB session, one after the other. -/
def bbb_run (K : usb_h) (w : World) (cs : List Completion) : World :=
  cs.foldl (bbb_complete K) w

/-- Deliver a sequence of completions to a CBI session, one after the other. -/
def cbi_run (K : usb_h) (w : World) (cs : List Completion) : World :=
  cs.foldl (cbi_complete K) w

/-- The calls of the completion callback recorded in a trace, as
(cb, priv, residue, status). -/
def callbacks : List Event → List (Nat × Nat × Int × Int)
  | [] => []
  | Event.transfer_cb cb priv residue status :: t => (cb, priv, residue, status) :: callbacks t
  | _ :: t => callbacks t

/-- The control requests set up in a trace, in order. -/
def ctrl_requests : List Event → List usb_device_request_t
  | [] => []
  | Event.usbd_setup_default_xfer _ req _ _ _ :: t => req :: ctrl_requests t
  | _ :: t => ctrl_requests t

/-- The transfers handed to `usbd_transfer` in a trace, in order. -/
def submissions : List Event → List Nat
  | [] => []
  | Event.usbd_transfer xfer _ :: t => xfer :: submissions t
  | _ :: t => submissions t

/-! ## Predicates used to state what one step of the state machines does -/

/-- The stored callback, its context and the requested length are unchanged. -/
def Keeps (w w' : World) : Prop :=
  w'.sc.transfer_cb = w.sc.transfer_cb ∧ w'.sc.transfer_priv = w.sc.transfer_priv ∧
  w'.sc.transfer_datalen = w.sc.transfer_datalen

/-- Nothing that the upper layer observes has happened between `w` and `w'`. -/
def Same (w w' : World) : Prop :=
  Keeps w w' ∧ w'.inflight = w.inflight ∧ callbacks w'.trace = callbacks w.trace

/-- The command ended: the session is idle, no transfer was added, and the
callback was called once more, with the stored context. -/
def Finished (w w' : World) : Prop :=
  Keeps w w' ∧ w'.sc.transfer_state = TSTATE_IDLE ∧ w'.inflight = w.inflight ∧
  ∃ r s, callbacks w'.trace = callbacks w.trace ++ [(w.sc.transfer_cb, w.sc.transfer_priv, r, s)]

/-- One more transfer is in flight, the session is in state `s`, and the
callback was not called. -/
def Armed (w w' : World) (s : Int) : Prop :=
  Keeps w w' ∧ w'.sc.transfer_state = s ∧ (∃ x, w'.inflight = w.inflight ++ [x]) ∧
  callbacks w'.trace = callbacks w.trace

/-- Progress of the BBB state machine: the command ended, or a transfer is in
flight in a state above `lo`. -/
def Prog (w : World) (lo : Int) (w' : World) : Prop :=
  Finished w w' ∨ ∃ s, lo < s ∧ s ≤ 9 ∧ Armed w w' s

/-- The values the USB specification and NetBSD give to the constants of `usb_h`;
`UMASS_BBB` is an arbitrary non-null tag. Used for the concrete examples only. -/
def K_std : usb_h :=
  { UT_WRITE_ENDPOINT := 0x02
    UT_WRITE_CLASS_INTERFACE := 0x21
    UR_CLEAR_FEATURE := 0x01
    UF_ENDPOINT_HALT := 0
    USBD_SHORT_XFER_OK := 0x04
    USBD_DEFAULT_TIMEOUT := 5000
    UMASS_BBB := 1 }

/-- An all-zero `uDWord`. -/
def uDWord.zero : uDWord := [0, 0, 0, 0]

/-- The softc of a BBB device after `umass_attach`: idle, live, no quirks, bulk-in
endpoint 0x81, bulk-out endpoint 0x02, interface 0. -/
def sc_bbb : umass_softc :=
  { sc_ifaceno := 0
    sc_epaddr := [0x81, 0x02, 0]
    sc_req := { bmRequestType := 0, bRequest := 0, wValue := [0, 0], wIndex := [0, 0],
                wLength := [0, 0] }
    sc_methods := K_std.UMASS_BBB
    sc_wire := UMASS_WPROTO_BBB
    sc_cmd := UMASS_CPROTO_SCSI
    sc_quirks := 0
    cbw := { dCBWSignature := uDWord.zero, dCBWTag := uDWord.zero,
             dCBWDataTransferLength := uDWord.zero, bCBWFlags := 0, bCBWLUN := 0,
             bCDBLength := 0, CBWCDB := List.replicate 16 0 }
    csw := { dCSWSignature := uDWord.zero, dCSWTag := uDWord.zero,
             dCSWDataResidue := uDWord.zero, bCSWStatus := 0 }
    cbl := List.replicate 16 0
    sbl := { byte0 := 0, byte1 := 0 }
    transfer_dir := DIR_NONE
    transfer_data := 0
    transfer_datalen := 0
    transfer_actlen := 0
    transfer_cb := 0
    transfer_priv := 0
    transfer_status := STATUS_CMD_OK
    transfer_state := TSTATE_IDLE
    timeout := 0
    sc_dying := false
    sc_sense := 0 }

/-- The softc of a plain CBI device (no command completion interrupt) after
`umass_attach`. -/
def sc_cbi : umass_softc :=
  { sc_bbb with sc_methods := 2, sc_wire := UMASS_WPROTO_CBI, sc_cmd := UMASS_CPROTO_UFI }

/-- A freshly attached BBB device: nothing in flight, empty trace, a transport
that accepts every transfer. -/
def w_bbb : World :=
  { sc := sc_bbb, dCBWtag := dCBWtag_init, usbd_transfer_ret := [], inflight := [], trace := [],
    cb_state := [] }

/-- A freshly attached plain CBI device. -/
def w_cbi : World :=
  { sc := sc_cbi, dCBWtag := dCBWtag_init, usbd_transfer_ret := [], inflight := [], trace := [],
    cb_state := [] }

/-- A completion with status `err` and actual length `actlen`, an all-zero status
buffer and no detach. -/
def completion (err : usbd_status) (actlen : Nat) : Completion :=
  { err := err, actlen := actlen
    csw := { dCSWSignature := uDWord.zero, dCSWTag := uDWord.zero,
             dCSWDataResidue := uDWord.zero, bCSWStatus := 0 }
    sbl := { byte0 := 0, byte1 := 0 }, dying := false }

/-- The normal completion of a CSW read that delivers a Command Status Wrapper
with the valid signature, the given tag, residue field and status byte. -/
def completion_csw (tag : Int) (residue : Int) (status : Nat) : Completion :=
  { err := usbd_status.USBD_NORMAL_COMPLETION, actlen := 13
    csw := { dCSWSignature := USETDW CSWSIGNATURE, dCSWTag := USETDW tag,
             dCSWDataResidue := USETDW residue, bCSWStatus := status }
    sbl := { byte0 := 0, byte1 := 0 }, dying := false }

/-- Invariant of a BBB command between its completions: either the session is
idle, nothing is in flight and the callback `cb` was called once with `priv`
since the command was issued (`base` are the calls made before), or the session
is in a state `n..9` with one transfer in flight and the callback not yet
called. -/
def RunInv (base : List (Nat × Nat × Int × Int)) (cb priv : Nat) (n : Int) (w : World) : Prop :=
  (w.sc.transfer_state = TSTATE_IDLE ∧ w.inflight = [] ∧
    ∃ r s, callbacks w.trace = base ++ [(cb, priv, r, s)]) ∨
  (n ≤ w.sc.transfer_state ∧ w.sc.transfer_state ≤ 9 ∧ (∃ x, w.inflight = [x]) ∧
    callbacks w.trace = base ∧ w.sc.transfer_cb = cb ∧ w.sc.transfer_priv = priv)

/-- A BBB session marked dying by `umass_detach`. -/
def w_bbb_dying : World := { w_bbb with sc := { sc_bbb with sc_dying := true } }

/-- The BBB session `w_bbb` in state STATUS1 of a command with tag 42, after a CSW
with the valid signature, the wrong tag 41 and status byte 0 has been read. -/
def w_bad_tag : World :=
  { w_bbb with
      inflight := []
      sc := { sc_bbb with
                transfer_state := TSTATE_BBB_STATUS1
                transfer_cb := 7
                transfer_priv := 9
                cbw := { sc_bbb.cbw with dCBWSignature := USETDW CBWSIGNATURE
                                         dCBWTag := USETDW 42 }
                csw := { dCSWSignature := USETDW CSWSIGNATURE, dCSWTag := USETDW 41,
                         dCSWDataResidue := uDWord.zero, bCSWStatus := 0 } } }

/-- The BBB session `w_bad_tag` of a device with the quirk
`UMASS_QUIRK_WRONG_CSWSIG`, after a CSW with the signature
`CSWSIGNATURE_OLYMPUS_C1` has been read. -/
def w_olympus : World :=
  { w_bad_tag with
      sc := { w_bad_tag.sc with
                sc_quirks := UMASS_QUIRK_WRONG_CSWSIG
                csw := { w_bad_tag.sc.csw with
                           dCSWSignature := USETDW CSWSIGNATURE_OLYMPUS_C1 } } }

/-- The BBB session `w_bbb` after a command without data phase was issued and its
CBW transfer has completed: the first CSW read is in flight. -/
def w_status1 : World :=
  bbb_run K_std
    (umass_bbb_transfer K_std w_bbb 0 [0, 0, 0, 0, 0, 0] 6 0 0 DIR_NONE 1000 0 7 9)
    [completion usbd_status.USBD_NORMAL_COMPLETION 31]

/-- The request of the class-specific Bulk-Only Mass Storage Reset. -/
def bbb_reset_request (K : usb_h) (sc : umass_softc) : usb_device_request_t :=
  { bmRequestType := K.UT_WRITE_CLASS_INTERFACE
    bRequest := 0xff
    wValue := USETW 0
    wIndex := USETW sc.sc_ifaceno
    wLength := USETW 0 }

/-- The request CLEAR_FEATURE(ENDPOINT_HALT) for the endpoint `endpt` of the
session. -/
def clear_halt_request (K : usb_h) (sc : umass_softc) (endpt : Nat) : usb_device_request_t :=
  { bmRequestType := K.UT_WRITE_ENDPOINT
    bRequest := K.UR_CLEAR_FEATURE
    wValue := USETW K.UF_ENDPOINT_HALT
    wIndex := USETW (sc.sc_epaddr.getD endpt 0 : Nat)
    wLength := USETW 0 }

/-- The four bytes of a 32-bit value, least significant byte first. -/
def le32 (n : Nat) : List Nat := [n % 256, n / 256 % 256, n / 65536 % 256, n / 16777216 % 256]

/-- The layout of the Command Block Wrapper as the specification words it: the
signature 0x43425355, the tag and the data length as little-endian 32-bit
values, the flags byte (0x80 for data-in, 0x00 otherwise), the LUN, the length
of the command, and the command bytes over the 16-byte CDB field (whose bytes
beyond the command are what the field `old` held before). -/
def cbw_wire_layout (tag datalen : Nat) (dir_in : Bool) (lun cmdlen : Nat) (cmd old : List Nat) :
    List Nat :=
  [0x55, 0x53, 0x42, 0x43] ++ le32 tag ++ le32 datalen ++
    [if dir_in then 0x80 else 0x00, lun, cmdlen] ++ cmd.take cmdlen ++ old.drop cmdlen

/-- The session with the field `dCSWDataResidue` of `sc->csw` replaced. -/
def with_residue (w : World) (r : uDWord) : World :=
  { w with sc := { w.sc with csw := { w.sc.csw with dCSWDataResidue := r } } }

/-- The same completion with another value in the field `dCSWDataResidue` of the
status block the device wrote. -/
def Completion.with_residue (c : Completion) (r : uDWord) : Completion :=
  { c with csw := { c.csw with dCSWDataResidue := r } }

/-- Two completions that differ at most in the field `dCSWDataResidue` of the
status block. -/
def Completion.SameButResidue (c c' : Completion) : Prop :=
  ∃ r, c' = c.with_residue r

/-- What one call of a transfer function or of a completion handler may do to
the transfers in flight: add none, or add one and leave the session in a state
other than IDLE. -/
def Step (w w' : World) : Prop :=
  w'.inflight = w.inflight ∨
  (w'.sc.transfer_state ≠ TSTATE_IDLE ∧ ∃ x, w'.inflight = w.inflight ++ [x])

/-- At most one transfer is in flight, and none when the session is idle. -/
def Serial (w : World) : Prop :=
  w.inflight = [] ∨ (w.sc.transfer_state ≠ TSTATE_IDLE ∧ ∃ x, w.inflight = [x])

/-- The BBB session `w_bbb` in the data phase of a 512-byte read issued with
callback 7 and context 9: the CBW transfer has completed and the data transfer
is in flight. -/
def w_bbb_data : World :=
  bbb_run K_std
    (umass_bbb_transfer K_std w_bbb 0 [0x28, 0, 0, 0, 0, 0, 0, 0, 1, 0] 10 0x1000 512 DIR_IN
      1000 0 7 9)
    [completion usbd_status.USBD_NORMAL_COMPLETION 31]

/-- The plain CBI session `w_cbi` in the data phase of a 512-byte read issued with
callback 7 and context 9. -/
def w_cbi_data : World :=
  cbi_run K_std
    (umass_cbi_transfer K_std w_cbi 0 [0x28, 0, 0, 0, 0, 0, 0, 0, 1, 0, 0, 0] 12 0x1000 512
      DIR_IN 1000 0 7 9)
    [completion usbd_status.USBD_NORMAL_COMPLETION 12]

/-- The plain CBI session `w_cbi` after a command was issued with callback 7 and
context 9: the command block is in flight, the state is CBI_COMMAND. -/
def w_cbi_command : World :=
  umass_cbi_transfer K_std w_cbi 0 [0x28, 0, 0, 0, 0, 0, 0, 0, 1, 0, 0, 0] 12 0x1000 512
    DIR_IN 1000 0 7 9

/-- A freshly attached CBI device with command completion interrupt (CBI+CCI). -/
def w_cbi_i : World :=
  { w_cbi with sc := { sc_cbi with sc_wire := UMASS_WPROTO_CBI_I } }

/-! ## The SCSI command layer (`sys/dev/usb/umass_scsipi.c`) -/

/-- Constants of `scsipiconf.h`, `scsi_spc.h`, `usbdi.h` and `param.h`, the sizes
of structures declared there, and the build options `UMASS_DEBUG` and `SEL4`,
none of which is defined in the sources at hand: the model takes them as
parameters. `UMASS_MAX_TRANSFER_SIZE` is `MAXPHYS`; `sizeof_scsi_sense` and
`sizeof_extra_bytes` are `sizeof(xs->sense.scsi_sense)` and
`sizeof(xs->sense.scsi_sense.extra_bytes)`. -/
structure scsipi_h where
  XS_NOERROR : Int
  XS_SENSE : Int
  XS_SHORTSENSE : Int
  XS_DRIVER_STUFFUP : Int
  XS_TIMEOUT : Int
  XS_RESET : Int
  XS_CTL_POLL : Nat
  XS_CTL_DATA_IN : Nat
  XS_CTL_DATA_OUT : Nat
  ADAPTER_REQ_RUN_XFER : Nat
  USBD_SYNCHRONOUS : Nat
  USBD_INVAL : usbd_status
  USBD_TIMEOUT : usbd_status
  MAXPHYS : Int
  SCSI_REQUEST_SENSE : Nat
  SCSI_CMD_LUN_SHIFT : Nat
  sizeof_scsi_request_sense : Int
  sizeof_xs_sense : Int
  sizeof_scsi_sense : Nat
  sizeof_extra_bytes : Nat
  UMASS_DEBUG : Bool
  SEL4 : Bool
deriving DecidableEq, Repr

/-- The macro `UFI_COMMAND_LENGTH` of `umassvar.h`. -/
def UFI_COMMAND_LENGTH : Int := 12

/-- The macro `UMASS_ATAPI_DRIVE` of `umass_scsipi.c`. -/
def UMASS_ATAPI_DRIVE : Int := 0

/-- The conversion of an `int` to `u_int`. -/
def u_int_of_int (v : Int) : Nat := (v % 4294967296).toNat

/-- The conversion of an `int` to `size_t` (64 bits wide). -/
def size_t_of_int (v : Int) : Nat := (v % 18446744073709551616).toNat

/-- The fields of `struct scsipi_periph` that `umass_scsipi.c` reads. -/
structure scsipi_periph where
  periph_target : Int
  periph_lun : Int
  periph_version : Int
deriving DecidableEq, Repr

/-- The fields of `struct scsipi_xfer` that `umass_scsipi.c` reads or writes;
`cmd` holds the bytes at `xs->cmd`, `data` is the pointer `xs->data`. -/
structure scsipi_xfer where
  xs_control : Nat
  error : Int
  resid : Int
  cmd : List Nat
  cmdlen : Int
  data : Nat
  datalen : Int
  timeout : Int
  xs_periph : scsipi_periph
deriving DecidableEq, Repr

/-- The command `struct scsi_request_sense` of `scsi_spc.h`. -/
structure scsi_request_sense where
  opcode : Nat
  byte2 : Nat
  unused0 : Nat
  unused1 : Nat
  length : Nat
  control : Nat
deriving DecidableEq, Repr

/-- The completion callbacks that `umass_scsipi.c` hands to the wire method:
`intr_ptrs->umass_null_cb`, `intr_ptrs->umass_scsipi_cb` and the function
`umass_scsipi_sense_cb`. -/
inductive umass_callback where
  | intr_ptrs_umass_null_cb
  | intr_ptrs_umass_scsipi_cb
  | umass_scsipi_sense_cb
deriving DecidableEq, Repr

/-- The command pointer handed to the wire method: `xs->cmd` (with the bytes
there) or `&scbus->sc_sense_cmd` (with the contents of that structure). -/
inductive wire_cmd where
  | xs_cmd (bytes : List Nat)
  | sc_sense_cmd (c : scsi_request_sense)
deriving DecidableEq, Repr

/-- The data pointer handed to the wire method: `xs->data` or `&xs->sense`. -/
inductive wire_data where
  | xs_data (p : Nat)
  | xs_sense
deriving DecidableEq, Repr

/-- The calls `umass_scsipi.c` makes to other layers. `wire_xfer` is the call
`sc->sc_methods->wire_xfer(sc, lun, cmd, cmdlen, data, datalen, dir, timeout,
flags, cb, xs)`, whose last argument is `xs` at every call site; `scsipi_done`
carries the transfer as it is at the call. -/
inductive scsipi_call where
  | wire_xfer (lun : Int) (cmd : wire_cmd) (cmdlen : Int) (data : wire_data) (datalen : Int)
      (dir : Int) (timeout : Nat) (flags : Nat) (cb : umass_callback)
  | scsipi_done (xs : scsipi_xfer)
  | blk_enqueue_resp
  | microkit_notify
deriving DecidableEq, Repr

/-- The state `umass_scsipi.c` works on: the softc `sc`, the fields
`sc_sync_status` and `sc_sense_cmd` of `struct umass_scsipi_softc` (private to
this file), the ID and bus type of the channel, the transfer `xs`, and the calls
made so far, in order. -/
structure scsipi_world where
  calls : List scsipi_call
  sc_sync_status : usbd_status
  sc_sense_cmd : scsi_request_sense
  chan_id : Int
  bustype_atapi : Bool
  xs : scsipi_xfer
  sc : umass_softc
deriving DecidableEq, Repr

/-- Append a call. -/
def scsipi_world.log (w : scsipi_world) (c : scsipi_call) : scsipi_world :=
  { w with calls := w.calls ++ [c] }

/-- Assignment to `xs->error`. -/
def scsipi_world.set_error (w : scsipi_world) (e : Int) : scsipi_world :=
  { w with xs := { w.xs with error := e } }

/-- The label `done` of `umass_scsipi_request` and the end of the callbacks:
`scsipi_done(xs)`. -/
def scsipi_done (w : scsipi_world) : scsipi_world :=
  w.log (scsipi_call.scsipi_done w.xs)

/-- The data direction computed by `umass_scsipi_request`. -/
def scsipi_request_dir (K : scsipi_h) (xs : scsipi_xfer) : Int :=
  if xs.datalen ≠ 0 then
    if xs.xs_control &&& (K.XS_CTL_DATA_IN ||| K.XS_CTL_DATA_OUT) = K.XS_CTL_DATA_IN then DIR_IN
    else if xs.xs_control &&& (K.XS_CTL_DATA_IN ||| K.XS_CTL_DATA_OUT) = K.XS_CTL_DATA_OUT then
      DIR_OUT
    else DIR_NONE
  else DIR_NONE

/-- The test of the target under `#ifdef UMASS_DEBUG` in `umass_scsipi_request`
("wrong SCSI ID"). -/
def scsipi_wrong_id (w : scsipi_world) : Bool :=
  if w.bustype_atapi then decide (w.xs.xs_periph.periph_target ≠ UMASS_ATAPI_DRIVE)
  else decide (w.xs.xs_periph.periph_target = w.chan_id)

/-- The function `umass_scsipi_request`; `arg` is `xs` for the request
`ADAPTER_REQ_RUN_XFER`. The wire method is taken from `sc->sc_methods` in the
polled branch and from `get_sc_methods(sc->sc_methods)` in the other one; both
calls are recorded as `wire_xfer`. The wire method has no access to
`scbus->sc_sync_status`, a field of a structure private to `umass_scsipi.c`
that is assigned nowhere else. -/
def umass_scsipi_request (K : scsipi_h) (w : scsipi_world) (req : Nat) : scsipi_world :=
  if req = K.ADAPTER_REQ_RUN_XFER then
    if w.sc.sc_dying then
      scsipi_done (w.set_error K.XS_DRIVER_STUFFUP)
    else if K.UMASS_DEBUG = true ∧ scsipi_wrong_id w = true then
      scsipi_done (w.set_error K.XS_DRIVER_STUFFUP)
    else if w.xs.datalen > K.MAXPHYS then
      scsipi_done (w.set_error K.XS_DRIVER_STUFFUP)
    else if w.xs.xs_control &&& K.XS_CTL_POLL ≠ 0 then
      let w1 : scsipi_world := { w with sc_sync_status := K.USBD_INVAL }
      let w2 := w1.log (scsipi_call.wire_xfer w1.xs.xs_periph.periph_lun
        (wire_cmd.xs_cmd w1.xs.cmd) w1.xs.cmdlen (wire_data.xs_data w1.xs.data) w1.xs.datalen
        (scsipi_request_dir K w1.xs) (u_int_of_int w1.xs.timeout) K.USBD_SYNCHRONOUS
        umass_callback.intr_ptrs_umass_null_cb)
      let e :=
        if w2.sc_sync_status = usbd_status.USBD_NORMAL_COMPLETION then K.XS_NOERROR
        else if w2.sc_sync_status = K.USBD_TIMEOUT then K.XS_TIMEOUT
        else K.XS_DRIVER_STUFFUP
      scsipi_done (w2.set_error e)
    else
      w.log (scsipi_call.wire_xfer w.xs.xs_periph.periph_lun
        (wire_cmd.xs_cmd w.xs.cmd) w.xs.cmdlen (wire_data.xs_data w.xs.data) w.xs.datalen
        (scsipi_request_dir K w.xs) (u_int_of_int w.xs.timeout) 0
        umass_callback.intr_ptrs_umass_scsipi_cb)
  else w

/-- The function `umass_null_cb`. -/
def umass_null_cb (w : scsipi_world) (_residue _status : Int) : scsipi_world :=
  (w.log scsipi_call.blk_enqueue_resp).log scsipi_call.microkit_notify

/-- The command built by `umass_scsipi_cb` in `scbus->sc_sense_cmd`. -/
def request_sense_cmd (K : scsipi_h) (xs : scsipi_xfer) (senselen : Int) : scsi_request_sense :=
  { opcode := K.SCSI_REQUEST_SENSE % 256
    byte2 := ((xs.xs_periph.periph_lun * 2 ^ K.SCSI_CMD_LUN_SHIFT) % 256).toNat
    unused0 := 0
    unused1 := 0
    length := (senselen % 256).toNat
    control := 0 }

/-- The function `umass_scsipi_cb`; `priv` is `xs`. The result is `none` where
the function calls `panic` ("Unknown status"). -/
def umass_scsipi_cb (K : scsipi_h) (w : scsipi_world) (residue status : Int) :
    Option scsipi_world :=
  let w1 : scsipi_world := { w with xs := { w.xs with resid := residue } }
  if status = STATUS_CMD_OK then
    some (scsipi_done (w1.set_error K.XS_NOERROR))
  else if status = STATUS_CMD_UNKNOWN ∨ status = STATUS_CMD_FAILED then
    let cmdlen : Int :=
      if w1.sc.sc_cmd = UMASS_CPROTO_UFI ∨ w1.sc.sc_cmd = UMASS_CPROTO_ATAPI then
        UFI_COMMAND_LENGTH
      else K.sizeof_scsi_request_sense
    let senselen : Int := if w1.xs.xs_periph.periph_version < 4 then 18 else K.sizeof_xs_sense
    let w2 : scsipi_world :=
      { w1 with sc := { w1.sc with sc_sense := 1 }
                sc_sense_cmd := request_sense_cmd K w1.xs senselen }
    some (w2.log (scsipi_call.wire_xfer w2.xs.xs_periph.periph_lun
      (wire_cmd.sc_sense_cmd w2.sc_sense_cmd) cmdlen wire_data.xs_sense senselen DIR_IN
      (u_int_of_int w2.xs.timeout) 0 umass_callback.umass_scsipi_sense_cb))
  else if status = STATUS_WIRE_FAILED then
    some (scsipi_done (w1.set_error K.XS_RESET))
  else if status = STATUS_TIMEOUT then
    some (scsipi_done (w1.set_error K.XS_TIMEOUT))
  else none

/-- The function `umass_scsipi_sense_cb`; `priv` is `xs`. The assignments to
`xs->error` are under `#ifndef SEL4`, with the `break` of the first case: in a
build with `SEL4` the cases `STATUS_CMD_OK` and `STATUS_CMD_UNKNOWN` run into
`default`, which then only leaves the `switch`. The comparison
`residue <= extra` is one of `size_t` values. -/
def umass_scsipi_sense_cb (K : scsipi_h) (w : scsipi_world) (residue status : Int) :
    scsipi_world :=
  let w1 : scsipi_world := { w with sc := { w.sc with sc_sense := 0 } }
  let w2 :=
    if K.SEL4 then w1
    else if status = STATUS_CMD_OK ∨ status = STATUS_CMD_UNKNOWN then
      if size_t_of_int residue ≤ K.sizeof_scsi_sense - K.sizeof_extra_bytes then
        w1.set_error K.XS_SENSE
      else w1.set_error K.XS_SHORTSENSE
    else w1.set_error K.XS_DRIVER_STUFFUP
  scsipi_done w2

/-- Example values for the constants of `scsipi_h`, in a build without
`UMASS_DEBUG` and without `SEL4`. Used for the concrete examples only. -/
def K_scsipi : scsipi_h :=
  { XS_NOERROR := 0
    XS_SENSE := 1
    XS_SHORTSENSE := 2
    XS_DRIVER_STUFFUP := 3
    XS_TIMEOUT := 6
    XS_RESET := 8
    XS_CTL_POLL := 0x2
    XS_CTL_DATA_IN := 0x1000
    XS_CTL_DATA_OUT := 0x2000
    ADAPTER_REQ_RUN_XFER := 0
    USBD_SYNCHRONOUS := 0x02
    USBD_INVAL := usbd_status.other 4
    USBD_TIMEOUT := usbd_status.other 15
    MAXPHYS := 65536
    SCSI_REQUEST_SENSE := 0x03
    SCSI_CMD_LUN_SHIFT := 5
    sizeof_scsi_request_sense := 6
    sizeof_xs_sense := 32
    sizeof_scsi_sense := 32
    sizeof_extra_bytes := 14
    UMASS_DEBUG := false
    SEL4 := false }

/-- The constants `K_scsipi` in a build with `SEL4`. -/
def K_scsipi_sel4 : scsipi_h := { K_scsipi with SEL4 := true }

/-- A TEST UNIT READY command (no data) for lun 0 of target 0. -/
def xs_test_unit_ready : scsipi_xfer :=
  { xs_control := 0, error := 0, resid := 0, cmd := [0, 0, 0, 0, 0, 0], cmdlen := 6
    data := 0, datalen := 0, timeout := 10000
    xs_periph := { periph_target := 0, periph_lun := 0, periph_version := 2 } }

/-- A READ(10) command of 512 bytes for lun 0 of target 0. -/
def xs_read : scsipi_xfer :=
  { xs_test_unit_ready with
      xs_control := K_scsipi.XS_CTL_DATA_IN, cmd := [0x28, 0, 0, 0, 0, 0, 0, 0, 1, 0]
      cmdlen := 10, data := 0x1000, datalen := 512 }

/-- The command layer of the live BBB session `sc_bbb` (SCSI bus, adapter ID 1),
about to run `xs`. -/
def w_scsipi (xs : scsipi_xfer) : scsipi_world :=
  { calls := [], sc_sync_status := usbd_status.USBD_NORMAL_COMPLETION
    sc_sense_cmd := { opcode := 0, byte2 := 0, unused0 := 0, unused1 := 0, length := 0,
                      control := 0 }
    chan_id := 1, bustype_atapi := false, xs := xs, sc := sc_bbb }

/-- The number of calls of the wire transfer method among the calls made. -/
def wire_xfer_count : List scsipi_call → Nat
  | [] => 0
  | scsipi_call.wire_xfer _ _ _ _ _ _ _ _ _ :: t => wire_xfer_count t + 1
  | _ :: t => wire_xfer_count t

/-- The number of calls of `scsipi_done` among the calls made. -/
def scsipi_done_count : List scsipi_call → Nat
  | [] => 0
  | scsipi_call.scsipi_done _ :: t => scsipi_done_count t + 1
  | _ :: t => scsipi_done_count t

/-- The polled variant of `xs_test_unit_ready`. -/
def xs_poll : scsipi_xfer := { xs_test_unit_ready with xs_control := K_scsipi.XS_CTL_POLL }

/-- The automatic sense fetch of `umass_scsipi_cb` for the wire status `status`:
the function returns, the residue is stored and `xs->error` is left alone,
`sc_sense` is set, and the one call made is that of the wire method with the
REQUEST SENSE command of `sc_sense_cmd`, data-in into `xs->sense`, and the
completion `umass_scsipi_sense_cb`; `scsipi_done` is not called, and it is
called once when `umass_scsipi_sense_cb` runs, with any residue and status. -/
def FetchesSense (K : scsipi_h) (w : scsipi_world) (residue status : Int) : Prop :=
  ∃ w' cmdlen senselen,
    umass_scsipi_cb K w residue status = some w' ∧
    w'.xs = { w.xs with resid := residue } ∧
    w'.sc.sc_sense = 1 ∧
    w'.sc_sense_cmd.opcode = K.SCSI_REQUEST_SENSE % 256 ∧
    w'.calls = w.calls ++ [scsipi_call.wire_xfer w.xs.xs_periph.periph_lun
      (wire_cmd.sc_sense_cmd w'.sc_sense_cmd) cmdlen wire_data.xs_sense senselen DIR_IN
      (u_int_of_int w.xs.timeout) 0 umass_callback.umass_scsipi_sense_cb] ∧
    scsipi_done_count w'.calls = scsipi_done_count w.calls ∧
    ∀ r s : Int,
      (umass_scsipi_sense_cb K w' r s).calls =
        w'.calls ++ [scsipi_call.scsipi_done (umass_scsipi_sense_cb K w' r s).xs]

/-! ## Bus enumeration (`sys/dev/scsipi/scsiconf.c`) -/

/-- What `scsiconf.c` uses and the sources at hand do not define: the error
numbers of `errno.h`, the mask `SID_ANSII` and the sizes of
`struct scsi_report_luns_header` and `struct scsi_report_luns_lun` of
`scsi_spc.h`, the byte conversions `_4btol` and `_2btol` of `scsipi_all.h`
(applied to the bytes at their argument), and the build option `SEL4`. The model
takes them as parameters. -/
structure scsiconf_h where
  EINVAL : Int
  ENOTSUP : Int
  EIO : Int
  SID_ANSII : Nat
  sizeof_rlr : Nat
  sizeof_lunp : Nat
  _4btol : List Nat → Nat
  _2btol : List Nat → Nat
  SEL4 : Bool

/-- The calls `scsiconf.c` makes to the rest of the kernel during a bus probe,
and the calls of `scsi_probe_device`. `scsipi_command` is the REPORT LUNS command
sent by `scsi_report_luns`, with its allocation length. -/
inductive scsi_event where
  | scsipi_adapter_ioctl
  | scsipi_adapter_addref
  | scsipi_adapter_delref
  | scsipi_set_xfer_mode (target : Int)
  | scsipi_inquire (target lun : Int)
  | scsipi_command (target lun : Int) (alloclen : Nat)
  | scsi_probe_device (target lun : Int)
deriving DecidableEq, Repr

/-- The bus being probed: the fields of the channel that `scsi_probe_bus` reads,
the calls made so far, and the answers the environment will give, in order:
`addref_ret` the values returned by `scsipi_adapter_addref`, `inquire_ret` the
error and the byte `inqbuf.version` returned by `scsipi_inquire`, `command_ret`
the error returned by `scsipi_command` and the bytes the device sent, and
`probe_ret` the values returned by `scsi_probe_device`. -/
structure scsi_world where
  trace : List scsi_event
  addref_ret : List Int
  inquire_ret : List (Int × Nat)
  command_ret : List (Int × List Nat)
  probe_ret : List Int
  chan_ntargets : Int
  chan_nluns : Int
  chan_id : Int
deriving DecidableEq, Repr

/-- Append a call to the trace. -/
def scsi_world.log (w : scsi_world) (e : scsi_event) : scsi_world :=
  { w with trace := w.trace ++ [e] }

/-- The call `scsipi_adapter_addref(chan->chan_adapter)`: the value returned is
the next answer of the environment, 0 when none is scripted. -/
def scsipi_adapter_addref (w : scsi_world) : scsi_world × Int :=
  ({ w with trace := w.trace ++ [scsi_event.scsipi_adapter_addref]
            addref_ret := w.addref_ret.tail },
   w.addref_ret.headD 0)

/-- The call `scsipi_inquire(periph, &inqbuf, flags)` of `scsi_report_luns`: the
error returned and `inqbuf.version` are the next answer of the environment; a
device that answers no more gives the error `EIO`. -/
def scsipi_inquire (K : scsiconf_h) (w : scsi_world) (target lun : Int) :
    scsi_world × Int × Nat :=
  ({ w with trace := w.trace ++ [scsi_event.scsipi_inquire target lun]
            inquire_ret := w.inquire_ret.tail },
   w.inquire_ret.headD (K.EIO, 0))

/-- The call `scsi_probe_device(sc, target, lun)` as `scsi_discover_luns` sees
it: the call is recorded and the value returned is the next answer of the
environment, 0 ("no more LUNs to search") when none is scripted. -/
def scsi_probe_device_call (w : scsi_world) (target lun : Int) : scsi_world × Int :=
  ({ w with trace := w.trace ++ [scsi_event.scsi_probe_device target lun]
            probe_ret := w.probe_ret.tail },
   w.probe_ret.headD 0)

/-- The function `lun_compar`. -/
def lun_compar (la lb : Nat) : Int :=
  if la < lb then -1
  else if la > lb then 1
  else 0

/-- Modelled from the spec: the function `kheapsort` (not in the sources at
hand), called with `lun_compar`: "REPORT LUNS list is returned sorted ascending".
The result is the list sorted by the order that the comparison function gives. -/
def kheapsort (l : List Nat) (compar : Nat → Nat → Int) : List Nat :=
  l.insertionSort (fun a b => compar a b ≤ 0)

/-- The buffer `rlr` after `scsipi_command`: `rlrlen` bytes, zeroed by
`kmem_zalloc`, into which the device has sent `data`. -/
def rlr_buffer (rlrlen : Nat) (data : List Nat) : List Nat :=
  data.take rlrlen ++ List.replicate (rlrlen - (data.take rlrlen).length) 0

/-- The body of the `for` loop of `scsi_report_luns` that decodes the entry `i`
of the LUN list, which starts behind the header (`&rlr[1]`); the `default` case
also prints a message. -/
def report_luns_entry (K : scsiconf_h) (rlr : List Nat) (i : Nat) : Nat :=
  let lunp := (rlr.drop (K.sizeof_rlr + K.sizeof_lunp * i)).take K.sizeof_lunp
  if lunp.getD 0 0 &&& 0xC0 = 0x40 then K._2btol lunp &&& 0x3FFF
  else if lunp.getD 0 0 &&& 0xC0 = 0x00 then K._2btol lunp &&& 0x00FF
  else 0

/-- What the loop at the label `again` of `scsi_report_luns` hands on: the answers
left, the calls made, the error, and the final length and contents of `rlr`. -/
structure report_luns_again_t where
  command_ret : List (Int × List Nat)
  trace : List scsi_event
  error : Int
  rlrlen : Nat
  rlr : List Nat
deriving DecidableEq, Repr

/-- The loop at the label `again` of `scsi_report_luns`: send REPORT LUNS with a
buffer of `rlrlen` bytes, and start again with a larger buffer when the list
needs more than that and at most 32 bytes. Each round takes one answer of the
environment; a device that answers no more makes `scsipi_command` return the
error `EIO`. -/
def scsi_report_luns_again (K : scsiconf_h) (target : Int) (rlrlenmin : Nat) :
    List (Int × List Nat) → List scsi_event → Nat → report_luns_again_t
  | [], trace, rlrlen =>
    { command_ret := [], trace := trace ++ [scsi_event.scsipi_command target 0 rlrlen]
      error := K.EIO, rlrlen := rlrlen, rlr := rlr_buffer rlrlen [] }
  | r :: rest, trace, rlrlen =>
    let trace1 := trace ++ [scsi_event.scsipi_command target 0 rlrlen]
    let rlr := rlr_buffer rlrlen r.2
    if r.1 ≠ 0 then
      { command_ret := rest, trace := trace1, error := r.1, rlrlen := rlrlen, rlr := rlr }
    else if K.sizeof_rlr + K._4btol (rlr.take 4) > rlrlen ∧
        K.sizeof_rlr + K._4btol (rlr.take 4) ≤ 32 then
      let rlrlen1 := K.sizeof_rlr + min (K._4btol (rlr.take 4)) (16383 * K.sizeof_lunp)
      if rlrlen1 < rlrlenmin then
        { command_ret := rest, trace := trace1, error := K.EIO, rlrlen := rlrlen1, rlr := [] }
      else scsi_report_luns_again K target rlrlenmin rest trace1 rlrlen1
    else
      { command_ret := rest, trace := trace1, error := 0, rlrlen := rlrlen, rlr := rlr }

/-- The function `scsi_report_luns`: the error returned and, when it is 0, the
list stored through `luns` and `nluns`; on an error the caller's `luns` and
`nluns` are not written, and the list is given as empty. -/
def scsi_report_luns (K : scsiconf_h) (w : scsi_world) (target : Int) :
    scsi_world × Int × List Nat :=
  let r := scsipi_inquire K w target 0
  if r.2.1 ≠ 0 then (r.1, r.2.1, [])
  else if r.2.2 &&& K.SID_ANSII < 3 then (r.1, K.ENOTSUP, [])
  else
    let rlrlenmin := K.sizeof_rlr + K.sizeof_lunp * 1
    let a := scsi_report_luns_again K target rlrlenmin r.1.command_ret r.1.trace rlrlenmin
    let w1 : scsi_world := { r.1 with command_ret := a.command_ret, trace := a.trace }
    if a.error ≠ 0 then (w1, a.error, [])
    else
      let nluns := (a.rlrlen - K.sizeof_rlr) / K.sizeof_lunp
      let luns := (List.range nluns).map (report_luns_entry K a.rlr)
      (w1, 0, kheapsort luns lun_compar)

/-- The loop `for (size_t i = 0; i < nluns; i++)` of `scsi_discover_luns` over
the entries of `luns` that are left. -/
def discover_reported (w : scsi_world) (target minlun maxlun : Int) : List Nat → scsi_world
  | [] => w
  | l :: rest =>
    if (l : Int) ≥ minlun ∧ (l : Int) ≤ maxlun then
      discover_reported (scsi_probe_device_call w target l).1 target minlun maxlun rest
    else discover_reported w target minlun maxlun rest

/-- The loop `for (int lun = minlun; lun <= maxlun; lun++)` of
`scsi_discover_luns`, with `n` the number of values of `lun` that are left up to
`maxlun`. -/
def discover_sweep (w : scsi_world) (target : Int) : Nat → Int → scsi_world
  | 0, _ => w
  | n + 1, lun =>
    let r := scsi_probe_device_call w target lun
    if r.2 = 0 then r.1
    else discover_sweep r.1 target n (lun + 1)

/-- The function `scsi_discover_luns`. -/
def scsi_discover_luns (K : scsiconf_h) (w : scsi_world) (target minlun maxlun : Int) :
    scsi_world :=
  let r := scsi_report_luns K w target
  if r.2.1 = 0 then discover_reported r.1 target minlun maxlun r.2.2
  else discover_sweep r.1 target (maxlun - minlun + 1).toNat minlun

/-- The loop `for (target = mintarget; target <= maxtarget; target++)` of
`scsi_probe_bus`, with `n` the number of values of `target` that are left up to
`maxtarget`. -/
def probe_bus_targets (K : scsiconf_h) (minlun maxlun : Int) :
    Nat → scsi_world → Int → scsi_world
  | 0, w, _ => w
  | n + 1, w, target =>
    if target = w.chan_id then probe_bus_targets K minlun maxlun n w (target + 1)
    else
      probe_bus_targets K minlun maxlun n
        ((scsi_discover_luns K w target minlun maxlun).log
          (scsi_event.scsipi_set_xfer_mode target)) (target + 1)

/-- The function `scsi_probe_bus`. -/
def scsi_probe_bus (K : scsiconf_h) (w : scsi_world) (target lun : Int) : scsi_world × Int :=
  if target ≠ -1 ∧ (target < 0 ∨ target ≥ w.chan_ntargets) then (w, K.EINVAL)
  else if lun ≠ -1 ∧ (lun < 0 ∨ lun ≥ w.chan_nluns) then (w, K.EINVAL)
  else
    let mintarget : Int := if target = -1 then 0 else target
    let maxtarget : Int := if target = -1 then w.chan_ntargets - 1 else target
    let minlun : Int := if lun = -1 then 0 else lun
    let maxlun : Int := if lun = -1 then w.chan_nluns - 1 else lun
    let w1 := if K.SEL4 then w else w.log scsi_event.scsipi_adapter_ioctl
    let r := scsipi_adapter_addref w1
    if r.2 ≠ 0 then (r.1, r.2)
    else
      ((probe_bus_targets K minlun maxlun (maxtarget - mintarget + 1).toNat r.1 mintarget).log
        scsi_event.scsipi_adapter_delref, r.2)

/-- The bytes at a pointer read as a big-endian number. -/
def big_endian : List Nat → Nat
  | [] => 0
  | b :: t => b % 256 * 256 ^ t.length + big_endian t

/-- Example values for `scsiconf_h`: the error numbers of NetBSD, the 8-byte
header and LUN entry of the REPORT LUNS data, big-endian byte conversions, and
a build with `SEL4`. Used for the concrete examples only. -/
def K_scsi : scsiconf_h :=
  { EINVAL := 22
    ENOTSUP := 86
    EIO := 5
    SID_ANSII := 0x07
    sizeof_rlr := 8
    sizeof_lunp := 8
    _4btol := fun b => big_endian (b.take 4)
    _2btol := fun b => big_endian (b.take 2)
    SEL4 := true }

/-- The REPORT LUNS data of a device with the given LUNs (each below 256), in the
order given: the length of the list in bytes, four reserved bytes, and one
8-byte entry per LUN. -/
def report_luns_data (luns : List Nat) : List Nat :=
  [0, 0, 0, 8 * luns.length, 0, 0, 0, 0] ++
    (luns.map (fun l => [0, l, 0, 0, 0, 0, 0, 0])).flatten

/-- A bus with two targets (the adapter is target 1) and eight LUNs, whose target
0 is a SCSI-3 device that exposes the LUNs 5, 0 and 2 through REPORT LUNS and
whose probes all return 1. -/
def w_scsi_luns : scsi_world :=
  { trace := []
    addref_ret := []
    inquire_ret := [(0, 3)]
    command_ret := [(0, report_luns_data [5, 0, 2]), (0, report_luns_data [5, 0, 2])]
    probe_ret := [1, 1, 1, 1, 1, 1, 1, 1]
    chan_ntargets := 2
    chan_nluns := 8
    chan_id := 1 }

/-- The bus of `w_scsi_luns` with a SCSI-2 device as target 0 that answers the
probes of LUN 0 and 1 with 1 and the probe of LUN 2 with 0. -/
def w_scsi_sweep : scsi_world :=
  { w_scsi_luns with inquire_ret := [(0, 2)], command_ret := [], probe_ret := [1, 1, 0, 1] }

/-- The `k` consecutive LUNs from `minlun` on, in increasing order. -/
def sweep_luns (minlun : Int) (k : Nat) : List Int :=
  (List.range k).map (fun i : Nat => minlun + (i : Int))

/-- The number of probes of a sweep over `n` LUNs when the successive probes
return `rets` (and 0 once these are used up): one more than the number of
leading non-zero values, and at most `n`. -/
def sweep_count (n : Nat) (rets : List Int) : Nat :=
  min n ((rets.takeWhile (fun v => decide (v ≠ 0))).length + 1)

/-- The channel is the same and no call was taken back. -/
def scsi_world.Grows (w w' : scsi_world) : Prop :=
  w'.chan_ntargets = w.chan_ntargets ∧ w'.chan_nluns = w.chan_nluns ∧
  w'.chan_id = w.chan_id ∧ w.trace.length ≤ w'.trace.length

/-- One round of the loop of `scsi_probe_bus` for a target other than the
adapter: LUN discovery, then `scsipi_set_xfer_mode`. -/
def probe_target (K : scsiconf_h) (minlun maxlun : Int) (w : scsi_world) (target : Int) :
    scsi_world :=
  (scsi_discover_luns K w target minlun maxlun).log (scsi_event.scsipi_set_xfer_mode target)

/-- The arguments that `scsi_probe_bus` refuses: `target` is neither -1 nor in
`[0, chan_ntargets)`, or `lun` is neither -1 nor in `[0, chan_nluns)`. -/
def probe_bus_invalid (w : scsi_world) (target lun : Int) : Prop :=
  (target ≠ -1 ∧ ¬ (0 ≤ target ∧ target < w.chan_ntargets)) ∨
  (lun ≠ -1 ∧ ¬ (0 ≤ lun ∧ lun < w.chan_nluns))

/-- The targets of the requested range in ascending order, without the ID of
the adapter: all of `0 .. chan_ntargets - 1` when `target` is -1, else `target`
alone. -/
def probe_bus_range (w : scsi_world) (target : Int) : List Int :=
  (if target = -1 then sweep_luns 0 w.chan_ntargets.toNat else [target]).filter
    (fun t => decide (t ≠ w.chan_id))

/-- The session after the calls that precede the loop of `scsi_probe_bus`:
`scsipi_adapter_ioctl` (in a build without `SEL4`) and `scsipi_adapter_addref`. -/
def probe_bus_start (K : scsiconf_h) (w : scsi_world) : scsi_world :=
  (scsipi_adapter_addref (if K.SEL4 then w else w.log scsi_event.scsipi_adapter_ioctl)).1

/-- The bulk pipe of the data phase of a command with direction `dir`. -/
def data_pipe (dir : Int) : Nat := if dir = DIR_IN then UMASS_BULKIN else UMASS_BULKOUT

/-- The transfer of the data phase of a BBB command with direction `dir`. -/
def bbb_data_xfer (dir : Int) : Nat := if dir = DIR_IN then XFER_BBB_DATAIN else XFER_BBB_DATAOUT

/-- The number of CSW reads (transfers `XFER_BBB_CSW1` and `XFER_BBB_CSW2`) handed
to `usbd_transfer` in a trace. -/
def csw_reads : List Event → Nat
  | [] => 0
  | Event.usbd_transfer xfer _ :: t =>
    (if xfer = XFER_BBB_CSW1 ∨ xfer = XFER_BBB_CSW2 then 1 else 0) + csw_reads t
  | _ :: t => csw_reads t

/-- The number of CSW reads a BBB command can still issue in state `s`: two before
the first read (COMMAND, DATA, DCLEAR), one after it (STATUS1, SCLEAR), none in
any other state. -/
def reads_left (s : Int) : Nat :=
  if 1 ≤ s ∧ s ≤ 3 then 2 else if s = 4 ∨ s = 5 then 1 else 0

/-- The CSW reads issued so far plus those the state still allows. -/
def reads_budget (w : World) : Nat := csw_reads w.trace + reads_left w.sc.transfer_state

/-- The session `w_bbb` in state STATUS1 of a 512-byte read with tag 42 whose data
transfer delivered 600 bytes, after a CSW with the valid signature, the tag 42
and status byte 0 has been read. -/
def w_bbb_overrun : World :=
  { w_bbb with
      sc := { sc_bbb with
                transfer_state := TSTATE_BBB_STATUS1
                transfer_dir := DIR_IN
                transfer_datalen := 512
                transfer_actlen := 600
                transfer_cb := 7
                transfer_priv := 9
                cbw := { sc_bbb.cbw with dCBWSignature := USETDW CBWSIGNATURE
                                         dCBWTag := USETDW 42 }
                csw := { dCSWSignature := USETDW CSWSIGNATURE, dCSWTag := USETDW 42,
                         dCSWDataResidue := uDWord.zero, bCSWStatus := 0 } } }

/-- The `memcpy` calls recorded in a trace. -/
def memcpys : List Event → List (Buf × Buf × Int)
  | [] => []
  | Event.memcpy dst src len :: t => (dst, src, len) :: memcpys t
  | _ :: t => memcpys t

/-- A TEST UNIT READY command (no data phase) issued on the session `w_bbb` with
callback 7 and context 9: the CBW transfer is in flight, the state is COMMAND. -/
def w_bbb_nodata : World :=
  umass_bbb_transfer K_std w_bbb 0 [0, 0, 0, 0, 0, 0] 6 0 0 DIR_NONE 1000 0 7 9

/-- What one call of `umass_bbb_state` does to a session in state `lo`: the
session ends in IDLE and no transfer is added, or it is in a state above `lo` (at
most RESET3) and one transfer is added. -/
def Advance (w : World) (lo : Int) (w' : World) : Prop :=
  (w'.sc.transfer_state = TSTATE_IDLE ∧ w'.inflight = w.inflight) ∨
  (lo < w'.sc.transfer_state ∧ w'.sc.transfer_state ≤ 9 ∧ ∃ x, w'.inflight = w.inflight ++ [x])

/-- A BBB command in progress: the session is idle with nothing in flight, or in
one of the states `n..9` with one transfer in flight. -/
def Within (n : Int) (w : World) : Prop :=
  (w.sc.transfer_state = TSTATE_IDLE ∧ w.inflight = []) ∨
  (n ≤ w.sc.transfer_state ∧ w.sc.transfer_state ≤ 9 ∧ ∃ x, w.inflight = [x])

/-- Between `w` and `w'` the completion callback was not called. -/
def Quiet (w w' : World) : Prop :=
  callbacks w'.trace = callbacks w.trace ∧ w'.cb_state = w.cb_state

/-- Between `w` and `w'` the completion callback was not called, or it was called
once and found `transfer_state` set to IDLE, and the session is in state IDLE
after the call. -/
def CallbackAtIdle (w w' : World) : Prop :=
  Quiet w w' ∨
  (w'.sc.transfer_state = TSTATE_IDLE ∧ w'.cb_state = w.cb_state ++ [TSTATE_IDLE] ∧
    ∃ (cb priv : Nat) (residue status : Int),
      callbacks w'.trace = callbacks w.trace ++ [(cb, priv, residue, status)])

/-! ## The discovery queue (`scsibusattach`, `scsibus_config` of `scsiconf.c`) -/

/-- Modelled from the spec: a value of type `struct scsi_initq **` as the `TAILQ`
macros of `sys/queue.h` (not in the sources at hand) use it: the address of the
field `tqh_first` of the head, or of the field `tqe_next` of the entry `elm`. -/
inductive tailq_ptr where
  | tqh_first
  | tqe_next (elm : Nat)
deriving DecidableEq, Repr

/-- The `struct scsi_initq` of `scsiconf.c`: the channel, and the two pointers of
its `TAILQ_ENTRY(scsi_initq)`. An entry is named by a number, `none` is `NULL`. -/
structure scsi_initq where
  sc_channel : Nat
  tqe_next : Option Nat
  tqe_prev : tailq_ptr
deriving DecidableEq, Repr

/-- Modelled from the spec: the two pointers of a `TAILQ_HEAD` of `sys/queue.h`. -/
structure tailq_head where
  tqh_first : Option Nat
  tqh_last : tailq_ptr
deriving DecidableEq, Repr

/-- Where the call of `scsibus_config` for a channel stands: in the loop that
waits for the head of the queue, inside `scsi_probe_bus` (with the entry that
the local variable `scsi_initq` points to), or returned. `faulted` is the
dereference of the `NULL` that `TAILQ_FIRST` returns for an empty queue. -/
inductive config_pc where
  | waiting
  | probing (elm : Nat)
  | returned
  | faulted
deriving DecidableEq, Repr

/-- The calls and statements of `scsibusattach` and `scsibus_config` that touch
the queue `scsi_initq_head`, and those around them, as they are recorded in the
trace. A channel is named by a number. -/
inductive initq_event where
  | scsipi_adapter_addref (chan : Nat)
  | scsibus_init
  | TAILQ_INSERT_TAIL (chan : Nat)
  | config_pending_incr (chan : Nat)
  | scsipi_channel_init (chan : Nat)
  | kthread_create (chan : Nat)
  | cv_wait (chan : Nat)
  | scsi_probe_bus_call (chan : Nat)
  | scsi_probe_bus_return (chan : Nat)
  | TAILQ_REMOVE (chan : Nat)
  | cv_broadcast
  | free (chan : Nat)
  | scsipi_adapter_delref (chan : Nat)
  | config_pending_decr (chan : Nat)
deriving DecidableEq, Repr

/-- The globals `scsi_conf_ctrl` (whether `RUN_ONCE` has run its function) and
`scsi_initq_head`, the entries allocated with `kmem_alloc` (the entry `n` is the
`n`-th of `kmem`), the discovery threads created with `kthread_create` and where
each stands, the calls made so far, and the answers of the environment to
`scsipi_adapter_addref`, `scsipi_channel_init` and `kthread_create` (0 when none
is scripted). -/
structure initq_world where
  scsi_conf_ctrl : Bool
  scsi_initq_head : tailq_head
  kmem : List scsi_initq
  threads : List (Nat × config_pc)
  trace : List initq_event
  addref_ret : List Int
  channel_init_ret : List Int
  kthread_create_ret : List Int
deriving DecidableEq, Repr

/-- Append a call to the trace. -/
def initq_world.log (w : initq_world) (e : initq_event) : initq_world :=
  { w with trace := w.trace ++ [e] }

/-- An assignment to the fields of the entry `elm` (nothing is written when `elm`
is not an entry). -/
def initq_world.set_entry (w : initq_world) (elm : Nat) (f : scsi_initq → scsi_initq) :
    initq_world :=
  match w.kmem[elm]? with
  | none => w
  | some e => { w with kmem := w.kmem.set elm (f e) }

/-- The assignment `*p = v` through a `struct scsi_initq **`. -/
def initq_world.store (w : initq_world) (p : tailq_ptr) (v : Option Nat) : initq_world :=
  match p with
  | tailq_ptr.tqh_first => { w with scsi_initq_head := { w.scsi_initq_head with tqh_first := v } }
  | tailq_ptr.tqe_next elm => w.set_entry elm (fun e => { e with tqe_next := v })

/-- Modelled from the spec: `TAILQ_INIT(&scsi_initq_head)` of `sys/queue.h`:
`tqh_first = NULL; tqh_last = &tqh_first`. -/
def TAILQ_INIT (w : initq_world) : initq_world :=
  { w with scsi_initq_head := { tqh_first := none, tqh_last := tailq_ptr.tqh_first } }

/-- Modelled from the spec: `TAILQ_FIRST(&scsi_initq_head)` of `sys/queue.h`. -/
def TAILQ_FIRST (w : initq_world) : Option Nat :=
  w.scsi_initq_head.tqh_first

/-- Modelled from the spec: `TAILQ_INSERT_TAIL(&scsi_initq_head, elm, scsi_initq)`
of `sys/queue.h`: `elm->tqe_next = NULL; elm->tqe_prev = head->tqh_last;
*head->tqh_last = elm; head->tqh_last = &elm->tqe_next`. -/
def TAILQ_INSERT_TAIL (w : initq_world) (elm : Nat) : initq_world :=
  let w1 := w.set_entry elm
    (fun e => { e with tqe_next := none, tqe_prev := w.scsi_initq_head.tqh_last })
  let w2 := w1.store w1.scsi_initq_head.tqh_last (some elm)
  { w2 with scsi_initq_head := { w2.scsi_initq_head with tqh_last := tailq_ptr.tqe_next elm } }

/-- Modelled from the spec: `TAILQ_REMOVE(&scsi_initq_head, elm, scsi_initq)` of
`sys/queue.h`, for the entry `e` that `elm` points to:
`if (elm->tqe_next != NULL) elm->tqe_next->tqe_prev = elm->tqe_prev;
else head->tqh_last = elm->tqe_prev; *elm->tqe_prev = elm->tqe_next`.
Neither the head nor the other entries are looked at: the entry is unlinked from
wherever its own two pointers lead. -/
def TAILQ_REMOVE (w : initq_world) (e : scsi_initq) : initq_world :=
  let w1 := match e.tqe_next with
    | some next => w.set_entry next (fun x => { x with tqe_prev := e.tqe_prev })
    | none => { w with scsi_initq_head := { w.scsi_initq_head with tqh_last := e.tqe_prev } }
  w1.store e.tqe_prev e.tqe_next

/-- The function `scsibus_init`: `TAILQ_INIT(&scsi_initq_head)` empties the
queue. (The `mutex_init` and `cv_init` that follow it are not modelled.) -/
def scsibus_init (w : initq_world) : initq_world :=
  TAILQ_INIT (w.log initq_event.scsibus_init)

/-- Modelled from the spec: `RUN_ONCE(&scsi_conf_ctrl, scsibus_init)` of
`sys/once.h`: the function is called at the first `RUN_ONCE` only. -/
def RUN_ONCE (w : initq_world) (init_func : initq_world → initq_world) : initq_world :=
  if w.scsi_conf_ctrl then w else { (init_func w) with scsi_conf_ctrl := true }

/-- One step of `scsibus_config` for the channel `chan`. In the loop, under
`scsibus_qlock`: the entry at the head is read; when it is the entry of `chan`
the loop is left and `scsi_probe_bus(sc, -1, -1)` is called, otherwise the
thread waits on `scsibus_qcv` and tests again when it runs next. After the
return of `scsi_probe_bus`: the entry read in the loop is removed, the waiters
are woken, the entry is freed (without `SEL4`), the adapter reference is released
and `config_pending_decr` is called. -/
def scsibus_config_step (SEL4 : Bool) (w : initq_world) (chan : Nat) :
    config_pc → initq_world × config_pc
  | config_pc.waiting =>
    match TAILQ_FIRST w with
    | none => (w, config_pc.faulted)
    | some elm =>
      match w.kmem[elm]? with
      | none => (w, config_pc.faulted)
      | some e =>
        if e.sc_channel = chan then
          (w.log (initq_event.scsi_probe_bus_call chan), config_pc.probing elm)
        else (w.log (initq_event.cv_wait chan), config_pc.waiting)
  | config_pc.probing elm =>
    let w1 := w.log (initq_event.scsi_probe_bus_return chan)
    match w1.kmem[elm]? with
    | none => (w1, config_pc.faulted)
    | some e =>
      let w2 := ((TAILQ_REMOVE w1 e).log (initq_event.TAILQ_REMOVE chan)).log
        initq_event.cv_broadcast
      let w3 := if SEL4 then w2 else w2.log (initq_event.free chan)
      ((w3.log (initq_event.scsipi_adapter_delref chan)).log
        (initq_event.config_pending_decr chan), config_pc.returned)
  | config_pc.returned => (w, config_pc.returned)
  | config_pc.faulted => (w, config_pc.faulted)

/-- The function `scsibus_config` called from `scsibusattach` itself (build with
`SEL4`): nothing else runs until it returns. `none` when it does not return: the
entry at the head is not that of `chan` (the loop tests the same queue again and
again) or the queue is empty. -/
def scsibus_config (w : initq_world) (chan : Nat) : Option initq_world :=
  match scsibus_config_step true w chan config_pc.waiting with
  | (w1, config_pc.probing elm) =>
    match scsibus_config_step true w1 chan (config_pc.probing elm) with
    | (w2, config_pc.returned) => some w2
    | _ => none
  | _ => none

/-- The function `scsibusattach` for the channel `chan`, restricted to the
statements that touch the queue and start the discovery. Without `SEL4` the
adapter reference is taken first and the function returns when that fails.
Then `RUN_ONCE(&scsi_conf_ctrl, scsibus_init)` is followed by a call of
`scsibus_init()`: `scsibus_init` runs twice at the first attach and once at
every later one, so the queue is initialised at every attach. The entry of the
channel is allocated and appended, and after `scsipi_channel_init` the
discovery is started: as a thread (`kthread_create`) without `SEL4`, by calling
`scsibus_config` with `SEL4`. -/
def scsibusattach (SEL4 : Bool) (w : initq_world) (chan : Nat) : Option initq_world :=
  let w0 := if SEL4 then w else
    { (w.log (initq_event.scsipi_adapter_addref chan)) with addref_ret := w.addref_ret.tail }
  if SEL4 = false ∧ w.addref_ret.headD 0 ≠ 0 then some w0
  else
    let w1 := scsibus_init (RUN_ONCE w0 scsibus_init)
    let elm := w1.kmem.length
    let w2 : initq_world :=
      { w1 with kmem := w1.kmem ++
          [{ sc_channel := chan, tqe_next := none, tqe_prev := tailq_ptr.tqh_first }] }
    let w3 := TAILQ_INSERT_TAIL (w2.log (initq_event.TAILQ_INSERT_TAIL chan)) elm
    let w4 := (w3.log (initq_event.config_pending_incr chan)).log
      (initq_event.scsipi_channel_init chan)
    let w5 : initq_world := { w4 with channel_init_ret := w4.channel_init_ret.tail }
    if w4.channel_init_ret.headD 0 ≠ 0 then some w5
    else if SEL4 then scsibus_config w5 chan
    else
      let w6 : initq_world :=
        { (w5.log (initq_event.kthread_create chan)) with
            kthread_create_ret := w5.kthread_create_ret.tail }
      if w5.kthread_create_ret.headD 0 ≠ 0 then some w6
      else some { w6 with threads := w6.threads ++ [(chan, config_pc.waiting)] }

/-- What happens next in the system: a bus attaches, or the discovery thread of a
channel runs one step of `scsibus_config`. -/
inductive initq_action where
  | attach (chan : Nat)
  | run (chan : Nat)
deriving DecidableEq, Repr

/-- The discovery thread of `chan` runs one step (nothing happens when the
channel has no thread). Threads exist in the build without `SEL4` only. -/
def run_thread (w : initq_world) (chan : Nat) : initq_world :=
  match w.threads.find? (fun t => t.1 = chan) with
  | none => w
  | some t =>
    let r := scsibus_config_step false w chan t.2
    { r.1 with threads := r.1.threads.map (fun u => if u.1 = chan then (chan, r.2) else u) }

/-- One action of the system; `none` when `scsibusattach` does not return. -/
def initq_step (SEL4 : Bool) (w : initq_world) : initq_action → Option initq_world
  | initq_action.attach chan => scsibusattach SEL4 w chan
  | initq_action.run chan => some (run_thread w chan)

/-- A sequence of actions, one after the other. -/
def initq_run (SEL4 : Bool) : initq_world → List initq_action → Option initq_world
  | w, [] => some w
  | w, a :: rest =>
    match initq_step SEL4 w a with
    | none => none
    | some w1 => initq_run SEL4 w1 rest

/-- The system before the first bus attaches, with the answers `rets` of
`scsipi_channel_init` scripted; the head is zero-initialised static storage. -/
def initq_boot (rets : List Int) : initq_world :=
  { scsi_conf_ctrl := false
    scsi_initq_head := { tqh_first := none, tqh_last := tailq_ptr.tqh_first }
    kmem := [], threads := [], trace := [], addref_ret := [], channel_init_ret := rets,
    kthread_create_ret := [] }

/-- The calls and returns of `scsi_probe_bus` in a trace, as (channel, is a
call). -/
def probe_phases : List initq_event → List (Nat × Bool)
  | [] => []
  | initq_event.scsi_probe_bus_call chan :: t => (chan, true) :: probe_phases t
  | initq_event.scsi_probe_bus_return chan :: t => (chan, false) :: probe_phases t
  | _ :: t => probe_phases t

/-- The probe phases do not overlap: every call of `scsi_probe_bus` is followed by
its return before the next call. -/
def serialized : List (Nat × Bool) → Bool
  | [] => true
  | [(_, true)] => true
  | (a, true) :: (b, false) :: t => decide (a = b) && serialized t
  | _ => false

/-- The channels whose `scsi_probe_bus` was called, in the order of the calls. -/
def probe_order (t : List initq_event) : List Nat :=
  ((probe_phases t).filter (fun p => p.2)).map (fun p => p.1)

/-- The channels that `scsibusattach` hands to the discovery in a sequence of
actions: those whose `scsipi_channel_init` answers 0 (`rets` are the scripted
answers). -/
def served : List Int → List initq_action → List Nat
  | _, [] => []
  | rets, initq_action.attach chan :: t =>
    (if rets.headD 0 ≠ 0 then [] else [chan]) ++ served rets.tail t
  | rets, initq_action.run _ :: t => served rets t

/-- The number of `scsibus_init` calls in a trace. -/
def init_count : List initq_event → Nat
  | [] => 0
  | initq_event.scsibus_init :: t => init_count t + 1
  | _ :: t => init_count t

/-- The system at boot with one entry allocated for channel 4 and not yet
queued. -/
def initq_one_allocated : initq_world :=
  { (initq_boot []) with
      kmem := [{ sc_channel := 4, tqe_next := none, tqe_prev := tailq_ptr.tqh_first }] }

/-- The entry of channel 4 is queued, alone. -/
def initq_one_queued : initq_world :=
  TAILQ_INSERT_TAIL initq_one_allocated 0

/-- Behind the queued entry of channel 4, a second entry is allocated for
channel 7 and not yet queued. -/
def initq_second_allocated : initq_world :=
  { initq_one_queued with
      kmem := initq_one_queued.kmem ++
        [{ sc_channel := 7, tqe_next := none, tqe_prev := tailq_ptr.tqh_first }] }

/-! ## Probing a device (`scsi_probe_device` of `sys/dev/scsipi/scsiconf.c`) -/

/-- The `struct scsipi_inquiry_pattern` of `scsipiconf.h`; the strings are the
bytes at the `char` pointers. -/
structure scsipi_inquiry_pattern where
  type : Nat
  removable : Nat
  vendor : String
  product : String
  revision : String
deriving DecidableEq, Repr

/-- The `struct scsi_quirk_inquiry_pattern` of `scsiconf.c`. -/
structure scsi_quirk_inquiry_pattern where
  pattern : scsipi_inquiry_pattern
  quirks : Nat
deriving DecidableEq, Repr

/-- Constants of `scsipiconf.h`, `scsipi_all.h` and `scsi_spc.h`, the function
`scsipi_inqmatch` of `scsipi_base.c` (with the table and its size as arguments,
returning the matching entry or `NULL`), and the build option `SEL4`, none of
which is defined in the sources at hand: the model takes them as parameters. -/
structure scsipiconf_h where
  SID_TYPE : Nat
  SID_QUAL : Nat
  SID_QUAL_LU_PRESENT : Nat
  SID_QUAL_LU_NOTPRESENT : Nat
  SID_QUAL_reserved : Nat
  SID_QUAL_LU_NOT_SUPP : Nat
  SID_REMOVABLE : Nat
  SID_ANSII : Nat
  SID_CmdQue : Nat
  SID_Linked : Nat
  SID_Sync : Nat
  SID_WBus16 : Nat
  SID_WBus32 : Nat
  SID_SftRe : Nat
  SID_RelAdr : Nat
  SID_Clocking : Nat
  SID_CLOCKING_DT_ONLY : Nat
  SID_CLOCKING_SD_DT : Nat
  SID_IUS : Nat
  SID_QAS : Nat
  T_DIRECT : Nat
  T_SEQUENTIAL : Nat
  T_PROCESSOR : Nat
  T_CDROM : Nat
  T_SCANNER : Nat
  T_OPTICAL : Nat
  T_CHANGER : Nat
  T_ENCLOSURE : Nat
  T_NODEVICE : Nat
  T_REMOV : Nat
  T_FIXED : Nat
  PERIPH_REMOVABLE : Nat
  PERIPH_CAP_TQING : Nat
  PERIPH_CAP_LINKCMDS : Nat
  PERIPH_CAP_SYNC : Nat
  PERIPH_CAP_WIDE16 : Nat
  PERIPH_CAP_WIDE32 : Nat
  PERIPH_CAP_SFTRESET : Nat
  PERIPH_CAP_RELADR : Nat
  PERIPH_CAP_DT : Nat
  PERIPH_CAP_IUS : Nat
  PERIPH_CAP_QAS : Nat
  PQUIRK_AUTOSAVE : Nat
  PQUIRK_NOSYNC : Nat
  PQUIRK_NOWIDE : Nat
  PQUIRK_NOTAG : Nat
  PQUIRK_NOLUNS : Nat
  PQUIRK_FORCELUNS : Nat
  PQUIRK_NOMODESENSE : Nat
  PQUIRK_NOSYNCCACHE : Nat
  PQUIRK_NOCAPACITY : Nat
  PQUIRK_ONLYBIG : Nat
  PQUIRK_NOBIGMODESENSE : Nat
  PQUIRK_CAP_SYNC : Nat
  PQUIRK_CAP_WIDE16 : Nat
  PQUIRK_CAP_NODT : Nat
  PQUIRK_START : Nat
  PQUIRK_NOFUA : Nat
  scsipi_inqmatch : scsipi_inquiry_pattern → List scsi_quirk_inquiry_pattern →
    Option scsi_quirk_inquiry_pattern
  SEL4 : Bool

/-- The fields of `struct scsipi_inquiry_data` that `scsi_probe_device` reads. -/
structure scsipi_inquiry_data where
  device : Nat
  dev_qual2 : Nat
  version : Nat
  flags3 : Nat
  flags4 : Nat
  vendor : String
  product : String
  revision : String
deriving DecidableEq, Repr

/-- The fields of `struct scsipi_periph` that `scsi_probe_device` writes. -/
structure probe_periph where
  periph_target : Int
  periph_lun : Int
  periph_quirks : Nat
  periph_type : Nat
  periph_flags : Nat
  periph_version : Nat
  periph_cap : Nat
deriving DecidableEq, Repr

/-- The calls `scsi_probe_device` makes, as they are recorded in the trace.
`scsipi_inqmatch` carries its first argument and the value it returned;
`scsipi_insert_periph` and `config_attach` carry the periph as it is at the
call. -/
inductive probe_event where
  | scsipi_lookup_periph (target lun : Int)
  | scsipi_alloc_periph
  | scsipi_inquire (target lun : Int)
  | adapt_accesschk (target lun : Int)
  | scsipi_inqmatch (inqbuf : scsipi_inquiry_pattern) (ret : Option scsi_quirk_inquiry_pattern)
  | config_search (target lun : Int)
  | scsipi_insert_periph (periph : probe_periph)
  | scsipi_get_opcodeinfo (target lun : Int)
  | config_attach (periph : probe_periph) (sa_inqbuf : scsipi_inquiry_pattern)
  | scsipi_free_periph
deriving DecidableEq, Repr

/-- The channel and what surrounds one call of `scsi_probe_device`: the slots
(target, LUN) that have a periph, `chan_defquirks`, the calls made so far, and
the answers of the environment: the return value of `scsipi_inquire` and the
INQUIRY data of the device, the return value of the hook `adapt_accesschk`
(`none` when the hook is `NULL`), and whether `config_search` finds a driver. -/
structure probe_world where
  trace : List probe_event
  periphs : List (Int × Int)
  chan_defquirks : Nat
  inquire_ret : Int × scsipi_inquiry_data
  adapt_accesschk : Option Int
  config_search_ret : Bool
deriving DecidableEq, Repr

/-- Append a call to the trace. -/
def probe_world.log (w : probe_world) (e : probe_event) : probe_world :=
  { w with trace := w.trace ++ [e] }

/-- An initialiser `{{type, removable, vendor, product, revision}, quirks}` of
the table `scsi_quirk_patterns`. -/
def quirk_pattern (type removable : Nat) (vendor product revision : String) (quirks : Nat) :
    scsi_quirk_inquiry_pattern :=
  { pattern := { type := type, removable := removable, vendor := vendor, product := product,
                 revision := revision }
    quirks := quirks }

/-- The table `scsi_quirk_patterns`: the initialisers in the order of the source. -/
def scsi_quirk_patterns (K : scsipiconf_h) : List scsi_quirk_inquiry_pattern :=
  [
    quirk_pattern K.T_DIRECT K.T_REMOV "Apple   " "iPod            " "" K.PQUIRK_START,
    quirk_pattern K.T_CDROM K.T_REMOV "CHINON  " "CD-ROM CDS-431  " "" K.PQUIRK_NOLUNS,
    quirk_pattern K.T_CDROM K.T_REMOV "CHINON  " "CD-ROM CDS-435  " "" K.PQUIRK_NOLUNS,
    quirk_pattern K.T_CDROM K.T_REMOV "Chinon  " "CD-ROM CDS-525  " "" K.PQUIRK_NOLUNS,
    quirk_pattern K.T_CDROM K.T_REMOV "CHINON  " "CD-ROM CDS-535  " "" K.PQUIRK_NOLUNS,
    quirk_pattern K.T_CDROM K.T_REMOV "DEC     " "RRD42   (C) DEC " "" K.PQUIRK_NOLUNS,
    quirk_pattern K.T_CDROM K.T_REMOV "DENON   " "DRD-25X         " "V" K.PQUIRK_NOLUNS,
    quirk_pattern K.T_CDROM K.T_REMOV "GENERIC " "CRD-BP2         " "" K.PQUIRK_NOLUNS,
    quirk_pattern K.T_CDROM K.T_REMOV "HP      " "C4324/C4325     " "" K.PQUIRK_NOLUNS,
    quirk_pattern K.T_CDROM K.T_REMOV "IMS     " "CDD521/10       " "2.06" K.PQUIRK_NOLUNS,
    quirk_pattern K.T_CDROM K.T_REMOV "MATSHITA" "CD-ROM CR-5XX   " "1.0b" K.PQUIRK_NOLUNS,
    quirk_pattern K.T_CDROM K.T_REMOV "MEDAVIS " "RENO CD-ROMX2A  " "" K.PQUIRK_NOLUNS,
    quirk_pattern K.T_CDROM K.T_REMOV "MEDIAVIS" "CDR-H93MV       " "1.3" K.PQUIRK_NOLUNS,
    quirk_pattern K.T_CDROM K.T_REMOV "NEC     " "CD-ROM DRIVE:502" "" K.PQUIRK_NOLUNS,
    quirk_pattern K.T_CDROM K.T_REMOV "NEC     " "CD-ROM DRIVE:55 " "" K.PQUIRK_NOLUNS,
    quirk_pattern K.T_CDROM K.T_REMOV "NEC     " "CD-ROM DRIVE:83 " "" K.PQUIRK_NOLUNS,
    quirk_pattern K.T_CDROM K.T_REMOV "NEC     " "CD-ROM DRIVE:84 " "" K.PQUIRK_NOLUNS,
    quirk_pattern K.T_CDROM K.T_REMOV "NEC     " "CD-ROM DRIVE:841" "" K.PQUIRK_NOLUNS,
    quirk_pattern K.T_CDROM K.T_REMOV "OLYMPUS " "CDS620E         " "1.1d"
      (K.PQUIRK_NOLUNS ||| K.PQUIRK_NOSYNC ||| K.PQUIRK_NOCAPACITY),
    quirk_pattern K.T_CDROM K.T_REMOV "PIONEER " "CD-ROM DR-124X  " "1.01" K.PQUIRK_NOLUNS,
    quirk_pattern K.T_CDROM K.T_REMOV "PLEXTOR " "CD-ROM PX-4XCS  " "1.01"
      (K.PQUIRK_NOLUNS ||| K.PQUIRK_NOSYNC),
    quirk_pattern K.T_CDROM K.T_REMOV "SONY    " "CD-ROM CDU-541  " "" K.PQUIRK_NOLUNS,
    quirk_pattern K.T_CDROM K.T_REMOV "SONY    " "CD-ROM CDU-55S  " "" K.PQUIRK_NOLUNS,
    quirk_pattern K.T_CDROM K.T_REMOV "SONY    " "CD-ROM CDU-561  " "" K.PQUIRK_NOLUNS,
    quirk_pattern K.T_CDROM K.T_REMOV "SONY    " "CD-ROM CDU-76S" ""
      (K.PQUIRK_NOLUNS ||| K.PQUIRK_NOSYNC ||| K.PQUIRK_NOWIDE),
    quirk_pattern K.T_CDROM K.T_REMOV "SONY    " "CD-ROM CDU-8003A" "" K.PQUIRK_NOLUNS,
    quirk_pattern K.T_CDROM K.T_REMOV "SONY    " "CD-ROM CDU-8012 " "" K.PQUIRK_NOLUNS,
    quirk_pattern K.T_CDROM K.T_REMOV "TEAC    " "CD-ROM          " "1.06" K.PQUIRK_NOLUNS,
    quirk_pattern K.T_CDROM K.T_REMOV "TEAC    " "CD-ROM CD-56S   " "1.0B" K.PQUIRK_NOLUNS,
    quirk_pattern K.T_CDROM K.T_REMOV "TEXEL   " "CD-ROM          " "1.06" K.PQUIRK_NOLUNS,
    quirk_pattern K.T_CDROM K.T_REMOV "TEXEL   " "CD-ROM DM-XX24 K" "1.09" K.PQUIRK_NOLUNS,
    quirk_pattern K.T_CDROM K.T_REMOV "TEXEL   " "CD-ROM DM-XX24 K" "1.10" K.PQUIRK_NOLUNS,
    quirk_pattern K.T_CDROM K.T_REMOV "TOSHIBA " "XM-4101TASUNSLCD" ""
      (K.PQUIRK_NOLUNS ||| K.PQUIRK_NOSYNC),
    quirk_pattern K.T_CDROM K.T_REMOV "IBM     " "CDRM00201     !F" "0724"
      (K.PQUIRK_NOLUNS ||| K.PQUIRK_NOSYNC),
    quirk_pattern K.T_CDROM K.T_REMOV "ShinaKen" "CD-ROM DM-3x1S" "1.04" K.PQUIRK_NOLUNS,
    quirk_pattern K.T_CDROM K.T_REMOV "JVC     " "R2626" "" K.PQUIRK_NOLUNS,
    quirk_pattern K.T_CDROM K.T_REMOV "YAMAHA" "CRW8424S" "" K.PQUIRK_NOLUNS,
    quirk_pattern K.T_CDROM K.T_REMOV "NEC     " "CD-ROM DRIVE:222" ""
      (K.PQUIRK_NOLUNS ||| K.PQUIRK_NOSYNC),
    quirk_pattern K.T_DIRECT K.T_FIXED "MICROP  " "1588-15MBSUN0669" "" K.PQUIRK_AUTOSAVE,
    quirk_pattern K.T_DIRECT K.T_FIXED "MICROP  " "2217-15MQ1091501" "" K.PQUIRK_NOSYNCCACHE,
    quirk_pattern K.T_OPTICAL K.T_REMOV "EPSON   " "OMD-5010        " "3.08" K.PQUIRK_NOLUNS,
    quirk_pattern K.T_DIRECT K.T_FIXED "ADAPTEC " "AEC-4412BD" "1.2A" K.PQUIRK_NOMODESENSE,
    quirk_pattern K.T_DIRECT K.T_FIXED "ADAPTEC " "ACB-4000" ""
      (K.PQUIRK_FORCELUNS ||| K.PQUIRK_AUTOSAVE ||| K.PQUIRK_NOMODESENSE),
    quirk_pattern K.T_DIRECT K.T_FIXED "DEC     " "RZ55     (C) DEC" "" K.PQUIRK_AUTOSAVE,
    quirk_pattern K.T_DIRECT K.T_FIXED "EMULEX  " "MD21/S2     ESDI" "A00"
      (K.PQUIRK_FORCELUNS ||| K.PQUIRK_AUTOSAVE),
    quirk_pattern K.T_DIRECT K.T_FIXED "MICROP" "1548-15MZ1077801" "HZ2P" K.PQUIRK_NOTAG,
    quirk_pattern K.T_DIRECT K.T_FIXED "HP      " "C372" "" K.PQUIRK_NOTAG,
    quirk_pattern K.T_DIRECT K.T_FIXED "IBMRAID " "0662S" "" K.PQUIRK_AUTOSAVE,
    quirk_pattern K.T_DIRECT K.T_FIXED "IBM     " "0663H" "" K.PQUIRK_AUTOSAVE,
    quirk_pattern K.T_DIRECT K.T_FIXED "IBM" "0664" "" K.PQUIRK_AUTOSAVE,
    quirk_pattern K.T_DIRECT K.T_FIXED "IBM     " "DXHS36D" ""
      (K.PQUIRK_CAP_SYNC ||| K.PQUIRK_CAP_WIDE16),
    quirk_pattern K.T_DIRECT K.T_FIXED "IBM     " "DXHS18Y" ""
      (K.PQUIRK_CAP_SYNC ||| K.PQUIRK_CAP_WIDE16),
    quirk_pattern K.T_DIRECT K.T_FIXED "IBM     " "H3171-S2" ""
      (K.PQUIRK_NOLUNS ||| K.PQUIRK_AUTOSAVE),
    quirk_pattern K.T_DIRECT K.T_FIXED "IBM     " "KZ-C" "" K.PQUIRK_AUTOSAVE,
    quirk_pattern K.T_DIRECT K.T_FIXED "" "DFRSS2F" "" K.PQUIRK_AUTOSAVE,
    quirk_pattern K.T_DIRECT K.T_FIXED "Initio  " "" "" K.PQUIRK_NOBIGMODESENSE,
    quirk_pattern K.T_DIRECT K.T_FIXED "JMicron " "Generic         " "" K.PQUIRK_NOFUA,
    quirk_pattern K.T_DIRECT K.T_REMOV "MPL     " "MC-DISK-        " "" K.PQUIRK_NOLUNS,
    quirk_pattern K.T_DIRECT K.T_FIXED "MAXTOR  " "XT-3280         " "" K.PQUIRK_NOLUNS,
    quirk_pattern K.T_DIRECT K.T_FIXED "MAXTOR  " "XT-4380S        " "" K.PQUIRK_NOLUNS,
    quirk_pattern K.T_DIRECT K.T_FIXED "MAXTOR  " "MXT-1240S       " "" K.PQUIRK_NOLUNS,
    quirk_pattern K.T_DIRECT K.T_FIXED "MAXTOR  " "XT-4170S        " "" K.PQUIRK_NOLUNS,
    quirk_pattern K.T_DIRECT K.T_FIXED "MAXTOR  " "XT-8760S" "" K.PQUIRK_NOLUNS,
    quirk_pattern K.T_DIRECT K.T_FIXED "MAXTOR  " "LXT-213S        " "" K.PQUIRK_NOLUNS,
    quirk_pattern K.T_DIRECT K.T_FIXED "MAXTOR  " "LXT-213S SUN0207" "" K.PQUIRK_NOLUNS,
    quirk_pattern K.T_DIRECT K.T_FIXED "MAXTOR  " "LXT-200S        " "" K.PQUIRK_NOLUNS,
    quirk_pattern K.T_DIRECT K.T_FIXED "MEGADRV " "EV1000" "" K.PQUIRK_NOMODESENSE,
    quirk_pattern K.T_DIRECT K.T_FIXED "MICROP" "1991-27MZ" "" K.PQUIRK_NOTAG,
    quirk_pattern K.T_DIRECT K.T_FIXED "MST     " "SnapLink        " "" K.PQUIRK_NOLUNS,
    quirk_pattern K.T_DIRECT K.T_FIXED "NEC     " "D3847           " "0307" K.PQUIRK_NOLUNS,
    quirk_pattern K.T_DIRECT K.T_FIXED "QUANTUM " "ELS85S          " "" K.PQUIRK_AUTOSAVE,
    quirk_pattern K.T_DIRECT K.T_FIXED "QUANTUM " "LPS525S         " "" K.PQUIRK_NOLUNS,
    quirk_pattern K.T_DIRECT K.T_FIXED "QUANTUM " "P105S 910-10-94x" "" K.PQUIRK_NOLUNS,
    quirk_pattern K.T_DIRECT K.T_FIXED "QUANTUM " "PD1225S         " "" K.PQUIRK_NOLUNS,
    quirk_pattern K.T_DIRECT K.T_FIXED "QUANTUM " "PD210S   SUN0207" "" K.PQUIRK_NOLUNS,
    quirk_pattern K.T_DIRECT K.T_FIXED "QUANTUM " "ATLAS IV 9 WLS" "0A0A" K.PQUIRK_CAP_NODT,
    quirk_pattern K.T_DIRECT K.T_FIXED "RODIME  " "RO3000S         " "" K.PQUIRK_NOLUNS,
    quirk_pattern K.T_DIRECT K.T_FIXED "SEAGATE " "ST125N          " "" K.PQUIRK_NOLUNS,
    quirk_pattern K.T_DIRECT K.T_FIXED "SEAGATE " "ST157N          " "" K.PQUIRK_NOLUNS,
    quirk_pattern K.T_DIRECT K.T_FIXED "SEAGATE " "ST296           " "" K.PQUIRK_NOLUNS,
    quirk_pattern K.T_DIRECT K.T_FIXED "SEAGATE " "ST296N          " "" K.PQUIRK_NOLUNS,
    quirk_pattern K.T_DIRECT K.T_FIXED "SEAGATE " "ST318404LC      " "" K.PQUIRK_NOLUNS,
    quirk_pattern K.T_DIRECT K.T_FIXED "SEAGATE " "ST336753LC      " "" K.PQUIRK_NOLUNS,
    quirk_pattern K.T_DIRECT K.T_FIXED "SEAGATE " "ST336753LW      " "" K.PQUIRK_NOLUNS,
    quirk_pattern K.T_DIRECT K.T_FIXED "SEAGATE " "ST336754LC      " "" K.PQUIRK_NOLUNS,
    quirk_pattern K.T_DIRECT K.T_FIXED "SEAGATE " "ST39236LC       " "" K.PQUIRK_NOLUNS,
    quirk_pattern K.T_DIRECT K.T_FIXED "SEAGATE " "ST15150N        " "" K.PQUIRK_NOTAG,
    quirk_pattern K.T_DIRECT K.T_FIXED "SEAGATE " "ST19171" "" K.PQUIRK_NOMODESENSE,
    quirk_pattern K.T_DIRECT K.T_FIXED "SEAGATE " "ST32430N" "" K.PQUIRK_CAP_SYNC,
    quirk_pattern K.T_DIRECT K.T_FIXED "SEAGATE " "ST34501FC       " "" K.PQUIRK_NOMODESENSE,
    quirk_pattern K.T_DIRECT K.T_FIXED "SEAGATE " "SX910800N" "" K.PQUIRK_NOTAG,
    quirk_pattern K.T_DIRECT K.T_FIXED "TOSHIBA " "MK538FB         " "6027" K.PQUIRK_NOLUNS,
    quirk_pattern K.T_DIRECT K.T_FIXED "MICROP  " "1924" "" K.PQUIRK_CAP_SYNC,
    quirk_pattern K.T_DIRECT K.T_FIXED "FUJITSU " "M2266" "" K.PQUIRK_CAP_SYNC,
    quirk_pattern K.T_DIRECT K.T_FIXED "FUJITSU " "M2624S-512      " "" K.PQUIRK_CAP_SYNC,
    quirk_pattern K.T_DIRECT K.T_FIXED "SEAGATE " "SX336704LC" ""
      (K.PQUIRK_CAP_SYNC ||| K.PQUIRK_CAP_WIDE16),
    quirk_pattern K.T_DIRECT K.T_FIXED "SEAGATE " "SX173404LC" ""
      (K.PQUIRK_CAP_SYNC ||| K.PQUIRK_CAP_WIDE16),
    quirk_pattern K.T_DIRECT K.T_FIXED "ORACLE" "BlockVolume" "" K.PQUIRK_ONLYBIG,
    quirk_pattern K.T_DIRECT K.T_REMOV "IOMEGA" "ZIP 100" "J.03"
      (K.PQUIRK_NOLUNS ||| K.PQUIRK_NOSYNC),
    quirk_pattern K.T_DIRECT K.T_REMOV "INSITE" "I325VM" "" K.PQUIRK_NOLUNS,
    quirk_pattern K.T_SEQUENTIAL K.T_REMOV "        " "                " "    " K.PQUIRK_NOLUNS,
    quirk_pattern K.T_SEQUENTIAL K.T_REMOV "EMULEX  " "MT-02 QIC       " "" K.PQUIRK_NOLUNS,
    quirk_pattern K.T_SEQUENTIAL K.T_REMOV "CALIPER " "CP150           " "" K.PQUIRK_NOLUNS,
    quirk_pattern K.T_SEQUENTIAL K.T_REMOV "EXABYTE " "EXB-8200        " "" K.PQUIRK_NOLUNS,
    quirk_pattern K.T_SEQUENTIAL K.T_REMOV "SONY    " "GY-10C          " "" K.PQUIRK_NOLUNS,
    quirk_pattern K.T_SEQUENTIAL K.T_REMOV "SONY    " "SDT-2000        " "2.09" K.PQUIRK_NOLUNS,
    quirk_pattern K.T_SEQUENTIAL K.T_REMOV "SONY    " "SDT-5000        " "3."
      (K.PQUIRK_NOSYNC ||| K.PQUIRK_NOWIDE),
    quirk_pattern K.T_SEQUENTIAL K.T_REMOV "SONY    " "SDT-5200        " "3." K.PQUIRK_NOLUNS,
    quirk_pattern K.T_SEQUENTIAL K.T_REMOV "TANDBERG" " TDC 3600       " "" K.PQUIRK_NOLUNS,
    quirk_pattern K.T_SEQUENTIAL K.T_REMOV "ARCHIVE " "VIPER 150  21247" "" K.PQUIRK_NOLUNS,
    quirk_pattern K.T_SEQUENTIAL K.T_REMOV "ARCHIVE " "VIPER 1500 21247" "2.2G" K.PQUIRK_NOLUNS,
    quirk_pattern K.T_SEQUENTIAL K.T_REMOV "ARCHIVE " "Python 28454-XXX" "" K.PQUIRK_NOLUNS,
    quirk_pattern K.T_SEQUENTIAL K.T_REMOV "WANGTEK " "5099ES SCSI" "" K.PQUIRK_NOLUNS,
    quirk_pattern K.T_SEQUENTIAL K.T_REMOV "WANGTEK " "5150ES SCSI" "" K.PQUIRK_NOLUNS,
    quirk_pattern K.T_SEQUENTIAL K.T_REMOV "WANGTEK " "SCSI-36" "" K.PQUIRK_NOLUNS,
    quirk_pattern K.T_SEQUENTIAL K.T_REMOV "WangDAT " "Model 1300      " "02.4"
      (K.PQUIRK_NOSYNC ||| K.PQUIRK_NOWIDE),
    quirk_pattern K.T_SEQUENTIAL K.T_REMOV "WangDAT " "Model 2600      " "01.7"
      (K.PQUIRK_NOSYNC ||| K.PQUIRK_NOWIDE),
    quirk_pattern K.T_SEQUENTIAL K.T_REMOV "WangDAT " "Model 3200      " "02.2"
      (K.PQUIRK_NOSYNC ||| K.PQUIRK_NOWIDE),
    quirk_pattern K.T_SEQUENTIAL K.T_REMOV "TEAC    " "MT-2ST/N50      " "" K.PQUIRK_NOLUNS,
    quirk_pattern K.T_SCANNER K.T_FIXED "RICOH   " "IS60            " "1R08" K.PQUIRK_NOLUNS,
    quirk_pattern K.T_SCANNER K.T_FIXED "UMAX    " "Astra 1200S     " "V2.9" K.PQUIRK_NOLUNS,
    quirk_pattern K.T_SCANNER K.T_FIXED "UMAX    " "Astra 1220S     " "" K.PQUIRK_NOLUNS,
    quirk_pattern K.T_SCANNER K.T_FIXED "UMAX    " "UMAX S-6E       " "V2.0" K.PQUIRK_NOLUNS,
    quirk_pattern K.T_SCANNER K.T_FIXED "UMAX    " "UMAX S-12       " "V2.1" K.PQUIRK_NOLUNS,
    quirk_pattern K.T_SCANNER K.T_FIXED "ULTIMA  " "A6000C          " "" K.PQUIRK_NOLUNS,
    quirk_pattern K.T_PROCESSOR K.T_FIXED "ESG-SHV" "SCA HSBP M15" "" K.PQUIRK_NOLUNS,
    quirk_pattern K.T_PROCESSOR K.T_FIXED "SYMBIOS" "" "" K.PQUIRK_NOLUNS,
    quirk_pattern K.T_PROCESSOR K.T_FIXED "LITRONIC" "PCMCIA          " "" K.PQUIRK_NOLUNS,
    quirk_pattern K.T_CHANGER K.T_REMOV "SONY    " "CDL1100         " "" K.PQUIRK_NOLUNS,
    quirk_pattern K.T_ENCLOSURE K.T_FIXED "SUN     " "SENA            " "" K.PQUIRK_NOLUNS
  ]

/-- The label `bad` of `scsi_probe_device`: the periph is freed in a build without
`SEL4`, and `docontinue` is returned. -/
def probe_bad (K : scsipiconf_h) (w : probe_world) (docontinue : Int) : probe_world × Int :=
  (if K.SEL4 then w else w.log probe_event.scsipi_free_periph, docontinue)

/-- The statements of `scsi_probe_device` under "Determine the operating mode
capabilities of the device", for the value `quirks`. The flags are values of
32-bit `int`s: `&= ~m` clears the bits of `m`. -/
def probe_capabilities (K : scsipiconf_h) (periph : probe_periph) (inqbuf : scsipi_inquiry_data)
    (quirks : Nat) : probe_periph :=
  let cap0 := periph.periph_cap
  let cap8 :=
    if periph.periph_version ≥ 2 then
      let cap1 := if inqbuf.flags3 &&& K.SID_CmdQue ≠ 0 ∧ quirks &&& K.PQUIRK_NOTAG = 0 then
          cap0 ||| K.PERIPH_CAP_TQING else cap0
      let cap2 := if inqbuf.flags3 &&& K.SID_Linked ≠ 0 then cap1 ||| K.PERIPH_CAP_LINKCMDS
        else cap1
      let cap3 := if inqbuf.flags3 &&& K.SID_Sync ≠ 0 ∧ quirks &&& K.PQUIRK_NOSYNC = 0 then
          cap2 ||| K.PERIPH_CAP_SYNC else cap2
      let cap4 := if inqbuf.flags3 &&& K.SID_WBus16 ≠ 0 ∧ quirks &&& K.PQUIRK_NOWIDE = 0 then
          cap3 ||| K.PERIPH_CAP_WIDE16 else cap3
      let cap5 := if inqbuf.flags3 &&& K.SID_WBus32 ≠ 0 ∧ quirks &&& K.PQUIRK_NOWIDE = 0 then
          cap4 ||| K.PERIPH_CAP_WIDE32 else cap4
      let cap6 := if inqbuf.flags3 &&& K.SID_SftRe ≠ 0 then cap5 ||| K.PERIPH_CAP_SFTRESET
        else cap5
      let cap7 := if inqbuf.flags3 &&& K.SID_RelAdr ≠ 0 then cap6 ||| K.PERIPH_CAP_RELADR
        else cap6
      let cap7a :=
        if periph.periph_version ≥ 3 ∧ quirks &&& K.PQUIRK_CAP_NODT = 0 then
          if inqbuf.flags4 &&& K.SID_Clocking = K.SID_CLOCKING_DT_ONLY then
            (cap7 &&& (0xffffffff ^^^
              (K.PERIPH_CAP_SYNC ||| K.PERIPH_CAP_WIDE16 ||| K.PERIPH_CAP_WIDE32))) |||
              K.PERIPH_CAP_DT
          else if inqbuf.flags4 &&& K.SID_Clocking = K.SID_CLOCKING_SD_DT then
            cap7 ||| K.PERIPH_CAP_DT
          else cap7
        else cap7
      if periph.periph_version ≥ 3 then
        let cap7b := if inqbuf.flags4 &&& K.SID_IUS ≠ 0 then cap7a ||| K.PERIPH_CAP_IUS
          else cap7a
        if inqbuf.flags4 &&& K.SID_QAS ≠ 0 then cap7b ||| K.PERIPH_CAP_QAS else cap7b
      else cap7a
    else cap0
  let cap9 := if quirks &&& K.PQUIRK_CAP_SYNC ≠ 0 then cap8 ||| K.PERIPH_CAP_SYNC else cap8
  let cap10 := if quirks &&& K.PQUIRK_CAP_WIDE16 ≠ 0 then cap9 ||| K.PERIPH_CAP_WIDE16 else cap9
  { periph with periph_cap := cap10 }

/-- The statements of `scsi_probe_device` under "Now apply any quirks from the
table". -/
def probe_apply_quirks (K : scsipiconf_h) (periph : probe_periph) (quirks : Nat) : probe_periph :=
  let q1 := periph.periph_quirks ||| quirks
  let q2 := if periph.periph_version = 0 ∧ q1 &&& K.PQUIRK_FORCELUNS = 0 then
      q1 ||| K.PQUIRK_NOLUNS else q1
  { periph with periph_quirks := q2 }

/-- The end of `scsi_probe_device`, from `config_search` on. -/
def probe_attach (K : scsipiconf_h) (w : probe_world) (periph : probe_periph)
    (sa_inqbuf : scsipi_inquiry_pattern) (docontinue : Int) : probe_world × Int :=
  let w1 := w.log (probe_event.config_search periph.periph_target periph.periph_lun)
  if w1.config_search_ret then
    let w2 : probe_world :=
      { (w1.log (probe_event.scsipi_insert_periph periph)) with
          periphs := w1.periphs ++ [(periph.periph_target, periph.periph_lun)] }
    let w3 := if periph.periph_version ≥ 3 then
        w2.log (probe_event.scsipi_get_opcodeinfo periph.periph_target periph.periph_lun)
      else w2
    (w3.log (probe_event.config_attach periph sa_inqbuf), docontinue)
  else probe_bad K w1 docontinue

/-- The part of `scsi_probe_device` that follows the checks of the qualifier and
of the device type: the `scsipi_inquiry_pattern` of the device is built and
handed to `scsipi_inqmatch` with the table; the value returned is not assigned
(`finger = 0;` stands before the call and `finger` is not written again), the
quirks are taken from `finger`, the capabilities are determined and the device is
offered to autoconfiguration. -/
def probe_identify (K : scsipiconf_h) (w : probe_world) (periph : probe_periph)
    (inqbuf : scsipi_inquiry_data) : probe_world × Int :=
  let sa_inqbuf : scsipi_inquiry_pattern :=
    { type := inqbuf.device
      removable := if inqbuf.dev_qual2 &&& K.SID_REMOVABLE ≠ 0 then K.T_REMOV else K.T_FIXED
      vendor := inqbuf.vendor
      product := inqbuf.product
      revision := inqbuf.revision }
  let finger : Option scsi_quirk_inquiry_pattern := none
  let w1 := w.log (probe_event.scsipi_inqmatch sa_inqbuf
    (K.scsipi_inqmatch sa_inqbuf (scsi_quirk_patterns K)))
  let quirks : Nat := match finger with
    | some f => f.quirks
    | none => 0
  let periph1 := probe_apply_quirks K (probe_capabilities K periph inqbuf quirks) quirks
  let docontinue : Int := if periph1.periph_quirks &&& K.PQUIRK_NOLUNS = 0 then 1 else 0
  probe_attach K w1 periph1 sa_inqbuf docontinue

/-- The function `scsi_probe_device`. `scsipi_alloc_periph` returns a zeroed
periph; the INQUIRY data are what the device wrote over the buffer that the
function has initialised. -/
def scsi_probe_device (K : scsipiconf_h) (w : probe_world) (target lun : Int) :
    probe_world × Int :=
  let docontinue : Int := 0
  let w1 := w.log (probe_event.scsipi_lookup_periph target lun)
  if (target, lun) ∈ w1.periphs then (w1, docontinue)
  else
    let periph : probe_periph :=
      { periph_target := target
        periph_lun := lun
        periph_quirks := w1.chan_defquirks
        periph_type := 0
        periph_flags := 0
        periph_version := 0
        periph_cap := 0 }
    let w2 := (w1.log probe_event.scsipi_alloc_periph).log (probe_event.scsipi_inquire target lun)
    if w2.inquire_ret.1 ≠ 0 then probe_bad K w2 docontinue
    else
      let inqbuf := w2.inquire_ret.2
      let periph1 : probe_periph :=
        { periph with
            periph_type := inqbuf.device &&& K.SID_TYPE
            periph_flags := if inqbuf.dev_qual2 &&& K.SID_REMOVABLE ≠ 0 then
                periph.periph_flags ||| K.PERIPH_REMOVABLE else periph.periph_flags
            periph_version := inqbuf.version &&& K.SID_ANSII }
      let qual := inqbuf.device &&& K.SID_QUAL
      if qual ≠ K.SID_QUAL_LU_PRESENT ∧ (qual = K.SID_QUAL_LU_NOTPRESENT ∨
          qual = K.SID_QUAL_reserved ∨ qual = K.SID_QUAL_LU_NOT_SUPP) then
        probe_bad K w2 docontinue
      else
        let checkdtype : Bool := decide (qual = K.SID_QUAL_LU_PRESENT)
        let w3 := if w2.adapt_accesschk.isSome then
            w2.log (probe_event.adapt_accesschk target lun)
          else w2
        if w2.adapt_accesschk.getD 0 ≠ 0 then probe_bad K w3 docontinue
        else if checkdtype = true ∧ periph1.periph_type = K.T_NODEVICE then
          probe_bad K w3 docontinue
        else probe_identify K w3 periph1 inqbuf

/-- Modelled from the spec: the function `scsipi_inqmatch` of `scsipi_base.c`,
which is not in the sources at hand: "a quirk-pattern match against (vendor,
product, revision, type)", "first match wins". An entry matches a device of its
type and removability whose vendor, product and revision begin with the strings
of the entry. `SID_TYPE` masks the device type. -/
def inqmatch_first (SID_TYPE : Nat) (inqbuf : scsipi_inquiry_pattern)
    (table : List scsi_quirk_inquiry_pattern) : Option scsi_quirk_inquiry_pattern :=
  table.find? (fun e =>
    decide (inqbuf.type &&& SID_TYPE = e.pattern.type) &&
    decide (inqbuf.removable = e.pattern.removable) &&
    e.pattern.vendor.data.isPrefixOf inqbuf.vendor.data &&
    e.pattern.product.data.isPrefixOf inqbuf.product.data &&
    e.pattern.revision.data.isPrefixOf inqbuf.revision.data)

/-- Example values for `scsipiconf_h`: the peripheral qualifiers, device types
and INQUIRY flag bits of the SCSI Primary Commands standard, distinct bits for
the capability and quirk flags, the matching function `inqmatch_first`, and a
build with `SEL4`. Used for the concrete examples only. -/
def K_probe : scsipiconf_h :=
  { SID_TYPE := 0x1f
    SID_QUAL := 0xe0
    SID_QUAL_LU_PRESENT := 0x00
    SID_QUAL_LU_NOTPRESENT := 0x20
    SID_QUAL_reserved := 0x40
    SID_QUAL_LU_NOT_SUPP := 0x60
    SID_REMOVABLE := 0x80
    SID_ANSII := 0x07
    SID_CmdQue := 0x02
    SID_Linked := 0x08
    SID_Sync := 0x10
    SID_WBus16 := 0x20
    SID_WBus32 := 0x40
    SID_SftRe := 0x01
    SID_RelAdr := 0x80
    SID_Clocking := 0x0c
    SID_CLOCKING_DT_ONLY := 0x04
    SID_CLOCKING_SD_DT := 0x0c
    SID_IUS := 0x01
    SID_QAS := 0x02
    T_DIRECT := 0x00
    T_SEQUENTIAL := 0x01
    T_PROCESSOR := 0x03
    T_CDROM := 0x05
    T_SCANNER := 0x06
    T_OPTICAL := 0x07
    T_CHANGER := 0x08
    T_ENCLOSURE := 0x0d
    T_NODEVICE := 0x1f
    T_REMOV := 1
    T_FIXED := 0
    PERIPH_REMOVABLE := 0x0001
    PERIPH_CAP_RELADR := 0x0004
    PERIPH_CAP_WIDE32 := 0x0008
    PERIPH_CAP_WIDE16 := 0x0010
    PERIPH_CAP_SYNC := 0x0020
    PERIPH_CAP_LINKCMDS := 0x0040
    PERIPH_CAP_TQING := 0x0080
    PERIPH_CAP_SFTRESET := 0x0100
    PERIPH_CAP_DT := 0x0400
    PERIPH_CAP_QAS := 0x0800
    PERIPH_CAP_IUS := 0x1000
    PQUIRK_AUTOSAVE := 0x00000001
    PQUIRK_NOSYNC := 0x00000002
    PQUIRK_NOWIDE := 0x00000004
    PQUIRK_NOTAG := 0x00000008
    PQUIRK_NOLUNS := 0x00000010
    PQUIRK_FORCELUNS := 0x00000020
    PQUIRK_NOMODESENSE := 0x00000040
    PQUIRK_NOSYNCCACHE := 0x00000100
    PQUIRK_NOCAPACITY := 0x00000800
    PQUIRK_ONLYBIG := 0x00008000
    PQUIRK_NOBIGMODESENSE := 0x00040000
    PQUIRK_CAP_SYNC := 0x00080000
    PQUIRK_CAP_WIDE16 := 0x00100000
    PQUIRK_CAP_NODT := 0x00200000
    PQUIRK_START := 0x00400000
    PQUIRK_NOFUA := 0x00800000
    scsipi_inqmatch := inqmatch_first 0x1f
    SEL4 := true }

/-- The INQUIRY data of a fixed direct-access device, LU present, that identifies
as vendor "SEAGATE ", product "ST15150N        " and reports SCSI version 2 and
the flag CmdQue. -/
def inq_st15150n : scsipi_inquiry_data :=
  { device := 0x00, dev_qual2 := 0x00, version := 0x02, flags3 := 0x02, flags4 := 0x00
    vendor := "SEAGATE ", product := "ST15150N        ", revision := "0023" }

/-- A channel without periphs and without default quirks, whose adapter has no
`adapt_accesschk` hook, with a device that answers the INQUIRY with `inq` and a
driver that `config_search` finds. -/
def w_probe (inq : scsipi_inquiry_data) : probe_world :=
  { trace := [], periphs := [], chan_defquirks := 0, inquire_ret := (0, inq)
    adapt_accesschk := none, config_search_ret := true }

/-- The periphs handed to `config_attach` in a trace. -/
def attached : List probe_event → List probe_periph
  | [] => []
  | probe_event.config_attach periph _ :: t => periph :: attached t
  | _ :: t => attached t

/-- The build and constants `K` with another function in the place of
`scsipi_inqmatch`. -/
def scsipiconf_h.with_inqmatch (K : scsipiconf_h)
    (f : scsipi_inquiry_pattern → List scsi_quirk_inquiry_pattern →
      Option scsi_quirk_inquiry_pattern) : scsipiconf_h :=
  { K with scsipi_inqmatch := f }

/-- The outcome of a probe but for the trace: the return value, the slots with a
periph and the periphs attached. -/
def probe_outcome (r : probe_world × Int) : Int × List (Int × Int) × List probe_periph :=
  (r.2, r.1.periphs, attached r.1.trace)

/-- The INQUIRY data of a device that answers with the byte `device` (peripheral
qualifier and device type) and nothing else. -/
def inq_device (device : Nat) : scsipi_inquiry_data :=
  { device := device, dev_qual2 := 0x00, version := 0x02, flags3 := 0x00, flags4 := 0x00
    vendor := "        ", product := "                ", revision := "    " }

/-- The INQUIRY data of `inq_device 0` with the SCSI version 0. -/
def inq_version0 : scsipi_inquiry_data := { inq_device 0x00 with version := 0x00 }

/-- What the loop at the label `again` of `scsi_report_luns` hands on when the
device answers every command: the number of commands sent, the calls made, the
error, the final length of `rlr` and its contents (`none` when `rlr` is `NULL`,
as it is at the `EIO` exit). -/
structure report_luns_loop_t where
  rounds : Nat
  trace : List scsi_event
  error : Int
  rlrlen : Nat
  rlr : Option (List Nat)
deriving DecidableEq, Repr

/-- The loop at the label `again` of `scsi_report_luns` with a device that answers
every command: `answers n` is what `scsipi_command` returns and what the device
sends for the command number `n`. Each `goto again` takes one unit of `fuel`;
the result is `none` when the fuel is used up before the loop is left. -/
def report_luns_loop (K : scsiconf_h) (target : Int) (rlrlenmin : Nat)
    (answers : Nat → Int × List Nat) : Nat → Nat → List scsi_event → Nat →
    Option report_luns_loop_t
  | 0, _, _, _ => none
  | fuel + 1, n, trace, rlrlen =>
    let r := answers n
    let trace1 := trace ++ [scsi_event.scsipi_command target 0 rlrlen]
    let rlr := rlr_buffer rlrlen r.2
    if r.1 ≠ 0 then
      some { rounds := n + 1, trace := trace1, error := r.1, rlrlen := rlrlen, rlr := some rlr }
    else if K.sizeof_rlr + K._4btol (rlr.take 4) > rlrlen ∧
        K.sizeof_rlr + K._4btol (rlr.take 4) ≤ 32 then
      let rlrlen1 := K.sizeof_rlr + min (K._4btol (rlr.take 4)) (16383 * K.sizeof_lunp)
      if rlrlen1 < rlrlenmin then
        some { rounds := n + 1, trace := trace1, error := K.EIO, rlrlen := rlrlen1, rlr := none }
      else report_luns_loop K target rlrlenmin answers fuel (n + 1) trace1 rlrlen1
    else
      some { rounds := n + 1, trace := trace1, error := 0, rlrlen := rlrlen, rlr := some rlr }

/-- A device that reports, at every command, a list one byte longer than the
buffer holds: the command number `n` is answered with the list length `9 + n`. -/
def answers_one_more (n : Nat) : Int × List Nat := (0, [0, 0, 0, 9 + n, 0, 0, 0, 0])

/-- The transfer of the data phase of a CBI command with direction `dir`. -/
def cbi_data_xfer (dir : Int) : Nat := if dir = DIR_IN then XFER_CBI_DATAIN else XFER_CBI_DATAOUT

/-- The CBI+CCI session `w_cbi_i` in the data phase of a 512-byte read issued with
callback 7 and context 9. -/
def w_cbi_i_data : World :=
  cbi_run K_std
    (umass_cbi_transfer K_std w_cbi_i 0 [0x28, 0, 0, 0, 0, 0, 0, 0, 1, 0, 0, 0] 12 0x1000 512
      DIR_IN 1000 0 7 9)
    [completion usbd_status.USBD_NORMAL_COMPLETION 12]

/-- The completion of an interrupt status read that delivers the two bytes
`byte0` and `byte1` of the status block. -/
def completion_sbl (byte0 byte1 : Nat) : Completion :=
  { completion usbd_status.USBD_NORMAL_COMPLETION 2 with sbl := { byte0 := byte0, byte1 := byte1 } }

/-- The CBI+CCI session `w_cbi_i` (command protocol UFI) while the command layer
fetches sense data (`sc_sense` is 1): the REQUEST SENSE command of 18 bytes,
issued with callback 7 and context 9, has sent its command block and read its
data, and the interrupt status read is in flight. -/
def w_cbi_i_sense_status : World :=
  cbi_run K_std
    (umass_cbi_transfer K_std { w_cbi_i with sc := { w_cbi_i.sc with sc_sense := 1 } } 0
      [0x03, 0, 0, 0, 18, 0, 0, 0, 0, 0, 0, 0] 12 0x2000 18 DIR_IN 1000 0 7 9)
    [completion usbd_status.USBD_NORMAL_COMPLETION 12,
     completion usbd_status.USBD_NORMAL_COMPLETION 18]

/-- The session `w_cbi_i` with a command protocol other than UFI (ATAPI) in the
status phase of a 512-byte read issued with callback 7 and context 9, of which
500 bytes were read. -/
def w_cbi_i_atapi_status : World :=
  cbi_run K_std
    (umass_cbi_transfer K_std
      { w_cbi_i with sc := { w_cbi_i.sc with sc_cmd := UMASS_CPROTO_ATAPI } } 0
      [0x28, 0, 0, 0, 0, 0, 0, 0, 1, 0, 0, 0] 12 0x1000 512 DIR_IN 1000 0 7 9)
    [completion usbd_status.USBD_NORMAL_COMPLETION 12,
     completion usbd_status.USBD_NORMAL_COMPLETION 500]

/-- The CBI+CCI session `w_cbi_i_data` after its data transfer delivered the 512
bytes requested: the interrupt status transfer is in flight, the state is
CBI_STATUS. -/
def w_cbi_i_status : World :=
  cbi_run K_std w_cbi_i_data [completion usbd_status.USBD_NORMAL_COMPLETION 512]

/-- The bytes of the Command Block Reset: 0x1d, 0x04 and ten bytes 0xff. -/
def cbi_reset_bytes : List Nat :=
  [0x1d, 0x04, 0xff, 0xff, 0xff, 0xff, 0xff, 0xff, 0xff, 0xff, 0xff, 0xff]

/-- The request Accept Device-Specific Command (ADSC) that `umass_cbi_adsc` sets
up for a command block of `buflen` bytes. -/
def adsc_request (K : usb_h) (sc : umass_softc) (buflen : Int) : usb_device_request_t :=
  { bmRequestType := K.UT_WRITE_CLASS_INTERFACE
    bRequest := UR_CBI_ADSC
    wValue := USETW 0
    wIndex := USETW sc.sc_ifaceno
    wLength := USETW buflen }

/-! ## Byte swapping (`sys/sys/bswap64.c`) -/

/-- The instruction `rorw #8, %0` of the inline assembly of `bswap32`, on a
32-bit register: the low word is rotated right by 8 bits, the high word is left
as it is. -/
def rorw_8 (d : Nat) : Nat :=
  (d &&& 0xffff0000) ||| ((d &&& 0x000000ff) <<< 8) ||| ((d >>> 8) &&& 0x000000ff)

/-- The instruction `swap %0` of the inline assembly of `bswap32`, on a 32-bit
register: the two words are exchanged. -/
def swap_words (d : Nat) : Nat :=
  ((d &&& 0x0000ffff) <<< 16) ||| ((d >>> 16) &&& 0x0000ffff)

/-- The function `bswap32` that `bswap64.c` defines when `machine/bswap.h` has
none: `rorw #8, %0; swap %0; rorw #8, %0` on the `u_int32_t` argument. -/
def bswap32 (var : Nat) : Nat :=
  rorw_8 (swap_words (rorw_8 (var % 2 ^ 32)))

/-- The function `bswap64` on a `u_int64_t`; `LP64` tells whether `_LP64` is
defined. With it the bytes are moved by shifts (of 64-bit values) and masks;
without it the two halves are swapped by `bswap32` and exchanged. -/
def bswap64 (LP64 : Bool) (x : Nat) : Nat :=
  if LP64 then
    ((x <<< 56) % 2 ^ 64 &&& 0xff00000000000000) |||
    ((x <<< 40) % 2 ^ 64 &&& 0x00ff000000000000) |||
    ((x <<< 24) % 2 ^ 64 &&& 0x0000ff0000000000) |||
    ((x <<< 8) % 2 ^ 64 &&& 0x000000ff00000000) |||
    ((x >>> 8) &&& 0x00000000ff000000) |||
    ((x >>> 24) &&& 0x0000000000ff0000) |||
    ((x >>> 40) &&& 0x000000000000ff00) |||
    ((x >>> 56) &&& 0x00000000000000ff)
  else
    let th := bswap32 ((x &&& 0x00000000ffffffff) % 2 ^ 32)
    let tl := bswap32 (((x >>> 32) &&& 0x00000000ffffffff) % 2 ^ 32)
    ((th <<< 32) % 2 ^ 64) ||| tl

/-- The byte `i` of a value, byte 0 being the least significant one. -/
def byte_of (x i : Nat) : Nat := x / 256 ^ i % 256

/-- The session `w_cbi_data` when the completion of its data transfer is being
handled: the transfer has left the list of those in flight. -/
def w_cbi_data_done : World := { w_cbi_data with inflight := [] }

/-! ## Lemmas on the helpers of the state machines -/

theorem callbacks_append (a b : List Event) : callbacks (a ++ b) = callbacks a ++ callbacks b := by
  induction a with
  | nil => rfl
  | cons e t ih => cases e <;> simp [callbacks, ih]

theorem Same.refl (w : World) : Same w w := by simp [Same, Keeps]

theorem done_fin {w0 w : World} (hs : Same w0 w) (r s : Int) :
    Finished w0 (umass_transfer_done w r s) := by
  obtain ⟨⟨h1, h2, h3⟩, h4, h5⟩ := hs
  simp [Finished, Keeps, umass_transfer_done, World.log, World.set_state, callbacks_append,
    callbacks, h1, h2, h3, h4, h5]

theorem reset_fin {w0 w : World} (hs : Same w0 w) (h : w.sc.transfer_priv ≠ 0) :
    Finished w0 (umass_transfer_reset w) := by
  obtain ⟨⟨h1, h2, h3⟩, h4, h5⟩ := hs
  have h' : w0.sc.transfer_priv ≠ 0 := h2 ▸ h
  simp [Finished, Keeps, umass_transfer_reset, World.log, World.set_state, callbacks_append,
    callbacks, h, h', h1, h2, h3, h4, h5]

theorem ctrl_cases {w0 w : World} (hs : Same w0 w) (b : Buf) (l : Int) (f x : Nat) :
    ((umass_setup_ctrl_transfer w b l f x).2 = usbd_status.USBD_NORMAL_COMPLETION ∧
      Armed w0 (umass_setup_ctrl_transfer w b l f x).1 w.sc.transfer_state) ∨
    ((umass_setup_ctrl_transfer w b l f x).2 ≠ usbd_status.USBD_NORMAL_COMPLETION ∧
      Same w0 (umass_setup_ctrl_transfer w b l f x).1 ∧
      (umass_setup_ctrl_transfer w b l f x).1.sc = w.sc) := by
  obtain ⟨⟨h1, h2, h3⟩, h4, h5⟩ := hs
  simp only [umass_setup_ctrl_transfer, usbd_transfer, World.log, Armed, Keeps, Same]
  split_ifs <;> simp_all [callbacks_append, callbacks]

theorem setup_cases (K : usb_h) {w0 w : World} (hs : Same w0 w) (p : Nat) (b : Buf) (l : Int)
    (f x : Nat) :
    ((umass_setup_transfer K w p b l f x).2 = usbd_status.USBD_NORMAL_COMPLETION ∧
      Armed w0 (umass_setup_transfer K w p b l f x).1 w.sc.transfer_state) ∨
    ((umass_setup_transfer K w p b l f x).2 ≠ usbd_status.USBD_NORMAL_COMPLETION ∧
      Same w0 (umass_setup_transfer K w p b l f x).1 ∧
      (umass_setup_transfer K w p b l f x).1.sc = w.sc) := by
  obtain ⟨⟨h1, h2, h3⟩, h4, h5⟩ := hs
  simp only [umass_setup_transfer, usbd_transfer, World.log, Armed, Keeps, Same]
  split_ifs <;> simp_all [callbacks_append, callbacks]

theorem ctrl_or_done {w0 w : World} (hs : Same w0 w) (b : Buf) (l : Int) (f x : Nat) (st : Int) :
    Finished w0 (if (umass_setup_ctrl_transfer w b l f x).2 ≠ usbd_status.USBD_NORMAL_COMPLETION
      then umass_transfer_done (umass_setup_ctrl_transfer w b l f x).1
        (umass_setup_ctrl_transfer w b l f x).1.sc.transfer_datalen st
      else (umass_setup_ctrl_transfer w b l f x).1) ∨
    Armed w0 (if (umass_setup_ctrl_transfer w b l f x).2 ≠ usbd_status.USBD_NORMAL_COMPLETION
      then umass_transfer_done (umass_setup_ctrl_transfer w b l f x).1
        (umass_setup_ctrl_transfer w b l f x).1.sc.transfer_datalen st
      else (umass_setup_ctrl_transfer w b l f x).1) w.sc.transfer_state := by
  rcases ctrl_cases hs b l f x with hc | hc
  · right
    rw [if_neg (not_not.mpr hc.1)]
    exact hc.2
  · left
    rw [if_pos hc.1]
    exact done_fin hc.2.1 _ _

theorem clear_stall_cases (K : usb_h) {w0 w : World} (hs : Same w0 w) (e x : Nat) :
    Finished w0 (umass_clear_endpoint_stall K w e x) ∨
    Armed w0 (umass_clear_endpoint_stall K w e x) w.sc.transfer_state := by
  unfold umass_clear_endpoint_stall
  by_cases hd : w.sc.sc_dying = true
  · rw [if_pos hd]
    exact Or.inl (done_fin hs _ _)
  · rw [if_neg hd]
    exact ctrl_or_done (by simpa [Same, Keeps, World.log, callbacks_append, callbacks] using hs)
      Buf.NULL 0 0 x STATUS_WIRE_FAILED

theorem bbb_reset_cases (K : usb_h) {w0 w : World} (hs : Same w0 w) (st : Int) :
    Finished w0 (umass_bbb_reset K w st) ∨
    Armed w0 (umass_bbb_reset K w st) TSTATE_BBB_RESET1 := by
  unfold umass_bbb_reset
  by_cases hd : w.sc.sc_dying = true
  · rw [if_pos hd]
    exact Or.inl (done_fin hs _ _)
  · rw [if_neg hd]
    exact ctrl_or_done (by simpa [Same, Keeps, World.log, callbacks_append, callbacks] using hs)
      Buf.NULL 0 0 XFER_BBB_RESET1 st

theorem setup_or_reset (K : usb_h) {w0 w : World} (hs : Same w0 w) (p : Nat) (b : Buf) (l : Int)
    (f x : Nat) (st : Int) :
    Finished w0 (if (umass_setup_transfer K w p b l f x).2 ≠ usbd_status.USBD_NORMAL_COMPLETION
      then umass_bbb_reset K (umass_setup_transfer K w p b l f x).1 st
      else (umass_setup_transfer K w p b l f x).1) ∨
    Armed w0 (if (umass_setup_transfer K w p b l f x).2 ≠ usbd_status.USBD_NORMAL_COMPLETION
      then umass_bbb_reset K (umass_setup_transfer K w p b l f x).1 st
      else (umass_setup_transfer K w p b l f x).1) w.sc.transfer_state ∨
    Armed w0 (if (umass_setup_transfer K w p b l f x).2 ≠ usbd_status.USBD_NORMAL_COMPLETION
      then umass_bbb_reset K (umass_setup_transfer K w p b l f x).1 st
      else (umass_setup_transfer K w p b l f x).1) TSTATE_BBB_RESET1 := by
  rcases setup_cases K hs p b l f x with hc | hc
  · right; left
    rw [if_neg (not_not.mpr hc.1)]
    exact hc.2
  · rw [if_pos hc.1]
    rcases bbb_reset_cases K hc.2.1 st with h | h
    · exact Or.inl h
    · exact Or.inr (Or.inr h)


theorem Same.of_eq {w0 w w1 : World} (hs : Same w0 w)
    (h1 : w1.sc.transfer_cb = w.sc.transfer_cb) (h2 : w1.sc.transfer_priv = w.sc.transfer_priv)
    (h3 : w1.sc.transfer_datalen = w.sc.transfer_datalen) (h4 : w1.inflight = w.inflight)
    (h5 : callbacks w1.trace = callbacks w.trace) : Same w0 w1 := by
  obtain ⟨⟨a1, a2, a3⟩, a4, a5⟩ := hs
  exact ⟨⟨h1.trans a1, h2.trans a2, h3.trans a3⟩, h4.trans a4, h5.trans a5⟩

theorem Same.log_memcpy {w0 w : World} (hs : Same w0 w) (d s : Buf) (l : Int) :
    Same w0 (w.log (Event.memcpy d s l)) :=
  hs.of_eq rfl rfl rfl rfl (by simp [World.log, callbacks_append, callbacks])

theorem Prog.fin {w0 w' : World} {lo : Int} (h : Finished w0 w') : Prog w0 lo w' := Or.inl h

theorem Prog.armed {w0 w' : World} {lo s : Int} (h : Armed w0 w' s) (h1 : lo < s) (h2 : s ≤ 9) :
    Prog w0 lo w' := Or.inr ⟨s, h1, h2, h⟩

theorem prog_bbb_reset (K : usb_h) (w0 w : World) (lo : Int) (hs : Same w0 w) (st : Int)
    (hlo : lo < 7) : Prog w0 lo (umass_bbb_reset K w st) := by
  rcases bbb_reset_cases K hs st with h | h
  · exact Prog.fin h
  · exact Prog.armed h hlo (by decide)

theorem prog_clear_stall (K : usb_h) (w0 w : World) (lo : Int) (hs : Same w0 w) (e x : Nat)
    (hlo : lo < w.sc.transfer_state) (h9 : w.sc.transfer_state ≤ 9) :
    Prog w0 lo (umass_clear_endpoint_stall K w e x) := by
  rcases clear_stall_cases K hs e x with h | h
  · exact Prog.fin h
  · exact Prog.armed h hlo h9

theorem prog_setup_or_reset (K : usb_h) (w0 w : World) (lo : Int) (hs : Same w0 w) (p : Nat)
    (b : Buf) (l : Int) (f x : Nat) (st : Int)
    (hlo : lo < w.sc.transfer_state) (h7 : w.sc.transfer_state ≤ 7) :
    Prog w0 lo (if (umass_setup_transfer K w p b l f x).2 ≠ usbd_status.USBD_NORMAL_COMPLETION
      then umass_bbb_reset K (umass_setup_transfer K w p b l f x).1 st
      else (umass_setup_transfer K w p b l f x).1) := by
  rcases setup_or_reset K hs p b l f x st with h | h | h
  · exact Prog.fin h
  · exact Prog.armed h hlo (by omega)
  · exact Prog.armed h (by simp only [TSTATE_BBB_RESET1]; omega) (by decide)

theorem prog_case_RESET3 (w0 w : World) (lo : Int) (hs : Same w0 w)
    (hp : w.sc.transfer_priv ≠ 0) : Prog w0 lo (bbb_case_RESET3 w) :=
  Prog.fin (reset_fin hs hp)

theorem prog_case_RESET2 (K : usb_h) (w0 w : World) (lo : Int) (hs : Same w0 w) (hlo : lo < 9) :
    Prog w0 lo (bbb_case_RESET2 K w) :=
  prog_clear_stall K w0 (w.set_state TSTATE_BBB_RESET3) lo (hs.of_eq rfl rfl rfl rfl rfl) _ _
    hlo (le_refl (9 : Int))

theorem prog_case_RESET1 (K : usb_h) (w0 w : World) (lo : Int) (hs : Same w0 w) (hlo : lo < 8) :
    Prog w0 lo (bbb_case_RESET1 K w) :=
  prog_clear_stall K w0 (w.set_state TSTATE_BBB_RESET2) lo (hs.of_eq rfl rfl rfl rfl rfl) _ _
    hlo (show (8 : Int) ≤ 9 by decide)

theorem prog_csw_check (K : usb_h) (w0 w : World) (lo : Int) (hs : Same w0 w) (hlo : lo < 7) :
    Prog w0 lo (bbb_csw_check K w) := by
  unfold bbb_csw_check
  by_cases h1 : UGETDW w.sc.csw.dCSWSignature ≠ CSWSIGNATURE
  · rw [if_pos h1]
    exact prog_bbb_reset K w0 w lo hs _ hlo
  rw [if_neg h1]
  by_cases h2 : UGETDW w.sc.csw.dCSWTag ≠ UGETDW w.sc.cbw.dCBWTag
  · rw [if_pos h2]
    exact prog_bbb_reset K w0 w lo hs _ hlo
  rw [if_neg h2]
  by_cases h3 : w.sc.csw.bCSWStatus > CSWSTATUS_PHASE
  · rw [if_pos h3]
    exact prog_bbb_reset K w0 w lo hs _ hlo
  rw [if_neg h3]
  by_cases h4 : w.sc.csw.bCSWStatus = CSWSTATUS_PHASE
  · rw [if_pos h4]
    exact prog_bbb_reset K w0 w lo hs _ hlo
  rw [if_neg h4]
  by_cases h5 : w.sc.transfer_actlen > w.sc.transfer_datalen
  · rw [if_pos h5]
    exact prog_case_RESET1 K w0 w lo hs (by omega)
  rw [if_neg h5]
  by_cases h6 : w.sc.csw.bCSWStatus = CSWSTATUS_FAILED
  · rw [if_pos h6]
    exact Prog.fin (done_fin hs _ _)
  · rw [if_neg h6]
    exact Prog.fin (done_fin hs _ _)

theorem prog_case_STATUS (K : usb_h) (w0 w : World) (lo : Int) (hs : Same w0 w)
    (err : usbd_status) (hlo : lo < 7) (h4 : w.sc.transfer_state = TSTATE_BBB_STATUS1 → lo < 5) :
    Prog w0 lo (bbb_case_STATUS K w err) := by
  unfold bbb_case_STATUS
  by_cases he : err ≠ usbd_status.USBD_NORMAL_COMPLETION
  · rw [if_pos he]
    by_cases h1 : w.sc.transfer_state = TSTATE_BBB_STATUS1
    · rw [if_pos h1]
      exact prog_clear_stall K w0 (w.set_state TSTATE_BBB_SCLEAR) lo
        (hs.of_eq rfl rfl rfl rfl rfl) _ _ (h4 h1) (show (5 : Int) ≤ 9 by decide)
    · rw [if_neg h1]
      exact prog_bbb_reset K w0 w lo hs _ hlo
  · rw [if_neg he]
    refine prog_csw_check K w0 _ lo ?_ hlo
    exact hs.of_eq rfl rfl rfl rfl rfl

theorem prog_read_csw (K : usb_h) (w0 w : World) (lo : Int) (hs : Same w0 w) (x : Nat)
    (hlo : lo < w.sc.transfer_state) (h7 : w.sc.transfer_state ≤ 7) :
    Prog w0 lo (bbb_read_csw K w x) :=
  prog_setup_or_reset K w0 w lo hs _ _ _ _ _ _ hlo h7

theorem prog_case_SCLEAR (K : usb_h) (w0 w : World) (lo : Int) (hs : Same w0 w)
    (err : usbd_status) (hlo : lo < 6)
    (h4 : (w.sc.transfer_state = TSTATE_BBB_COMMAND ∨ w.sc.transfer_state = TSTATE_BBB_DATA ∨
      w.sc.transfer_state = TSTATE_BBB_DCLEAR) → lo < 4) :
    Prog w0 lo (bbb_case_SCLEAR K w err) := by
  unfold bbb_case_SCLEAR
  by_cases he : err ≠ usbd_status.USBD_NORMAL_COMPLETION
  · rw [if_pos he]
    exact prog_bbb_reset K w0 w lo hs _ (by omega)
  · rw [if_neg he]
    by_cases hf : w.sc.transfer_state = TSTATE_BBB_COMMAND ∨
        w.sc.transfer_state = TSTATE_BBB_DATA ∨ w.sc.transfer_state = TSTATE_BBB_DCLEAR
    · rw [if_pos hf]
      exact prog_read_csw K w0 (w.set_state TSTATE_BBB_STATUS1) lo
        (hs.of_eq rfl rfl rfl rfl rfl) _ (h4 hf) (show (4 : Int) ≤ 7 by decide)
    · rw [if_neg hf]
      exact prog_read_csw K w0 (w.set_state TSTATE_BBB_STATUS2) lo
        (hs.of_eq rfl rfl rfl rfl rfl) _ hlo (show (6 : Int) ≤ 7 by decide)

theorem prog_case_DCLEAR (K : usb_h) (w0 w : World) (lo : Int) (hs : Same w0 w)
    (err : usbd_status) (hlo : lo < 4) :
    Prog w0 lo (bbb_case_DCLEAR K w err) := by
  unfold bbb_case_DCLEAR
  by_cases hin : w.sc.transfer_dir = DIR_IN
  · simp only [if_pos hin]
    exact prog_case_SCLEAR K w0 _ lo (hs.log_memcpy _ _ _) err (by omega) (fun _ => hlo)
  · simp only [if_neg hin]
    exact prog_case_SCLEAR K w0 w lo hs err (by omega) (fun _ => hlo)

theorem prog_case_DATA (K : usb_h) (w0 w : World) (lo : Int) (hs : Same w0 w) (n : Nat)
    (err : usbd_status) (hlo : lo < 3) :
    Prog w0 lo (bbb_case_DATA K w n err) := by
  unfold bbb_case_DATA
  by_cases hdir : w.sc.transfer_dir ≠ DIR_NONE
  · simp only [if_pos hdir]
    by_cases he : err ≠ usbd_status.USBD_NORMAL_COMPLETION
    · simp only [if_pos he]
      by_cases hst : err = usbd_status.USBD_STALLED
      · simp only [if_pos hst]
        refine prog_clear_stall K w0 _ lo ?_ _ _ ?_ ?_
        · exact hs.of_eq rfl rfl rfl rfl rfl
        · exact hlo
        · exact (show (3 : Int) ≤ 9 by decide)
      · simp only [if_neg hst]
        refine prog_bbb_reset K w0 _ lo ?_ _ (by omega)
        exact hs.of_eq rfl rfl rfl rfl rfl
    · simp only [if_neg he]
      refine prog_case_DCLEAR K w0 _ lo ?_ err (by omega)
      exact hs.of_eq rfl rfl rfl rfl rfl
  · simp only [if_neg hdir]
    exact prog_case_DCLEAR K w0 w lo hs err (by omega)

theorem prog_case_COMMAND (K : usb_h) (w0 w : World) (lo : Int) (hs : Same w0 w) (n : Nat)
    (err : usbd_status) (hlo : lo < 2) :
    Prog w0 lo (bbb_case_COMMAND K w n err) := by
  unfold bbb_case_COMMAND
  by_cases he : err ≠ usbd_status.USBD_NORMAL_COMPLETION
  · rw [if_pos he]
    exact prog_bbb_reset K w0 w lo hs _ (by omega)
  · rw [if_neg he]
    by_cases hin : (w.set_state TSTATE_BBB_DATA).sc.transfer_dir = DIR_IN
    · simp only [if_pos hin]
      refine prog_setup_or_reset K w0 _ lo ?_ _ _ _ _ _ _ ?_ ?_
      · exact hs.of_eq rfl rfl rfl rfl rfl
      · exact hlo
      · exact (show (2 : Int) ≤ 7 by decide)
    · simp only [if_neg hin]
      by_cases hout : (w.set_state TSTATE_BBB_DATA).sc.transfer_dir = DIR_OUT
      · simp only [if_pos hout]
        refine prog_setup_or_reset K w0 _ lo ?_ _ _ _ _ _ _ ?_ ?_
        · exact (hs.of_eq rfl rfl rfl rfl rfl).log_memcpy _ _ _
        · exact hlo
        · exact (show (2 : Int) ≤ 7 by decide)
      · simp only [if_neg hout]
        refine prog_case_DATA K w0 _ lo ?_ n err (by omega)
        exact hs.of_eq rfl rfl rfl rfl rfl

theorem bbb_state_cancelled (K : usb_h) (w : World) (n : Nat) :
    umass_bbb_state K w n usbd_status.USBD_CANCELLED = umass_transfer_done w 0 STATUS_TIMEOUT := by
  simp [umass_bbb_state]

theorem bbb_state_dying (K : usb_h) (w : World) (n : Nat) (err : usbd_status)
    (hc : err ≠ usbd_status.USBD_CANCELLED) (hd : w.sc.sc_dying = true) :
    umass_bbb_state K w n err =
      umass_transfer_done w w.sc.transfer_datalen STATUS_WIRE_FAILED := by
  simp [umass_bbb_state, hc, hd]

theorem bbb_state_COMMAND (K : usb_h) (w : World) (n : Nat) (err : usbd_status)
    (hc : err ≠ usbd_status.USBD_CANCELLED) (hd : w.sc.sc_dying = false)
    (h : w.sc.transfer_state = TSTATE_BBB_COMMAND) :
    umass_bbb_state K w n err = bbb_case_COMMAND K w n err := by
  simp [umass_bbb_state, hc, hd, h]

theorem bbb_state_DATA (K : usb_h) (w : World) (n : Nat) (err : usbd_status)
    (hc : err ≠ usbd_status.USBD_CANCELLED) (hd : w.sc.sc_dying = false)
    (h : w.sc.transfer_state = TSTATE_BBB_DATA) :
    umass_bbb_state K w n err = bbb_case_DATA K w n err := by
  simp [umass_bbb_state, hc, hd, h, TSTATE_BBB_COMMAND, TSTATE_BBB_DATA]

theorem bbb_state_DCLEAR (K : usb_h) (w : World) (n : Nat) (err : usbd_status)
    (hc : err ≠ usbd_status.USBD_CANCELLED) (hd : w.sc.sc_dying = false)
    (h : w.sc.transfer_state = TSTATE_BBB_DCLEAR) :
    umass_bbb_state K w n err = bbb_case_DCLEAR K w err := by
  simp [umass_bbb_state, hc, hd, h, TSTATE_BBB_COMMAND, TSTATE_BBB_DATA, TSTATE_BBB_DCLEAR]

theorem bbb_state_SCLEAR (K : usb_h) (w : World) (n : Nat) (err : usbd_status)
    (hc : err ≠ usbd_status.USBD_CANCELLED) (hd : w.sc.sc_dying = false)
    (h : w.sc.transfer_state = TSTATE_BBB_SCLEAR) :
    umass_bbb_state K w n err = bbb_case_SCLEAR K w err := by
  simp [umass_bbb_state, hc, hd, h, TSTATE_BBB_COMMAND, TSTATE_BBB_DATA, TSTATE_BBB_DCLEAR,
    TSTATE_BBB_SCLEAR]

theorem bbb_state_STATUS (K : usb_h) (w : World) (n : Nat) (err : usbd_status)
    (hc : err ≠ usbd_status.USBD_CANCELLED) (hd : w.sc.sc_dying = false)
    (h : w.sc.transfer_state = TSTATE_BBB_STATUS1 ∨ w.sc.transfer_state = TSTATE_BBB_STATUS2) :
    umass_bbb_state K w n err = bbb_case_STATUS K w err := by
  rcases h with h | h <;>
  simp [umass_bbb_state, hc, hd, h, TSTATE_BBB_COMMAND, TSTATE_BBB_DATA, TSTATE_BBB_DCLEAR,
    TSTATE_BBB_SCLEAR, TSTATE_BBB_STATUS1, TSTATE_BBB_STATUS2]

theorem bbb_state_RESET1 (K : usb_h) (w : World) (n : Nat) (err : usbd_status)
    (hc : err ≠ usbd_status.USBD_CANCELLED) (hd : w.sc.sc_dying = false)
    (h : w.sc.transfer_state = TSTATE_BBB_RESET1) :
    umass_bbb_state K w n err = bbb_case_RESET1 K w := by
  simp [umass_bbb_state, hc, hd, h, TSTATE_BBB_COMMAND, TSTATE_BBB_DATA, TSTATE_BBB_DCLEAR,
    TSTATE_BBB_SCLEAR, TSTATE_BBB_STATUS1, TSTATE_BBB_STATUS2, TSTATE_BBB_RESET1]

theorem bbb_state_RESET2 (K : usb_h) (w : World) (n : Nat) (err : usbd_status)
    (hc : err ≠ usbd_status.USBD_CANCELLED) (hd : w.sc.sc_dying = false)
    (h : w.sc.transfer_state = TSTATE_BBB_RESET2) :
    umass_bbb_state K w n err = bbb_case_RESET2 K w := by
  simp [umass_bbb_state, hc, hd, h, TSTATE_BBB_COMMAND, TSTATE_BBB_DATA, TSTATE_BBB_DCLEAR,
    TSTATE_BBB_SCLEAR, TSTATE_BBB_STATUS1, TSTATE_BBB_STATUS2, TSTATE_BBB_RESET1,
    TSTATE_BBB_RESET2]

theorem bbb_state_RESET3 (K : usb_h) (w : World) (n : Nat) (err : usbd_status)
    (hc : err ≠ usbd_status.USBD_CANCELLED) (hd : w.sc.sc_dying = false)
    (h : w.sc.transfer_state = TSTATE_BBB_RESET3) :
    umass_bbb_state K w n err = bbb_case_RESET3 w := by
  simp [umass_bbb_state, hc, hd, h, TSTATE_BBB_COMMAND, TSTATE_BBB_DATA, TSTATE_BBB_DCLEAR,
    TSTATE_BBB_SCLEAR, TSTATE_BBB_STATUS1, TSTATE_BBB_STATUS2, TSTATE_BBB_RESET1,
    TSTATE_BBB_RESET2, TSTATE_BBB_RESET3]

/-- One completion handled by `umass_bbb_state` in one of the states 1..9 ends
the command or leaves one transfer in flight in a higher state. -/
theorem bbb_state_step (K : usb_h) (w0 w : World) (hs : Same w0 w) (n : Nat) (err : usbd_status)
    (h1 : 1 ≤ w.sc.transfer_state) (h9 : w.sc.transfer_state ≤ 9)
    (hp : w.sc.transfer_priv ≠ 0) :
    Prog w0 w.sc.transfer_state (umass_bbb_state K w n err) := by
  by_cases hc : err = usbd_status.USBD_CANCELLED
  · subst hc
    rw [bbb_state_cancelled]
    exact Prog.fin (done_fin hs _ _)
  by_cases hd : w.sc.sc_dying = true
  · rw [bbb_state_dying K w n err hc hd]
    exact Prog.fin (done_fin hs _ _)
  have hd' : w.sc.sc_dying = false := by simpa using hd
  have hcases : w.sc.transfer_state = 1 ∨ w.sc.transfer_state = 2 ∨ w.sc.transfer_state = 3 ∨
      w.sc.transfer_state = 4 ∨ w.sc.transfer_state = 5 ∨ w.sc.transfer_state = 6 ∨
      w.sc.transfer_state = 7 ∨ w.sc.transfer_state = 8 ∨ w.sc.transfer_state = 9 := by omega
  rcases hcases with h | h | h | h | h | h | h | h | h
  · rw [bbb_state_COMMAND K w n err hc hd' h, h]
    exact prog_case_COMMAND K w0 w _ hs n err (by decide)
  · rw [bbb_state_DATA K w n err hc hd' h, h]
    exact prog_case_DATA K w0 w _ hs n err (by decide)
  · rw [bbb_state_DCLEAR K w n err hc hd' h, h]
    exact prog_case_DCLEAR K w0 w _ hs err (by decide)
  · rw [bbb_state_STATUS K w n err hc hd' (Or.inl h), h]
    exact prog_case_STATUS K w0 w _ hs err (by decide) (fun _ => by decide)
  · rw [bbb_state_SCLEAR K w n err hc hd' h]
    refine prog_case_SCLEAR K w0 w _ hs err (by omega) (fun h' => ?_)
    simp only [TSTATE_BBB_COMMAND, TSTATE_BBB_DATA, TSTATE_BBB_DCLEAR] at h'
    omega
  · rw [bbb_state_STATUS K w n err hc hd' (Or.inr h)]
    refine prog_case_STATUS K w0 w _ hs err (by omega) (fun h' => ?_)
    simp only [TSTATE_BBB_STATUS1] at h'
    omega
  · rw [bbb_state_RESET1 K w n err hc hd' h, h]
    exact prog_case_RESET1 K w0 w _ hs (by decide)
  · rw [bbb_state_RESET2 K w n err hc hd' h, h]
    exact prog_case_RESET2 K w0 w _ hs (by decide)
  · rw [bbb_state_RESET3 K w n err hc hd' h]
    exact prog_case_RESET3 w0 w _ hs hp

/-! ## C1: one callback per command -/

theorem RunInv.of_prog (base : List (Nat × Nat × Int × Int)) (cb priv : Nat) {w0 w' : World}
    {lo : Int} (h : Prog w0 lo w') (hi : w0.inflight = []) (hb : callbacks w0.trace = base)
    (hcb : w0.sc.transfer_cb = cb) (hpr : w0.sc.transfer_priv = priv) :
    RunInv base cb priv (lo + 1) w' := by
  rcases h with ⟨_, h2, h3, r, s, h4⟩ | ⟨s, h1, h2, ⟨k1, k2, _⟩, h4, ⟨x, h5⟩, h6⟩
  · exact Or.inl ⟨h2, h3.trans hi, r, s, by rw [h4, hb, hcb, hpr]⟩
  · refine Or.inr ⟨by omega, by omega, ⟨x, by rw [h5, hi]; rfl⟩, h6.trans hb, k1.trans hcb,
      k2.trans hpr⟩

theorem RunInv.mono {base : List (Nat × Nat × Int × Int)} {cb priv : Nat} {n m : Int}
    {w : World} (h : RunInv base cb priv n w) (hm : m ≤ n) : RunInv base cb priv m w := by
  rcases h with h | ⟨h1, h2⟩
  · exact Or.inl h
  · exact Or.inr ⟨le_trans hm h1, h2⟩

theorem bbb_complete_nil (K : usb_h) (w : World) (c : Completion) (h : w.inflight = []) :
    bbb_complete K w c = w := by
  simp only [bbb_complete, h]

theorem bbb_complete_cons (K : usb_h) (w : World) (c : Completion) (x : Nat) (rest : List Nat)
    (h : w.inflight = x :: rest) :
    bbb_complete K w c = umass_bbb_state K
      { w with sc := { w.sc with
                         sc_dying := w.sc.sc_dying || c.dying
                         csw := if w.sc.transfer_state = TSTATE_BBB_STATUS1 ∨
                           w.sc.transfer_state = TSTATE_BBB_STATUS2 then c.csw else w.sc.csw }
               inflight := rest } c.actlen c.err := by
  simp only [bbb_complete, h]

theorem bbb_complete_inv (K : usb_h) (base : List (Nat × Nat × Int × Int)) (cb priv : Nat)
    (n : Int) (w : World) (c : Completion) (hn : 1 ≤ n) (hp : priv ≠ 0)
    (h : RunInv base cb priv n w) : RunInv base cb priv (n + 1) (bbb_complete K w c) := by
  rcases h with ⟨h1, h2, h3⟩ | ⟨h1, h2, ⟨x, h3⟩, h4, h5, h6⟩
  · rw [bbb_complete_nil K w c h2]
    exact Or.inl ⟨h1, h2, h3⟩
  · rw [bbb_complete_cons K w c x [] h3]
    have hstep := bbb_state_step K _ _ (Same.refl
      { w with sc := { w.sc with
                         sc_dying := w.sc.sc_dying || c.dying
                         csw := if w.sc.transfer_state = TSTATE_BBB_STATUS1 ∨
                           w.sc.transfer_state = TSTATE_BBB_STATUS2 then c.csw else w.sc.csw }
               inflight := [] }) c.actlen c.err (le_trans hn h1) h2
      (by rw [← h6] at hp; exact hp)
    exact (RunInv.of_prog base cb priv hstep rfl h4 h5 h6).mono (by
      show n + 1 ≤ w.sc.transfer_state + 1
      omega)

theorem bbb_run_inv (K : usb_h) (base : List (Nat × Nat × Int × Int)) (cb priv : Nat)
    (hp : priv ≠ 0) (cs : List Completion) :
    ∀ (n : Int) (w : World), 1 ≤ n → RunInv base cb priv n w →
      RunInv base cb priv (n + cs.length) (bbb_run K w cs) := by
  induction cs with
  | nil => intro n w _ h; simpa [bbb_run] using h
  | cons c t ih =>
    intro n w hn h
    have h1 := bbb_complete_inv K base cb priv n w c hn hp h
    have h2 := ih (n + 1) (bbb_complete K w c) (by omega) h1
    have e : n + ((c :: t).length : Int) = n + 1 + (t.length : Int) := by
      simp only [List.length_cons, Nat.cast_add, Nat.cast_one]; ring
    rw [e]
    exact h2

theorem bbb_send_cbw_inv (K : usb_h) (w : World) (flags : Nat) (hinf : w.inflight = [])
    (hst : w.sc.transfer_state = TSTATE_BBB_COMMAND) :
    RunInv (callbacks w.trace) w.sc.transfer_cb w.sc.transfer_priv 1 (bbb_send_cbw K w flags) := by
  have h : Prog w 0 (bbb_send_cbw K w flags) :=
    prog_setup_or_reset K w w 0 (Same.refl w) _ _ _ _ _ _ (by rw [hst]; decide)
      (by rw [hst]; decide)
  exact RunInv.of_prog _ _ _ h hinf rfl rfl rfl

theorem bbb_transfer_inv (K : usb_h) (w : World) (lun : Int) (cmd : List Nat) (cmdlen : Int)
    (data : Nat) (datalen dir : Int) (timeout flags cb priv : Nat)
    (hidle : w.sc.transfer_state = TSTATE_IDLE) (hinf : w.inflight = []) :
    RunInv (callbacks w.trace) cb priv 1
      (umass_bbb_transfer K w lun cmd cmdlen data datalen dir timeout flags cb priv) := by
  unfold umass_bbb_transfer
  by_cases hd : w.sc.sc_dying = true
  · rw [if_pos hd]
    left
    exact ⟨hidle, hinf, datalen, STATUS_WIRE_FAILED, by
      simp [World.log, callbacks_append, callbacks]⟩
  · rw [if_neg hd]
    have h := bbb_send_cbw_inv K
      (bbb_transfer_store K w lun cmd cmdlen data datalen dir timeout cb priv) flags
      (by simpa [bbb_transfer_store] using hinf) (by simp [bbb_transfer_store])
    simpa [bbb_transfer_store] using h

/-- C1 (amended): a command issued with `umass_bbb_transfer` on an idle session
with nothing in flight, with any arguments but a non-NULL context `priv`, and
followed by any sequence `cs` of completions: at every point the callback `cb`
has been called with `priv` exactly once if the session is idle again and not at
all otherwise, and after at most nine completions the session is idle. -/
theorem C1_callback_exactly_once (K : usb_h) (w : World) (lun : Int) (cmd : List Nat)
    (cmdlen : Int) (data : Nat) (datalen dir : Int) (timeout flags cb priv : Nat)
    (cs : List Completion)
    (hidle : w.sc.transfer_state = TSTATE_IDLE) (hinf : w.inflight = []) (hpriv : priv ≠ 0) :
    (((bbb_run K (umass_bbb_transfer K w lun cmd cmdlen data datalen dir timeout flags cb priv)
          cs).sc.transfer_state = TSTATE_IDLE ∧
        ∃ residue status,
          callbacks (bbb_run K
            (umass_bbb_transfer K w lun cmd cmdlen data datalen dir timeout flags cb priv)
            cs).trace = callbacks w.trace ++ [(cb, priv, residue, status)]) ∨
      ((bbb_run K (umass_bbb_transfer K w lun cmd cmdlen data datalen dir timeout flags cb priv)
          cs).sc.transfer_state ≠ TSTATE_IDLE ∧
        callbacks (bbb_run K
          (umass_bbb_transfer K w lun cmd cmdlen data datalen dir timeout flags cb priv)
          cs).trace = callbacks w.trace)) ∧
    (9 ≤ cs.length →
      (bbb_run K (umass_bbb_transfer K w lun cmd cmdlen data datalen dir timeout flags cb priv)
        cs).sc.transfer_state = TSTATE_IDLE) := by
  have h := bbb_run_inv K (callbacks w.trace) cb priv hpriv cs 1 _ (le_refl 1)
    (bbb_transfer_inv K w lun cmd cmdlen data datalen dir timeout flags cb priv hidle hinf)
  constructor
  · rcases h with ⟨h1, _, h3⟩ | ⟨h1, _, _, h4, _, _⟩
    · exact Or.inl ⟨h1, h3⟩
    · refine Or.inr ⟨?_, h4⟩
      simp only [TSTATE_IDLE]
      omega
  · intro h9
    rcases h with ⟨h1, _, _⟩ | ⟨h1, h2, _⟩
    · exact h1
    · omega

/-- C1 (amended) on a 512-byte read with callback 7 and context 9, followed by the
completions of the CBW, of the data and of a good CSW. -/
theorem C1_callback_exactly_once_witness :
    (((bbb_run K_std (umass_bbb_transfer K_std w_bbb 0 [0x28, 0, 0, 0, 0, 0, 0, 0, 1, 0] 10
          0x1000 512 DIR_IN 1000 0 7 9)
          [completion usbd_status.USBD_NORMAL_COMPLETION 31,
             completion usbd_status.USBD_NORMAL_COMPLETION 512,
             completion_csw 42 0 CSWSTATUS_GOOD]).sc.transfer_state = TSTATE_IDLE ∧
        ∃ residue status,
          callbacks (bbb_run K_std
            (umass_bbb_transfer K_std w_bbb 0 [0x28, 0, 0, 0, 0, 0, 0, 0, 1, 0] 10
              0x1000 512 DIR_IN 1000 0 7 9)
            [completion usbd_status.USBD_NORMAL_COMPLETION 31,
             completion usbd_status.USBD_NORMAL_COMPLETION 512,
             completion_csw 42 0 CSWSTATUS_GOOD]).trace =
            callbacks w_bbb.trace ++ [(7, 9, residue, status)]) ∨
      ((bbb_run K_std (umass_bbb_transfer K_std w_bbb 0 [0x28, 0, 0, 0, 0, 0, 0, 0, 1, 0] 10
          0x1000 512 DIR_IN 1000 0 7 9)
          [completion usbd_status.USBD_NORMAL_COMPLETION 31,
             completion usbd_status.USBD_NORMAL_COMPLETION 512,
             completion_csw 42 0 CSWSTATUS_GOOD]).sc.transfer_state ≠ TSTATE_IDLE ∧
        callbacks (bbb_run K_std
          (umass_bbb_transfer K_std w_bbb 0 [0x28, 0, 0, 0, 0, 0, 0, 0, 1, 0] 10
            0x1000 512 DIR_IN 1000 0 7 9)
          [completion usbd_status.USBD_NORMAL_COMPLETION 31,
             completion usbd_status.USBD_NORMAL_COMPLETION 512,
             completion_csw 42 0 CSWSTATUS_GOOD]).trace = callbacks w_bbb.trace)) ∧
    (9 ≤ [completion usbd_status.USBD_NORMAL_COMPLETION 31,
             completion usbd_status.USBD_NORMAL_COMPLETION 512,
             completion_csw 42 0 CSWSTATUS_GOOD].length →
      (bbb_run K_std (umass_bbb_transfer K_std w_bbb 0 [0x28, 0, 0, 0, 0, 0, 0, 0, 1, 0] 10
          0x1000 512 DIR_IN 1000 0 7 9)
        [completion usbd_status.USBD_NORMAL_COMPLETION 31,
             completion usbd_status.USBD_NORMAL_COMPLETION 512,
             completion_csw 42 0 CSWSTATUS_GOOD]).sc.transfer_state = TSTATE_IDLE) :=
  C1_callback_exactly_once K_std w_bbb 0 [0x28, 0, 0, 0, 0, 0, 0, 0, 1, 0] 10 0x1000 512 DIR_IN
    1000 0 7 9 [completion usbd_status.USBD_NORMAL_COMPLETION 31,
             completion usbd_status.USBD_NORMAL_COMPLETION 512,
             completion_csw 42 0 CSWSTATUS_GOOD] (by decide) (by decide)
    (by decide)

/-- C1 as stated fails: a command issued with the context `priv = NULL` whose CBW
transfer fails runs the reset and ends idle with nothing in flight, and the
callback has not been called at all (`umass_transfer_reset` calls it only for a
non-NULL `transfer_priv`). -/
theorem C1_no_callback_without_context :
    (bbb_run K_std (umass_bbb_transfer K_std w_bbb 0 [0, 0, 0, 0, 0, 0] 6 0 0 DIR_NONE 1000 0 7 0)
      [completion usbd_status.USBD_IOERROR 0, completion usbd_status.USBD_NORMAL_COMPLETION 0,
       completion usbd_status.USBD_NORMAL_COMPLETION 0,
       completion usbd_status.USBD_NORMAL_COMPLETION 0]).sc.transfer_state = TSTATE_IDLE ∧
    (bbb_run K_std (umass_bbb_transfer K_std w_bbb 0 [0, 0, 0, 0, 0, 0] 6 0 0 DIR_NONE 1000 0 7 0)
      [completion usbd_status.USBD_IOERROR 0, completion usbd_status.USBD_NORMAL_COMPLETION 0,
       completion usbd_status.USBD_NORMAL_COMPLETION 0,
       completion usbd_status.USBD_NORMAL_COMPLETION 0]).inflight = [] ∧
    callbacks (bbb_run K_std
      (umass_bbb_transfer K_std w_bbb 0 [0, 0, 0, 0, 0, 0] 6 0 0 DIR_NONE 1000 0 7 0)
      [completion usbd_status.USBD_IOERROR 0, completion usbd_status.USBD_NORMAL_COMPLETION 0,
       completion usbd_status.USBD_NORMAL_COMPLETION 0,
       completion usbd_status.USBD_NORMAL_COMPLETION 0]).trace = [] := by
  decide

/-! ## Lemmas for the symbolic execution of commands -/

theorem submissions_append (a b : List Event) :
    submissions (a ++ b) = submissions a ++ submissions b := by
  induction a with
  | nil => rfl
  | cons e t ih => cases e <;> simp [submissions, ih]

theorem ctrl_requests_append (a b : List Event) :
    ctrl_requests (a ++ b) = ctrl_requests a ++ ctrl_requests b := by
  induction a with
  | nil => rfl
  | cons e t ih => cases e <;> simp [ctrl_requests, ih]

theorem UGETDW_USETDW (v : Int) : UGETDW (USETDW v) = (v % 4294967296).toNat := by
  have h0 : 0 ≤ v % 4294967296 := Int.emod_nonneg _ (by decide)
  have h1 : v % 4294967296 < 4294967296 := Int.emod_lt_of_pos _ (by decide)
  simp only [UGETDW, USETDW, List.getD_cons_zero, List.getD_cons_succ]
  omega

/-- The transport accepts the next transfer: `usbd_transfer` on a transport
without scripted refusals. -/
theorem usbd_transfer_accept (w : World) (x : Nat) (h : w.usbd_transfer_ret = []) :
    usbd_transfer w x =
      ({ w with usbd_transfer_ret := []
                trace := w.trace ++ [Event.usbd_transfer x usbd_status.USBD_IN_PROGRESS]
                inflight := w.inflight ++ [x] }, usbd_status.USBD_IN_PROGRESS) := by
  simp [usbd_transfer, h]

theorem setup_transfer_accept (K : usb_h) (w : World) (p : Nat) (b : Buf) (l : Int) (f x : Nat)
    (hd : w.sc.sc_dying = false) (h : w.usbd_transfer_ret = []) :
    umass_setup_transfer K w p b l f x =
      ({ w with usbd_transfer_ret := []
                trace := (if w.sc.sc_methods = K.UMASS_BBB then
                    w.trace ++ [Event.usbd_setup_xfer x b l f w.sc.timeout]
                  else w.trace) ++ [Event.usbd_transfer x usbd_status.USBD_IN_PROGRESS]
                inflight := w.inflight ++ [x] }, usbd_status.USBD_NORMAL_COMPLETION) := by
  unfold umass_setup_transfer
  by_cases hm : w.sc.sc_methods = K.UMASS_BBB
  · simp [hd, hm, usbd_transfer, h, World.log]
  · simp [hd, hm, usbd_transfer, h, World.log]



theorem UGETDW_lt (x : uDWord) : UGETDW x < 4294967296 := by
  simp only [UGETDW]
  omega

theorem UGETDW_USETDW_UGETDW (x : uDWord) : UGETDW (USETDW (UGETDW x : Nat)) = UGETDW x := by
  have h := UGETDW_lt x
  rw [UGETDW_USETDW]
  omega

theorem csw_quirks_status (sc : umass_softc) :
    (bbb_csw_quirks sc).bCSWStatus = sc.csw.bCSWStatus := by
  unfold bbb_csw_quirks
  split_ifs <;> rfl

theorem csw_quirks_residue (sc : umass_softc) :
    (bbb_csw_quirks sc).dCSWDataResidue = sc.csw.dCSWDataResidue := by
  unfold bbb_csw_quirks
  split_ifs <;> rfl

theorem csw_quirks_sig (sc : umass_softc) :
    UGETDW (bbb_csw_quirks sc).dCSWSignature =
      if sc.sc_quirks &&& UMASS_QUIRK_WRONG_CSWSIG ≠ 0 ∧
          UGETDW sc.csw.dCSWSignature = CSWSIGNATURE_OLYMPUS_C1 then CSWSIGNATURE
      else UGETDW sc.csw.dCSWSignature := by
  have e : UGETDW (USETDW (CSWSIGNATURE : Nat)) = CSWSIGNATURE := by
    rw [UGETDW_USETDW]; decide
  unfold bbb_csw_quirks
  split_ifs <;> simp_all

theorem csw_quirks_tag (sc : umass_softc) :
    UGETDW (bbb_csw_quirks sc).dCSWTag =
      if sc.sc_quirks &&& UMASS_QUIRK_WRONG_CSWTAG ≠ 0 then UGETDW sc.cbw.dCBWTag
      else UGETDW sc.csw.dCSWTag := by
  unfold bbb_csw_quirks
  split_ifs <;> simp_all [UGETDW_USETDW_UGETDW]

theorem csw_quirks_sig_valid (sc : umass_softc)
    (h : UGETDW sc.csw.dCSWSignature = CSWSIGNATURE) :
    UGETDW (bbb_csw_quirks sc).dCSWSignature = CSWSIGNATURE := by
  rw [csw_quirks_sig]
  split_ifs <;> simp_all

theorem csw_quirks_tag_valid (sc : umass_softc)
    (h : UGETDW sc.csw.dCSWTag = UGETDW sc.cbw.dCBWTag) :
    UGETDW (bbb_csw_quirks sc).dCSWTag = UGETDW sc.cbw.dCBWTag := by
  rw [csw_quirks_tag]
  split_ifs <;> simp_all



/-! ## C3: a successful read -/

/-- C3: a BBB data-in command of `datalen` bytes on a session that is and stays
live, with nothing else in flight and a transport that accepts the transfers:
when the CBW transfer completes normally, the data transfer completes normally
with actual length at most `datalen`, and the CSW read completes normally with
the valid signature, the tag of the CBW and status byte 0 (good) or 1 (failed),
the callback is called once, with residue `datalen - actlen` and status
`STATUS_CMD_OK` for status byte 0 and `STATUS_CMD_FAILED` for status byte 1; the
session is idle, nothing is in flight, and no control request (hence no reset)
was issued. -/
theorem C3_bbb_read_completes (K : usb_h) (w : World) (lun : Int) (cmd : List Nat) (cmdlen : Int)
    (data : Nat) (datalen : Int) (timeout flags cb priv : Nat) (c1 c2 c3 : Completion)
    (hlive : w.sc.sc_dying = false) (hinf : w.inflight = []) (hacc : w.usbd_transfer_ret = [])
    (h1 : c1.err = usbd_status.USBD_NORMAL_COMPLETION) (h1d : c1.dying = false)
    (h2 : c2.err = usbd_status.USBD_NORMAL_COMPLETION) (h2d : c2.dying = false)
    (h2a : (c2.actlen : Int) ≤ datalen) (hdl : datalen < 2147483648)
    (h3 : c3.err = usbd_status.USBD_NORMAL_COMPLETION) (h3d : c3.dying = false)
    (hsig : UGETDW c3.csw.dCSWSignature = CSWSIGNATURE)
    (htag : UGETDW c3.csw.dCSWTag = UGETDW (USETDW w.dCBWtag))
    (hst : c3.csw.bCSWStatus = CSWSTATUS_GOOD ∨ c3.csw.bCSWStatus = CSWSTATUS_FAILED) :
    callbacks (bbb_run K
        (umass_bbb_transfer K w lun cmd cmdlen data datalen DIR_IN timeout flags cb priv)
        [c1, c2, c3]).trace =
      callbacks w.trace ++ [(cb, priv, datalen - c2.actlen,
        if c3.csw.bCSWStatus = CSWSTATUS_FAILED then STATUS_CMD_FAILED else STATUS_CMD_OK)] ∧
    (bbb_run K (umass_bbb_transfer K w lun cmd cmdlen data datalen DIR_IN timeout flags cb priv)
        [c1, c2, c3]).sc.transfer_state = TSTATE_IDLE ∧
    (bbb_run K (umass_bbb_transfer K w lun cmd cmdlen data datalen DIR_IN timeout flags cb priv)
        [c1, c2, c3]).inflight = [] ∧
    ctrl_requests (bbb_run K
        (umass_bbb_transfer K w lun cmd cmdlen data datalen DIR_IN timeout flags cb priv)
        [c1, c2, c3]).trace = ctrl_requests w.trace := by
  have hact : int_of_u32 c2.actlen = (c2.actlen : Int) := by
    unfold int_of_u32; split_ifs <;> omega
  have hnover : ¬ (datalen < (c2.actlen : Int)) := by omega
  simp only [bbb_run, List.foldl, umass_bbb_transfer, hlive, Bool.false_eq_true, if_false,
    bbb_send_cbw]
  rw [setup_transfer_accept K _ _ _ _ _ _ (by simp [bbb_transfer_store, hlive])
    (by simp [bbb_transfer_store, hacc])]
  simp only [ne_eq, not_true_eq_false, if_false]
  by_cases hm : w.sc.sc_methods = K.UMASS_BBB <;> rcases hst with hst | hst <;>
  simp [hm, bbb_complete, bbb_transfer_store, hinf, umass_bbb_state, bbb_case_COMMAND, h1, h1d, h2,
    h2d, h3, h3d, hlive, World.set_state, umass_setup_transfer, usbd_transfer, hacc, World.log,
    bbb_case_DATA, bbb_case_DCLEAR, bbb_case_SCLEAR, bbb_read_csw, bbb_case_STATUS,
    bbb_csw_check, csw_quirks_sig_valid, csw_quirks_tag_valid, csw_quirks_status,
    umass_transfer_done, callbacks_append, callbacks, ctrl_requests_append, ctrl_requests, hact,
    hnover,
    TSTATE_BBB_COMMAND, TSTATE_BBB_DATA, TSTATE_BBB_DCLEAR, TSTATE_BBB_STATUS1,
    TSTATE_BBB_SCLEAR, TSTATE_BBB_STATUS2, TSTATE_IDLE, DIR_IN, DIR_NONE, DIR_OUT, hsig, htag,
    hst, CSWSTATUS_GOOD, CSWSTATUS_FAILED, CSWSTATUS_PHASE]

/-- C3 on the fully transferred 512-byte read: the callback gets `STATUS_CMD_OK`
with residue 0, the session is idle and no control request was issued. -/
theorem C3_bbb_read_completes_witness :
    callbacks (bbb_run K_std
        (umass_bbb_transfer K_std w_bbb 0 [0x28, 0, 0, 0, 0, 0, 0, 0, 1, 0] 10 0x1000 512 DIR_IN
          1000 0 7 9)
        [completion usbd_status.USBD_NORMAL_COMPLETION 31,
         completion usbd_status.USBD_NORMAL_COMPLETION 512,
         completion_csw 42 0 CSWSTATUS_GOOD]).trace = [(7, 9, 0, STATUS_CMD_OK)] ∧
    (bbb_run K_std
        (umass_bbb_transfer K_std w_bbb 0 [0x28, 0, 0, 0, 0, 0, 0, 0, 1, 0] 10 0x1000 512 DIR_IN
          1000 0 7 9)
        [completion usbd_status.USBD_NORMAL_COMPLETION 31,
         completion usbd_status.USBD_NORMAL_COMPLETION 512,
         completion_csw 42 0 CSWSTATUS_GOOD]).sc.transfer_state = TSTATE_IDLE ∧
    (bbb_run K_std
        (umass_bbb_transfer K_std w_bbb 0 [0x28, 0, 0, 0, 0, 0, 0, 0, 1, 0] 10 0x1000 512 DIR_IN
          1000 0 7 9)
        [completion usbd_status.USBD_NORMAL_COMPLETION 31,
         completion usbd_status.USBD_NORMAL_COMPLETION 512,
         completion_csw 42 0 CSWSTATUS_GOOD]).inflight = [] ∧
    ctrl_requests (bbb_run K_std
        (umass_bbb_transfer K_std w_bbb 0 [0x28, 0, 0, 0, 0, 0, 0, 0, 1, 0] 10 0x1000 512 DIR_IN
          1000 0 7 9)
        [completion usbd_status.USBD_NORMAL_COMPLETION 31,
         completion usbd_status.USBD_NORMAL_COMPLETION 512,
         completion_csw 42 0 CSWSTATUS_GOOD]).trace = [] :=
  C3_bbb_read_completes K_std w_bbb 0 [0x28, 0, 0, 0, 0, 0, 0, 0, 1, 0] 10 0x1000 512 1000 0 7 9
    (completion usbd_status.USBD_NORMAL_COMPLETION 31)
    (completion usbd_status.USBD_NORMAL_COMPLETION 512)
    (completion_csw 42 0 CSWSTATUS_GOOD)
    (by decide) (by decide) (by decide) (by decide) (by decide) (by decide) (by decide)
    (by decide) (by decide) (by decide) (by decide) (by decide) (by decide) (by decide)

/-! ## C6, C7: cancellation and dying sessions -/

theorem cbi_state_cancelled (K : usb_h) (w : World) (n : Nat) :
    umass_cbi_state K w n usbd_status.USBD_CANCELLED = umass_transfer_done w 0 STATUS_TIMEOUT := by
  simp [umass_cbi_state]

/-- C6: in every state of the BBB and of the CBI state machine, dying or not, a
completion with `USBD_CANCELLED` sets the state to idle and calls the callback
with `STATUS_TIMEOUT` and residue 0; nothing is handed to the transport (no
transfer, no control request, hence no reset), and nothing is put in flight. -/
theorem C6_cancelled_is_timeout (K : usb_h) (w : World) (n : Nat) :
    (umass_bbb_state K w n usbd_status.USBD_CANCELLED).sc.transfer_state = TSTATE_IDLE ∧
    (umass_bbb_state K w n usbd_status.USBD_CANCELLED).trace =
      w.trace ++ [Event.transfer_cb w.sc.transfer_cb w.sc.transfer_priv 0 STATUS_TIMEOUT] ∧
    (umass_bbb_state K w n usbd_status.USBD_CANCELLED).inflight = w.inflight ∧
    submissions (umass_bbb_state K w n usbd_status.USBD_CANCELLED).trace = submissions w.trace ∧
    ctrl_requests (umass_bbb_state K w n usbd_status.USBD_CANCELLED).trace =
      ctrl_requests w.trace ∧
    (umass_cbi_state K w n usbd_status.USBD_CANCELLED).sc.transfer_state = TSTATE_IDLE ∧
    (umass_cbi_state K w n usbd_status.USBD_CANCELLED).trace =
      w.trace ++ [Event.transfer_cb w.sc.transfer_cb w.sc.transfer_priv 0 STATUS_TIMEOUT] ∧
    (umass_cbi_state K w n usbd_status.USBD_CANCELLED).inflight = w.inflight ∧
    submissions (umass_cbi_state K w n usbd_status.USBD_CANCELLED).trace = submissions w.trace ∧
    ctrl_requests (umass_cbi_state K w n usbd_status.USBD_CANCELLED).trace =
      ctrl_requests w.trace := by
  rw [bbb_state_cancelled, cbi_state_cancelled]
  simp [umass_transfer_done, World.log, World.set_state, submissions_append,
    ctrl_requests_append, submissions, ctrl_requests]

/-- C7: `umass_bbb_transfer` and `umass_cbi_transfer` on a dying session only call
the callback given as argument, once, with `STATUS_WIRE_FAILED` and residue
`datalen`: the trace grows by that call alone (nothing is handed to the
transport), and the softc (with `transfer_state`, the CBW and the stored
operation), the tag counter and the transfers in flight are unchanged. -/
theorem C7_dying_fails_at_once (K : usb_h) (w : World) (lun : Int) (cmd : List Nat)
    (cmdlen : Int) (data : Nat) (datalen dir : Int) (timeout flags cb priv : Nat)
    (hd : w.sc.sc_dying = true) :
    (umass_bbb_transfer K w lun cmd cmdlen data datalen dir timeout flags cb priv).trace =
      w.trace ++ [Event.transfer_cb cb priv datalen STATUS_WIRE_FAILED] ∧
    (umass_bbb_transfer K w lun cmd cmdlen data datalen dir timeout flags cb priv).sc = w.sc ∧
    (umass_bbb_transfer K w lun cmd cmdlen data datalen dir timeout flags cb priv).dCBWtag =
      w.dCBWtag ∧
    (umass_bbb_transfer K w lun cmd cmdlen data datalen dir timeout flags cb priv).inflight =
      w.inflight ∧
    (umass_cbi_transfer K w lun cmd cmdlen data datalen dir timeout flags cb priv).trace =
      w.trace ++ [Event.transfer_cb cb priv datalen STATUS_WIRE_FAILED] ∧
    (umass_cbi_transfer K w lun cmd cmdlen data datalen dir timeout flags cb priv).sc = w.sc ∧
    (umass_cbi_transfer K w lun cmd cmdlen data datalen dir timeout flags cb priv).dCBWtag =
      w.dCBWtag ∧
    (umass_cbi_transfer K w lun cmd cmdlen data datalen dir timeout flags cb priv).inflight =
      w.inflight := by
  unfold umass_bbb_transfer umass_cbi_transfer
  rw [if_pos hd, if_pos hd]
  simp [World.log]

/-- C7 on a dying session and a 512-byte read with callback 7 and context 9: the
only event is the call of the callback with `STATUS_WIRE_FAILED` and residue 512,
for `umass_bbb_transfer` and for `umass_cbi_transfer`. -/
theorem C7_dying_fails_at_once_witness :
    w_bbb_dying.sc.sc_dying = true ∧
    (umass_bbb_transfer K_std w_bbb_dying 0 [0, 0, 0, 0, 0, 0] 6 0x1000 512 DIR_IN 1000 0 7 9).trace
      = w_bbb_dying.trace ++ [Event.transfer_cb 7 9 512 STATUS_WIRE_FAILED] ∧
    (umass_bbb_transfer K_std w_bbb_dying 0 [0, 0, 0, 0, 0, 0] 6 0x1000 512 DIR_IN 1000 0 7 9).sc
      = w_bbb_dying.sc ∧
    (umass_bbb_transfer K_std w_bbb_dying 0 [0, 0, 0, 0, 0, 0] 6 0x1000 512 DIR_IN 1000 0 7
      9).dCBWtag = w_bbb_dying.dCBWtag ∧
    (umass_bbb_transfer K_std w_bbb_dying 0 [0, 0, 0, 0, 0, 0] 6 0x1000 512 DIR_IN 1000 0 7
      9).inflight = w_bbb_dying.inflight ∧
    (umass_cbi_transfer K_std w_bbb_dying 0 [0, 0, 0, 0, 0, 0] 6 0x1000 512 DIR_IN 1000 0 7 9).trace
      = w_bbb_dying.trace ++ [Event.transfer_cb 7 9 512 STATUS_WIRE_FAILED] ∧
    (umass_cbi_transfer K_std w_bbb_dying 0 [0, 0, 0, 0, 0, 0] 6 0x1000 512 DIR_IN 1000 0 7 9).sc
      = w_bbb_dying.sc ∧
    (umass_cbi_transfer K_std w_bbb_dying 0 [0, 0, 0, 0, 0, 0] 6 0x1000 512 DIR_IN 1000 0 7
      9).dCBWtag = w_bbb_dying.dCBWtag ∧
    (umass_cbi_transfer K_std w_bbb_dying 0 [0, 0, 0, 0, 0, 0] 6 0x1000 512 DIR_IN 1000 0 7
      9).inflight = w_bbb_dying.inflight :=
  ⟨by decide,
   C7_dying_fails_at_once K_std w_bbb_dying 0 [0, 0, 0, 0, 0, 0] 6 0x1000 512 DIR_IN 1000 0 7 9
      (by decide)⟩

/-! ## C4, C9: validation of the CSW and hard failures -/

theorem bbb_reset_callbacks (K : usb_h) (w : World) (st : Int) :
    callbacks (umass_bbb_reset K w st).trace = callbacks w.trace ∨
    callbacks (umass_bbb_reset K w st).trace =
      callbacks w.trace ++ [(w.sc.transfer_cb, w.sc.transfer_priv, w.sc.transfer_datalen, st)] := by
  simp only [umass_bbb_reset, umass_setup_ctrl_transfer, usbd_transfer, umass_transfer_done,
    World.log, World.set_state]
  split_ifs <;> simp [callbacks_append, callbacks]

/-- C4: in `umass_bbb_state`, for a CSW read that completes without error in state
STATUS1 or STATUS2 on a live session. (1) If the tag of the CSW differs from the
tag of the CBW and `UMASS_QUIRK_WRONG_CSWTAG` is not set (whatever the signature
and `UMASS_QUIRK_WRONG_CSWSIG`), or if the signature is not `CSWSIGNATURE` and is
not the signature `CSWSIGNATURE_OLYMPUS_C1` under `UMASS_QUIRK_WRONG_CSWSIG`, the
handler does exactly `umass_bbb_reset(sc, STATUS_WIRE_FAILED)`, and the callback
is either not called or called with `STATUS_WIRE_FAILED` (never `CMD_OK` or
`CMD_FAILED`). (2) Under `UMASS_QUIRK_WRONG_CSWSIG` the signature
`CSWSIGNATURE_OLYMPUS_C1` is accepted as valid: it is replaced by `CSWSIGNATURE`,
and the handler does what it does for the same CSW with the signature
`CSWSIGNATURE`. -/
theorem C4_csw_tag_and_signature (K : usb_h) (w : World) (n : Nat)
    (hlive : w.sc.sc_dying = false)
    (hst : w.sc.transfer_state = TSTATE_BBB_STATUS1 ∨
      w.sc.transfer_state = TSTATE_BBB_STATUS2) :
    (((w.sc.sc_quirks &&& UMASS_QUIRK_WRONG_CSWTAG = 0 ∧
          UGETDW w.sc.csw.dCSWTag ≠ UGETDW w.sc.cbw.dCBWTag) ∨
        (UGETDW w.sc.csw.dCSWSignature ≠ CSWSIGNATURE ∧
          ¬ (w.sc.sc_quirks &&& UMASS_QUIRK_WRONG_CSWSIG ≠ 0 ∧
            UGETDW w.sc.csw.dCSWSignature = CSWSIGNATURE_OLYMPUS_C1))) →
      umass_bbb_state K w n usbd_status.USBD_NORMAL_COMPLETION =
          umass_bbb_reset K { w with sc := { w.sc with csw := bbb_csw_quirks w.sc } }
            STATUS_WIRE_FAILED ∧
        (callbacks (umass_bbb_state K w n usbd_status.USBD_NORMAL_COMPLETION).trace =
            callbacks w.trace ∨
          callbacks (umass_bbb_state K w n usbd_status.USBD_NORMAL_COMPLETION).trace =
            callbacks w.trace ++ [(w.sc.transfer_cb, w.sc.transfer_priv,
              w.sc.transfer_datalen, STATUS_WIRE_FAILED)])) ∧
    ((w.sc.sc_quirks &&& UMASS_QUIRK_WRONG_CSWSIG ≠ 0 ∧
        UGETDW w.sc.csw.dCSWSignature = CSWSIGNATURE_OLYMPUS_C1) →
      UGETDW (bbb_csw_quirks w.sc).dCSWSignature = CSWSIGNATURE ∧
      umass_bbb_state K w n usbd_status.USBD_NORMAL_COMPLETION =
        umass_bbb_state K
          { w with sc := { w.sc with
              csw := { w.sc.csw with dCSWSignature := USETDW CSWSIGNATURE } } }
          n usbd_status.USBD_NORMAL_COMPLETION) := by
  have hnc : usbd_status.USBD_NORMAL_COMPLETION ≠ usbd_status.USBD_CANCELLED := by decide
  rw [bbb_state_STATUS K w n _ hnc hlive hst]
  constructor
  · intro hbad
    have key : bbb_case_STATUS K w usbd_status.USBD_NORMAL_COMPLETION =
        umass_bbb_reset K { w with sc := { w.sc with csw := bbb_csw_quirks w.sc } }
          STATUS_WIRE_FAILED := by
      unfold bbb_case_STATUS
      rw [if_neg (by simp)]
      unfold bbb_csw_check
      by_cases hsig : UGETDW (bbb_csw_quirks w.sc).dCSWSignature ≠ CSWSIGNATURE
      · rw [if_pos hsig]
      · rw [if_neg hsig]
        have htag : UGETDW (bbb_csw_quirks w.sc).dCSWTag ≠ UGETDW w.sc.cbw.dCBWTag := by
          rcases hbad with ⟨hq, ht⟩ | ⟨hs, hq⟩
          · rw [csw_quirks_tag, if_neg (by simpa using hq)]
            exact ht
          · exfalso
            apply hsig
            rw [csw_quirks_sig, if_neg hq]
            exact hs
        rw [if_pos htag]
    rw [key]
    refine ⟨rfl, ?_⟩
    exact bbb_reset_callbacks K { w with sc := { w.sc with csw := bbb_csw_quirks w.sc } }
      STATUS_WIRE_FAILED
  · intro hq
    refine ⟨by rw [csw_quirks_sig, if_pos hq], ?_⟩
    rw [bbb_state_STATUS K
      { w with sc := { w.sc with
          csw := { w.sc.csw with dCSWSignature := USETDW CSWSIGNATURE } } }
      n _ hnc hlive hst]
    unfold bbb_case_STATUS
    rw [if_neg (by simp), if_neg (by simp)]
    have e : bbb_csw_quirks w.sc = bbb_csw_quirks
        { w.sc with csw := { w.sc.csw with dCSWSignature := USETDW CSWSIGNATURE } } := by
      have e1 : UGETDW (USETDW (CSWSIGNATURE : Nat)) ≠ CSWSIGNATURE_OLYMPUS_C1 := by
        rw [UGETDW_USETDW]; decide
      simp only [bbb_csw_quirks]
      rw [if_pos hq]
      simp [e1]
    rw [e]

/-- C4 on two sessions in state STATUS1: one whose CSW has a valid signature and
a wrong tag, which is reset, and one with `UMASS_QUIRK_WRONG_CSWSIG` whose CSW has
the signature `CSWSIGNATURE_OLYMPUS_C1`, which is accepted. -/
theorem C4_csw_tag_and_signature_witness :
    (w_bad_tag.sc.sc_dying = false ∧
      w_bad_tag.sc.transfer_state = TSTATE_BBB_STATUS1 ∧
      UGETDW w_bad_tag.sc.csw.dCSWSignature = CSWSIGNATURE ∧
      UGETDW w_bad_tag.sc.csw.dCSWTag ≠ UGETDW w_bad_tag.sc.cbw.dCBWTag ∧
      umass_bbb_state K_std w_bad_tag 13 usbd_status.USBD_NORMAL_COMPLETION =
        umass_bbb_reset K_std
          { w_bad_tag with sc := { w_bad_tag.sc with csw := bbb_csw_quirks w_bad_tag.sc } }
          STATUS_WIRE_FAILED) ∧
    (w_olympus.sc.sc_quirks &&& UMASS_QUIRK_WRONG_CSWSIG ≠ 0 ∧
      UGETDW w_olympus.sc.csw.dCSWSignature = CSWSIGNATURE_OLYMPUS_C1 ∧
      UGETDW (bbb_csw_quirks w_olympus.sc).dCSWSignature = CSWSIGNATURE) :=
  ⟨⟨by decide, by decide, by decide, by decide,
    ((C4_csw_tag_and_signature K_std w_bad_tag 13 (by decide) (Or.inl (by decide))).1
      (Or.inl ⟨by decide, by decide⟩)).1⟩,
   by decide, by decide,
    ((C4_csw_tag_and_signature K_std w_olympus 13 (by decide) (Or.inl (by decide))).2
      ⟨by decide, by decide⟩).1⟩

/-- C9 (amended): on a live session, a completion with a transport hard failure
(an error other than `USBD_STALLED` and `USBD_CANCELLED`) makes `umass_bbb_state`
do exactly `umass_bbb_reset(sc, STATUS_WIRE_FAILED)` in the states COMMAND, DATA
(after the actual length of a data transfer has been stored) and STATUS2; in
state STATUS1 it enters SCLEAR and clears the stall of the bulk-in endpoint
instead, to retry the status read. -/
theorem C9_hard_failure_resets_except_first_status (K : usb_h) (w : World) (n : Nat)
    (err : usbd_status) (hlive : w.sc.sc_dying = false)
    (hne : err ≠ usbd_status.USBD_NORMAL_COMPLETION) (hnc : err ≠ usbd_status.USBD_CANCELLED)
    (hns : err ≠ usbd_status.USBD_STALLED)
    (hst : w.sc.transfer_state = TSTATE_BBB_COMMAND ∨ w.sc.transfer_state = TSTATE_BBB_DATA ∨
      w.sc.transfer_state = TSTATE_BBB_STATUS1 ∨ w.sc.transfer_state = TSTATE_BBB_STATUS2) :
    umass_bbb_state K w n err =
      if w.sc.transfer_state = TSTATE_BBB_STATUS1 then
        umass_clear_endpoint_stall K (w.set_state TSTATE_BBB_SCLEAR) UMASS_BULKIN XFER_BBB_SCLEAR
      else if w.sc.transfer_state = TSTATE_BBB_DATA ∧ w.sc.transfer_dir ≠ DIR_NONE then
        umass_bbb_reset K { w with sc := { w.sc with transfer_actlen := int_of_u32 n } }
          STATUS_WIRE_FAILED
      else
        umass_bbb_reset K w STATUS_WIRE_FAILED := by
  rcases hst with h | h | h | h
  · rw [bbb_state_COMMAND K w n err hnc hlive h, if_neg (by rw [h]; decide),
      if_neg (by rw [h]; intro hh; exact absurd hh.1 (by decide))]
    unfold bbb_case_COMMAND
    rw [if_pos hne]
  · rw [bbb_state_DATA K w n err hnc hlive h, if_neg (by rw [h]; decide)]
    by_cases hd : w.sc.transfer_dir ≠ DIR_NONE
    · rw [if_pos (show w.sc.transfer_state = TSTATE_BBB_DATA ∧ w.sc.transfer_dir ≠ DIR_NONE
        from ⟨h, hd⟩)]
      unfold bbb_case_DATA
      rw [if_pos hd]
      simp only [if_pos hne, if_neg hns]
    · rw [if_neg (fun hh => hd hh.2)]
      unfold bbb_case_DATA
      rw [if_neg hd]
      unfold bbb_case_DCLEAR
      have hin : ¬ w.sc.transfer_dir = DIR_IN := by
        intro hh
        apply hd
        rw [hh]
        decide
      simp only [if_neg hin]
      unfold bbb_case_SCLEAR
      rw [if_pos hne]
  · rw [bbb_state_STATUS K w n err hnc hlive (Or.inl h), if_pos h]
    unfold bbb_case_STATUS
    rw [if_pos hne, if_pos h]
  · rw [bbb_state_STATUS K w n err hnc hlive (Or.inr h), if_neg (by rw [h]; decide),
      if_neg (by rw [h]; intro hh; exact absurd hh.1 (by decide))]
    unfold bbb_case_STATUS
    rw [if_pos hne, if_neg (by rw [h]; decide)]

/-- C9 (amended) on a live session in state STATUS1 whose CSW read ends with
`USBD_IOERROR`. -/
theorem C9_hard_failure_resets_except_first_status_witness :
    w_bad_tag.sc.sc_dying = false ∧ w_bad_tag.sc.transfer_state = TSTATE_BBB_STATUS1 ∧
    umass_bbb_state K_std w_bad_tag 0 usbd_status.USBD_IOERROR =
      if w_bad_tag.sc.transfer_state = TSTATE_BBB_STATUS1 then
        umass_clear_endpoint_stall K_std (w_bad_tag.set_state TSTATE_BBB_SCLEAR) UMASS_BULKIN
          XFER_BBB_SCLEAR
      else if w_bad_tag.sc.transfer_state = TSTATE_BBB_DATA ∧
          w_bad_tag.sc.transfer_dir ≠ DIR_NONE then
        umass_bbb_reset K_std
          { w_bad_tag with sc := { w_bad_tag.sc with transfer_actlen := int_of_u32 0 } }
          STATUS_WIRE_FAILED
      else
        umass_bbb_reset K_std w_bad_tag STATUS_WIRE_FAILED :=
  ⟨by decide, by decide,
   C9_hard_failure_resets_except_first_status K_std w_bad_tag 0 usbd_status.USBD_IOERROR
     (by decide) (by decide) (by decide) (by decide) (Or.inr (Or.inr (Or.inl (by decide))))⟩

/-- C9 as stated fails in state STATUS1: when the first CSW read of a live session
ends with the hard failure `USBD_IOERROR`, `umass_bbb_state` does not start the
reset (the result differs from that of `umass_bbb_reset`, the state is not
RESET1 and `transfer_status` is not `STATUS_WIRE_FAILED`): it enters SCLEAR and
issues CLEAR_FEATURE(ENDPOINT_HALT) on the bulk-in endpoint, to retry the read. -/
theorem C9_status1_hard_failure_is_retried :
    w_status1.sc.transfer_state = TSTATE_BBB_STATUS1 ∧ w_status1.sc.sc_dying = false ∧
    w_status1.inflight = [XFER_BBB_CSW1] ∧
    (bbb_complete K_std w_status1 (completion usbd_status.USBD_IOERROR 0)).sc.transfer_state =
      TSTATE_BBB_SCLEAR ∧
    (bbb_complete K_std w_status1 (completion usbd_status.USBD_IOERROR 0)).sc.transfer_status =
      STATUS_CMD_OK ∧
    ctrl_requests (bbb_complete K_std w_status1 (completion usbd_status.USBD_IOERROR 0)).trace =
      [{ bmRequestType := K_std.UT_WRITE_ENDPOINT, bRequest := K_std.UR_CLEAR_FEATURE,
         wValue := [0, 0], wIndex := [0x81, 0], wLength := [0, 0] }] ∧
    umass_bbb_state K_std { w_status1 with inflight := [] } 0 usbd_status.USBD_IOERROR ≠
      umass_bbb_reset K_std { w_status1 with inflight := [] } STATUS_WIRE_FAILED := by
  decide

/-! ## C5: the reset protocol -/

/-- C5 (amended): `umass_bbb_reset(sc, STATUS_WIRE_FAILED)` on a session that is
and stays live, with a non-NULL context `transfer_priv`, nothing else in flight
and a transport that accepts the control requests, followed by the completions
of its three requests with any status but `USBD_CANCELLED`: the driver issues, in
this order, the Bulk-Only Mass Storage Reset (class interface write, bRequest
0xff, wValue 0, wIndex the interface number, wLength 0), CLEAR_FEATURE
(ENDPOINT_HALT) on the bulk-in endpoint and CLEAR_FEATURE(ENDPOINT_HALT) on the
bulk-out endpoint, and only then calls the callback, with `STATUS_WIRE_FAILED`
and residue `transfer_datalen`; the session is idle with nothing in flight. -/
theorem C5_reset_protocol_before_callback (K : usb_h) (w : World) (c1 c2 c3 : Completion)
    (hlive : w.sc.sc_dying = false) (hinf : w.inflight = []) (hacc : w.usbd_transfer_ret = [])
    (hpriv : w.sc.transfer_priv ≠ 0)
    (h1 : c1.err ≠ usbd_status.USBD_CANCELLED) (h1d : c1.dying = false)
    (h2 : c2.err ≠ usbd_status.USBD_CANCELLED) (h2d : c2.dying = false)
    (h3 : c3.err ≠ usbd_status.USBD_CANCELLED) (h3d : c3.dying = false) :
    (bbb_run K (umass_bbb_reset K w STATUS_WIRE_FAILED) [c1, c2, c3]).trace =
      w.trace ++
        [Event.usbd_setup_default_xfer XFER_BBB_RESET1 (bbb_reset_request K w.sc) Buf.NULL 0 0,
         Event.usbd_transfer XFER_BBB_RESET1 usbd_status.USBD_IN_PROGRESS,
         Event.usbd_clear_endpoint_toggle UMASS_BULKIN,
         Event.usbd_setup_default_xfer XFER_BBB_RESET2 (clear_halt_request K w.sc UMASS_BULKIN)
           Buf.NULL 0 0,
         Event.usbd_transfer XFER_BBB_RESET2 usbd_status.USBD_IN_PROGRESS,
         Event.usbd_clear_endpoint_toggle UMASS_BULKOUT,
         Event.usbd_setup_default_xfer XFER_BBB_RESET3 (clear_halt_request K w.sc UMASS_BULKOUT)
           Buf.NULL 0 0,
         Event.usbd_transfer XFER_BBB_RESET3 usbd_status.USBD_IN_PROGRESS,
         Event.transfer_cb w.sc.transfer_cb w.sc.transfer_priv w.sc.transfer_datalen
           STATUS_WIRE_FAILED] ∧
    (bbb_run K (umass_bbb_reset K w STATUS_WIRE_FAILED) [c1, c2, c3]).sc.transfer_state =
      TSTATE_IDLE ∧
    (bbb_run K (umass_bbb_reset K w STATUS_WIRE_FAILED) [c1, c2, c3]).inflight = [] := by
  simp [bbb_run, umass_bbb_reset, hlive, umass_setup_ctrl_transfer, usbd_transfer, hacc,
    World.log, bbb_complete, hinf, umass_bbb_state, h1, h1d, h2, h2d, h3, h3d,
    bbb_case_RESET1, bbb_case_RESET2, bbb_case_RESET3, umass_clear_endpoint_stall,
    umass_transfer_reset, hpriv, World.set_state, bbb_reset_request, clear_halt_request,
    UR_BBB_RESET,
    TSTATE_BBB_COMMAND, TSTATE_BBB_DATA, TSTATE_BBB_DCLEAR, TSTATE_BBB_STATUS1,
    TSTATE_BBB_SCLEAR, TSTATE_BBB_STATUS2, TSTATE_BBB_RESET1, TSTATE_BBB_RESET2,
    TSTATE_BBB_RESET3, TSTATE_IDLE]

/-- C5 (amended) on a live session whose reset request completes normally and
whose two clear-stall requests end with `USBD_IOERROR` and `USBD_STALLED`. -/
theorem C5_reset_protocol_before_callback_witness :
    (bbb_run K_std (umass_bbb_reset K_std w_bad_tag STATUS_WIRE_FAILED)
      [completion usbd_status.USBD_NORMAL_COMPLETION 0, completion usbd_status.USBD_IOERROR 0,
       completion usbd_status.USBD_STALLED 0]).trace =
      w_bad_tag.trace ++
        [Event.usbd_setup_default_xfer XFER_BBB_RESET1 (bbb_reset_request K_std w_bad_tag.sc)
           Buf.NULL 0 0,
         Event.usbd_transfer XFER_BBB_RESET1 usbd_status.USBD_IN_PROGRESS,
         Event.usbd_clear_endpoint_toggle UMASS_BULKIN,
         Event.usbd_setup_default_xfer XFER_BBB_RESET2
           (clear_halt_request K_std w_bad_tag.sc UMASS_BULKIN) Buf.NULL 0 0,
         Event.usbd_transfer XFER_BBB_RESET2 usbd_status.USBD_IN_PROGRESS,
         Event.usbd_clear_endpoint_toggle UMASS_BULKOUT,
         Event.usbd_setup_default_xfer XFER_BBB_RESET3
           (clear_halt_request K_std w_bad_tag.sc UMASS_BULKOUT) Buf.NULL 0 0,
         Event.usbd_transfer XFER_BBB_RESET3 usbd_status.USBD_IN_PROGRESS,
         Event.transfer_cb w_bad_tag.sc.transfer_cb w_bad_tag.sc.transfer_priv
           w_bad_tag.sc.transfer_datalen STATUS_WIRE_FAILED] ∧
    (bbb_run K_std (umass_bbb_reset K_std w_bad_tag STATUS_WIRE_FAILED)
      [completion usbd_status.USBD_NORMAL_COMPLETION 0, completion usbd_status.USBD_IOERROR 0,
       completion usbd_status.USBD_STALLED 0]).sc.transfer_state = TSTATE_IDLE ∧
    (bbb_run K_std (umass_bbb_reset K_std w_bad_tag STATUS_WIRE_FAILED)
      [completion usbd_status.USBD_NORMAL_COMPLETION 0, completion usbd_status.USBD_IOERROR 0,
       completion usbd_status.USBD_STALLED 0]).inflight = [] :=
  C5_reset_protocol_before_callback K_std w_bad_tag
    (completion usbd_status.USBD_NORMAL_COMPLETION 0) (completion usbd_status.USBD_IOERROR 0)
    (completion usbd_status.USBD_STALLED 0)
    (by decide) (by decide) (by decide) (by decide) (by decide) (by decide) (by decide)
    (by decide) (by decide) (by decide)

/-- C5 as stated fails: a 512-byte read on a live session whose CBW transfer fails
(`umass_bbb_reset` is called with `STATUS_WIRE_FAILED`, and the reset request is
accepted); when the reset request completes with `USBD_CANCELLED`, the callback
is called at once with `STATUS_TIMEOUT` and residue 0: the reset request is the
only control request issued, neither endpoint stall was cleared, and the session
is idle. -/
theorem C5_cancelled_reset_ends_early :
    ctrl_requests (bbb_run K_std
      (umass_bbb_transfer K_std w_bbb 0 [0x28, 0, 0, 0, 0, 0, 0, 0, 1, 0] 10 0x1000 512 DIR_IN
        1000 0 7 9)
      [completion usbd_status.USBD_IOERROR 0, completion usbd_status.USBD_CANCELLED 0]).trace =
      [bbb_reset_request K_std w_bbb.sc] ∧
    callbacks (bbb_run K_std
      (umass_bbb_transfer K_std w_bbb 0 [0x28, 0, 0, 0, 0, 0, 0, 0, 1, 0] 10 0x1000 512 DIR_IN
        1000 0 7 9)
      [completion usbd_status.USBD_IOERROR 0, completion usbd_status.USBD_CANCELLED 0]).trace =
      [(7, 9, 0, STATUS_TIMEOUT)] ∧
    (bbb_run K_std
      (umass_bbb_transfer K_std w_bbb 0 [0x28, 0, 0, 0, 0, 0, 0, 0, 1, 0] 10 0x1000 512 DIR_IN
        1000 0 7 9)
      [completion usbd_status.USBD_IOERROR 0, completion usbd_status.USBD_CANCELLED 0]
      ).sc.transfer_state = TSTATE_IDLE ∧
    (bbb_run K_std
      (umass_bbb_transfer K_std w_bbb 0 [0x28, 0, 0, 0, 0, 0, 0, 0, 1, 0] 10 0x1000 512 DIR_IN
        1000 0 7 9)
      [completion usbd_status.USBD_IOERROR 0, completion usbd_status.USBD_CANCELLED 0]
      ).sc.transfer_status = STATUS_WIRE_FAILED := by
  decide

/-! ## C8: the Command Block Wrapper -/

theorem usbd_transfer_tag (w : World) (x : Nat) : (usbd_transfer w x).1.dCBWtag = w.dCBWtag := by
  simp only [usbd_transfer]
  split_ifs <;> rfl

theorem setup_transfer_tag (K : usb_h) (w : World) (p : Nat) (b : Buf) (l : Int) (f x : Nat) :
    (umass_setup_transfer K w p b l f x).1.dCBWtag = w.dCBWtag := by
  simp only [umass_setup_transfer]
  split_ifs <;> simp [usbd_transfer_tag, World.log]

theorem setup_ctrl_tag (w : World) (b : Buf) (l : Int) (f x : Nat) :
    (umass_setup_ctrl_transfer w b l f x).1.dCBWtag = w.dCBWtag := by
  simp only [umass_setup_ctrl_transfer]
  split_ifs <;> simp [usbd_transfer_tag, World.log]

theorem transfer_done_tag (w : World) (r s : Int) :
    (umass_transfer_done w r s).dCBWtag = w.dCBWtag := rfl

theorem transfer_reset_tag (w : World) : (umass_transfer_reset w).dCBWtag = w.dCBWtag := by
  simp only [umass_transfer_reset]
  split_ifs <;> rfl

theorem clear_stall_tag (K : usb_h) (w : World) (e x : Nat) :
    (umass_clear_endpoint_stall K w e x).dCBWtag = w.dCBWtag := by
  simp only [umass_clear_endpoint_stall]
  split_ifs <;> simp [setup_ctrl_tag, transfer_done_tag, World.log]

theorem bbb_reset_tag (K : usb_h) (w : World) (st : Int) :
    (umass_bbb_reset K w st).dCBWtag = w.dCBWtag := by
  simp only [umass_bbb_reset]
  split_ifs <;> simp [setup_ctrl_tag, transfer_done_tag]

theorem bbb_read_csw_tag (K : usb_h) (w : World) (x : Nat) :
    (bbb_read_csw K w x).dCBWtag = w.dCBWtag := by
  simp only [bbb_read_csw]
  split_ifs <;> simp [setup_transfer_tag, bbb_reset_tag]

theorem bbb_case_RESET1_tag (K : usb_h) (w : World) :
    (bbb_case_RESET1 K w).dCBWtag = w.dCBWtag := by
  simp [bbb_case_RESET1, clear_stall_tag, World.set_state]

theorem bbb_csw_check_tag (K : usb_h) (w : World) :
    (bbb_csw_check K w).dCBWtag = w.dCBWtag := by
  simp only [bbb_csw_check]
  split_ifs <;> simp [bbb_reset_tag, transfer_done_tag, bbb_case_RESET1_tag]

theorem bbb_case_STATUS_tag (K : usb_h) (w : World) (err : usbd_status) :
    (bbb_case_STATUS K w err).dCBWtag = w.dCBWtag := by
  simp only [bbb_case_STATUS]
  split_ifs <;> simp [bbb_reset_tag, clear_stall_tag, bbb_csw_check_tag, World.set_state]

theorem bbb_case_SCLEAR_tag (K : usb_h) (w : World) (err : usbd_status) :
    (bbb_case_SCLEAR K w err).dCBWtag = w.dCBWtag := by
  simp only [bbb_case_SCLEAR]
  split_ifs <;> simp [bbb_reset_tag, bbb_read_csw_tag, World.set_state]

theorem bbb_case_DCLEAR_tag (K : usb_h) (w : World) (err : usbd_status) :
    (bbb_case_DCLEAR K w err).dCBWtag = w.dCBWtag := by
  simp only [bbb_case_DCLEAR]
  split_ifs <;> simp [bbb_case_SCLEAR_tag, World.log]

theorem bbb_case_DATA_tag (K : usb_h) (w : World) (n : Nat) (err : usbd_status) :
    (bbb_case_DATA K w n err).dCBWtag = w.dCBWtag := by
  simp only [bbb_case_DATA]
  split_ifs <;> simp [bbb_case_DCLEAR_tag, bbb_reset_tag, clear_stall_tag, World.set_state]

theorem bbb_case_COMMAND_tag (K : usb_h) (w : World) (n : Nat) (err : usbd_status) :
    (bbb_case_COMMAND K w n err).dCBWtag = w.dCBWtag := by
  simp only [bbb_case_COMMAND]
  split_ifs <;>
    simp [bbb_case_DATA_tag, bbb_reset_tag, setup_transfer_tag, World.set_state, World.log]

theorem bbb_case_RESET2_tag (K : usb_h) (w : World) :
    (bbb_case_RESET2 K w).dCBWtag = w.dCBWtag := by
  simp [bbb_case_RESET2, clear_stall_tag, World.set_state]

theorem bbb_case_RESET3_tag (w : World) : (bbb_case_RESET3 w).dCBWtag = w.dCBWtag := by
  simp [bbb_case_RESET3, transfer_reset_tag]

theorem bbb_state_tag (K : usb_h) (w : World) (n : Nat) (err : usbd_status) :
    (umass_bbb_state K w n err).dCBWtag = w.dCBWtag := by
  simp only [umass_bbb_state, apply_ite World.dCBWtag, transfer_done_tag, bbb_case_COMMAND_tag,
    bbb_case_DATA_tag, bbb_case_DCLEAR_tag, bbb_case_SCLEAR_tag, bbb_case_STATUS_tag,
    bbb_case_RESET1_tag, bbb_case_RESET2_tag, bbb_case_RESET3_tag, ite_self]

theorem bbb_complete_tag (K : usb_h) (w : World) (c : Completion) :
    (bbb_complete K w c).dCBWtag = w.dCBWtag := by
  unfold bbb_complete
  split
  · rfl
  · simp [bbb_state_tag]

theorem bbb_run_tag (K : usb_h) (cs : List Completion) :
    ∀ w : World, (bbb_run K w cs).dCBWtag = w.dCBWtag := by
  induction cs with
  | nil => intro w; rfl
  | cons c t ih =>
    intro w
    have h := ih (bbb_complete K w c)
    simp only [bbb_run, List.foldl] at h ⊢
    rw [h, bbb_complete_tag]

theorem bbb_reset_trace (K : usb_h) (w : World) (st : Int) :
    ∃ rest, (umass_bbb_reset K w st).trace = w.trace ++ rest := by
  simp only [umass_bbb_reset, umass_setup_ctrl_transfer, usbd_transfer, umass_transfer_done,
    World.log, World.set_state]
  split_ifs <;> simp

theorem USETDW_of_range (v : Int) (h0 : 0 ≤ v) (h1 : v < 4294967296) :
    USETDW v = le32 v.toNat := by
  have e : (v % 4294967296).toNat = v.toNat := by omega
  simp only [USETDW, le32, e]

theorem store_cbw_bytes (K : usb_h) (w : World) (lun : Int) (cmd : List Nat) (cmdlen : Int)
    (data : Nat) (datalen dir : Int) (timeout cb priv : Nat)
    (hlun : 0 ≤ lun) (hlun' : lun < 256) (hcl : 0 ≤ cmdlen) (hcl' : cmdlen ≤ 16)
    (hdl : 0 ≤ datalen) (hdl' : datalen < 2147483648)
    (htag : 0 ≤ w.dCBWtag) (htag' : w.dCBWtag < 2147483647) :
    (bbb_transfer_store K w lun cmd cmdlen data datalen dir timeout cb priv).sc.cbw.bytes =
      cbw_wire_layout w.dCBWtag.toNat datalen.toNat (decide (dir = DIR_IN)) lun.toNat
        cmdlen.toNat cmd w.sc.cbw.CBWCDB := by
  have e1 : USETDW (CBWSIGNATURE : Nat) = [0x55, 0x53, 0x42, 0x43] := by decide
  have e2 : to_uByte lun = lun.toNat := by unfold to_uByte; omega
  have e3 : to_uByte cmdlen = cmdlen.toNat := by unfold to_uByte; omega
  simp only [bbb_transfer_store, umass_bbb_cbw_t.bytes, cbw_wire_layout, e1, e2, e3,
    USETDW_of_range w.dCBWtag htag (by omega), USETDW_of_range datalen hdl (by omega), memcpy,
    CBWFLAGS_IN, CBWFLAGS_OUT]
  by_cases hd : dir = DIR_IN <;> simp [hd]

theorem cbw_wire_layout_length (tag datalen : Nat) (dir_in : Bool) (lun cmdlen : Nat)
    (cmd old : List Nat) (h1 : cmdlen ≤ cmd.length) (h2 : cmdlen ≤ 16) (h3 : old.length = 16) :
    (cbw_wire_layout tag datalen dir_in lun cmdlen cmd old).length = 31 := by
  simp only [cbw_wire_layout, le32, List.length_append, List.length_cons, List.length_nil,
    List.length_take, List.length_drop, h3]
  omega

theorem store_tag_value (K : usb_h) (w : World) (lun : Int) (cmd : List Nat) (cmdlen : Int)
    (data : Nat) (datalen dir : Int) (timeout cb priv : Nat)
    (htag : 0 ≤ w.dCBWtag) (htag' : w.dCBWtag < 4294967296) :
    (UGETDW (bbb_transfer_store K w lun cmd cmdlen data datalen dir timeout cb priv).sc.cbw.dCBWTag
      : Int) = w.dCBWtag := by
  simp only [bbb_transfer_store, UGETDW_USETDW]
  omega

theorem store_next_tag (K : usb_h) (w : World) (lun : Int) (cmd : List Nat) (cmdlen : Int)
    (data : Nat) (datalen dir : Int) (timeout cb priv : Nat) :
    (bbb_transfer_store K w lun cmd cmdlen data datalen dir timeout cb priv).dCBWtag =
      w.dCBWtag + 1 := by
  simp only [bbb_transfer_store]

theorem bbb_send_cbw_tag (K : usb_h) (w : World) (flags : Nat) :
    (bbb_send_cbw K w flags).dCBWtag = w.dCBWtag := by
  simp only [bbb_send_cbw]
  split_ifs <;> simp [setup_transfer_tag, bbb_reset_tag]

theorem setup_transfer_trace (K : usb_h) (w : World) (p : Nat) (b : Buf) (l : Int) (f x : Nat)
    (hlive : w.sc.sc_dying = false) (hm : w.sc.sc_methods = K.UMASS_BBB) :
    (umass_setup_transfer K w p b l f x).1.trace =
      w.trace ++ [Event.usbd_setup_xfer x b l f w.sc.timeout,
        Event.usbd_transfer x (w.usbd_transfer_ret.headD usbd_status.USBD_IN_PROGRESS)] := by
  simp only [umass_setup_transfer, hlive, hm, usbd_transfer, World.log, Bool.false_eq_true,
    if_false, if_true]
  split_ifs <;> simp

theorem bbb_send_cbw_trace (K : usb_h) (w : World) (flags : Nat)
    (hlive : w.sc.sc_dying = false) (hm : w.sc.sc_methods = K.UMASS_BBB) :
    ∃ rest, (bbb_send_cbw K w flags).trace =
      w.trace ++ Event.usbd_setup_xfer XFER_BBB_CBW (Buf.cbw w.sc.cbw.bytes) UMASS_BBB_CBW_SIZE
        flags w.sc.timeout ::
        Event.usbd_transfer XFER_BBB_CBW
          (w.usbd_transfer_ret.headD usbd_status.USBD_IN_PROGRESS) :: rest := by
  simp only [bbb_send_cbw]
  split_ifs with h
  · obtain ⟨rest, hr⟩ := bbb_reset_trace K
      (umass_setup_transfer K w UMASS_BULKOUT (Buf.cbw w.sc.cbw.bytes) UMASS_BBB_CBW_SIZE flags
        XFER_BBB_CBW).1 STATUS_WIRE_FAILED
    refine ⟨rest, ?_⟩
    rw [hr, setup_transfer_trace K w _ _ _ _ _ hlive hm]
    simp
  · refine ⟨[], ?_⟩
    rw [setup_transfer_trace K w _ _ _ _ _ hlive hm]

/-- C8: `umass_bbb_transfer` on a live BBB session, with `lun` a byte, a command
of `cmdlen <= 16` bytes, `datalen` and the tag counter in the range of a C `int`
(the counter below `INT_MAX`, where `dCBWtag++` is defined). The first thing
handed to the transport is the CBW, on the transfer `XFER_BBB_CBW` that
`umass_attach` created on the bulk-out pipe: 31 bytes laid out as
`cbw_wire_layout`, i.e. 55 53 42 43, the tag and `datalen` as little-endian
32-bit values, the flags byte (0x80 for `DIR_IN`, 0x00 otherwise), the lun,
`cmdlen`, and the command bytes. The tag is the value of the counter, which
starts at 42 and is incremented by the call; whatever completions follow, the
next CBW built carries the tag of this one plus one. -/
theorem C8_cbw_layout_and_tag (K : usb_h) (w : World) (lun : Int) (cmd : List Nat)
    (cmdlen : Int) (data : Nat) (datalen dir : Int) (timeout flags cb priv : Nat)
    (hlive : w.sc.sc_dying = false) (hm : w.sc.sc_methods = K.UMASS_BBB)
    (hlun : 0 ≤ lun) (hlun' : lun < 256) (hcl : 0 ≤ cmdlen) (hcl' : cmdlen ≤ 16)
    (hcmd : cmdlen.toNat ≤ cmd.length) (hcdb : w.sc.cbw.CBWCDB.length = 16)
    (hdl : 0 ≤ datalen) (hdl' : datalen < 2147483648)
    (htag : 0 ≤ w.dCBWtag) (htag' : w.dCBWtag < 2147483647) :
    (∃ rest,
      (umass_bbb_transfer K w lun cmd cmdlen data datalen dir timeout flags cb priv).trace =
        w.trace ++
          Event.usbd_setup_xfer XFER_BBB_CBW
            (Buf.cbw (cbw_wire_layout w.dCBWtag.toNat datalen.toNat (decide (dir = DIR_IN))
              lun.toNat cmdlen.toNat cmd w.sc.cbw.CBWCDB))
            31 flags (int_of_u32 (timeout + K.USBD_DEFAULT_TIMEOUT)) ::
          Event.usbd_transfer XFER_BBB_CBW
            (w.usbd_transfer_ret.headD usbd_status.USBD_IN_PROGRESS) :: rest) ∧
    (cbw_wire_layout w.dCBWtag.toNat datalen.toNat (decide (dir = DIR_IN)) lun.toNat cmdlen.toNat
      cmd w.sc.cbw.CBWCDB).length = 31 ∧
    bbb_xfer_pipe XFER_BBB_CBW = some UMASS_BULKOUT ∧
    dCBWtag_init = 42 ∧
    (umass_bbb_transfer K w lun cmd cmdlen data datalen dir timeout flags cb priv).dCBWtag =
      w.dCBWtag + 1 ∧
    (∀ (cs : List Completion) (lun2 : Int) (cmd2 : List Nat) (cmdlen2 : Int) (data2 : Nat)
        (datalen2 dir2 : Int) (timeout2 cb2 priv2 : Nat),
      UGETDW (bbb_transfer_store K
          (bbb_run K
            (umass_bbb_transfer K w lun cmd cmdlen data datalen dir timeout flags cb priv) cs)
          lun2 cmd2 cmdlen2 data2 datalen2 dir2 timeout2 cb2 priv2).sc.cbw.dCBWTag =
        UGETDW (bbb_transfer_store K w lun cmd cmdlen data datalen dir timeout cb
          priv).sc.cbw.dCBWTag + 1) := by
  have htr : (umass_bbb_transfer K w lun cmd cmdlen data datalen dir timeout flags cb priv) =
      bbb_send_cbw K (bbb_transfer_store K w lun cmd cmdlen data datalen dir timeout cb priv)
        flags := by
    unfold umass_bbb_transfer
    rw [if_neg (by simp [hlive])]
  have hnext : (umass_bbb_transfer K w lun cmd cmdlen data datalen dir timeout flags cb
      priv).dCBWtag = w.dCBWtag + 1 := by
    rw [htr, bbb_send_cbw_tag, store_next_tag]
  refine ⟨?_, ?_, by decide, by decide, hnext, ?_⟩
  · rw [htr]
    obtain ⟨rest, hr⟩ := bbb_send_cbw_trace K
      (bbb_transfer_store K w lun cmd cmdlen data datalen dir timeout cb priv) flags
      (by simp [bbb_transfer_store, hlive]) (by simp [bbb_transfer_store, hm])
    refine ⟨rest, ?_⟩
    rw [hr, store_cbw_bytes K w lun cmd cmdlen data datalen dir timeout cb priv hlun hlun'
      hcl hcl' hdl hdl' htag htag']
    simp [bbb_transfer_store, UMASS_BBB_CBW_SIZE]
  · exact cbw_wire_layout_length _ _ _ _ _ _ _ hcmd (by omega) hcdb
  · intro cs lun2 cmd2 cmdlen2 data2 datalen2 dir2 timeout2 cb2 priv2
    have h1 := store_tag_value K w lun cmd cmdlen data datalen dir timeout cb priv htag
      (by omega)
    have h2 := store_tag_value K
      (bbb_run K (umass_bbb_transfer K w lun cmd cmdlen data datalen dir timeout flags cb priv)
        cs) lun2 cmd2 cmdlen2 data2 datalen2 dir2 timeout2 cb2 priv2
      (by rw [bbb_run_tag, hnext]; omega) (by rw [bbb_run_tag, hnext]; omega)
    rw [bbb_run_tag, hnext] at h2
    omega

/-- C8 on the first 512-byte read of a session, with tag 42: the 31 bytes of the
CBW, the submission on the bulk-out pipe and the next tag. -/
theorem C8_cbw_layout_and_tag_witness :
    cbw_wire_layout 42 512 true 0 10 [0x28, 0, 0, 0, 0, 0, 0, 0, 1, 0] (List.replicate 16 0) =
      [0x55, 0x53, 0x42, 0x43, 42, 0, 0, 0, 0, 2, 0, 0, 0x80, 0, 10,
       0x28, 0, 0, 0, 0, 0, 0, 0, 1, 0, 0, 0, 0, 0, 0, 0] ∧
    (∃ rest,
      (umass_bbb_transfer K_std w_bbb 0 [0x28, 0, 0, 0, 0, 0, 0, 0, 1, 0] 10 0x1000 512 DIR_IN
        1000 0 7 9).trace =
        w_bbb.trace ++
          Event.usbd_setup_xfer XFER_BBB_CBW
            (Buf.cbw (cbw_wire_layout w_bbb.dCBWtag.toNat (512 : Int).toNat
              (decide (DIR_IN = DIR_IN)) (0 : Int).toNat (10 : Int).toNat
              [0x28, 0, 0, 0, 0, 0, 0, 0, 1, 0] w_bbb.sc.cbw.CBWCDB))
            31 0 (int_of_u32 (1000 + K_std.USBD_DEFAULT_TIMEOUT)) ::
          Event.usbd_transfer XFER_BBB_CBW
            (w_bbb.usbd_transfer_ret.headD usbd_status.USBD_IN_PROGRESS) :: rest) ∧
    (umass_bbb_transfer K_std w_bbb 0 [0x28, 0, 0, 0, 0, 0, 0, 0, 1, 0] 10 0x1000 512 DIR_IN
      1000 0 7 9).dCBWtag = w_bbb.dCBWtag + 1 :=
  ⟨by decide,
   (C8_cbw_layout_and_tag K_std w_bbb 0 [0x28, 0, 0, 0, 0, 0, 0, 0, 1, 0] 10 0x1000 512 DIR_IN
      1000 0 7 9 (by decide) (by decide) (by decide) (by decide) (by decide) (by decide)
      (by decide) (by decide) (by decide) (by decide) (by decide) (by decide)).1,
   (C8_cbw_layout_and_tag K_std w_bbb 0 [0x28, 0, 0, 0, 0, 0, 0, 0, 1, 0] 10 0x1000 512 DIR_IN
      1000 0 7 9 (by decide) (by decide) (by decide) (by decide) (by decide) (by decide)
      (by decide) (by decide) (by decide) (by decide) (by decide) (by decide)).2.2.2.2.1⟩

/-! ## C10: an actual length above the requested length -/

/-- C10, evaluated where the code fails it: a 512-byte read whose data transfer
reports an actual length of 600 and whose CSW is valid with status good. The
branch of `umass_bbb_state` for `transfer_actlen > transfer_datalen` has no
`return` and runs into the reset states, and `umass_transfer_reset` then reports
the stored status `STATUS_CMD_OK` with the residue `transfer_datalen = 512`,
which is not `datalen - actlen = -88`. -/
theorem C10_overrun_reports_ok_with_full_residue :
    callbacks (bbb_run K_std
      (umass_bbb_transfer K_std w_bbb 0 [0x28, 0, 0, 0, 0, 0, 0, 0, 1, 0] 10 0x1000 512 DIR_IN
        1000 0 7 9)
      [completion usbd_status.USBD_NORMAL_COMPLETION 31,
       completion usbd_status.USBD_NORMAL_COMPLETION 600,
       completion_csw 42 0 CSWSTATUS_GOOD,
       completion usbd_status.USBD_NORMAL_COMPLETION 0,
       completion usbd_status.USBD_NORMAL_COMPLETION 0]).trace = [(7, 9, 512, STATUS_CMD_OK)] ∧
    (bbb_run K_std
      (umass_bbb_transfer K_std w_bbb 0 [0x28, 0, 0, 0, 0, 0, 0, 0, 1, 0] 10 0x1000 512 DIR_IN
        1000 0 7 9)
      [completion usbd_status.USBD_NORMAL_COMPLETION 31,
       completion usbd_status.USBD_NORMAL_COMPLETION 600,
       completion_csw 42 0 CSWSTATUS_GOOD,
       completion usbd_status.USBD_NORMAL_COMPLETION 0,
       completion usbd_status.USBD_NORMAL_COMPLETION 0]).sc.transfer_actlen = 600 ∧
    (bbb_run K_std
      (umass_bbb_transfer K_std w_bbb 0 [0x28, 0, 0, 0, 0, 0, 0, 0, 1, 0] 10 0x1000 512 DIR_IN
        1000 0 7 9)
      [completion usbd_status.USBD_NORMAL_COMPLETION 31,
       completion usbd_status.USBD_NORMAL_COMPLETION 600,
       completion_csw 42 0 CSWSTATUS_GOOD,
       completion usbd_status.USBD_NORMAL_COMPLETION 0,
       completion usbd_status.USBD_NORMAL_COMPLETION 0]).sc.transfer_state = TSTATE_IDLE := by
  decide

/-! ## The field `dCSWDataResidue` is never read -/

theorem usbd_transfer_residue (w : World) (x : Nat) (r : uDWord) :
    usbd_transfer (with_residue w r) x =
      (with_residue (usbd_transfer w x).1 r, (usbd_transfer w x).2) := by
  simp only [usbd_transfer, with_residue]
  split_ifs <;> rfl

theorem setup_transfer_residue (K : usb_h) (w : World) (p : Nat) (b : Buf) (l : Int) (f x : Nat)
    (r : uDWord) :
    umass_setup_transfer K (with_residue w r) p b l f x =
      (with_residue (umass_setup_transfer K w p b l f x).1 r,
        (umass_setup_transfer K w p b l f x).2) := by
  simp only [umass_setup_transfer, usbd_transfer, with_residue, World.log]
  split_ifs <;> rfl

theorem setup_ctrl_residue (w : World) (b : Buf) (l : Int) (f x : Nat) (r : uDWord) :
    umass_setup_ctrl_transfer (with_residue w r) b l f x =
      (with_residue (umass_setup_ctrl_transfer w b l f x).1 r,
        (umass_setup_ctrl_transfer w b l f x).2) := by
  simp only [umass_setup_ctrl_transfer, usbd_transfer, with_residue, World.log]
  split_ifs <;> rfl

theorem transfer_done_residue (w : World) (res st : Int) (r : uDWord) :
    umass_transfer_done (with_residue w r) res st =
      with_residue (umass_transfer_done w res st) r := rfl

theorem transfer_reset_residue (w : World) (r : uDWord) :
    umass_transfer_reset (with_residue w r) = with_residue (umass_transfer_reset w) r := by
  simp only [umass_transfer_reset, with_residue, World.log, World.set_state]
  split_ifs <;> rfl

theorem clear_stall_residue (K : usb_h) (w : World) (e x : Nat) (r : uDWord) :
    umass_clear_endpoint_stall K (with_residue w r) e x =
      with_residue (umass_clear_endpoint_stall K w e x) r := by
  simp only [umass_clear_endpoint_stall, umass_setup_ctrl_transfer, usbd_transfer,
    umass_transfer_done, with_residue, World.log, World.set_state]
  split_ifs <;> rfl

theorem bbb_reset_residue (K : usb_h) (w : World) (st : Int) (r : uDWord) :
    umass_bbb_reset K (with_residue w r) st = with_residue (umass_bbb_reset K w st) r := by
  simp only [umass_bbb_reset, umass_setup_ctrl_transfer, usbd_transfer,
    umass_transfer_done, with_residue, World.log, World.set_state]
  split_ifs <;> rfl

theorem set_state_residue (w : World) (s : Int) (r : uDWord) :
    (with_residue w r).set_state s = with_residue (w.set_state s) r := rfl

theorem log_residue (w : World) (e : Event) (r : uDWord) :
    (with_residue w r).log e = with_residue (w.log e) r := rfl

theorem residue_sc_dying (w : World) (r : uDWord) :
    (with_residue w r).sc.sc_dying = w.sc.sc_dying := rfl

theorem residue_transfer_state (w : World) (r : uDWord) :
    (with_residue w r).sc.transfer_state = w.sc.transfer_state := rfl

theorem residue_transfer_dir (w : World) (r : uDWord) :
    (with_residue w r).sc.transfer_dir = w.sc.transfer_dir := rfl

theorem residue_transfer_datalen (w : World) (r : uDWord) :
    (with_residue w r).sc.transfer_datalen = w.sc.transfer_datalen := rfl

theorem residue_transfer_actlen (w : World) (r : uDWord) :
    (with_residue w r).sc.transfer_actlen = w.sc.transfer_actlen := rfl

theorem residue_signature (w : World) (r : uDWord) :
    (with_residue w r).sc.csw.dCSWSignature = w.sc.csw.dCSWSignature := rfl

theorem residue_tag (w : World) (r : uDWord) :
    (with_residue w r).sc.csw.dCSWTag = w.sc.csw.dCSWTag := rfl

theorem residue_status (w : World) (r : uDWord) :
    (with_residue w r).sc.csw.bCSWStatus = w.sc.csw.bCSWStatus := rfl

theorem residue_cbw (w : World) (r : uDWord) :
    (with_residue w r).sc.cbw = w.sc.cbw := rfl

theorem with_residue_ite (c : Prop) [Decidable c] (a b : World) (r : uDWord) :
    with_residue (if c then a else b) r = if c then with_residue a r else with_residue b r := by
  split_ifs <;> rfl

theorem case_RESET3_residue (w : World) (r : uDWord) :
    bbb_case_RESET3 (with_residue w r) = with_residue (bbb_case_RESET3 w) r :=
  transfer_reset_residue w r

theorem case_RESET2_residue (K : usb_h) (w : World) (r : uDWord) :
    bbb_case_RESET2 K (with_residue w r) = with_residue (bbb_case_RESET2 K w) r := by
  simp only [bbb_case_RESET2, set_state_residue, clear_stall_residue]

theorem case_RESET1_residue (K : usb_h) (w : World) (r : uDWord) :
    bbb_case_RESET1 K (with_residue w r) = with_residue (bbb_case_RESET1 K w) r := by
  simp only [bbb_case_RESET1, set_state_residue, clear_stall_residue]

theorem csw_check_residue (K : usb_h) (w : World) (r : uDWord) :
    bbb_csw_check K (with_residue w r) = with_residue (bbb_csw_check K w) r := by
  simp only [bbb_csw_check, bbb_reset_residue, case_RESET1_residue, transfer_done_residue]
  simp only [residue_sc_dying, residue_transfer_state, residue_transfer_dir,
    residue_transfer_datalen, residue_transfer_actlen, residue_signature, residue_tag,
    residue_status, residue_cbw]
  split_ifs <;> rfl

theorem csw_quirks_with_residue (w : World) (r : uDWord) :
    ({ (with_residue w r) with sc := { (with_residue w r).sc with
        csw := bbb_csw_quirks (with_residue w r).sc } } : World) =
      with_residue { w with sc := { w.sc with csw := bbb_csw_quirks w.sc } } r := by
  simp only [bbb_csw_quirks, with_residue]
  split_ifs <;> rfl

theorem case_STATUS_residue (K : usb_h) (w : World) (err : usbd_status) (r : uDWord) :
    bbb_case_STATUS K (with_residue w r) err = with_residue (bbb_case_STATUS K w err) r := by
  simp only [bbb_case_STATUS, csw_quirks_with_residue, csw_check_residue, set_state_residue,
    clear_stall_residue, bbb_reset_residue]
  simp only [residue_sc_dying, residue_transfer_state, residue_transfer_dir,
    residue_transfer_datalen, residue_transfer_actlen, residue_signature, residue_tag,
    residue_status, residue_cbw]
  split_ifs <;> rfl

theorem read_csw_residue (K : usb_h) (w : World) (x : Nat) (r : uDWord) :
    bbb_read_csw K (with_residue w r) x = with_residue (bbb_read_csw K w x) r := by
  simp only [bbb_read_csw, setup_transfer_residue, bbb_reset_residue]
  split_ifs <;> rfl

theorem case_SCLEAR_residue (K : usb_h) (w : World) (err : usbd_status) (r : uDWord) :
    bbb_case_SCLEAR K (with_residue w r) err = with_residue (bbb_case_SCLEAR K w err) r := by
  simp only [bbb_case_SCLEAR, set_state_residue, read_csw_residue, bbb_reset_residue]
  simp only [residue_sc_dying, residue_transfer_state, residue_transfer_dir,
    residue_transfer_datalen, residue_transfer_actlen, residue_signature, residue_tag,
    residue_status, residue_cbw]
  split_ifs <;> rfl

theorem case_DCLEAR_residue (K : usb_h) (w : World) (err : usbd_status) (r : uDWord) :
    bbb_case_DCLEAR K (with_residue w r) err = with_residue (bbb_case_DCLEAR K w err) r := by
  simp only [bbb_case_DCLEAR]
  by_cases h : w.sc.transfer_dir = DIR_IN
  · have h' : (with_residue w r).sc.transfer_dir = DIR_IN := h
    rw [if_pos h, if_pos h', log_residue, case_SCLEAR_residue]
    rfl
  · have h' : ¬ (with_residue w r).sc.transfer_dir = DIR_IN := h
    rw [if_neg h, if_neg h', case_SCLEAR_residue]

theorem case_DATA_residue (K : usb_h) (w : World) (n : Nat) (err : usbd_status) (r : uDWord) :
    bbb_case_DATA K (with_residue w r) n err = with_residue (bbb_case_DATA K w n err) r := by
  have e1 : ({ (with_residue w r) with sc := { (with_residue w r).sc with
      transfer_actlen := int_of_u32 n } } : World) =
      with_residue { w with sc := { w.sc with transfer_actlen := int_of_u32 n } } r := rfl
  simp only [bbb_case_DATA, e1, set_state_residue, clear_stall_residue, bbb_reset_residue,
    case_DCLEAR_residue]
  simp only [residue_sc_dying, residue_transfer_state, residue_transfer_dir,
    residue_transfer_datalen, residue_transfer_actlen, residue_signature, residue_tag,
    residue_status, residue_cbw]
  split_ifs <;> rfl

theorem case_COMMAND_residue (K : usb_h) (w : World) (n : Nat) (err : usbd_status) (r : uDWord) :
    bbb_case_COMMAND K (with_residue w r) n err = with_residue (bbb_case_COMMAND K w n err) r := by
  simp only [bbb_case_COMMAND, set_state_residue, log_residue, setup_transfer_residue,
    bbb_reset_residue, case_DATA_residue]
  simp only [residue_sc_dying, residue_transfer_state, residue_transfer_dir,
    residue_transfer_datalen, residue_transfer_actlen, residue_signature, residue_tag,
    residue_status, residue_cbw]
  split_ifs <;> rfl

theorem bbb_state_residue (K : usb_h) (w : World) (n : Nat) (err : usbd_status) (r : uDWord) :
    umass_bbb_state K (with_residue w r) n err = with_residue (umass_bbb_state K w n err) r := by
  simp only [umass_bbb_state, transfer_done_residue, case_COMMAND_residue, case_DATA_residue,
    case_DCLEAR_residue, case_SCLEAR_residue, case_STATUS_residue, case_RESET1_residue,
    case_RESET2_residue, case_RESET3_residue, residue_sc_dying, residue_transfer_state,
    residue_transfer_datalen, with_residue_ite]

theorem bbb_complete_residue (K : usb_h) (w : World) (r0 : uDWord) (c : Completion)
    (r : uDWord) :
    ∃ r1, bbb_complete K (with_residue w r0) (c.with_residue r) =
      with_residue (bbb_complete K w c) r1 := by
  cases h : w.inflight with
  | nil =>
    have h' : (with_residue w r0).inflight = [] := h
    exact ⟨r0, by simp only [bbb_complete, h, h']⟩
  | cons x rest =>
    have h' : (with_residue w r0).inflight = x :: rest := h
    by_cases hs : w.sc.transfer_state = TSTATE_BBB_STATUS1 ∨
        w.sc.transfer_state = TSTATE_BBB_STATUS2
    · refine ⟨r, ?_⟩
      simp only [bbb_complete, h, h', residue_transfer_state, if_pos hs]
      exact bbb_state_residue K
        { w with sc := { w.sc with sc_dying := w.sc.sc_dying || c.dying, csw := c.csw }
                 inflight := rest } c.actlen c.err r
    · refine ⟨r0, ?_⟩
      simp only [bbb_complete, h, h', residue_transfer_state, if_neg hs]
      exact bbb_state_residue K
        { w with sc := { w.sc with sc_dying := w.sc.sc_dying || c.dying }
                 inflight := rest } c.actlen c.err r0

theorem bbb_run_residue (K : usb_h) (cs cs' : List Completion)
    (h : List.Forall₂ Completion.SameButResidue cs cs') :
    ∀ (w : World) (r0 : uDWord),
      ∃ r1, bbb_run K (with_residue w r0) cs' = with_residue (bbb_run K w cs) r1 := by
  induction h with
  | nil => intro w r0; exact ⟨r0, rfl⟩
  | cons hc _ ih =>
    intro w r0
    obtain ⟨r, rfl⟩ := hc
    obtain ⟨r1, h1⟩ := bbb_complete_residue K w r0 _ r
    simp only [bbb_run, List.foldl_cons] at ih ⊢
    rw [h1]
    exact ih _ r1

/-- The outcome of a BBB command does not depend on the field `dCSWDataResidue`
that the device sends: two runs of `umass_bbb_state` over completions that
differ only in that field make the same calls of the callback, with the same
residue and status, and end in the same state. -/
theorem bbb_outcome_independent_of_dCSWDataResidue (K : usb_h) (w : World)
    (cs cs' : List Completion) (h : List.Forall₂ Completion.SameButResidue cs cs') :
    callbacks (bbb_run K w cs').trace = callbacks (bbb_run K w cs).trace ∧
    (bbb_run K w cs').sc.transfer_state = (bbb_run K w cs).sc.transfer_state ∧
    (bbb_run K w cs').inflight = (bbb_run K w cs).inflight := by
  obtain ⟨r1, h1⟩ := bbb_run_residue K cs cs' h w w.sc.csw.dCSWDataResidue
  have e : with_residue w w.sc.csw.dCSWDataResidue = w := rfl
  rw [e] at h1
  rw [h1]
  exact ⟨rfl, rfl, rfl⟩

/-! ## C11: serialisation of the transfers of a session -/

theorem Step.of_same {w0 w' : World} (h : Same w0 w') : Step w0 w' := Or.inl h.2.1

theorem Step.of_finished {w0 w' : World} (h : Finished w0 w') : Step w0 w' := Or.inl h.2.2.1

theorem Step.of_armed {w0 w' : World} {s : Int} (h : Armed w0 w' s) (hs : s ≠ TSTATE_IDLE) :
    Step w0 w' :=
  Or.inr ⟨by rw [h.2.1]; exact hs, h.2.2.1⟩

theorem step_transfer_reset {w0 w : World} (hs : Same w0 w) :
    Step w0 (umass_transfer_reset w) := by
  left
  rw [← hs.2.1]
  simp only [umass_transfer_reset, World.set_state, World.log]
  split_ifs <;> rfl

theorem cbi_adsc_cases (K : usb_h) {w0 w : World} (hs : Same w0 w) (b : List Nat) (l : Int)
    (f x : Nat) :
    ((umass_cbi_adsc K w b l f x).2 = usbd_status.USBD_NORMAL_COMPLETION ∧
      Armed w0 (umass_cbi_adsc K w b l f x).1 w.sc.transfer_state) ∨
    ((umass_cbi_adsc K w b l f x).2 ≠ usbd_status.USBD_NORMAL_COMPLETION ∧
      Same w0 (umass_cbi_adsc K w b l f x).1) := by
  simp only [umass_cbi_adsc]
  refine (@ctrl_cases w0 _ ?_ _ _ _ _).imp id (fun h => ⟨h.1, h.2.1⟩)
  exact hs.of_eq rfl rfl rfl rfl rfl

theorem step_clear_stall (K : usb_h) {w0 w : World} (hs : Same w0 w) (e x : Nat)
    (hne : w.sc.transfer_state ≠ TSTATE_IDLE) :
    Step w0 (umass_clear_endpoint_stall K w e x) := by
  rcases clear_stall_cases K hs e x with h | h
  · exact Step.of_finished h
  · exact Step.of_armed h hne

theorem step_cbi_reset (K : usb_h) {w0 w : World} (hs : Same w0 w) (st : Int) :
    Step w0 (umass_cbi_reset K w st) := by
  unfold umass_cbi_reset
  by_cases hd : w.sc.sc_dying = true
  · rw [if_pos hd]
    exact Step.of_finished (done_fin hs _ _)
  · rw [if_neg hd]
    rcases @cbi_adsc_cases K w0 { w with sc := { w.sc with
        transfer_state := TSTATE_CBI_RESET1
        transfer_status := st
        cbl := [0x1d, 0x04] ++ List.replicate (SEND_DIAGNOSTIC_CMDLEN - 2) 0xff ++
          w.sc.cbl.drop SEND_DIAGNOSTIC_CMDLEN } }
        (hs.of_eq rfl rfl rfl rfl rfl)
        ([0x1d, 0x04] ++ List.replicate (SEND_DIAGNOSTIC_CMDLEN - 2) 0xff ++
          w.sc.cbl.drop SEND_DIAGNOSTIC_CMDLEN) SEND_DIAGNOSTIC_CMDLEN 0 XFER_CBI_RESET1
      with h | h
    · simp only [if_neg (not_not.mpr h.1)]
      exact Step.of_armed h.2 (show TSTATE_CBI_RESET1 ≠ TSTATE_IDLE by decide)
    · simp only [if_pos h.1]
      exact Step.of_finished (done_fin h.2 _ _)

theorem step_adsc_or_reset (K : usb_h) {w0 w : World} (hs : Same w0 w) (b : List Nat) (l : Int)
    (f x : Nat) (st : Int) (hne : w.sc.transfer_state ≠ TSTATE_IDLE) :
    Step w0 (if (umass_cbi_adsc K w b l f x).2 ≠ usbd_status.USBD_NORMAL_COMPLETION
      then umass_cbi_reset K (umass_cbi_adsc K w b l f x).1 st
      else (umass_cbi_adsc K w b l f x).1) := by
  rcases cbi_adsc_cases K hs b l f x with h | h
  · rw [if_neg (not_not.mpr h.1)]
    exact Step.of_armed h.2 hne
  · rw [if_pos h.1]
    exact step_cbi_reset K h.2 st

theorem step_setup_or_cbi_reset (K : usb_h) {w0 w : World} (hs : Same w0 w) (p : Nat) (b : Buf)
    (l : Int) (f x : Nat) (st : Int) (hne : w.sc.transfer_state ≠ TSTATE_IDLE) :
    Step w0 (if (umass_setup_transfer K w p b l f x).2 ≠ usbd_status.USBD_NORMAL_COMPLETION
      then umass_cbi_reset K (umass_setup_transfer K w p b l f x).1 st
      else (umass_setup_transfer K w p b l f x).1) := by
  rcases setup_cases K hs p b l f x with h | h
  · rw [if_neg (not_not.mpr h.1)]
    exact Step.of_armed h.2 hne
  · rw [if_pos h.1]
    exact step_cbi_reset K h.2.1 st

theorem step_cbi_send_cb (K : usb_h) {w0 w : World} (hs : Same w0 w) (cmd : List Nat)
    (cmdlen : Int) (flags : Nat) (hne : w.sc.transfer_state ≠ TSTATE_IDLE) :
    Step w0 (cbi_send_cb K w cmd cmdlen flags) :=
  step_adsc_or_reset K hs _ _ _ _ _ hne

theorem step_cbi_data_status (K : usb_h) {w0 w : World} (hs : Same w0 w) :
    Step w0 (cbi_data_status K w) := by
  unfold cbi_data_status
  have key : ∀ w2 : World, Same w0 w2 →
      Step w0 (if w2.sc.sc_wire = UMASS_WPROTO_CBI_I then
        (if (umass_setup_transfer K { w2 with sc := { w2.sc with
              transfer_state := TSTATE_CBI_STATUS
              sbl := { byte0 := 0, byte1 := 0 } } } UMASS_INTRIN Buf.sbl 2 0 XFER_CBI_STATUS).2 ≠
            usbd_status.USBD_NORMAL_COMPLETION then
          umass_cbi_reset K (umass_setup_transfer K { w2 with sc := { w2.sc with
              transfer_state := TSTATE_CBI_STATUS
              sbl := { byte0 := 0, byte1 := 0 } } } UMASS_INTRIN Buf.sbl 2 0 XFER_CBI_STATUS).1
            STATUS_WIRE_FAILED
        else (umass_setup_transfer K { w2 with sc := { w2.sc with
              transfer_state := TSTATE_CBI_STATUS
              sbl := { byte0 := 0, byte1 := 0 } } } UMASS_INTRIN Buf.sbl 2 0 XFER_CBI_STATUS).1)
      else umass_transfer_done w2 (w2.sc.transfer_datalen - w2.sc.transfer_actlen)
        STATUS_CMD_UNKNOWN) := by
    intro w2 h2
    by_cases hw : w2.sc.sc_wire = UMASS_WPROTO_CBI_I
    · rw [if_pos hw]
      refine step_setup_or_cbi_reset K ?_ _ _ _ _ _ _ ?_
      · exact h2.of_eq rfl rfl rfl rfl rfl
      · exact (show TSTATE_CBI_STATUS ≠ TSTATE_IDLE by decide)
    · rw [if_neg hw]
      exact Step.of_finished (done_fin h2 _ _)
  by_cases hin : w.sc.transfer_dir = DIR_IN
  · simp only [if_pos hin]
    exact key _ (hs.log_memcpy _ _ _)
  · simp only [if_neg hin]
    exact key _ hs

theorem step_cbi_case_DATA (K : usb_h) {w0 w : World} (hs : Same w0 w) (n : Nat)
    (err : usbd_status) : Step w0 (cbi_case_DATA K w n err) := by
  unfold cbi_case_DATA
  by_cases hdir : w.sc.transfer_dir ≠ DIR_NONE
  · simp only [if_pos hdir]
    by_cases he : err ≠ usbd_status.USBD_NORMAL_COMPLETION
    · simp only [if_pos he]
      by_cases hst : err = usbd_status.USBD_STALLED
      · simp only [if_pos hst]
        refine step_clear_stall K ?_ _ _ ?_
        · exact hs.of_eq rfl rfl rfl rfl rfl
        · exact (show TSTATE_CBI_DCLEAR ≠ TSTATE_IDLE by decide)
      · simp only [if_neg hst]
        refine step_cbi_reset K ?_ _
        exact hs.of_eq rfl rfl rfl rfl rfl
    · simp only [if_neg he]
      refine step_cbi_data_status K ?_
      exact hs.of_eq rfl rfl rfl rfl rfl
  · simp only [if_neg hdir]
    exact step_cbi_data_status K hs

theorem step_cbi_case_COMMAND (K : usb_h) {w0 w : World} (hs : Same w0 w) (n : Nat)
    (err : usbd_status) : Step w0 (cbi_case_COMMAND K w n err) := by
  unfold cbi_case_COMMAND
  by_cases hst : err = usbd_status.USBD_STALLED
  · rw [if_pos hst]
    exact Step.of_finished (done_fin hs _ _)
  rw [if_neg hst]
  by_cases he : err ≠ usbd_status.USBD_NORMAL_COMPLETION
  · rw [if_pos he]
    exact step_cbi_reset K hs _
  rw [if_neg he]
  have hne : (w.set_state TSTATE_CBI_DATA).sc.transfer_state ≠ TSTATE_IDLE :=
    (show TSTATE_CBI_DATA ≠ TSTATE_IDLE by decide)
  by_cases hin : (w.set_state TSTATE_CBI_DATA).sc.transfer_dir = DIR_IN
  · simp only [if_pos hin]
    refine step_setup_or_cbi_reset K ?_ _ _ _ _ _ _ hne
    exact hs.of_eq rfl rfl rfl rfl rfl
  · simp only [if_neg hin]
    by_cases hout : (w.set_state TSTATE_CBI_DATA).sc.transfer_dir = DIR_OUT
    · simp only [if_pos hout]
      refine step_setup_or_cbi_reset K ?_ _ _ _ _ _ _ hne
      exact (hs.of_eq rfl rfl rfl rfl rfl).log_memcpy _ _ _
    · simp only [if_neg hout]
      refine step_cbi_case_DATA K ?_ n err
      exact hs.of_eq rfl rfl rfl rfl rfl

theorem step_cbi_case_STATUS (K : usb_h) {w0 w : World} (hs : Same w0 w) (n : Nat)
    (err : usbd_status) : Step w0 (cbi_case_STATUS K w n err) := by
  unfold cbi_case_STATUS
  by_cases he : err ≠ usbd_status.USBD_NORMAL_COMPLETION
  · rw [if_pos he]
    by_cases hst : err = usbd_status.USBD_STALLED
    · rw [if_pos hst]
      refine step_clear_stall K ?_ _ _ ?_
      · exact hs.of_eq rfl rfl rfl rfl rfl
      · exact (show TSTATE_CBI_SCLEAR ≠ TSTATE_IDLE by decide)
    · rw [if_neg hst]
      exact step_cbi_reset K hs _
  rw [if_neg he]
  by_cases h2 : n % 4294967296 ≠ 2
  · rw [if_pos h2]
    exact Step.of_same hs
  rw [if_neg h2]
  by_cases hu : w.sc.sc_cmd = UMASS_CPROTO_UFI
  · rw [if_pos hu]
    exact Step.of_finished (done_fin hs _ _)
  rw [if_neg hu]
  by_cases hc : w.sc.sbl.byte0 = IDB_TYPE_CCI
  · rw [if_pos hc]
    exact Step.of_finished (done_fin hs _ _)
  · rw [if_neg hc]
    exact Step.of_finished (done_fin hs _ _)

theorem step_cbi_case_CLEAR (K : usb_h) {w0 w : World} (hs : Same w0 w) (err : usbd_status) :
    Step w0 (cbi_case_CLEAR K w err) := by
  unfold cbi_case_CLEAR
  by_cases he : err ≠ usbd_status.USBD_NORMAL_COMPLETION
  · rw [if_pos he]
    exact step_cbi_reset K hs _
  · rw [if_neg he]
    exact Step.of_finished (done_fin hs _ _)

/-- One completion handled by `umass_cbi_state`, in any state: at most one
transfer is added, and only in a state other than IDLE. -/
theorem cbi_state_serial (K : usb_h) (w : World) (n : Nat) (err : usbd_status) :
    Step w (umass_cbi_state K w n err) := by
  have hs : Same w w := Same.refl w
  unfold umass_cbi_state
  by_cases hc : err = usbd_status.USBD_CANCELLED
  · rw [if_pos hc]
    exact Step.of_finished (done_fin hs _ _)
  rw [if_neg hc]
  by_cases hd : w.sc.sc_dying = true
  · rw [if_pos hd]
    exact Step.of_finished (done_fin hs _ _)
  rw [if_neg hd]
  by_cases h1 : w.sc.transfer_state = TSTATE_CBI_COMMAND
  · rw [if_pos h1]
    exact step_cbi_case_COMMAND K hs n err
  rw [if_neg h1]
  by_cases h2 : w.sc.transfer_state = TSTATE_CBI_DATA
  · rw [if_pos h2]
    exact step_cbi_case_DATA K hs n err
  rw [if_neg h2]
  by_cases h3 : w.sc.transfer_state = TSTATE_CBI_STATUS
  · rw [if_pos h3]
    exact step_cbi_case_STATUS K hs n err
  rw [if_neg h3]
  by_cases h4 : w.sc.transfer_state = TSTATE_CBI_DCLEAR
  · rw [if_pos h4]
    exact step_cbi_case_CLEAR K hs err
  rw [if_neg h4]
  by_cases h5 : w.sc.transfer_state = TSTATE_CBI_SCLEAR
  · rw [if_pos h5]
    exact step_cbi_case_CLEAR K hs err
  rw [if_neg h5]
  by_cases h6 : w.sc.transfer_state = TSTATE_CBI_RESET1
  · rw [if_pos h6]
    refine step_clear_stall K ?_ _ _ ?_
    · exact hs.of_eq rfl rfl rfl rfl rfl
    · exact (show TSTATE_CBI_RESET2 ≠ TSTATE_IDLE by decide)
  rw [if_neg h6]
  by_cases h7 : w.sc.transfer_state = TSTATE_CBI_RESET2
  · rw [if_pos h7]
    refine step_clear_stall K ?_ _ _ ?_
    · exact hs.of_eq rfl rfl rfl rfl rfl
    · exact (show TSTATE_CBI_RESET3 ≠ TSTATE_IDLE by decide)
  rw [if_neg h7]
  by_cases h8 : w.sc.transfer_state = TSTATE_CBI_RESET3
  · rw [if_pos h8]
    exact step_transfer_reset hs
  rw [if_neg h8]
  exact Or.inl rfl

theorem Step.of_progress {w0 w' : World} {lo : Int} (h : Prog w0 lo w') (hlo : 0 ≤ lo) :
    Step w0 w' := by
  rcases h with h | ⟨s, h1, _, h3⟩
  · exact Step.of_finished h
  · exact Step.of_armed h3 (by simp only [TSTATE_IDLE]; omega)

theorem bbb_state_default (K : usb_h) (w : World) (n : Nat) (err : usbd_status)
    (hc : err ≠ usbd_status.USBD_CANCELLED) (hd : w.sc.sc_dying = false)
    (h : ¬ (1 ≤ w.sc.transfer_state ∧ w.sc.transfer_state ≤ 9)) :
    umass_bbb_state K w n err = w := by
  simp only [umass_bbb_state, if_neg hc, hd, Bool.false_eq_true, if_false, TSTATE_BBB_COMMAND,
    TSTATE_BBB_DATA, TSTATE_BBB_DCLEAR, TSTATE_BBB_SCLEAR, TSTATE_BBB_STATUS1,
    TSTATE_BBB_STATUS2, TSTATE_BBB_RESET1, TSTATE_BBB_RESET2, TSTATE_BBB_RESET3]
  repeat rw [if_neg (show ¬ _ = _ by omega)]
  rw [if_neg (show ¬ (_ ∨ _) by omega)]

/-- One completion handled by `umass_bbb_state`, in any state and with any
context: at most one transfer is added, and only in a state other than IDLE. -/
theorem bbb_state_serial (K : usb_h) (w : World) (n : Nat) (err : usbd_status) :
    Step w (umass_bbb_state K w n err) := by
  have hs : Same w w := Same.refl w
  by_cases hc : err = usbd_status.USBD_CANCELLED
  · subst hc
    rw [bbb_state_cancelled]
    exact Step.of_finished (done_fin hs _ _)
  by_cases hd : w.sc.sc_dying = true
  · rw [bbb_state_dying K w n err hc hd]
    exact Step.of_finished (done_fin hs _ _)
  have hd' : w.sc.sc_dying = false := by simpa using hd
  by_cases hr : 1 ≤ w.sc.transfer_state ∧ w.sc.transfer_state ≤ 9
  · have hcases : w.sc.transfer_state = 1 ∨ w.sc.transfer_state = 2 ∨
        w.sc.transfer_state = 3 ∨ w.sc.transfer_state = 4 ∨ w.sc.transfer_state = 5 ∨
        w.sc.transfer_state = 6 ∨ w.sc.transfer_state = 7 ∨ w.sc.transfer_state = 8 ∨
        w.sc.transfer_state = 9 := by omega
    rcases hcases with h | h | h | h | h | h | h | h | h
    · rw [bbb_state_COMMAND K w n err hc hd' h]
      exact Step.of_progress (prog_case_COMMAND K w w 0 hs n err (by decide)) (le_refl 0)
    · rw [bbb_state_DATA K w n err hc hd' h]
      exact Step.of_progress (prog_case_DATA K w w 0 hs n err (by decide)) (le_refl 0)
    · rw [bbb_state_DCLEAR K w n err hc hd' h]
      exact Step.of_progress (prog_case_DCLEAR K w w 0 hs err (by decide)) (le_refl 0)
    · rw [bbb_state_STATUS K w n err hc hd' (Or.inl h)]
      exact Step.of_progress (prog_case_STATUS K w w 0 hs err (by decide) (fun _ => by decide))
        (le_refl 0)
    · rw [bbb_state_SCLEAR K w n err hc hd' h]
      exact Step.of_progress (prog_case_SCLEAR K w w 0 hs err (by decide) (fun _ => by decide))
        (le_refl 0)
    · rw [bbb_state_STATUS K w n err hc hd' (Or.inr h)]
      exact Step.of_progress (prog_case_STATUS K w w 0 hs err (by decide) (fun _ => by decide))
        (le_refl 0)
    · rw [bbb_state_RESET1 K w n err hc hd' h]
      exact Step.of_progress (prog_case_RESET1 K w w 0 hs (by decide)) (le_refl 0)
    · rw [bbb_state_RESET2 K w n err hc hd' h]
      exact Step.of_progress (prog_case_RESET2 K w w 0 hs (by decide)) (le_refl 0)
    · rw [bbb_state_RESET3 K w n err hc hd' h]
      exact step_transfer_reset hs
  · rw [bbb_state_default K w n err hc hd' hr]
    exact Or.inl rfl

theorem Serial.length_le {w : World} (h : Serial w) : w.inflight.length ≤ 1 := by
  rcases h with h | ⟨_, x, h⟩ <;> simp [h]

theorem Serial.idle {w : World} (h : Serial w) (hi : w.sc.transfer_state = TSTATE_IDLE) :
    w.inflight = [] := by
  rcases h with h | ⟨h, _⟩
  · exact h
  · exact absurd hi h

theorem Serial.of_step {w w' : World} (h : Step w w') (hi : w.inflight = []) : Serial w' := by
  rcases h with h | ⟨h1, x, h2⟩
  · exact Or.inl (h.trans hi)
  · exact Or.inr ⟨h1, x, by rw [h2, hi]; rfl⟩

theorem bbb_complete_serial (K : usb_h) (w : World) (c : Completion) (h : Serial w) :
    Serial (bbb_complete K w c) := by
  rcases h with h | ⟨h1, x, h2⟩
  · rw [bbb_complete_nil K w c h]
    exact Or.inl h
  · rw [bbb_complete_cons K w c x [] h2]
    exact Serial.of_step (bbb_state_serial K _ c.actlen c.err) rfl

theorem bbb_run_serial (K : usb_h) (cs : List Completion) :
    ∀ w : World, Serial w → Serial (bbb_run K w cs) := by
  induction cs with
  | nil => intro w h; exact h
  | cons c t ih =>
    intro w h
    exact ih _ (bbb_complete_serial K w c h)

theorem cbi_complete_serial (K : usb_h) (w : World) (c : Completion) (h : Serial w) :
    Serial (cbi_complete K w c) := by
  rcases h with h | ⟨h1, x, h2⟩
  · simp only [cbi_complete, h]
    exact Or.inl h
  · simp only [cbi_complete, h2]
    exact Serial.of_step (cbi_state_serial K _ c.actlen c.err) rfl

theorem cbi_run_serial (K : usb_h) (cs : List Completion) :
    ∀ w : World, Serial w → Serial (cbi_run K w cs) := by
  induction cs with
  | nil => intro w h; exact h
  | cons c t ih =>
    intro w h
    exact ih _ (cbi_complete_serial K w c h)

theorem bbb_transfer_serial (K : usb_h) (w : World) (lun : Int) (cmd : List Nat) (cmdlen : Int)
    (data : Nat) (datalen dir : Int) (timeout flags cb priv : Nat) (hinf : w.inflight = []) :
    Serial (umass_bbb_transfer K w lun cmd cmdlen data datalen dir timeout flags cb priv) := by
  unfold umass_bbb_transfer
  by_cases hd : w.sc.sc_dying = true
  · rw [if_pos hd]
    exact Or.inl hinf
  · rw [if_neg hd]
    have h : Prog (bbb_transfer_store K w lun cmd cmdlen data datalen dir timeout cb priv) 0
        (bbb_send_cbw K (bbb_transfer_store K w lun cmd cmdlen data datalen dir timeout cb priv)
          flags) :=
      prog_setup_or_reset K _ _ 0 (Same.refl _) _ _ _ _ _ _
        (by simp [bbb_transfer_store, TSTATE_BBB_COMMAND])
        (by simp [bbb_transfer_store, TSTATE_BBB_COMMAND])
    exact Serial.of_step (Step.of_progress h (le_refl 0)) (by simpa [bbb_transfer_store] using hinf)

theorem cbi_transfer_serial (K : usb_h) (w : World) (lun : Int) (cmd : List Nat) (cmdlen : Int)
    (data : Nat) (datalen dir : Int) (timeout flags cb priv : Nat) (hinf : w.inflight = []) :
    Serial (umass_cbi_transfer K w lun cmd cmdlen data datalen dir timeout flags cb priv) := by
  unfold umass_cbi_transfer
  by_cases hd : w.sc.sc_dying = true
  · rw [if_pos hd]
    exact Or.inl hinf
  · rw [if_neg hd]
    refine Serial.of_step (step_cbi_send_cb K (Same.refl _) cmd cmdlen flags ?_) ?_
    · simp [cbi_transfer_store, TSTATE_CBI_COMMAND, TSTATE_IDLE]
    · simpa [cbi_transfer_store] using hinf

theorem bbb_transfer_any_state (K : usb_h) (w : World) (s : Int) (lun : Int) (cmd : List Nat)
    (cmdlen : Int) (data : Nat) (datalen dir : Int) (timeout flags cb priv : Nat)
    (hlive : w.sc.sc_dying = false) :
    umass_bbb_transfer K (w.set_state s) lun cmd cmdlen data datalen dir timeout flags cb priv =
      umass_bbb_transfer K w lun cmd cmdlen data datalen dir timeout flags cb priv := by
  have hlive' : (w.set_state s).sc.sc_dying = false := hlive
  simp only [umass_bbb_transfer, hlive, hlive', Bool.false_eq_true, if_false]
  rfl

theorem cbi_transfer_any_state (K : usb_h) (w : World) (s : Int) (lun : Int) (cmd : List Nat)
    (cmdlen : Int) (data : Nat) (datalen dir : Int) (timeout flags cb priv : Nat)
    (hlive : w.sc.sc_dying = false) :
    umass_cbi_transfer K (w.set_state s) lun cmd cmdlen data datalen dir timeout flags cb priv =
      umass_cbi_transfer K w lun cmd cmdlen data datalen dir timeout flags cb priv := by
  have hlive' : (w.set_state s).sc.sc_dying = false := hlive
  simp only [umass_cbi_transfer, hlive, hlive', Bool.false_eq_true, if_false]
  rfl

/-! ## C11, C12, C13: commands on a busy session, CBI command and status phases -/

/-- C11 as stated fails: `umass_bbb_transfer` called on the live session
`w_bbb_data`, which is in state DATA with the data transfer of a command with
callback 7 and context 9 in flight, starts the second command: the stored
callback, context, data pointer, length and direction are those of the new call,
the state is COMMAND, and a second transfer (the CBW) is in flight. The same
holds for `umass_cbi_transfer` on the session `w_cbi_data`. -/
theorem C11_second_command_is_started :
    (w_bbb_data.sc.sc_dying = false ∧ w_bbb_data.sc.transfer_state = TSTATE_BBB_DATA ∧
      w_bbb_data.inflight = [XFER_BBB_DATAIN] ∧ w_bbb_data.sc.transfer_cb = 7 ∧
      w_bbb_data.sc.transfer_priv = 9 ∧
      (umass_bbb_transfer K_std w_bbb_data 0 [0, 0, 0, 0, 0, 0] 6 0x2000 64 DIR_OUT 1000 0 8
        10).sc.transfer_cb = 8 ∧
      (umass_bbb_transfer K_std w_bbb_data 0 [0, 0, 0, 0, 0, 0] 6 0x2000 64 DIR_OUT 1000 0 8
        10).sc.transfer_priv = 10 ∧
      (umass_bbb_transfer K_std w_bbb_data 0 [0, 0, 0, 0, 0, 0] 6 0x2000 64 DIR_OUT 1000 0 8
        10).sc.transfer_data = 0x2000 ∧
      (umass_bbb_transfer K_std w_bbb_data 0 [0, 0, 0, 0, 0, 0] 6 0x2000 64 DIR_OUT 1000 0 8
        10).sc.transfer_datalen = 64 ∧
      (umass_bbb_transfer K_std w_bbb_data 0 [0, 0, 0, 0, 0, 0] 6 0x2000 64 DIR_OUT 1000 0 8
        10).sc.transfer_dir = DIR_OUT ∧
      (umass_bbb_transfer K_std w_bbb_data 0 [0, 0, 0, 0, 0, 0] 6 0x2000 64 DIR_OUT 1000 0 8
        10).sc.transfer_state = TSTATE_BBB_COMMAND ∧
      (umass_bbb_transfer K_std w_bbb_data 0 [0, 0, 0, 0, 0, 0] 6 0x2000 64 DIR_OUT 1000 0 8
        10).inflight = [XFER_BBB_DATAIN, XFER_BBB_CBW]) ∧
    (w_cbi_data.sc.sc_dying = false ∧ w_cbi_data.sc.transfer_state = TSTATE_CBI_DATA ∧
      w_cbi_data.inflight = [XFER_CBI_DATAIN] ∧ w_cbi_data.sc.transfer_cb = 7 ∧
      (umass_cbi_transfer K_std w_cbi_data 0 [0, 0, 0, 0, 0, 0, 0, 0, 0, 0, 0, 0] 12 0x2000 64
        DIR_OUT 1000 0 8 10).sc.transfer_cb = 8 ∧
      (umass_cbi_transfer K_std w_cbi_data 0 [0, 0, 0, 0, 0, 0, 0, 0, 0, 0, 0, 0] 12 0x2000 64
        DIR_OUT 1000 0 8 10).sc.transfer_state = TSTATE_CBI_COMMAND ∧
      (umass_cbi_transfer K_std w_cbi_data 0 [0, 0, 0, 0, 0, 0, 0, 0, 0, 0, 0, 0] 12 0x2000 64
        DIR_OUT 1000 0 8 10).inflight = [XFER_CBI_DATAIN, XFER_CBI_CB]) := by
  decide

/-- C11 (amended): `umass_bbb_transfer` and `umass_cbi_transfer` do not test
`transfer_state`: on a live session in any state `s` they do exactly what they do
on the same session when it is idle, so they start the command. That at most one
transfer is in flight, and none while the session is idle (`Serial`), is kept by
a caller that issues commands on idle sessions only: it then holds after the
call and after every sequence `cs` of completions delivered to the completion
handler. -/
theorem C11_serial_by_caller_discipline (K : usb_h) (w : World) (s : Int) (lun : Int)
    (cmd : List Nat) (cmdlen : Int) (data : Nat) (datalen dir : Int)
    (timeout flags cb priv : Nat) (cs : List Completion)
    (hlive : w.sc.sc_dying = false) (hser : Serial w)
    (hidle : w.sc.transfer_state = TSTATE_IDLE) :
    umass_bbb_transfer K (w.set_state s) lun cmd cmdlen data datalen dir timeout flags cb priv =
      umass_bbb_transfer K w lun cmd cmdlen data datalen dir timeout flags cb priv ∧
    umass_cbi_transfer K (w.set_state s) lun cmd cmdlen data datalen dir timeout flags cb priv =
      umass_cbi_transfer K w lun cmd cmdlen data datalen dir timeout flags cb priv ∧
    Serial (bbb_run K
      (umass_bbb_transfer K w lun cmd cmdlen data datalen dir timeout flags cb priv) cs) ∧
    (bbb_run K (umass_bbb_transfer K w lun cmd cmdlen data datalen dir timeout flags cb priv)
      cs).inflight.length ≤ 1 ∧
    Serial (cbi_run K
      (umass_cbi_transfer K w lun cmd cmdlen data datalen dir timeout flags cb priv) cs) ∧
    (cbi_run K (umass_cbi_transfer K w lun cmd cmdlen data datalen dir timeout flags cb priv)
      cs).inflight.length ≤ 1 := by
  have hinf : w.inflight = [] := hser.idle hidle
  have hb := bbb_run_serial K cs _
    (bbb_transfer_serial K w lun cmd cmdlen data datalen dir timeout flags cb priv hinf)
  have hc := cbi_run_serial K cs _
    (cbi_transfer_serial K w lun cmd cmdlen data datalen dir timeout flags cb priv hinf)
  exact ⟨bbb_transfer_any_state K w s lun cmd cmdlen data datalen dir timeout flags cb priv hlive,
    cbi_transfer_any_state K w s lun cmd cmdlen data datalen dir timeout flags cb priv hlive,
    hb, hb.length_le, hc, hc.length_le⟩

/-- C11 (amended) on the idle session `w_bbb`: the 512-byte read issued in state
DATA is the read issued in state IDLE, and after the completion of its CBW one
transfer is in flight. -/
theorem C11_serial_by_caller_discipline_witness :
    (w_bbb.sc.sc_dying = false ∧ Serial w_bbb ∧ w_bbb.sc.transfer_state = TSTATE_IDLE) ∧
    umass_bbb_transfer K_std (w_bbb.set_state TSTATE_BBB_DATA) 0
        [0x28, 0, 0, 0, 0, 0, 0, 0, 1, 0] 10 0x1000 512 DIR_IN 1000 0 7 9 =
      umass_bbb_transfer K_std w_bbb 0 [0x28, 0, 0, 0, 0, 0, 0, 0, 1, 0] 10 0x1000 512 DIR_IN
        1000 0 7 9 ∧
    (bbb_run K_std
      (umass_bbb_transfer K_std w_bbb 0 [0x28, 0, 0, 0, 0, 0, 0, 0, 1, 0] 10 0x1000 512 DIR_IN
        1000 0 7 9)
      [completion usbd_status.USBD_NORMAL_COMPLETION 31]).inflight.length ≤ 1 :=
  ⟨⟨by decide, Or.inl (by decide), by decide⟩,
   (C11_serial_by_caller_discipline K_std w_bbb TSTATE_BBB_DATA 0
      [0x28, 0, 0, 0, 0, 0, 0, 0, 1, 0] 10 0x1000 512 DIR_IN 1000 0 7 9
      [completion usbd_status.USBD_NORMAL_COMPLETION 31] (by decide) (Or.inl (by decide))
      (by decide)).1,
   (C11_serial_by_caller_discipline K_std w_bbb TSTATE_BBB_DATA 0
      [0x28, 0, 0, 0, 0, 0, 0, 0, 1, 0] 10 0x1000 512 DIR_IN 1000 0 7 9
      [completion usbd_status.USBD_NORMAL_COMPLETION 31] (by decide) (Or.inl (by decide))
      (by decide)).2.2.2.1⟩

/-- C12 (amended): in `umass_cbi_state`, state CBI_COMMAND on a live session. A
completion with `USBD_STALLED` does exactly
`umass_transfer_done(sc, transfer_datalen, STATUS_CMD_FAILED)`: the state is
IDLE, the only new event is the call of the callback with residue
`transfer_datalen` and `STATUS_CMD_FAILED` (no request is set up, nothing is
submitted). Any other error except `USBD_CANCELLED` does exactly
`umass_cbi_reset(sc, STATUS_WIRE_FAILED)`. -/
theorem C12_cbi_command_stall_is_cmd_failed (K : usb_h) (w : World) (n : Nat)
    (err : usbd_status) (hlive : w.sc.sc_dying = false)
    (hst : w.sc.transfer_state = TSTATE_CBI_COMMAND) :
    (err = usbd_status.USBD_STALLED →
      umass_cbi_state K w n err =
        umass_transfer_done w w.sc.transfer_datalen STATUS_CMD_FAILED ∧
      (umass_cbi_state K w n err).sc.transfer_state = TSTATE_IDLE ∧
      (umass_cbi_state K w n err).trace = w.trace ++
        [Event.transfer_cb w.sc.transfer_cb w.sc.transfer_priv w.sc.transfer_datalen
          STATUS_CMD_FAILED] ∧
      (umass_cbi_state K w n err).inflight = w.inflight) ∧
    (err ≠ usbd_status.USBD_STALLED → err ≠ usbd_status.USBD_NORMAL_COMPLETION →
      err ≠ usbd_status.USBD_CANCELLED →
      umass_cbi_state K w n err = umass_cbi_reset K w STATUS_WIRE_FAILED) := by
  constructor
  · intro he
    subst he
    have e : umass_cbi_state K w n usbd_status.USBD_STALLED =
        umass_transfer_done w w.sc.transfer_datalen STATUS_CMD_FAILED := by
      simp [umass_cbi_state, hlive, hst, cbi_case_COMMAND]
    rw [e]
    exact ⟨rfl, rfl, rfl, rfl⟩
  · intro h1 h2 h3
    simp [umass_cbi_state, hlive, hst, cbi_case_COMMAND, h1, h2, h3]

/-- C12 (amended) on the session `w_cbi_command`, whose command block stalls. -/
theorem C12_cbi_command_stall_is_cmd_failed_witness :
    (w_cbi_command.sc.sc_dying = false ∧
      w_cbi_command.sc.transfer_state = TSTATE_CBI_COMMAND) ∧
    callbacks (umass_cbi_state K_std w_cbi_command 0 usbd_status.USBD_STALLED).trace =
      [(7, 9, 512, STATUS_CMD_FAILED)] ∧
    umass_cbi_state K_std w_cbi_command 0 usbd_status.USBD_STALLED =
      umass_transfer_done w_cbi_command w_cbi_command.sc.transfer_datalen STATUS_CMD_FAILED ∧
    umass_cbi_state K_std w_cbi_command 0 usbd_status.USBD_IOERROR =
      umass_cbi_reset K_std w_cbi_command STATUS_WIRE_FAILED :=
  ⟨⟨by decide, by decide⟩, by decide,
   ((C12_cbi_command_stall_is_cmd_failed K_std w_cbi_command 0 usbd_status.USBD_STALLED
      (by decide) (by decide)).1 rfl).1,
   (C12_cbi_command_stall_is_cmd_failed K_std w_cbi_command 0 usbd_status.USBD_IOERROR
      (by decide) (by decide)).2 (by decide) (by decide) (by decide)⟩

/-- C12 as stated fails for the error `USBD_CANCELLED`: in state CBI_COMMAND on a
live session it does not start the CBI reset (no control request is set up, the
state is not CBI_RESET1, and no transfer is submitted); the command ends at once
with `STATUS_TIMEOUT` and residue 0. -/
theorem C12_cancelled_command_is_not_reset :
    w_cbi_command.sc.sc_dying = false ∧
    w_cbi_command.sc.transfer_state = TSTATE_CBI_COMMAND ∧
    umass_cbi_state K_std w_cbi_command 0 usbd_status.USBD_CANCELLED ≠
      umass_cbi_reset K_std w_cbi_command STATUS_WIRE_FAILED ∧
    callbacks (umass_cbi_state K_std w_cbi_command 0 usbd_status.USBD_CANCELLED).trace =
      [(7, 9, 0, STATUS_TIMEOUT)] ∧
    (umass_cbi_state K_std w_cbi_command 0 usbd_status.USBD_CANCELLED).sc.transfer_state =
      TSTATE_IDLE ∧
    submissions (umass_cbi_state K_std w_cbi_command 0 usbd_status.USBD_CANCELLED).trace =
      submissions w_cbi_command.trace ∧
    (umass_cbi_reset K_std w_cbi_command STATUS_WIRE_FAILED).sc.transfer_state =
      TSTATE_CBI_RESET1 ∧
    submissions (umass_cbi_reset K_std w_cbi_command STATUS_WIRE_FAILED).trace =
      submissions w_cbi_command.trace ++ [XFER_CBI_RESET1] := by
  decide

theorem cbi_run_idle_transport (K : usb_h) (cs : List Completion) :
    ∀ w : World, w.inflight = [] → cbi_run K w cs = w := by
  induction cs with
  | nil => intro w _; rfl
  | cons c t ih =>
    intro w h
    have e : cbi_complete K w c = w := by simp only [cbi_complete, h]
    simp only [cbi_run, List.foldl_cons, e]
    exact ih w h

/-- C13 as stated fails on the code: a 512-byte read on a CBI+CCI session
whose command block and data transfer complete normally and whose interrupt
status transfer completes normally with an actual length of 1. `umass_cbi_state`
leaves the `switch` at `if (actlen != 2) break;`: the callback has not been
called, the state is still CBI_STATUS and nothing is in flight, so that no
further completion can arrive and the session never returns to IDLE. -/
theorem C13_short_status_block_hangs :
    callbacks (cbi_run K_std
      (umass_cbi_transfer K_std w_cbi_i 0 [0x28, 0, 0, 0, 0, 0, 0, 0, 1, 0, 0, 0] 12 0x1000 512
        DIR_IN 1000 0 7 9)
      [completion usbd_status.USBD_NORMAL_COMPLETION 12,
       completion usbd_status.USBD_NORMAL_COMPLETION 512,
       completion usbd_status.USBD_NORMAL_COMPLETION 1]).trace = [] ∧
    (cbi_run K_std
      (umass_cbi_transfer K_std w_cbi_i 0 [0x28, 0, 0, 0, 0, 0, 0, 0, 1, 0, 0, 0] 12 0x1000 512
        DIR_IN 1000 0 7 9)
      [completion usbd_status.USBD_NORMAL_COMPLETION 12,
       completion usbd_status.USBD_NORMAL_COMPLETION 512]).sc.transfer_state =
      TSTATE_CBI_STATUS ∧
    (cbi_run K_std
      (umass_cbi_transfer K_std w_cbi_i 0 [0x28, 0, 0, 0, 0, 0, 0, 0, 1, 0, 0, 0] 12 0x1000 512
        DIR_IN 1000 0 7 9)
      [completion usbd_status.USBD_NORMAL_COMPLETION 12,
       completion usbd_status.USBD_NORMAL_COMPLETION 512]).inflight = [XFER_CBI_STATUS] ∧
    (cbi_run K_std
      (umass_cbi_transfer K_std w_cbi_i 0 [0x28, 0, 0, 0, 0, 0, 0, 0, 1, 0, 0, 0] 12 0x1000 512
        DIR_IN 1000 0 7 9)
      [completion usbd_status.USBD_NORMAL_COMPLETION 12,
       completion usbd_status.USBD_NORMAL_COMPLETION 512,
       completion usbd_status.USBD_NORMAL_COMPLETION 1]).sc.transfer_state =
      TSTATE_CBI_STATUS ∧
    (cbi_run K_std
      (umass_cbi_transfer K_std w_cbi_i 0 [0x28, 0, 0, 0, 0, 0, 0, 0, 1, 0, 0, 0] 12 0x1000 512
        DIR_IN 1000 0 7 9)
      [completion usbd_status.USBD_NORMAL_COMPLETION 12,
       completion usbd_status.USBD_NORMAL_COMPLETION 512,
       completion usbd_status.USBD_NORMAL_COMPLETION 1]).inflight = [] ∧
    ∀ cs : List Completion,
      cbi_run K_std
        (cbi_run K_std
          (umass_cbi_transfer K_std w_cbi_i 0 [0x28, 0, 0, 0, 0, 0, 0, 0, 1, 0, 0, 0] 12 0x1000
            512 DIR_IN 1000 0 7 9)
          [completion usbd_status.USBD_NORMAL_COMPLETION 12,
           completion usbd_status.USBD_NORMAL_COMPLETION 512,
           completion usbd_status.USBD_NORMAL_COMPLETION 1]) cs =
        cbi_run K_std
          (umass_cbi_transfer K_std w_cbi_i 0 [0x28, 0, 0, 0, 0, 0, 0, 0, 1, 0, 0, 0] 12 0x1000
            512 DIR_IN 1000 0 7 9)
          [completion usbd_status.USBD_NORMAL_COMPLETION 12,
           completion usbd_status.USBD_NORMAL_COMPLETION 512,
           completion usbd_status.USBD_NORMAL_COMPLETION 1] :=
  ⟨by decide, by decide, by decide, by decide, by decide,
   fun cs => cbi_run_idle_transport K_std cs _ (by decide)⟩

/-- C13 (amended): on a live session in state CBI_STATUS, a completion without
error whose actual length is not 2 makes `umass_cbi_state` return at
`if (actlen != 2) break;` with the session unchanged. Delivered as the
completion of the one transfer in flight, it leaves the callback uncalled, no
transfer submitted and no control request (hence no reset) set up, the state
CBI_STATUS and nothing in flight; no later completion changes the session. -/
theorem C13_wrong_length_status_is_dropped (K : usb_h) (w : World) (n x : Nat) (c : Completion)
    (cs : List Completion)
    (hlive : w.sc.sc_dying = false) (hst : w.sc.transfer_state = TSTATE_CBI_STATUS)
    (hinf : w.inflight = [x]) (hn : n % 4294967296 ≠ 2)
    (he : c.err = usbd_status.USBD_NORMAL_COMPLETION) (hd : c.dying = false)
    (hc : c.actlen % 4294967296 ≠ 2) :
    umass_cbi_state K w n usbd_status.USBD_NORMAL_COMPLETION = w ∧
    callbacks (cbi_complete K w c).trace = callbacks w.trace ∧
    submissions (cbi_complete K w c).trace = submissions w.trace ∧
    ctrl_requests (cbi_complete K w c).trace = ctrl_requests w.trace ∧
    (cbi_complete K w c).sc.transfer_state = TSTATE_CBI_STATUS ∧
    (cbi_complete K w c).inflight = [] ∧
    cbi_run K w (c :: cs) = cbi_complete K w c := by
  have e : cbi_complete K w c =
      { w with sc := { w.sc with sbl := c.sbl }, inflight := [] } := by
    simp [cbi_complete, hinf, umass_cbi_state, cbi_case_STATUS, he, hd, hlive, hst, hc,
      TSTATE_CBI_COMMAND, TSTATE_CBI_DATA, TSTATE_CBI_STATUS]
  refine ⟨?_, ?_, ?_, ?_, ?_, ?_, ?_⟩
  · simp [umass_cbi_state, cbi_case_STATUS, hlive, hst, hn,
      TSTATE_CBI_COMMAND, TSTATE_CBI_DATA, TSTATE_CBI_STATUS]
  · rw [e]
  · rw [e]
  · rw [e]
  · rw [e]; exact hst
  · rw [e]
  · simp only [cbi_run, List.foldl_cons]
    exact cbi_run_idle_transport K cs _ (by rw [e])

/-- C13 (amended) on the CBI+CCI session `w_cbi_i_status` (512-byte read, command
block and data transfer completed, interrupt status transfer in flight) and a
status completion of length 1. -/
theorem C13_wrong_length_status_is_dropped_witness :
    (w_cbi_i_status.sc.sc_dying = false ∧
      w_cbi_i_status.sc.transfer_state = TSTATE_CBI_STATUS ∧
      w_cbi_i_status.inflight = [XFER_CBI_STATUS] ∧ 1 % 4294967296 ≠ 2) ∧
    umass_cbi_state K_std w_cbi_i_status 1 usbd_status.USBD_NORMAL_COMPLETION =
      w_cbi_i_status ∧
    callbacks (cbi_complete K_std w_cbi_i_status
      (completion usbd_status.USBD_NORMAL_COMPLETION 1)).trace = [] :=
  have h := C13_wrong_length_status_is_dropped K_std w_cbi_i_status 1 XFER_CBI_STATUS
    (completion usbd_status.USBD_NORMAL_COMPLETION 1) []
    (by decide) (by decide) (by decide) (by decide) (by decide) (by decide) (by decide)
  ⟨by decide, h.1, h.2.1.trans (by decide)⟩

/-! ## C14 to C17: the SCSI command layer -/

theorem wire_xfer_count_append (a b : List scsipi_call) :
    wire_xfer_count (a ++ b) = wire_xfer_count a + wire_xfer_count b := by
  induction a with
  | nil => simp [wire_xfer_count]
  | cons c t ih => cases c <;> simp [wire_xfer_count, ih]; omega

theorem scsipi_done_count_append (a b : List scsipi_call) :
    scsipi_done_count (a ++ b) = scsipi_done_count a + scsipi_done_count b := by
  induction a with
  | nil => simp [scsipi_done_count]
  | cons c t ih => cases c <;> simp [scsipi_done_count, ih]; omega

/-- C14: `umass_scsipi_request(ADAPTER_REQ_RUN_XFER)`, for a request that the
target check of a `UMASS_DEBUG` kernel lets through. When the session is dying
or `xs->datalen` exceeds `UMASS_MAX_TRANSFER_SIZE`, `xs->error` is
`XS_DRIVER_STUFFUP` and the only call made is one `scsipi_done(xs)`. In every
other case the wire transfer method is called exactly once, with the command,
data and timeout of `xs`: with `USBD_SYNCHRONOUS` and `umass_null_cb`, followed
by one `scsipi_done`, in polled mode, and with `umass_scsipi_cb` alone
otherwise. -/
theorem C14_request_rejects_or_calls_wire_once (K : scsipi_h) (w : scsipi_world)
    (hid : ¬ (K.UMASS_DEBUG = true ∧ scsipi_wrong_id w = true)) :
    ((w.sc.sc_dying = true ∨ w.xs.datalen > K.MAXPHYS) →
      (umass_scsipi_request K w K.ADAPTER_REQ_RUN_XFER).xs.error = K.XS_DRIVER_STUFFUP ∧
      (umass_scsipi_request K w K.ADAPTER_REQ_RUN_XFER).calls =
        w.calls ++ [scsipi_call.scsipi_done { w.xs with error := K.XS_DRIVER_STUFFUP }] ∧
      wire_xfer_count (umass_scsipi_request K w K.ADAPTER_REQ_RUN_XFER).calls =
        wire_xfer_count w.calls ∧
      scsipi_done_count (umass_scsipi_request K w K.ADAPTER_REQ_RUN_XFER).calls =
        scsipi_done_count w.calls + 1) ∧
    (¬ (w.sc.sc_dying = true ∨ w.xs.datalen > K.MAXPHYS) →
      wire_xfer_count (umass_scsipi_request K w K.ADAPTER_REQ_RUN_XFER).calls =
        wire_xfer_count w.calls + 1 ∧
      (w.xs.xs_control &&& K.XS_CTL_POLL ≠ 0 →
        ∃ e, (umass_scsipi_request K w K.ADAPTER_REQ_RUN_XFER).calls =
          w.calls ++ [scsipi_call.wire_xfer w.xs.xs_periph.periph_lun (wire_cmd.xs_cmd w.xs.cmd)
              w.xs.cmdlen (wire_data.xs_data w.xs.data) w.xs.datalen (scsipi_request_dir K w.xs)
              (u_int_of_int w.xs.timeout) K.USBD_SYNCHRONOUS
              umass_callback.intr_ptrs_umass_null_cb,
            scsipi_call.scsipi_done { w.xs with error := e }]) ∧
      (w.xs.xs_control &&& K.XS_CTL_POLL = 0 →
        (umass_scsipi_request K w K.ADAPTER_REQ_RUN_XFER).calls =
          w.calls ++ [scsipi_call.wire_xfer w.xs.xs_periph.periph_lun (wire_cmd.xs_cmd w.xs.cmd)
              w.xs.cmdlen (wire_data.xs_data w.xs.data) w.xs.datalen (scsipi_request_dir K w.xs)
              (u_int_of_int w.xs.timeout) 0 umass_callback.intr_ptrs_umass_scsipi_cb])) := by
  constructor
  · intro h
    have e : umass_scsipi_request K w K.ADAPTER_REQ_RUN_XFER =
        scsipi_done (w.set_error K.XS_DRIVER_STUFFUP) := by
      unfold umass_scsipi_request
      rw [if_pos rfl]
      by_cases hd : w.sc.sc_dying = true
      · rw [if_pos hd]
      · rw [if_neg hd, if_neg hid]
        rcases h with h | h
        · exact absurd h hd
        · rw [if_pos h]
    rw [e]
    simp [scsipi_done, scsipi_world.set_error, scsipi_world.log, wire_xfer_count_append,
      scsipi_done_count_append, wire_xfer_count, scsipi_done_count]
  · intro h
    have hd : ¬ w.sc.sc_dying = true := fun hh => h (Or.inl hh)
    have hl : ¬ w.xs.datalen > K.MAXPHYS := fun hh => h (Or.inr hh)
    by_cases hp : w.xs.xs_control &&& K.XS_CTL_POLL ≠ 0
    · refine ⟨?_, fun _ => ?_, fun h0 => absurd h0 hp⟩
      · unfold umass_scsipi_request
        rw [if_pos rfl, if_neg hd, if_neg hid, if_neg hl, if_pos hp]
        simp [scsipi_done, scsipi_world.set_error, scsipi_world.log, wire_xfer_count_append,
          wire_xfer_count]
      · unfold umass_scsipi_request
        rw [if_pos rfl, if_neg hd, if_neg hid, if_neg hl, if_pos hp]
        refine ⟨(if K.USBD_INVAL = usbd_status.USBD_NORMAL_COMPLETION then K.XS_NOERROR
          else if K.USBD_INVAL = K.USBD_TIMEOUT then K.XS_TIMEOUT else K.XS_DRIVER_STUFFUP), ?_⟩
        simp only [scsipi_done, scsipi_world.set_error, scsipi_world.log, List.append_assoc,
          List.singleton_append]
    · refine ⟨?_, fun h0 => absurd h0 hp, fun _ => ?_⟩
      · unfold umass_scsipi_request
        rw [if_pos rfl, if_neg hd, if_neg hid, if_neg hl, if_neg hp]
        simp [scsipi_world.log, wire_xfer_count_append, wire_xfer_count]
      · unfold umass_scsipi_request
        rw [if_pos rfl, if_neg hd, if_neg hid, if_neg hl, if_neg hp]
        rfl

/-- C14 on the live session `w_scsipi xs_read`: the 512-byte read is handed to the
wire method once, with `umass_scsipi_cb`; and on the same session marked dying
it is rejected. -/
theorem C14_request_rejects_or_calls_wire_once_witness :
    ¬ (K_scsipi.UMASS_DEBUG = true ∧ scsipi_wrong_id (w_scsipi xs_read) = true) ∧
    (umass_scsipi_request K_scsipi (w_scsipi xs_read) K_scsipi.ADAPTER_REQ_RUN_XFER).calls =
      (w_scsipi xs_read).calls ++
        [scsipi_call.wire_xfer (w_scsipi xs_read).xs.xs_periph.periph_lun
          (wire_cmd.xs_cmd (w_scsipi xs_read).xs.cmd) (w_scsipi xs_read).xs.cmdlen
          (wire_data.xs_data (w_scsipi xs_read).xs.data) (w_scsipi xs_read).xs.datalen
          (scsipi_request_dir K_scsipi (w_scsipi xs_read).xs)
          (u_int_of_int (w_scsipi xs_read).xs.timeout) 0
          umass_callback.intr_ptrs_umass_scsipi_cb] ∧
    (umass_scsipi_request K_scsipi (w_scsipi xs_read) K_scsipi.ADAPTER_REQ_RUN_XFER).calls =
      [scsipi_call.wire_xfer 0 (wire_cmd.xs_cmd [0x28, 0, 0, 0, 0, 0, 0, 0, 1, 0]) 10
        (wire_data.xs_data 0x1000) 512 DIR_IN 10000 0
        umass_callback.intr_ptrs_umass_scsipi_cb] ∧
    (umass_scsipi_request K_scsipi
      { w_scsipi xs_read with sc := { sc_bbb with sc_dying := true } }
      K_scsipi.ADAPTER_REQ_RUN_XFER).calls =
      [scsipi_call.scsipi_done { xs_read with error := K_scsipi.XS_DRIVER_STUFFUP }] :=
  ⟨by decide,
   ((C14_request_rejects_or_calls_wire_once K_scsipi (w_scsipi xs_read) (by decide)).2
      (by decide)).2.2 (by decide),
   by decide,
   ((C14_request_rejects_or_calls_wire_once K_scsipi
      { w_scsipi xs_read with sc := { sc_bbb with sc_dying := true } } (by decide)).1
      (Or.inl (by decide))).2.1⟩

theorem sense_cb_calls (K : scsipi_h) (w : scsipi_world) (r s : Int) :
    (umass_scsipi_sense_cb K w r s).calls =
      w.calls ++ [scsipi_call.scsipi_done (umass_scsipi_sense_cb K w r s).xs] := by
  simp only [umass_scsipi_sense_cb, scsipi_done, scsipi_world.log, scsipi_world.set_error]
  split_ifs <;> rfl

theorem sense_cb_sc_sense (K : scsipi_h) (w : scsipi_world) (r s : Int) :
    (umass_scsipi_sense_cb K w r s).sc.sc_sense = 0 := by
  simp only [umass_scsipi_sense_cb, scsipi_done, scsipi_world.log, scsipi_world.set_error]
  split_ifs <;> rfl

theorem fetches_sense (K : scsipi_h) (w : scsipi_world) (residue status : Int)
    (hs : status = STATUS_CMD_FAILED ∨ status = STATUS_CMD_UNKNOWN) :
    FetchesSense K w residue status := by
  have h0 : status ≠ STATUS_CMD_OK := by
    rcases hs with h | h <;> rw [h] <;> decide
  have h1 : status = STATUS_CMD_UNKNOWN ∨ status = STATUS_CMD_FAILED := hs.symm
  refine ⟨({ w with
      xs := { w.xs with resid := residue }
      sc := { w.sc with sc_sense := 1 }
      sc_sense_cmd := request_sense_cmd K { w.xs with resid := residue }
        (if w.xs.xs_periph.periph_version < 4 then 18 else K.sizeof_xs_sense) } :
        scsipi_world).log
      (scsipi_call.wire_xfer w.xs.xs_periph.periph_lun
        (wire_cmd.sc_sense_cmd (request_sense_cmd K { w.xs with resid := residue }
          (if w.xs.xs_periph.periph_version < 4 then 18 else K.sizeof_xs_sense)))
        (if w.sc.sc_cmd = UMASS_CPROTO_UFI ∨ w.sc.sc_cmd = UMASS_CPROTO_ATAPI then
          UFI_COMMAND_LENGTH else K.sizeof_scsi_request_sense)
        wire_data.xs_sense (if w.xs.xs_periph.periph_version < 4 then 18 else K.sizeof_xs_sense)
        DIR_IN (u_int_of_int w.xs.timeout) 0 umass_callback.umass_scsipi_sense_cb),
    (if w.sc.sc_cmd = UMASS_CPROTO_UFI ∨ w.sc.sc_cmd = UMASS_CPROTO_ATAPI then
      UFI_COMMAND_LENGTH else K.sizeof_scsi_request_sense),
    (if w.xs.xs_periph.periph_version < 4 then 18 else K.sizeof_xs_sense), ?_, ?_⟩
  · unfold umass_scsipi_cb
    simp only [if_neg h0, if_pos h1]
  · refine ⟨rfl, rfl, rfl, rfl, ?_, fun r s => ?_⟩
    · simp [scsipi_world.log, scsipi_done_count_append, scsipi_done_count]
    · exact sense_cb_calls K _ r s

/-- C15: `umass_scsipi_cb` stores the residue in `xs->resid`. For
`STATUS_CMD_OK`, `STATUS_WIRE_FAILED` and `STATUS_TIMEOUT` it sets `xs->error` to
`XS_NOERROR`, `XS_RESET` and `XS_TIMEOUT` and then makes one call,
`scsipi_done(xs)`. For `STATUS_CMD_FAILED` and `STATUS_CMD_UNKNOWN` it does not
call `scsipi_done` but issues one REQUEST SENSE wire transfer (data-in into
`xs->sense`, completion `umass_scsipi_sense_cb`), and `scsipi_done` is called
once when that completion runs (`FetchesSense`). -/
theorem C15_scsipi_cb_maps_status_or_fetches_sense (K : scsipi_h) (w : scsipi_world)
    (residue : Int) :
    umass_scsipi_cb K w residue STATUS_CMD_OK =
      some { w with xs := { w.xs with resid := residue, error := K.XS_NOERROR }
                    calls := w.calls ++ [scsipi_call.scsipi_done
                      { w.xs with resid := residue, error := K.XS_NOERROR }] } ∧
    umass_scsipi_cb K w residue STATUS_WIRE_FAILED =
      some { w with xs := { w.xs with resid := residue, error := K.XS_RESET }
                    calls := w.calls ++ [scsipi_call.scsipi_done
                      { w.xs with resid := residue, error := K.XS_RESET }] } ∧
    umass_scsipi_cb K w residue STATUS_TIMEOUT =
      some { w with xs := { w.xs with resid := residue, error := K.XS_TIMEOUT }
                    calls := w.calls ++ [scsipi_call.scsipi_done
                      { w.xs with resid := residue, error := K.XS_TIMEOUT }] } ∧
    FetchesSense K w residue STATUS_CMD_FAILED ∧
    FetchesSense K w residue STATUS_CMD_UNKNOWN := by
  refine ⟨by simp [umass_scsipi_cb, scsipi_done, scsipi_world.set_error, scsipi_world.log,
      STATUS_CMD_OK],
    by simp [umass_scsipi_cb, scsipi_done, scsipi_world.set_error, scsipi_world.log,
      STATUS_CMD_OK, STATUS_WIRE_FAILED, STATUS_CMD_UNKNOWN, STATUS_CMD_FAILED],
    by simp [umass_scsipi_cb, scsipi_done, scsipi_world.set_error, scsipi_world.log,
      STATUS_CMD_OK, STATUS_WIRE_FAILED, STATUS_CMD_UNKNOWN, STATUS_CMD_FAILED, STATUS_TIMEOUT],
    fetches_sense K w residue _ (Or.inl rfl), fetches_sense K w residue _ (Or.inr rfl)⟩

/-- C16 (amended): `umass_scsipi_sense_cb` clears `sc_sense` and makes one call,
`scsipi_done(xs)`. In a build without `SEL4`, for a residue in the range of a
non-negative `int`, `xs->error` is then `XS_DRIVER_STUFFUP` when the status is
neither `STATUS_CMD_OK` nor `STATUS_CMD_UNKNOWN`, and otherwise `XS_SENSE` when
the residue is at most `sizeof(scsi_sense) - sizeof(extra_bytes)` and
`XS_SHORTSENSE` when it is larger. In a build with `SEL4` the transfer `xs`,
with `xs->error`, is left as it was. -/
theorem C16_sense_cb_completes_once (K : scsipi_h) (w : scsipi_world) (residue status : Int) :
    (umass_scsipi_sense_cb K w residue status).sc.sc_sense = 0 ∧
    (umass_scsipi_sense_cb K w residue status).calls =
      w.calls ++ [scsipi_call.scsipi_done (umass_scsipi_sense_cb K w residue status).xs] ∧
    (K.SEL4 = false → 0 ≤ residue → residue < 2147483648 →
      K.sizeof_extra_bytes ≤ K.sizeof_scsi_sense →
      (umass_scsipi_sense_cb K w residue status).xs =
        { w.xs with error :=
            if status = STATUS_CMD_OK ∨ status = STATUS_CMD_UNKNOWN then
              if residue ≤ (K.sizeof_scsi_sense : Int) - (K.sizeof_extra_bytes : Int) then
                K.XS_SENSE
              else K.XS_SHORTSENSE
            else K.XS_DRIVER_STUFFUP }) ∧
    (K.SEL4 = true → (umass_scsipi_sense_cb K w residue status).xs = w.xs) := by
  refine ⟨sense_cb_sc_sense K w residue status, sense_cb_calls K w residue status, ?_, ?_⟩
  · intro hsel h0 h1 hsz
    have hconv : (size_t_of_int residue : Int) = residue := by
      unfold size_t_of_int
      rw [Int.toNat_of_nonneg (Int.emod_nonneg _ (by decide))]
      exact Int.emod_eq_of_lt h0 (by omega)
    have hle : size_t_of_int residue ≤ K.sizeof_scsi_sense - K.sizeof_extra_bytes ↔
        residue ≤ (K.sizeof_scsi_sense : Int) - (K.sizeof_extra_bytes : Int) := by
      omega
    simp only [umass_scsipi_sense_cb, scsipi_done, scsipi_world.log, scsipi_world.set_error,
      hsel, Bool.false_eq_true, if_false, hle]
    split_ifs <;> rfl
  · intro hsel
    simp only [umass_scsipi_sense_cb, scsipi_done, scsipi_world.log, hsel, if_true]

/-- C16 (amended) on a failed command whose sense fetch returned all 18 bytes
(residue 0, `STATUS_CMD_OK`): `XS_SENSE` without `SEL4`, and `xs->error` as it
was with `SEL4`. -/
theorem C16_sense_cb_completes_once_witness :
    (K_scsipi.SEL4 = false ∧ (0 : Int) ≤ 0 ∧ (0 : Int) < 2147483648 ∧
      K_scsipi.sizeof_extra_bytes ≤ K_scsipi.sizeof_scsi_sense ∧ K_scsipi_sel4.SEL4 = true) ∧
    (umass_scsipi_sense_cb K_scsipi (w_scsipi xs_read) 0 STATUS_CMD_OK).xs =
      { xs_read with error := K_scsipi.XS_SENSE } ∧
    (umass_scsipi_sense_cb K_scsipi_sel4 (w_scsipi xs_read) 0 STATUS_CMD_OK).xs =
      (w_scsipi xs_read).xs :=
  ⟨⟨by decide, by decide, by decide, by decide, by decide⟩,
   (C16_sense_cb_completes_once K_scsipi (w_scsipi xs_read) 0 STATUS_CMD_OK).2.2.1
      (by decide) (by decide) (by decide) (by decide),
   (C16_sense_cb_completes_once K_scsipi_sel4 (w_scsipi xs_read) 0 STATUS_CMD_OK).2.2.2
      (by decide)⟩

/-- C16 as stated fails in a build with `SEL4`, where the assignments to
`xs->error` are compiled out: after a sense fetch that failed on the wire
(`STATUS_WIRE_FAILED`) `xs->error` is still `XS_NOERROR`, not
`XS_DRIVER_STUFFUP`, and after one that succeeded it is not `XS_SENSE`. -/
theorem C16_sel4_build_leaves_error_unset :
    K_scsipi_sel4.SEL4 = true ∧
    (w_scsipi xs_read).xs.error = K_scsipi_sel4.XS_NOERROR ∧
    (umass_scsipi_sense_cb K_scsipi_sel4 (w_scsipi xs_read) 18 STATUS_WIRE_FAILED).xs.error =
      K_scsipi_sel4.XS_NOERROR ∧
    (umass_scsipi_sense_cb K_scsipi_sel4 (w_scsipi xs_read) 18 STATUS_WIRE_FAILED).xs.error ≠
      K_scsipi_sel4.XS_DRIVER_STUFFUP ∧
    (umass_scsipi_sense_cb K_scsipi_sel4 (w_scsipi xs_read) 0 STATUS_CMD_OK).xs.error ≠
      K_scsipi_sel4.XS_SENSE ∧
    (umass_scsipi_sense_cb K_scsipi_sel4 (w_scsipi xs_read) 18 STATUS_WIRE_FAILED).calls =
      [scsipi_call.scsipi_done xs_read] := by
  decide

theorem polled_request_error (K : scsipi_h) (w : scsipi_world)
    (hid : ¬ (K.UMASS_DEBUG = true ∧ scsipi_wrong_id w = true))
    (hlive : w.sc.sc_dying = false) (hlen : w.xs.datalen ≤ K.MAXPHYS)
    (hpoll : w.xs.xs_control &&& K.XS_CTL_POLL ≠ 0)
    (h1 : K.USBD_INVAL ≠ usbd_status.USBD_NORMAL_COMPLETION)
    (h2 : K.USBD_INVAL ≠ K.USBD_TIMEOUT) :
    (umass_scsipi_request K w K.ADAPTER_REQ_RUN_XFER).xs.error = K.XS_DRIVER_STUFFUP := by
  unfold umass_scsipi_request
  rw [if_pos rfl, if_neg (by simp [hlive]), if_neg hid, if_neg (by omega), if_pos hpoll]
  simp [scsipi_done, scsipi_world.set_error, scsipi_world.log, h1, h2]

/-- C17, evaluated where the code fails it: a polled TEST UNIT READY on a live
session. `umass_scsipi_request` sets `sc_sync_status` to `USBD_INVAL`, calls the
wire method once with `USBD_SYNCHRONOUS` and `umass_null_cb`, and maps
`sc_sync_status`, which nothing has assigned in between (`umass_null_cb` does
not write it either): `xs->error` is `XS_DRIVER_STUFFUP` however the transfer
ended, also when it completed normally, and `scsipi_done` is called once. -/
theorem C17_polled_request_reports_stuffup :
    (umass_scsipi_request K_scsipi (w_scsipi xs_poll) K_scsipi.ADAPTER_REQ_RUN_XFER).calls =
      [scsipi_call.wire_xfer 0 (wire_cmd.xs_cmd [0, 0, 0, 0, 0, 0]) 6 (wire_data.xs_data 0) 0
         DIR_NONE 10000 K_scsipi.USBD_SYNCHRONOUS umass_callback.intr_ptrs_umass_null_cb,
       scsipi_call.scsipi_done { xs_poll with error := K_scsipi.XS_DRIVER_STUFFUP }] ∧
    (umass_scsipi_request K_scsipi (w_scsipi xs_poll) K_scsipi.ADAPTER_REQ_RUN_XFER).xs.error =
      K_scsipi.XS_DRIVER_STUFFUP ∧
    K_scsipi.XS_DRIVER_STUFFUP ≠ K_scsipi.XS_NOERROR ∧
    (umass_scsipi_request K_scsipi (w_scsipi xs_poll)
      K_scsipi.ADAPTER_REQ_RUN_XFER).sc_sync_status = K_scsipi.USBD_INVAL ∧
    (umass_null_cb { w_scsipi xs_poll with sc_sync_status := K_scsipi.USBD_INVAL } 0
      STATUS_CMD_OK).sc_sync_status = K_scsipi.USBD_INVAL ∧
    (umass_null_cb { w_scsipi xs_poll with sc_sync_status := K_scsipi.USBD_INVAL } 0
      STATUS_CMD_OK).xs = xs_poll := by
  decide

/-! ## C19, C20: LUN discovery -/

theorem discover_reported_trace (target minlun maxlun : Int) (l : List Nat) :
    ∀ w : scsi_world,
      (discover_reported w target minlun maxlun l).trace =
        w.trace ++
          (l.filter (fun x : Nat => decide (minlun ≤ (x : Int) ∧ (x : Int) ≤ maxlun))).map
            (fun x : Nat => scsi_event.scsi_probe_device target (x : Int)) := by
  induction l with
  | nil => intro w; simp [discover_reported]
  | cons x t ih =>
    intro w
    by_cases h : (x : Int) ≥ minlun ∧ (x : Int) ≤ maxlun
    · have h' : minlun ≤ (x : Int) ∧ (x : Int) ≤ maxlun := h
      simp only [discover_reported, if_pos h, ih, List.filter_cons, decide_eq_true h', if_true,
        List.map_cons, scsi_probe_device_call, List.append_assoc, List.singleton_append]
    · have h' : ¬ (minlun ≤ (x : Int) ∧ (x : Int) ≤ maxlun) := h
      simp only [discover_reported, if_neg h, ih, List.filter_cons, decide_eq_false h']
      rfl

theorem sweep_luns_succ (minlun : Int) (k : Nat) :
    sweep_luns minlun (k + 1) = minlun :: sweep_luns (minlun + 1) k := by
  simp only [sweep_luns, List.range_succ_eq_map, List.map_cons, List.map_map, Nat.cast_zero,
    add_zero, List.cons.injEq, true_and]
  apply List.map_congr_left
  intro i _
  simp only [Function.comp, Nat.cast_succ]
  ring

theorem sweep_luns_one (minlun : Int) : sweep_luns minlun 1 = [minlun] := by
  simp [sweep_luns, List.range_succ_eq_map]

theorem sweep_count_nil (n : Nat) : sweep_count (n + 1) [] = 1 := by
  simp [sweep_count]

theorem sweep_count_zero (n : Nat) (xs : List Int) : sweep_count (n + 1) (0 :: xs) = 1 := by
  simp [sweep_count]

theorem sweep_count_cons (n : Nat) (x : Int) (xs : List Int) (hx : x ≠ 0) :
    sweep_count (n + 1) (x :: xs) = sweep_count n xs + 1 := by
  simp only [sweep_count, List.takeWhile_cons, decide_eq_true hx, if_true, List.length_cons]
  omega

theorem discover_sweep_trace (target : Int) (n : Nat) :
    ∀ (w : scsi_world) (lun : Int),
      (discover_sweep w target n lun).trace =
        w.trace ++ (sweep_luns lun (sweep_count n w.probe_ret)).map
          (scsi_event.scsi_probe_device target) := by
  induction n with
  | zero => intro w lun; simp [discover_sweep, sweep_count, sweep_luns]
  | succ n ih =>
    intro w lun
    cases hp : w.probe_ret with
    | nil =>
      simp [discover_sweep, scsi_probe_device_call, hp, sweep_count_nil, sweep_luns_one]
    | cons x xs =>
      by_cases hx : x = 0
      · subst hx
        simp [discover_sweep, scsi_probe_device_call, hp, sweep_count_zero, sweep_luns_one]
      · rw [sweep_count_cons n x xs hx, sweep_luns_succ]
        simp only [discover_sweep, scsi_probe_device_call, hp, List.headD_cons, if_neg hx,
          List.tail_cons]
        rw [ih]
        simp only [List.map_cons, List.append_assoc, List.singleton_append]

theorem lun_compar_le (a b : Nat) : lun_compar a b ≤ 0 ↔ a ≤ b := by
  unfold lun_compar
  split_ifs <;> simp <;> omega

theorem kheapsort_sorted (l : List Nat) : List.Sorted (· ≤ ·) (kheapsort l lun_compar) := by
  unfold kheapsort
  haveI : IsTotal ℕ (fun a b => lun_compar a b ≤ 0) :=
    ⟨fun a b => by simp only [lun_compar_le]; omega⟩
  haveI : IsTrans ℕ (fun a b => lun_compar a b ≤ 0) :=
    ⟨fun a b c => by simp only [lun_compar_le]; omega⟩
  exact (List.sorted_insertionSort (fun a b => lun_compar a b ≤ 0) l).imp
    (fun h => (lun_compar_le _ _).mp h)

theorem kheapsort_perm (l : List Nat) : (kheapsort l lun_compar).Perm l :=
  List.perm_insertionSort _ l

theorem report_luns_sorted (K : scsiconf_h) (w : scsi_world) (target : Int) :
    List.Sorted (· ≤ ·) (scsi_report_luns K w target).2.2 := by
  unfold scsi_report_luns
  simp only
  split_ifs
  · exact List.sorted_nil
  · exact List.sorted_nil
  · exact List.sorted_nil
  · exact kheapsort_sorted _

/-- C19: when `scsi_report_luns` succeeds for a target, what `scsi_discover_luns`
does after it is to call `scsi_probe_device` for the entries of the returned
list that lie within `[minlun, maxlun]`, in the order of the list, and nothing
else (no sweep); the list that `scsi_report_luns` returns is sorted ascending, so
the LUNs are probed in ascending order. -/
theorem C19_reported_luns_probed_in_order (K : scsiconf_h) (w : scsi_world)
    (target minlun maxlun : Int) (h : (scsi_report_luns K w target).2.1 = 0) :
    (scsi_discover_luns K w target minlun maxlun).trace =
      (scsi_report_luns K w target).1.trace ++
        ((scsi_report_luns K w target).2.2.filter
          (fun x : Nat => decide (minlun ≤ (x : Int) ∧ (x : Int) ≤ maxlun))).map
          (fun x : Nat => scsi_event.scsi_probe_device target (x : Int)) ∧
    List.Sorted (· ≤ ·) (scsi_report_luns K w target).2.2 ∧
    List.Sorted (· ≤ ·) ((scsi_report_luns K w target).2.2.filter
      (fun x : Nat => decide (minlun ≤ (x : Int) ∧ (x : Int) ≤ maxlun))) := by
  refine ⟨?_, report_luns_sorted K w target, (report_luns_sorted K w target).filter _⟩
  unfold scsi_discover_luns
  simp only [if_pos h]
  exact discover_reported_trace target minlun maxlun _ _

/-- C19 on the device of `w_scsi_luns`, which lists the LUNs 5, 0 and 2: with
`minlun` 0 and `maxlun` 7 the LUNs 0, 2 and 5 are probed, in that order; with
`maxlun` 4 the LUNs 0 and 2. -/
theorem C19_reported_luns_probed_in_order_witness :
    (scsi_report_luns K_scsi w_scsi_luns 0).2.1 = 0 ∧
    (scsi_report_luns K_scsi w_scsi_luns 0).2.2 = [0, 2, 5] ∧
    (scsi_discover_luns K_scsi w_scsi_luns 0 0 7).trace =
      (scsi_report_luns K_scsi w_scsi_luns 0).1.trace ++
        ((scsi_report_luns K_scsi w_scsi_luns 0).2.2.filter
          (fun x : Nat => decide ((0 : Int) ≤ (x : Int) ∧ (x : Int) ≤ 7))).map
          (fun x : Nat => scsi_event.scsi_probe_device 0 (x : Int)) ∧
    (scsi_discover_luns K_scsi w_scsi_luns 0 0 7).trace =
      [scsi_event.scsipi_inquire 0 0, scsi_event.scsipi_command 0 0 16,
       scsi_event.scsipi_command 0 0 32, scsi_event.scsi_probe_device 0 0,
       scsi_event.scsi_probe_device 0 2, scsi_event.scsi_probe_device 0 5] ∧
    (scsi_discover_luns K_scsi w_scsi_luns 0 0 4).trace =
      [scsi_event.scsipi_inquire 0 0, scsi_event.scsipi_command 0 0 16,
       scsi_event.scsipi_command 0 0 32, scsi_event.scsi_probe_device 0 0,
       scsi_event.scsi_probe_device 0 2] :=
  ⟨by decide, by decide,
   (C19_reported_luns_probed_in_order K_scsi w_scsi_luns 0 0 7 (by decide)).1,
   by decide, by decide⟩

theorem report_luns_inquire_error (K : scsiconf_h) (w : scsi_world) (target : Int)
    (h : (w.inquire_ret.headD (K.EIO, 0)).1 ≠ 0) :
    (scsi_report_luns K w target).2.1 = (w.inquire_ret.headD (K.EIO, 0)).1 := by
  unfold scsi_report_luns
  simp only [scsipi_inquire]
  rw [if_pos h]

theorem report_luns_old_version (K : scsiconf_h) (w : scsi_world) (target : Int)
    (h : (w.inquire_ret.headD (K.EIO, 0)).1 = 0)
    (hv : (w.inquire_ret.headD (K.EIO, 0)).2 &&& K.SID_ANSII < 3) :
    (scsi_report_luns K w target).2.1 = K.ENOTSUP := by
  unfold scsi_report_luns
  simp only [scsipi_inquire]
  rw [if_neg (not_not.mpr h), if_pos hv]

theorem report_luns_command_error (K : scsiconf_h) (w : scsi_world) (target : Int)
    (h : (w.inquire_ret.headD (K.EIO, 0)).1 = 0)
    (hv : ¬ (w.inquire_ret.headD (K.EIO, 0)).2 &&& K.SID_ANSII < 3)
    (hc : (w.command_ret.headD (K.EIO, [])).1 ≠ 0) :
    (scsi_report_luns K w target).2.1 = (w.command_ret.headD (K.EIO, [])).1 := by
  unfold scsi_report_luns
  simp only [scsipi_inquire]
  rw [if_neg (not_not.mpr h), if_neg hv]
  cases hcr : w.command_ret with
  | nil =>
    rw [hcr] at hc
    simp only [List.headD_nil] at hc
    simp [scsi_report_luns_again, hc]
  | cons r rest =>
    rw [hcr] at hc
    simp only [List.headD_cons] at hc
    simp [scsi_report_luns_again, hc]

/-- C20: when `scsi_report_luns` fails for a target, what `scsi_discover_luns`
does after it is the sweep: `scsi_probe_device` is called for `minlun`,
`minlun + 1`, ... in increasing order, and the sweep ends after the first probe
that returns 0 or after `maxlun` (`sweep_count` probes in all). The function
`scsi_report_luns` fails with the error of INQUIRY, with `ENOTSUP` for a SCSI
version below 3, and with the error of the REPORT LUNS command. -/
theorem C20_sweep_fallback (K : scsiconf_h) (w : scsi_world) (target minlun maxlun : Int)
    (h : (scsi_report_luns K w target).2.1 ≠ 0) :
    (scsi_discover_luns K w target minlun maxlun).trace =
      (scsi_report_luns K w target).1.trace ++
        (sweep_luns minlun (sweep_count (maxlun - minlun + 1).toNat
          (scsi_report_luns K w target).1.probe_ret)).map
          (scsi_event.scsi_probe_device target) ∧
    ((w.inquire_ret.headD (K.EIO, 0)).1 ≠ 0 →
      (scsi_report_luns K w target).2.1 = (w.inquire_ret.headD (K.EIO, 0)).1) ∧
    ((w.inquire_ret.headD (K.EIO, 0)).1 = 0 →
      (w.inquire_ret.headD (K.EIO, 0)).2 &&& K.SID_ANSII < 3 →
      (scsi_report_luns K w target).2.1 = K.ENOTSUP) ∧
    ((w.inquire_ret.headD (K.EIO, 0)).1 = 0 →
      ¬ (w.inquire_ret.headD (K.EIO, 0)).2 &&& K.SID_ANSII < 3 →
      (w.command_ret.headD (K.EIO, [])).1 ≠ 0 →
      (scsi_report_luns K w target).2.1 = (w.command_ret.headD (K.EIO, [])).1) := by
  refine ⟨?_, report_luns_inquire_error K w target, report_luns_old_version K w target,
    report_luns_command_error K w target⟩
  unfold scsi_discover_luns
  simp only [if_neg h]
  exact discover_sweep_trace target _ _ _

/-- C20 on the SCSI-2 device of `w_scsi_sweep`, whose probes return 1, 1 and 0:
`scsi_report_luns` fails with `ENOTSUP` and the LUNs 0, 1 and 2 are probed. -/
theorem C20_sweep_fallback_witness :
    (scsi_report_luns K_scsi w_scsi_sweep 0).2.1 ≠ 0 ∧
    (scsi_report_luns K_scsi w_scsi_sweep 0).2.1 = K_scsi.ENOTSUP ∧
    (scsi_discover_luns K_scsi w_scsi_sweep 0 0 7).trace =
      (scsi_report_luns K_scsi w_scsi_sweep 0).1.trace ++
        (sweep_luns 0 (sweep_count ((7 : Int) - 0 + 1).toNat
          (scsi_report_luns K_scsi w_scsi_sweep 0).1.probe_ret)).map
          (scsi_event.scsi_probe_device 0) ∧
    (scsi_discover_luns K_scsi w_scsi_sweep 0 0 7).trace =
      [scsi_event.scsipi_inquire 0 0, scsi_event.scsi_probe_device 0 0,
       scsi_event.scsi_probe_device 0 1, scsi_event.scsi_probe_device 0 2] :=
  ⟨by decide,
   (C20_sweep_fallback K_scsi w_scsi_sweep 0 0 7 (by decide)).2.2.1 (by decide) (by decide),
   (C20_sweep_fallback K_scsi w_scsi_sweep 0 0 7 (by decide)).1,
   by decide⟩

/-! ## C18: the range of a bus probe -/

theorem scsi_world.Grows.same (w : scsi_world) : w.Grows w := ⟨rfl, rfl, rfl, le_refl _⟩

theorem scsi_world.Grows.then_grows {a b c : scsi_world} (h1 : a.Grows b) (h2 : b.Grows c) :
    a.Grows c :=
  ⟨h2.1.trans h1.1, h2.2.1.trans h1.2.1, h2.2.2.1.trans h1.2.2.1, le_trans h1.2.2.2 h2.2.2.2⟩

theorem grows_log (w : scsi_world) (e : scsi_event) : w.Grows (w.log e) :=
  ⟨rfl, rfl, rfl, by simp [scsi_world.log]⟩

theorem grows_probe_call (w : scsi_world) (target lun : Int) :
    w.Grows (scsi_probe_device_call w target lun).1 :=
  ⟨rfl, rfl, rfl, by simp [scsi_probe_device_call]⟩

theorem grows_discover_reported (target minlun maxlun : Int) (l : List Nat) :
    ∀ w : scsi_world, w.Grows (discover_reported w target minlun maxlun l) := by
  induction l with
  | nil => intro w; exact scsi_world.Grows.same w
  | cons x t ih =>
    intro w
    simp only [discover_reported]
    split_ifs
    · exact (grows_probe_call w target x).then_grows (ih _)
    · exact ih w

theorem grows_discover_sweep (target : Int) (n : Nat) :
    ∀ (w : scsi_world) (lun : Int), w.Grows (discover_sweep w target n lun) := by
  induction n with
  | zero => intro w lun; exact scsi_world.Grows.same w
  | succ n ih =>
    intro w lun
    simp only [discover_sweep]
    split_ifs
    · exact grows_probe_call w target lun
    · exact (grows_probe_call w target lun).then_grows (ih _ _)

theorem report_luns_again_trace (K : scsiconf_h) (target : Int) (rlrlenmin : Nat)
    (cr : List (Int × List Nat)) :
    ∀ (trace : List scsi_event) (rlrlen : Nat),
      trace.length ≤ (scsi_report_luns_again K target rlrlenmin cr trace rlrlen).trace.length := by
  induction cr with
  | nil => intro trace rlrlen; simp [scsi_report_luns_again]
  | cons r rest ih =>
    intro trace rlrlen
    simp only [scsi_report_luns_again]
    split_ifs
    · simp
    · simp
    · exact le_trans (by simp) (ih _ _)
    · simp

theorem grows_report_luns (K : scsiconf_h) (w : scsi_world) (target : Int) :
    w.Grows (scsi_report_luns K w target).1 := by
  have h := report_luns_again_trace K target (K.sizeof_rlr + K.sizeof_lunp * 1)
    (scsipi_inquire K w target 0).1.command_ret (scsipi_inquire K w target 0).1.trace
    (K.sizeof_rlr + K.sizeof_lunp * 1)
  have h0 : w.trace.length ≤ (scsipi_inquire K w target 0).1.trace.length := by
    simp [scsipi_inquire]
  unfold scsi_report_luns
  simp only
  split_ifs
  · exact ⟨rfl, rfl, rfl, h0⟩
  · exact ⟨rfl, rfl, rfl, h0⟩
  · exact ⟨rfl, rfl, rfl, le_trans h0 h⟩
  · exact ⟨rfl, rfl, rfl, le_trans h0 h⟩

theorem grows_discover_luns (K : scsiconf_h) (w : scsi_world) (target minlun maxlun : Int) :
    w.Grows (scsi_discover_luns K w target minlun maxlun) := by
  unfold scsi_discover_luns
  simp only
  split_ifs
  · exact (grows_report_luns K w target).then_grows (grows_discover_reported _ _ _ _ _)
  · exact (grows_report_luns K w target).then_grows (grows_discover_sweep _ _ _ _)

theorem grows_probe_target (K : scsiconf_h) (minlun maxlun : Int) (w : scsi_world)
    (target : Int) : w.Grows (probe_target K minlun maxlun w target) :=
  (grows_discover_luns K w target minlun maxlun).then_grows (grows_log _ _)

theorem probe_bus_targets_eq (K : scsiconf_h) (minlun maxlun : Int) (n : Nat) :
    ∀ (w : scsi_world) (target : Int),
      probe_bus_targets K minlun maxlun n w target =
        ((sweep_luns target n).filter (fun t => decide (t ≠ w.chan_id))).foldl
          (probe_target K minlun maxlun) w := by
  induction n with
  | zero => intro w target; simp [probe_bus_targets, sweep_luns]
  | succ n ih =>
    intro w target
    rw [sweep_luns_succ]
    by_cases h : target = w.chan_id
    · simp only [probe_bus_targets, if_pos h, List.filter_cons, ih]
      simp [h]
    · have hid : (probe_target K minlun maxlun w target).chan_id = w.chan_id :=
        (grows_probe_target K minlun maxlun w target).2.2.1
      simp only [probe_bus_targets, if_neg h, List.filter_cons, ih]
      simp only [decide_eq_true (show target ≠ w.chan_id from h), if_true, List.foldl_cons]
      rw [show (scsi_discover_luns K w target minlun maxlun).log
          (scsi_event.scsipi_set_xfer_mode target) = probe_target K minlun maxlun w target
        from rfl, hid]

theorem grows_foldl_probe_target (K : scsiconf_h) (minlun maxlun : Int) (l : List Int) :
    ∀ w : scsi_world, w.Grows (l.foldl (probe_target K minlun maxlun) w) := by
  induction l with
  | nil => intro w; exact scsi_world.Grows.same w
  | cons t rest ih =>
    intro w
    exact (grows_probe_target K minlun maxlun w t).then_grows (ih _)

theorem probe_bus_start_grows (K : scsiconf_h) (w : scsi_world) :
    (probe_bus_start K w).chan_id = w.chan_id ∧
    w.trace.length < (probe_bus_start K w).trace.length := by
  unfold probe_bus_start scsipi_adapter_addref
  split_ifs <;> simp [scsi_world.log]

theorem probe_bus_start_ret (K : scsiconf_h) (w : scsi_world) :
    (scsipi_adapter_addref (if K.SEL4 then w else w.log scsi_event.scsipi_adapter_ioctl)).2 =
      w.addref_ret.headD 0 := by
  unfold scsipi_adapter_addref
  split_ifs <;> rfl

theorem probe_bus_valid (K : scsiconf_h) (w : scsi_world) (target lun : Int)
    (hv : ¬ probe_bus_invalid w target lun) :
    scsi_probe_bus K w target lun =
      if w.addref_ret.headD 0 ≠ 0 then (probe_bus_start K w, w.addref_ret.headD 0)
      else
        (((probe_bus_range w target).foldl
            (probe_target K (if lun = -1 then 0 else lun)
              (if lun = -1 then w.chan_nluns - 1 else lun))
            (probe_bus_start K w)).log scsi_event.scsipi_adapter_delref, 0) := by
  have h1 : ¬ (target ≠ -1 ∧ (target < 0 ∨ target ≥ w.chan_ntargets)) := by
    intro h
    exact hv (Or.inl ⟨h.1, by omega⟩)
  have h2 : ¬ (lun ≠ -1 ∧ (lun < 0 ∨ lun ≥ w.chan_nluns)) := by
    intro h
    exact hv (Or.inr ⟨h.1, by omega⟩)
  unfold scsi_probe_bus
  rw [if_neg h1, if_neg h2]
  simp only [probe_bus_start_ret]
  by_cases he : w.addref_ret.headD 0 ≠ 0
  · rw [if_pos he, if_pos he]
    rfl
  · rw [if_neg he, if_neg he]
    have e0 : w.addref_ret.headD 0 = 0 := not_not.mp he
    rw [probe_bus_targets_eq, e0]
    have hid : (scsipi_adapter_addref
        (if K.SEL4 then w else w.log scsi_event.scsipi_adapter_ioctl)).1.chan_id = w.chan_id :=
      (probe_bus_start_grows K w).1
    rw [hid]
    have hr : sweep_luns (if target = -1 then 0 else target)
        ((if target = -1 then w.chan_ntargets - 1 else target) -
          (if target = -1 then 0 else target) + 1).toNat =
        (if target = -1 then sweep_luns 0 w.chan_ntargets.toNat else [target]) := by
      by_cases ht : target = -1
      · simp only [if_pos ht]
        congr 1
        omega
      · simp only [if_neg ht]
        have : (target - target + 1).toNat = 1 := by simp
        rw [this, sweep_luns_one]
    rw [hr]
    rfl

/-- C18: `scsi_probe_bus(sc, target, lun)` returns `EINVAL` without having made
any call exactly when `target` is neither -1 nor in `[0, chan_ntargets)` or `lun`
is neither -1 nor in `[0, chan_nluns)`. Otherwise it acquires the adapter
reference (after `scsipi_adapter_ioctl` in a build without `SEL4`); when that
succeeds it runs `scsi_discover_luns`, followed by `scsipi_set_xfer_mode`, once
for each target of the requested range in ascending order, the ID of the
adapter left out, with the LUN bounds `0 .. chan_nluns - 1` when `lun` is -1 and
`lun .. lun` otherwise, releases the reference and returns 0; when it fails,
the error is returned and nothing is probed. -/
theorem C18_probe_bus_targets_and_bounds (K : scsiconf_h) (w : scsi_world) (target lun : Int) :
    (scsi_probe_bus K w target lun = (w, K.EINVAL) ↔ probe_bus_invalid w target lun) ∧
    (¬ probe_bus_invalid w target lun → w.addref_ret.headD 0 = 0 →
      scsi_probe_bus K w target lun =
        (((probe_bus_range w target).foldl
            (probe_target K (if lun = -1 then 0 else lun)
              (if lun = -1 then w.chan_nluns - 1 else lun))
            (probe_bus_start K w)).log scsi_event.scsipi_adapter_delref, 0)) ∧
    (¬ probe_bus_invalid w target lun → w.addref_ret.headD 0 ≠ 0 →
      scsi_probe_bus K w target lun = (probe_bus_start K w, w.addref_ret.headD 0)) := by
  refine ⟨⟨fun h => ?_, fun h => ?_⟩, fun hv h0 => ?_, fun hv h0 => ?_⟩
  · by_contra hv
    rw [probe_bus_valid K w target lun hv] at h
    have hlt := (probe_bus_start_grows K w).2
    by_cases he : w.addref_ret.headD 0 ≠ 0
    · rw [if_pos he] at h
      have := congrArg (fun p => p.1.trace.length) h
      simp only at this
      omega
    · rw [if_neg he] at h
      have hg := (grows_foldl_probe_target K (if lun = -1 then 0 else lun)
        (if lun = -1 then w.chan_nluns - 1 else lun) (probe_bus_range w target)
        (probe_bus_start K w)).2.2.2
      have := congrArg (fun p => p.1.trace.length) h
      simp only [scsi_world.log, List.length_append, List.length_singleton] at this
      omega
  · unfold scsi_probe_bus
    rcases h with h | h
    · rw [if_pos ⟨h.1, by omega⟩]
    · by_cases h1 : target ≠ -1 ∧ (target < 0 ∨ target ≥ w.chan_ntargets)
      · rw [if_pos h1]
      · rw [if_neg h1, if_pos ⟨h.1, by omega⟩]
  · rw [probe_bus_valid K w target lun hv, if_neg (not_not.mpr h0)]
  · rw [probe_bus_valid K w target lun hv, if_pos h0]

/-- C18 on the bus of `w_scsi_sweep` (two targets, the adapter is target 1, eight
LUNs): a probe of all targets and LUNs runs the discovery for target 0 alone,
with the LUN bounds 0 and 7, and returns 0; target 2 and LUN 8 are refused. -/
theorem C18_probe_bus_targets_and_bounds_witness :
    (¬ probe_bus_invalid w_scsi_sweep (-1) (-1) ∧ w_scsi_sweep.addref_ret.headD 0 = 0) ∧
    scsi_probe_bus K_scsi w_scsi_sweep (-1) (-1) =
      (((probe_bus_range w_scsi_sweep (-1)).foldl
          (probe_target K_scsi (if (-1 : Int) = -1 then 0 else -1)
            (if (-1 : Int) = -1 then w_scsi_sweep.chan_nluns - 1 else -1))
          (probe_bus_start K_scsi w_scsi_sweep)).log scsi_event.scsipi_adapter_delref, 0) ∧
    probe_bus_range w_scsi_sweep (-1) = [0] ∧
    (scsi_probe_bus K_scsi w_scsi_sweep (-1) (-1)).1.trace =
      [scsi_event.scsipi_adapter_addref, scsi_event.scsipi_inquire 0 0,
       scsi_event.scsi_probe_device 0 0, scsi_event.scsi_probe_device 0 1,
       scsi_event.scsi_probe_device 0 2, scsi_event.scsipi_set_xfer_mode 0,
       scsi_event.scsipi_adapter_delref] ∧
    scsi_probe_bus K_scsi w_scsi_sweep 2 (-1) = (w_scsi_sweep, K_scsi.EINVAL) ∧
    scsi_probe_bus K_scsi w_scsi_sweep 0 8 = (w_scsi_sweep, K_scsi.EINVAL) :=
  ⟨⟨by unfold probe_bus_invalid; decide, by decide⟩,
   (C18_probe_bus_targets_and_bounds K_scsi w_scsi_sweep (-1) (-1)).2.1
     (by unfold probe_bus_invalid; decide) (by decide),
   by decide, by decide,
   (C18_probe_bus_targets_and_bounds K_scsi w_scsi_sweep 2 (-1)).1.mpr
     (by unfold probe_bus_invalid; decide),
   by decide⟩

/-! ## C24: a stalled data phase -/

/-- C24: a BBB command with a data phase (`DIR_IN` or `DIR_OUT`) on a session that
is and stays live, with nothing else in flight and a transport that accepts the
transfers. When the CBW transfer completes normally and the data transfer
completes with `USBD_STALLED` (with an actual length of at most `datalen`), the
state is DCLEAR and the one control request issued is CLEAR_FEATURE
(ENDPOINT_HALT) for the endpoint of the data pipe (no reset request). When that
request completes normally the state is STATUS1 with the first CSW read
submitted, and when this read delivers a CSW with the valid signature, the tag
of the CBW and status byte 0 or 1, the callback is called once, with
`STATUS_CMD_OK` for 0 and `STATUS_CMD_FAILED` for 1 (not `STATUS_WIRE_FAILED`),
and the session is idle with nothing in flight. -/
theorem C24_data_stall_is_cleared (K : usb_h) (w : World) (lun : Int) (cmd : List Nat)
    (cmdlen : Int) (data : Nat) (datalen dir : Int) (timeout flags cb priv : Nat)
    (c1 c2 c3 c4 : Completion)
    (hdir : dir = DIR_IN ∨ dir = DIR_OUT)
    (hlive : w.sc.sc_dying = false) (hinf : w.inflight = []) (hacc : w.usbd_transfer_ret = [])
    (h1 : c1.err = usbd_status.USBD_NORMAL_COMPLETION) (h1d : c1.dying = false)
    (h2 : c2.err = usbd_status.USBD_STALLED) (h2d : c2.dying = false)
    (h2a : (c2.actlen : Int) ≤ datalen) (hdl : datalen < 2147483648)
    (h3 : c3.err = usbd_status.USBD_NORMAL_COMPLETION) (h3d : c3.dying = false)
    (h4 : c4.err = usbd_status.USBD_NORMAL_COMPLETION) (h4d : c4.dying = false)
    (hsig : UGETDW c4.csw.dCSWSignature = CSWSIGNATURE)
    (htag : UGETDW c4.csw.dCSWTag = UGETDW (USETDW w.dCBWtag))
    (hst : c4.csw.bCSWStatus = CSWSTATUS_GOOD ∨ c4.csw.bCSWStatus = CSWSTATUS_FAILED) :
    ((bbb_run K (umass_bbb_transfer K w lun cmd cmdlen data datalen dir timeout flags cb priv)
        [c1, c2]).sc.transfer_state = TSTATE_BBB_DCLEAR ∧
      ctrl_requests (bbb_run K
        (umass_bbb_transfer K w lun cmd cmdlen data datalen dir timeout flags cb priv)
        [c1, c2]).trace = ctrl_requests w.trace ++ [clear_halt_request K w.sc (data_pipe dir)] ∧
      submissions (bbb_run K
        (umass_bbb_transfer K w lun cmd cmdlen data datalen dir timeout flags cb priv)
        [c1, c2]).trace = submissions w.trace ++
          [XFER_BBB_CBW, bbb_data_xfer dir, XFER_BBB_DCLEAR]) ∧
    ((bbb_run K (umass_bbb_transfer K w lun cmd cmdlen data datalen dir timeout flags cb priv)
        [c1, c2, c3]).sc.transfer_state = TSTATE_BBB_STATUS1 ∧
      submissions (bbb_run K
        (umass_bbb_transfer K w lun cmd cmdlen data datalen dir timeout flags cb priv)
        [c1, c2, c3]).trace = submissions w.trace ++
          [XFER_BBB_CBW, bbb_data_xfer dir, XFER_BBB_DCLEAR, XFER_BBB_CSW1] ∧
      callbacks (bbb_run K
        (umass_bbb_transfer K w lun cmd cmdlen data datalen dir timeout flags cb priv)
        [c1, c2, c3]).trace = callbacks w.trace) ∧
    (callbacks (bbb_run K
        (umass_bbb_transfer K w lun cmd cmdlen data datalen dir timeout flags cb priv)
        [c1, c2, c3, c4]).trace =
      callbacks w.trace ++ [(cb, priv, datalen - c2.actlen,
        if c4.csw.bCSWStatus = CSWSTATUS_FAILED then STATUS_CMD_FAILED else STATUS_CMD_OK)] ∧
      (bbb_run K (umass_bbb_transfer K w lun cmd cmdlen data datalen dir timeout flags cb priv)
        [c1, c2, c3, c4]).sc.transfer_state = TSTATE_IDLE ∧
      (bbb_run K (umass_bbb_transfer K w lun cmd cmdlen data datalen dir timeout flags cb priv)
        [c1, c2, c3, c4]).inflight = [] ∧
      ctrl_requests (bbb_run K
        (umass_bbb_transfer K w lun cmd cmdlen data datalen dir timeout flags cb priv)
        [c1, c2, c3, c4]).trace =
          ctrl_requests w.trace ++ [clear_halt_request K w.sc (data_pipe dir)]) := by
  have hact : int_of_u32 c2.actlen = (c2.actlen : Int) := by
    unfold int_of_u32; split_ifs <;> omega
  have hnover : ¬ (datalen < (c2.actlen : Int)) := by omega
  simp only [bbb_run, List.foldl, umass_bbb_transfer, hlive, Bool.false_eq_true, if_false,
    bbb_send_cbw]
  rw [setup_transfer_accept K _ _ _ _ _ _ (by simp [bbb_transfer_store, hlive])
    (by simp [bbb_transfer_store, hacc])]
  simp only [ne_eq, not_true_eq_false, if_false]
  by_cases hm : w.sc.sc_methods = K.UMASS_BBB <;> rcases hst with hst | hst <;>
  rcases hdir with hdir | hdir <;>
  simp [hm, bbb_complete, bbb_transfer_store, hinf, umass_bbb_state, bbb_case_COMMAND, h1, h1d, h2,
    h2d, h3, h3d, h4, h4d, hlive, World.set_state, umass_setup_transfer, usbd_transfer, hacc,
    World.log, umass_clear_endpoint_stall, umass_setup_ctrl_transfer, clear_halt_request,
    data_pipe, bbb_data_xfer, hdir,
    bbb_case_DATA, bbb_case_DCLEAR, bbb_case_SCLEAR, bbb_read_csw, bbb_case_STATUS,
    bbb_csw_check, csw_quirks_sig_valid, csw_quirks_tag_valid, csw_quirks_status,
    umass_transfer_done, callbacks_append, callbacks, ctrl_requests_append, ctrl_requests,
    submissions_append, submissions, hact, hnover,
    TSTATE_BBB_COMMAND, TSTATE_BBB_DATA, TSTATE_BBB_DCLEAR, TSTATE_BBB_STATUS1,
    TSTATE_BBB_SCLEAR, TSTATE_BBB_STATUS2, TSTATE_IDLE, DIR_IN, DIR_NONE, DIR_OUT, hsig, htag,
    hst, CSWSTATUS_GOOD, CSWSTATUS_FAILED, CSWSTATUS_PHASE]

/-- C24 on a 512-byte read whose data transfer stalls after 100 bytes and whose
CSW reports a failed command: CLEAR_FEATURE(ENDPOINT_HALT) for the bulk-in
endpoint 0x81 is the only control request, and the callback gets
`STATUS_CMD_FAILED` with residue 412. -/
theorem C24_data_stall_is_cleared_witness :
    ((DIR_IN = DIR_IN ∨ DIR_IN = DIR_OUT) ∧ w_bbb.sc.sc_dying = false ∧ w_bbb.inflight = [] ∧
      w_bbb.usbd_transfer_ret = [] ∧ ((100 : Nat) : Int) ≤ 512) ∧
    callbacks (bbb_run K_std
        (umass_bbb_transfer K_std w_bbb 0 [0x28, 0, 0, 0, 0, 0, 0, 0, 1, 0] 10 0x1000 512 DIR_IN
          1000 0 7 9)
        [completion usbd_status.USBD_NORMAL_COMPLETION 31,
         completion usbd_status.USBD_STALLED 100,
         completion usbd_status.USBD_NORMAL_COMPLETION 0,
         completion_csw 42 412 CSWSTATUS_FAILED]).trace = [(7, 9, 412, STATUS_CMD_FAILED)] ∧
    ctrl_requests (bbb_run K_std
        (umass_bbb_transfer K_std w_bbb 0 [0x28, 0, 0, 0, 0, 0, 0, 0, 1, 0] 10 0x1000 512 DIR_IN
          1000 0 7 9)
        [completion usbd_status.USBD_NORMAL_COMPLETION 31,
         completion usbd_status.USBD_STALLED 100,
         completion usbd_status.USBD_NORMAL_COMPLETION 0,
         completion_csw 42 412 CSWSTATUS_FAILED]).trace =
      [{ bmRequestType := 0x02, bRequest := 0x01, wValue := [0, 0], wIndex := [0x81, 0],
         wLength := [0, 0] }] :=
  have h := (C24_data_stall_is_cleared K_std w_bbb 0 [0x28, 0, 0, 0, 0, 0, 0, 0, 1, 0] 10 0x1000
    512 DIR_IN 1000 0 7 9
    (completion usbd_status.USBD_NORMAL_COMPLETION 31) (completion usbd_status.USBD_STALLED 100)
    (completion usbd_status.USBD_NORMAL_COMPLETION 0) (completion_csw 42 412 CSWSTATUS_FAILED)
    (by decide) (by decide) (by decide) (by decide) (by decide) (by decide) (by decide)
    (by decide) (by decide) (by decide) (by decide) (by decide) (by decide) (by decide)
    (by decide) (by decide) (by decide)).2.2
  ⟨by decide, h.1, h.2.2.2⟩

/-! ## C25: the status read is retried once -/

theorem csw_reads_append (a b : List Event) : csw_reads (a ++ b) = csw_reads a + csw_reads b := by
  induction a with
  | nil => simp [csw_reads]
  | cons e t ih => cases e <;> simp [csw_reads, ih, Nat.add_assoc]

theorem reads_left_le (s : Int) : reads_left s ≤ 2 := by
  unfold reads_left
  split_ifs <;> omega

theorem reads_usbd_transfer (w : World) (x : Nat) :
    (usbd_transfer w x).1.sc = w.sc ∧
    csw_reads (usbd_transfer w x).1.trace =
      csw_reads w.trace + (if x = XFER_BBB_CSW1 ∨ x = XFER_BBB_CSW2 then 1 else 0) := by
  unfold usbd_transfer
  simp only
  split_ifs <;> simp [csw_reads_append, csw_reads, *]

theorem reads_ctrl (w : World) (b : Buf) (l : Int) (f x : Nat)
    (hx : x ≠ XFER_BBB_CSW1 ∧ x ≠ XFER_BBB_CSW2) :
    (umass_setup_ctrl_transfer w b l f x).1.sc = w.sc ∧
    csw_reads (umass_setup_ctrl_transfer w b l f x).1.trace = csw_reads w.trace := by
  unfold umass_setup_ctrl_transfer
  have h := reads_usbd_transfer (w.log (Event.usbd_setup_default_xfer x w.sc.sc_req b l f)) x
  rw [if_neg (by simp [hx.1, hx.2])] at h
  simp only
  split_ifs
  · exact ⟨rfl, rfl⟩
  · exact ⟨h.1, by rw [h.2]; simp [World.log, csw_reads_append, csw_reads]⟩
  · exact ⟨h.1, by rw [h.2]; simp [World.log, csw_reads_append, csw_reads]⟩

theorem reads_setup (K : usb_h) (w : World) (p : Nat) (b : Buf) (l : Int) (f x : Nat) :
    (umass_setup_transfer K w p b l f x).1.sc = w.sc ∧
    csw_reads (umass_setup_transfer K w p b l f x).1.trace ≤ csw_reads w.trace + 1 ∧
    ((x ≠ XFER_BBB_CSW1 ∧ x ≠ XFER_BBB_CSW2) →
      csw_reads (umass_setup_transfer K w p b l f x).1.trace = csw_reads w.trace) := by
  have key : ∀ w1 : World, w1.sc = w.sc → csw_reads w1.trace = csw_reads w.trace →
      (usbd_transfer w1 x).1.sc = w.sc ∧
      csw_reads (usbd_transfer w1 x).1.trace ≤ csw_reads w.trace + 1 ∧
      ((x ≠ XFER_BBB_CSW1 ∧ x ≠ XFER_BBB_CSW2) →
        csw_reads (usbd_transfer w1 x).1.trace = csw_reads w.trace) := by
    intro w1 e1 e2
    have h := reads_usbd_transfer w1 x
    refine ⟨h.1.trans e1, ?_, fun hx => ?_⟩
    · rw [h.2, e2]
      split_ifs <;> omega
    · rw [h.2, e2, if_neg (by simp [hx.1, hx.2])]
      rfl
  unfold umass_setup_transfer
  simp only
  by_cases hd : w.sc.sc_dying = true
  · rw [if_pos hd]
    exact ⟨rfl, Nat.le_add_right _ _, fun _ => rfl⟩
  · rw [if_neg hd]
    by_cases hm : w.sc.sc_methods = K.UMASS_BBB
    · rw [if_pos hm]
      have h := key (w.log (Event.usbd_setup_xfer x b l f w.sc.timeout)) rfl
        (by simp [World.log, csw_reads_append, csw_reads])
      split_ifs <;> exact h
    · rw [if_neg hm]
      have h := key w rfl rfl
      split_ifs <;> exact h

theorem budget_done (w : World) (r s : Int) :
    reads_budget (umass_transfer_done w r s) = csw_reads w.trace := by
  simp [reads_budget, umass_transfer_done, World.log, World.set_state, csw_reads_append,
    csw_reads, reads_left, TSTATE_IDLE]

theorem budget_transfer_reset (w : World) :
    reads_budget (umass_transfer_reset w) = csw_reads w.trace := by
  unfold umass_transfer_reset
  simp only
  split_ifs <;>
  simp [reads_budget, World.log, World.set_state, csw_reads_append, csw_reads, reads_left,
    TSTATE_IDLE]

theorem budget_clear_stall (K : usb_h) (w : World) (e x : Nat)
    (hx : x ≠ XFER_BBB_CSW1 ∧ x ≠ XFER_BBB_CSW2) :
    reads_budget (umass_clear_endpoint_stall K w e x) ≤
      csw_reads w.trace + reads_left w.sc.transfer_state := by
  unfold umass_clear_endpoint_stall
  by_cases hd : w.sc.sc_dying = true
  · rw [if_pos hd, budget_done]
    omega
  · rw [if_neg hd]
    simp only
    have h := reads_ctrl { (w.log (Event.usbd_clear_endpoint_toggle e)) with
      sc := { (w.log (Event.usbd_clear_endpoint_toggle e)).sc with
        sc_req := { bmRequestType := K.UT_WRITE_ENDPOINT
                    bRequest := K.UR_CLEAR_FEATURE
                    wValue := USETW K.UF_ENDPOINT_HALT
                    wIndex := USETW ((w.log (Event.usbd_clear_endpoint_toggle e)).sc.sc_epaddr.getD
                      e 0 : Nat)
                    wLength := USETW 0 } } } Buf.NULL 0 0 x hx
    split_ifs
    · rw [budget_done, h.2]
      simp [World.log, csw_reads_append, csw_reads]
    · unfold reads_budget
      rw [h.2, h.1]
      simp [World.log, csw_reads_append, csw_reads]

theorem budget_bbb_reset (K : usb_h) (w : World) (st : Int) :
    reads_budget (umass_bbb_reset K w st) = csw_reads w.trace := by
  unfold umass_bbb_reset
  by_cases hd : w.sc.sc_dying = true
  · rw [if_pos hd, budget_done]
  · rw [if_neg hd]
    simp only
    have h := reads_ctrl { w with sc := { w.sc with
        transfer_state := TSTATE_BBB_RESET1
        transfer_status := st
        sc_req := { bmRequestType := K.UT_WRITE_CLASS_INTERFACE
                    bRequest := UR_BBB_RESET
                    wValue := USETW 0
                    wIndex := USETW w.sc.sc_ifaceno
                    wLength := USETW 0 } } } Buf.NULL 0 0 XFER_BBB_RESET1 (by decide)
    split_ifs
    · rw [budget_done, h.2]
    · unfold reads_budget
      rw [h.2, h.1]
      simp [reads_left, TSTATE_BBB_RESET1]

theorem budget_setup_or_reset (K : usb_h) (w : World) (p : Nat) (b : Buf) (l : Int)
    (f x : Nat) (st : Int) :
    reads_budget (if (umass_setup_transfer K w p b l f x).2 ≠ usbd_status.USBD_NORMAL_COMPLETION
      then umass_bbb_reset K (umass_setup_transfer K w p b l f x).1 st
      else (umass_setup_transfer K w p b l f x).1) ≤
      csw_reads (umass_setup_transfer K w p b l f x).1.trace + reads_left w.sc.transfer_state := by
  have h := reads_setup K w p b l f x
  split_ifs
  · rw [budget_bbb_reset]
    omega
  · unfold reads_budget
    rw [h.1]

theorem budget_read_csw (K : usb_h) (w : World) (x : Nat) :
    reads_budget (bbb_read_csw K w x) ≤ csw_reads w.trace + 1 + reads_left w.sc.transfer_state := by
  unfold bbb_read_csw
  have h := budget_setup_or_reset K w UMASS_BULKIN Buf.csw UMASS_BBB_CSW_SIZE 0 x
    STATUS_WIRE_FAILED
  have h2 := (reads_setup K w UMASS_BULKIN Buf.csw UMASS_BBB_CSW_SIZE 0 x).2.1
  simp only at h ⊢
  omega

theorem budget_case_RESET1 (K : usb_h) (w : World) :
    reads_budget (bbb_case_RESET1 K w) ≤ csw_reads w.trace := by
  unfold bbb_case_RESET1
  have h := budget_clear_stall K (w.set_state TSTATE_BBB_RESET2) UMASS_BULKIN XFER_BBB_RESET2
    (by decide)
  simpa [World.set_state, reads_left, TSTATE_BBB_RESET2] using h

theorem budget_case_RESET2 (K : usb_h) (w : World) :
    reads_budget (bbb_case_RESET2 K w) ≤ csw_reads w.trace := by
  unfold bbb_case_RESET2
  have h := budget_clear_stall K (w.set_state TSTATE_BBB_RESET3) UMASS_BULKOUT XFER_BBB_RESET3
    (by decide)
  simpa [World.set_state, reads_left, TSTATE_BBB_RESET3] using h

theorem budget_csw_check (K : usb_h) (w : World) :
    reads_budget (bbb_csw_check K w) ≤ csw_reads w.trace := by
  have hr : ∀ st, reads_budget (umass_bbb_reset K w st) ≤ csw_reads w.trace :=
    fun st => le_of_eq (budget_bbb_reset K w st)
  have hdn : ∀ r s, reads_budget (umass_transfer_done w r s) ≤ csw_reads w.trace :=
    fun r s => le_of_eq (budget_done w r s)
  unfold bbb_csw_check
  by_cases h1 : UGETDW w.sc.csw.dCSWSignature ≠ CSWSIGNATURE
  · rw [if_pos h1]; exact hr _
  rw [if_neg h1]
  by_cases h2 : UGETDW w.sc.csw.dCSWTag ≠ UGETDW w.sc.cbw.dCBWTag
  · rw [if_pos h2]; exact hr _
  rw [if_neg h2]
  by_cases h3 : w.sc.csw.bCSWStatus > CSWSTATUS_PHASE
  · rw [if_pos h3]; exact hr _
  rw [if_neg h3]
  by_cases h4 : w.sc.csw.bCSWStatus = CSWSTATUS_PHASE
  · rw [if_pos h4]; exact hr _
  rw [if_neg h4]
  by_cases h5 : w.sc.transfer_actlen > w.sc.transfer_datalen
  · rw [if_pos h5]; exact budget_case_RESET1 K w
  rw [if_neg h5]
  by_cases h6 : w.sc.csw.bCSWStatus = CSWSTATUS_FAILED
  · rw [if_pos h6]; exact hdn _ _
  · rw [if_neg h6]; exact hdn _ _

theorem budget_case_STATUS (K : usb_h) (w : World) (err : usbd_status) :
    reads_budget (bbb_case_STATUS K w err) ≤ reads_budget w := by
  unfold bbb_case_STATUS
  split_ifs with he h1
  · have h := budget_clear_stall K (w.set_state TSTATE_BBB_SCLEAR) UMASS_BULKIN XFER_BBB_SCLEAR
      (by decide)
    simp only [World.set_state] at h
    unfold reads_budget
    rw [h1]
    simpa [reads_left, TSTATE_BBB_SCLEAR, TSTATE_BBB_STATUS1] using h
  · rw [budget_bbb_reset]
    unfold reads_budget
    omega
  · exact le_trans
      (budget_csw_check K { w with sc := { w.sc with csw := bbb_csw_quirks w.sc } })
      (Nat.le_add_right _ _)

theorem budget_case_SCLEAR (K : usb_h) (w : World) (err : usbd_status)
    (hs : (1 ≤ w.sc.transfer_state ∧ w.sc.transfer_state ≤ 3) ∨
      w.sc.transfer_state = TSTATE_BBB_SCLEAR) :
    reads_budget (bbb_case_SCLEAR K w err) ≤ reads_budget w := by
  unfold bbb_case_SCLEAR
  split_ifs with he h1
  · rw [budget_bbb_reset]
    unfold reads_budget
    omega
  · have h := budget_read_csw K (w.set_state TSTATE_BBB_STATUS1) XFER_BBB_CSW1
    simp only [World.set_state] at h
    have e : reads_left w.sc.transfer_state = 2 := by
      unfold reads_left
      rw [if_pos]
      simp only [TSTATE_BBB_COMMAND, TSTATE_BBB_DATA, TSTATE_BBB_DCLEAR] at h1
      omega
    unfold reads_budget
    rw [e]
    simpa [reads_left, TSTATE_BBB_STATUS1] using h
  · have h := budget_read_csw K (w.set_state TSTATE_BBB_STATUS2) XFER_BBB_CSW2
    simp only [World.set_state] at h
    have h5 : w.sc.transfer_state = 5 := by
      simp only [TSTATE_BBB_COMMAND, TSTATE_BBB_DATA, TSTATE_BBB_DCLEAR, TSTATE_BBB_SCLEAR]
        at h1 hs
      omega
    have e : reads_left w.sc.transfer_state = 1 := by
      rw [h5]; decide
    unfold reads_budget
    rw [e]
    simpa [reads_left, TSTATE_BBB_STATUS2] using h

theorem budget_case_DCLEAR (K : usb_h) (w : World) (err : usbd_status)
    (hs : 1 ≤ w.sc.transfer_state ∧ w.sc.transfer_state ≤ 3) :
    reads_budget (bbb_case_DCLEAR K w err) ≤ reads_budget w := by
  unfold bbb_case_DCLEAR
  simp only
  split_ifs
  · have h := budget_case_SCLEAR K
      (w.log (Event.memcpy Buf.transfer_data Buf.datain_buffer w.sc.transfer_actlen)) err
      (Or.inl hs)
    simpa [reads_budget, World.log, csw_reads_append, csw_reads] using h
  · exact budget_case_SCLEAR K w err (Or.inl hs)

theorem budget_case_DATA (K : usb_h) (w : World) (n : Nat) (err : usbd_status)
    (hs : 1 ≤ w.sc.transfer_state ∧ w.sc.transfer_state ≤ 3) :
    reads_budget (bbb_case_DATA K w n err) ≤ reads_budget w := by
  have e : reads_left w.sc.transfer_state = 2 := by
    unfold reads_left
    rw [if_pos hs]
  unfold bbb_case_DATA
  simp only
  split_ifs
  · have h := budget_clear_stall K
      (({ w with sc := { w.sc with transfer_actlen := int_of_u32 n } } : World).set_state
        TSTATE_BBB_DCLEAR) UMASS_BULKIN XFER_BBB_DCLEAR (by decide)
    simp only [World.set_state] at h
    unfold reads_budget at h ⊢
    rw [e]
    simpa [reads_left, TSTATE_BBB_DCLEAR] using h
  · have h := budget_clear_stall K
      (({ w with sc := { w.sc with transfer_actlen := int_of_u32 n } } : World).set_state
        TSTATE_BBB_DCLEAR) UMASS_BULKOUT XFER_BBB_DCLEAR (by decide)
    simp only [World.set_state] at h
    unfold reads_budget at h ⊢
    rw [e]
    simpa [reads_left, TSTATE_BBB_DCLEAR] using h
  · rw [budget_bbb_reset]
    unfold reads_budget
    simp
  · exact budget_case_DCLEAR K { w with sc := { w.sc with transfer_actlen := int_of_u32 n } } err
      hs
  · exact budget_case_DCLEAR K w err hs

theorem budget_case_COMMAND (K : usb_h) (w : World) (n : Nat) (err : usbd_status)
    (hs : w.sc.transfer_state = TSTATE_BBB_COMMAND) :
    reads_budget (bbb_case_COMMAND K w n err) ≤ reads_budget w := by
  have e : reads_budget w = csw_reads w.trace + 2 := by
    unfold reads_budget
    rw [hs]
    rfl
  rw [e]
  unfold bbb_case_COMMAND
  by_cases he : err ≠ usbd_status.USBD_NORMAL_COMPLETION
  · rw [if_pos he, budget_bbb_reset]
    omega
  rw [if_neg he]
  simp only
  by_cases h1 : (w.set_state TSTATE_BBB_DATA).sc.transfer_dir = DIR_IN
  · rw [if_pos h1]
    have h := budget_setup_or_reset K (w.set_state TSTATE_BBB_DATA) UMASS_BULKIN
      Buf.datain_buffer (w.set_state TSTATE_BBB_DATA).sc.transfer_datalen K.USBD_SHORT_XFER_OK
      XFER_BBB_DATAIN STATUS_WIRE_FAILED
    have h2 := (reads_setup K (w.set_state TSTATE_BBB_DATA) UMASS_BULKIN
      Buf.datain_buffer (w.set_state TSTATE_BBB_DATA).sc.transfer_datalen K.USBD_SHORT_XFER_OK
      XFER_BBB_DATAIN).2.2 (by decide)
    rw [h2] at h
    simpa [World.set_state, reads_left, TSTATE_BBB_DATA] using h
  rw [if_neg h1]
  by_cases h3 : (w.set_state TSTATE_BBB_DATA).sc.transfer_dir = DIR_OUT
  · rw [if_pos h3]
    have h := budget_setup_or_reset K
      ((w.set_state TSTATE_BBB_DATA).log (Event.memcpy Buf.dataout_buffer Buf.transfer_data
        (w.set_state TSTATE_BBB_DATA).sc.transfer_datalen)) UMASS_BULKOUT
      Buf.dataout_buffer (w.set_state TSTATE_BBB_DATA).sc.transfer_datalen 0
      XFER_BBB_DATAOUT STATUS_WIRE_FAILED
    have h2 := (reads_setup K
      ((w.set_state TSTATE_BBB_DATA).log (Event.memcpy Buf.dataout_buffer Buf.transfer_data
        (w.set_state TSTATE_BBB_DATA).sc.transfer_datalen)) UMASS_BULKOUT
      Buf.dataout_buffer (w.set_state TSTATE_BBB_DATA).sc.transfer_datalen 0
      XFER_BBB_DATAOUT).2.2 (by decide)
    rw [h2] at h
    simpa [World.set_state, World.log, csw_reads_append, csw_reads, reads_left, TSTATE_BBB_DATA]
      using h
  rw [if_neg h3]
  have h := budget_case_DATA K (w.set_state TSTATE_BBB_DATA) n err
    (by simp [World.set_state, TSTATE_BBB_DATA])
  simpa [reads_budget, World.set_state, reads_left, TSTATE_BBB_DATA] using h

/-- One call of `umass_bbb_state`, in any state and with any status, does not
raise the sum of the CSW reads issued and of those the state still allows. -/
theorem budget_bbb_state (K : usb_h) (w : World) (n : Nat) (err : usbd_status) :
    reads_budget (umass_bbb_state K w n err) ≤ reads_budget w := by
  by_cases hc : err = usbd_status.USBD_CANCELLED
  · subst hc
    rw [bbb_state_cancelled, budget_done]
    exact Nat.le_add_right _ _
  by_cases hd : w.sc.sc_dying = true
  · rw [bbb_state_dying K w n err hc hd, budget_done]
    exact Nat.le_add_right _ _
  have hd' : w.sc.sc_dying = false := by simpa using hd
  by_cases hr : 1 ≤ w.sc.transfer_state ∧ w.sc.transfer_state ≤ 9
  · have hcases : w.sc.transfer_state = 1 ∨ w.sc.transfer_state = 2 ∨
        w.sc.transfer_state = 3 ∨ w.sc.transfer_state = 4 ∨ w.sc.transfer_state = 5 ∨
        w.sc.transfer_state = 6 ∨ w.sc.transfer_state = 7 ∨ w.sc.transfer_state = 8 ∨
        w.sc.transfer_state = 9 := by omega
    rcases hcases with h | h | h | h | h | h | h | h | h
    · rw [bbb_state_COMMAND K w n err hc hd' h]
      exact budget_case_COMMAND K w n err h
    · rw [bbb_state_DATA K w n err hc hd' h]
      exact budget_case_DATA K w n err (by omega)
    · rw [bbb_state_DCLEAR K w n err hc hd' h]
      exact budget_case_DCLEAR K w err (by omega)
    · rw [bbb_state_STATUS K w n err hc hd' (Or.inl h)]
      exact budget_case_STATUS K w err
    · rw [bbb_state_SCLEAR K w n err hc hd' h]
      exact budget_case_SCLEAR K w err (Or.inr h)
    · rw [bbb_state_STATUS K w n err hc hd' (Or.inr h)]
      exact budget_case_STATUS K w err
    · rw [bbb_state_RESET1 K w n err hc hd' h]
      exact le_trans (budget_case_RESET1 K w) (Nat.le_add_right _ _)
    · rw [bbb_state_RESET2 K w n err hc hd' h]
      exact le_trans (budget_case_RESET2 K w) (Nat.le_add_right _ _)
    · rw [bbb_state_RESET3 K w n err hc hd' h]
      exact le_trans (le_of_eq (budget_transfer_reset w)) (Nat.le_add_right _ _)
  · rw [bbb_state_default K w n err hc hd' hr]

theorem budget_bbb_complete (K : usb_h) (w : World) (c : Completion) :
    reads_budget (bbb_complete K w c) ≤ reads_budget w := by
  unfold bbb_complete
  split
  · exact le_refl _
  · exact budget_bbb_state K _ _ _

theorem budget_bbb_run (K : usb_h) (cs : List Completion) :
    ∀ w : World, reads_budget (bbb_run K w cs) ≤ reads_budget w := by
  induction cs with
  | nil => intro w; exact le_refl _
  | cons c t ih =>
    intro w
    exact le_trans (ih _) (budget_bbb_complete K w c)

theorem budget_bbb_transfer (K : usb_h) (w : World) (lun : Int) (cmd : List Nat) (cmdlen : Int)
    (data : Nat) (datalen dir : Int) (timeout flags cb priv : Nat) :
    reads_budget (umass_bbb_transfer K w lun cmd cmdlen data datalen dir timeout flags cb priv) ≤
      csw_reads w.trace + 2 := by
  unfold umass_bbb_transfer
  split_ifs
  · have := reads_left_le w.sc.transfer_state
    simp only [reads_budget, World.log, csw_reads_append, csw_reads]
    omega
  · unfold bbb_send_cbw
    have h := budget_setup_or_reset K
      (bbb_transfer_store K w lun cmd cmdlen data datalen dir timeout cb priv) UMASS_BULKOUT
      (Buf.cbw
        (bbb_transfer_store K w lun cmd cmdlen data datalen dir timeout cb priv).sc.cbw.bytes)
      UMASS_BBB_CBW_SIZE flags XFER_BBB_CBW STATUS_WIRE_FAILED
    have h2 := (reads_setup K
      (bbb_transfer_store K w lun cmd cmdlen data datalen dir timeout cb priv) UMASS_BULKOUT
      (Buf.cbw
        (bbb_transfer_store K w lun cmd cmdlen data datalen dir timeout cb priv).sc.cbw.bytes)
      UMASS_BBB_CBW_SIZE flags XFER_BBB_CBW).2.2 (by decide)
    rw [h2] at h
    simpa [bbb_transfer_store, reads_left, TSTATE_BBB_COMMAND] using h

/-- C25 (amended): on a session in state STATUS1 that is and stays live, with the first CSW
read in flight and a transport that accepts the transfers: when the read
completes with `USBD_STALLED`, the state is SCLEAR and CLEAR_FEATURE
(ENDPOINT_HALT) for the bulk-in endpoint is issued; when that request completes
normally the state is STATUS2 and the CSW is read a second time
(`XFER_BBB_CSW2`); when the second read completes with an error (other than
`USBD_CANCELLED`) the reset is started with `STATUS_WIRE_FAILED` and the callback
has not been called. And for every command issued with `umass_bbb_transfer`, on
any session and followed by any sequence of completions, at most two CSW reads
are handed to the transport. -/
theorem C25_status_read_retried_once (K : usb_h) (v : World) (c1 c2 c3 : Completion)
    (w : World) (lun : Int) (cmd : List Nat) (cmdlen : Int) (data : Nat) (datalen dir : Int)
    (timeout flags cb priv : Nat) (cs : List Completion)
    (hlive : v.sc.sc_dying = false) (hacc : v.usbd_transfer_ret = [])
    (hst : v.sc.transfer_state = TSTATE_BBB_STATUS1) (hinf : v.inflight = [XFER_BBB_CSW1])
    (h1 : c1.err = usbd_status.USBD_STALLED) (h1d : c1.dying = false)
    (h2 : c2.err = usbd_status.USBD_NORMAL_COMPLETION) (h2d : c2.dying = false)
    (h3 : c3.err ≠ usbd_status.USBD_NORMAL_COMPLETION) (h3c : c3.err ≠ usbd_status.USBD_CANCELLED)
    (h3d : c3.dying = false) :
    ((bbb_run K v [c1]).sc.transfer_state = TSTATE_BBB_SCLEAR ∧
      ctrl_requests (bbb_run K v [c1]).trace =
        ctrl_requests v.trace ++ [clear_halt_request K v.sc UMASS_BULKIN] ∧
      submissions (bbb_run K v [c1]).trace = submissions v.trace ++ [XFER_BBB_SCLEAR]) ∧
    ((bbb_run K v [c1, c2]).sc.transfer_state = TSTATE_BBB_STATUS2 ∧
      submissions (bbb_run K v [c1, c2]).trace =
        submissions v.trace ++ [XFER_BBB_SCLEAR, XFER_BBB_CSW2] ∧
      (bbb_run K v [c1, c2]).inflight = [XFER_BBB_CSW2]) ∧
    ((bbb_run K v [c1, c2, c3]).sc.transfer_state = TSTATE_BBB_RESET1 ∧
      (bbb_run K v [c1, c2, c3]).sc.transfer_status = STATUS_WIRE_FAILED ∧
      submissions (bbb_run K v [c1, c2, c3]).trace =
        submissions v.trace ++ [XFER_BBB_SCLEAR, XFER_BBB_CSW2, XFER_BBB_RESET1] ∧
      ctrl_requests (bbb_run K v [c1, c2, c3]).trace =
        ctrl_requests v.trace ++
          [clear_halt_request K v.sc UMASS_BULKIN, bbb_reset_request K v.sc] ∧
      callbacks (bbb_run K v [c1, c2, c3]).trace = callbacks v.trace) ∧
    csw_reads (bbb_run K
      (umass_bbb_transfer K w lun cmd cmdlen data datalen dir timeout flags cb priv) cs).trace ≤
      csw_reads w.trace + 2 := by
  refine ⟨?_, ?_, ?_, ?_⟩
  · by_cases hm : v.sc.sc_methods = K.UMASS_BBB <;>
    simp [bbb_run, bbb_complete, hinf, umass_bbb_state, h1, h1d, hlive, hst, bbb_case_STATUS,
      umass_clear_endpoint_stall, umass_setup_ctrl_transfer, usbd_transfer, hacc, World.log,
      World.set_state, clear_halt_request, ctrl_requests_append, ctrl_requests,
      submissions_append, submissions, hm,
      TSTATE_BBB_COMMAND, TSTATE_BBB_DATA, TSTATE_BBB_DCLEAR, TSTATE_BBB_STATUS1,
      TSTATE_BBB_SCLEAR, TSTATE_BBB_STATUS2, TSTATE_BBB_RESET1, TSTATE_IDLE]
  · by_cases hm : v.sc.sc_methods = K.UMASS_BBB <;>
    simp [bbb_run, bbb_complete, hinf, umass_bbb_state, h1, h1d, h2, h2d, hlive, hst,
      bbb_case_STATUS, bbb_case_SCLEAR, bbb_read_csw, umass_setup_transfer,
      umass_clear_endpoint_stall, umass_setup_ctrl_transfer, usbd_transfer, hacc, World.log,
      World.set_state, clear_halt_request, ctrl_requests_append, ctrl_requests,
      submissions_append, submissions, hm,
      TSTATE_BBB_COMMAND, TSTATE_BBB_DATA, TSTATE_BBB_DCLEAR, TSTATE_BBB_STATUS1,
      TSTATE_BBB_SCLEAR, TSTATE_BBB_STATUS2, TSTATE_BBB_RESET1, TSTATE_IDLE]
  · by_cases hm : v.sc.sc_methods = K.UMASS_BBB <;>
    simp [bbb_run, bbb_complete, hinf, umass_bbb_state, h1, h1d, h2, h2d, h3, h3c, h3d, hlive,
      hst, bbb_case_STATUS, bbb_case_SCLEAR, bbb_read_csw, umass_setup_transfer, umass_bbb_reset,
      umass_clear_endpoint_stall, umass_setup_ctrl_transfer, usbd_transfer, hacc, World.log,
      World.set_state, clear_halt_request, bbb_reset_request, UR_BBB_RESET,
      ctrl_requests_append, ctrl_requests, callbacks_append, callbacks,
      submissions_append, submissions, hm,
      TSTATE_BBB_COMMAND, TSTATE_BBB_DATA, TSTATE_BBB_DCLEAR, TSTATE_BBB_STATUS1,
      TSTATE_BBB_SCLEAR, TSTATE_BBB_STATUS2, TSTATE_BBB_RESET1, TSTATE_IDLE]
  · have h1 := budget_bbb_run K cs
      (umass_bbb_transfer K w lun cmd cmdlen data datalen dir timeout flags cb priv)
    have h2 := budget_bbb_transfer K w lun cmd cmdlen data datalen dir timeout flags cb priv
    unfold reads_budget at h1 h2
    omega

/-- C25 (amended) on the session `w_status1` (first CSW read in flight): the read stalls,
the clear-stall completes, the second read fails with `USBD_IOERROR`. And on a
command without data phase whose first CSW read stalls and whose second one
delivers a good CSW: two CSW reads in all. -/
theorem C25_status_read_retried_once_witness :
    (w_status1.sc.sc_dying = false ∧ w_status1.usbd_transfer_ret = [] ∧
      w_status1.sc.transfer_state = TSTATE_BBB_STATUS1 ∧ w_status1.inflight = [XFER_BBB_CSW1]) ∧
    ((bbb_run K_std w_status1 [completion usbd_status.USBD_STALLED 0,
        completion usbd_status.USBD_NORMAL_COMPLETION 0,
        completion usbd_status.USBD_IOERROR 0]).sc.transfer_state = TSTATE_BBB_RESET1 ∧
      (bbb_run K_std w_status1 [completion usbd_status.USBD_STALLED 0,
        completion usbd_status.USBD_NORMAL_COMPLETION 0,
        completion usbd_status.USBD_IOERROR 0]).sc.transfer_status = STATUS_WIRE_FAILED) ∧
    csw_reads (bbb_run K_std
      (umass_bbb_transfer K_std w_bbb 0 [0, 0, 0, 0, 0, 0] 6 0 0 DIR_NONE 1000 0 7 9)
      [completion usbd_status.USBD_NORMAL_COMPLETION 31, completion usbd_status.USBD_STALLED 0,
       completion usbd_status.USBD_NORMAL_COMPLETION 0, completion_csw 42 0 CSWSTATUS_GOOD]).trace
      = 2 :=
  have h := C25_status_read_retried_once K_std w_status1 (completion usbd_status.USBD_STALLED 0)
    (completion usbd_status.USBD_NORMAL_COMPLETION 0) (completion usbd_status.USBD_IOERROR 0)
    w_bbb 0 [0, 0, 0, 0, 0, 0] 6 0 0 DIR_NONE 1000 0 7 9
    [completion usbd_status.USBD_NORMAL_COMPLETION 31, completion usbd_status.USBD_STALLED 0,
     completion usbd_status.USBD_NORMAL_COMPLETION 0, completion_csw 42 0 CSWSTATUS_GOOD]
    (by decide) (by decide) (by decide) (by decide) (by decide) (by decide) (by decide)
    (by decide) (by decide) (by decide) (by decide)
  ⟨by decide, ⟨h.2.2.1.1, h.2.2.1.2.1⟩, by decide⟩

/-- C25 as stated fails on the code. On the session `w_status1` (first CSW read in
flight, callback 7, context 9) the read stalls, the clear-stall completes
normally and the second read completes with the error `USBD_CANCELLED`: the
reset protocol is not started (`XFER_BBB_RESET1` is not submitted, the one
control request is the clear-stall, the stored status is not
`STATUS_WIRE_FAILED`); the command ends there, the callback is called with
`STATUS_TIMEOUT` and residue 0, and the session is idle. -/
theorem C25_cancelled_second_read_is_not_reset :
    w_status1.sc.transfer_state = TSTATE_BBB_STATUS1 ∧
    (bbb_run K_std w_status1 [completion usbd_status.USBD_STALLED 0,
      completion usbd_status.USBD_NORMAL_COMPLETION 0]).sc.transfer_state = TSTATE_BBB_STATUS2 ∧
    XFER_BBB_RESET1 ∉ submissions (bbb_run K_std w_status1
      [completion usbd_status.USBD_STALLED 0, completion usbd_status.USBD_NORMAL_COMPLETION 0,
       completion usbd_status.USBD_CANCELLED 0]).trace ∧
    ctrl_requests (bbb_run K_std w_status1
      [completion usbd_status.USBD_STALLED 0, completion usbd_status.USBD_NORMAL_COMPLETION 0,
       completion usbd_status.USBD_CANCELLED 0]).trace =
      [clear_halt_request K_std w_status1.sc UMASS_BULKIN] ∧
    callbacks (bbb_run K_std w_status1
      [completion usbd_status.USBD_STALLED 0, completion usbd_status.USBD_NORMAL_COMPLETION 0,
       completion usbd_status.USBD_CANCELLED 0]).trace = [(7, 9, 0, STATUS_TIMEOUT)] ∧
    (bbb_run K_std w_status1
      [completion usbd_status.USBD_STALLED 0, completion usbd_status.USBD_NORMAL_COMPLETION 0,
       completion usbd_status.USBD_CANCELLED 0]).sc.transfer_state = TSTATE_IDLE ∧
    (bbb_run K_std w_status1
      [completion usbd_status.USBD_STALLED 0, completion usbd_status.USBD_NORMAL_COMPLETION 0,
       completion usbd_status.USBD_CANCELLED 0]).sc.transfer_status ≠ STATUS_WIRE_FAILED := by
  decide

/-! ## C26: an overrun falls through into the reset states -/

theorem bbb_csw_check_overrun (K : usb_h) (w : World)
    (hsig : UGETDW w.sc.csw.dCSWSignature = CSWSIGNATURE)
    (htag : UGETDW w.sc.csw.dCSWTag = UGETDW w.sc.cbw.dCBWTag)
    (hst : w.sc.csw.bCSWStatus = CSWSTATUS_GOOD ∨ w.sc.csw.bCSWStatus = CSWSTATUS_FAILED)
    (hover : w.sc.transfer_actlen > w.sc.transfer_datalen) :
    bbb_csw_check K w = bbb_case_RESET1 K w := by
  unfold bbb_csw_check
  rw [if_neg (by simp [hsig]), if_neg (by simp [htag])]
  rcases hst with hst | hst <;>
  simp [hst, hover, CSWSTATUS_GOOD, CSWSTATUS_FAILED, CSWSTATUS_PHASE]

/-- C26 (amended): on a live session in state STATUS1 or STATUS2, when the CSW read
completes normally with the valid signature, the tag of the CBW and status byte
0 or 1 while `transfer_actlen > transfer_datalen`, `umass_bbb_state` does what
the handler of RESET1 does: it sets the state to RESET2 and clears the bulk-in
stall. With a transport that accepts the request, the trace grows by the
CLEAR_FEATURE(ENDPOINT_HALT) for bulk-in alone: no callback, no reset request.
For a data-in command issued with a non-NULL context on a session that is and
stays live, whose data transfer completes normally with more than `datalen`
bytes, the two completions that follow the CSW (with any error but
`USBD_CANCELLED`) end the command with the callback called once, with
`STATUS_CMD_OK`, the status stored by `umass_bbb_transfer`, and residue
`datalen`; the two clear-stall requests are the only control requests. -/
theorem C26_overrun_falls_into_reset1 (K : usb_h) (v : World) (n : Nat)
    (w : World) (lun : Int) (cmd : List Nat) (cmdlen : Int) (data : Nat) (datalen : Int)
    (timeout flags cb priv : Nat) (c1 c2 c3 c4 c5 : Completion)
    (hvlive : v.sc.sc_dying = false) (hvacc : v.usbd_transfer_ret = [])
    (hvst : v.sc.transfer_state = TSTATE_BBB_STATUS1 ∨ v.sc.transfer_state = TSTATE_BBB_STATUS2)
    (hvsig : UGETDW v.sc.csw.dCSWSignature = CSWSIGNATURE)
    (hvtag : UGETDW v.sc.csw.dCSWTag = UGETDW v.sc.cbw.dCBWTag)
    (hvstatus : v.sc.csw.bCSWStatus = CSWSTATUS_GOOD ∨ v.sc.csw.bCSWStatus = CSWSTATUS_FAILED)
    (hvover : v.sc.transfer_actlen > v.sc.transfer_datalen)
    (hlive : w.sc.sc_dying = false) (hinf : w.inflight = []) (hacc : w.usbd_transfer_ret = [])
    (hpriv : priv ≠ 0)
    (h1 : c1.err = usbd_status.USBD_NORMAL_COMPLETION) (h1d : c1.dying = false)
    (h2 : c2.err = usbd_status.USBD_NORMAL_COMPLETION) (h2d : c2.dying = false)
    (h2a : datalen < int_of_u32 c2.actlen)
    (h3 : c3.err = usbd_status.USBD_NORMAL_COMPLETION) (h3d : c3.dying = false)
    (hsig : UGETDW c3.csw.dCSWSignature = CSWSIGNATURE)
    (htag : UGETDW c3.csw.dCSWTag = UGETDW (USETDW w.dCBWtag))
    (hst : c3.csw.bCSWStatus = CSWSTATUS_GOOD ∨ c3.csw.bCSWStatus = CSWSTATUS_FAILED)
    (h4 : c4.err ≠ usbd_status.USBD_CANCELLED) (h4d : c4.dying = false)
    (h5 : c5.err ≠ usbd_status.USBD_CANCELLED) (h5d : c5.dying = false) :
    (umass_bbb_state K v n usbd_status.USBD_NORMAL_COMPLETION =
        bbb_case_RESET1 K { v with sc := { v.sc with csw := bbb_csw_quirks v.sc } } ∧
      (umass_bbb_state K v n usbd_status.USBD_NORMAL_COMPLETION).sc.transfer_state =
        TSTATE_BBB_RESET2 ∧
      (umass_bbb_state K v n usbd_status.USBD_NORMAL_COMPLETION).trace =
        v.trace ++ [Event.usbd_clear_endpoint_toggle UMASS_BULKIN,
          Event.usbd_setup_default_xfer XFER_BBB_RESET2 (clear_halt_request K v.sc UMASS_BULKIN)
            Buf.NULL 0 0,
          Event.usbd_transfer XFER_BBB_RESET2 usbd_status.USBD_IN_PROGRESS]) ∧
    ((bbb_run K (umass_bbb_transfer K w lun cmd cmdlen data datalen DIR_IN timeout flags cb priv)
        [c1, c2, c3]).sc.transfer_state = TSTATE_BBB_RESET2 ∧
      callbacks (bbb_run K
        (umass_bbb_transfer K w lun cmd cmdlen data datalen DIR_IN timeout flags cb priv)
        [c1, c2, c3]).trace = callbacks w.trace ∧
      (bbb_run K (umass_bbb_transfer K w lun cmd cmdlen data datalen DIR_IN timeout flags cb priv)
        [c1, c2, c3, c4]).sc.transfer_state = TSTATE_BBB_RESET3 ∧
      callbacks (bbb_run K
        (umass_bbb_transfer K w lun cmd cmdlen data datalen DIR_IN timeout flags cb priv)
        [c1, c2, c3, c4, c5]).trace = callbacks w.trace ++ [(cb, priv, datalen, STATUS_CMD_OK)] ∧
      (bbb_run K (umass_bbb_transfer K w lun cmd cmdlen data datalen DIR_IN timeout flags cb priv)
        [c1, c2, c3, c4, c5]).sc.transfer_state = TSTATE_IDLE ∧
      (bbb_run K (umass_bbb_transfer K w lun cmd cmdlen data datalen DIR_IN timeout flags cb priv)
        [c1, c2, c3, c4, c5]).inflight = [] ∧
      ctrl_requests (bbb_run K
        (umass_bbb_transfer K w lun cmd cmdlen data datalen DIR_IN timeout flags cb priv)
        [c1, c2, c3, c4, c5]).trace = ctrl_requests w.trace ++
          [clear_halt_request K w.sc UMASS_BULKIN, clear_halt_request K w.sc UMASS_BULKOUT]) := by
  constructor
  · have e : umass_bbb_state K v n usbd_status.USBD_NORMAL_COMPLETION =
        bbb_case_RESET1 K { v with sc := { v.sc with csw := bbb_csw_quirks v.sc } } := by
      rw [bbb_state_STATUS K v n _ (by decide) hvlive hvst]
      unfold bbb_case_STATUS
      rw [if_neg (by simp)]
      exact bbb_csw_check_overrun K _ (csw_quirks_sig_valid _ hvsig)
        (csw_quirks_tag_valid _ hvtag) (by simpa [csw_quirks_status] using hvstatus) hvover
    refine ⟨e, ?_, ?_⟩ <;> rw [e] <;>
    simp [bbb_case_RESET1, umass_clear_endpoint_stall, hvlive, World.set_state, World.log,
      umass_setup_ctrl_transfer, usbd_transfer, hvacc, clear_halt_request]
  · have hover : datalen < int_of_u32 c2.actlen := h2a
    simp only [bbb_run, List.foldl, umass_bbb_transfer, hlive, Bool.false_eq_true, if_false,
      bbb_send_cbw]
    rw [setup_transfer_accept K _ _ _ _ _ _ (by simp [bbb_transfer_store, hlive])
      (by simp [bbb_transfer_store, hacc])]
    simp only [ne_eq, not_true_eq_false, if_false]
    by_cases hm : w.sc.sc_methods = K.UMASS_BBB <;> rcases hst with hst | hst <;>
    simp [hm, bbb_complete, bbb_transfer_store, hinf, umass_bbb_state, bbb_case_COMMAND, h1, h1d,
      h2, h2d, h3, h3d, h4, h4d, h5, h5d, hlive, World.set_state, umass_setup_transfer,
      usbd_transfer, hacc, World.log, umass_clear_endpoint_stall, umass_setup_ctrl_transfer,
      clear_halt_request, umass_transfer_reset, hpriv,
      bbb_case_DATA, bbb_case_DCLEAR, bbb_case_SCLEAR, bbb_read_csw, bbb_case_STATUS,
      bbb_case_RESET1, bbb_case_RESET2, bbb_case_RESET3,
      bbb_csw_check, csw_quirks_sig_valid, csw_quirks_tag_valid, csw_quirks_status,
      umass_transfer_done, callbacks_append, callbacks, ctrl_requests_append, ctrl_requests,
      hover,
      TSTATE_BBB_COMMAND, TSTATE_BBB_DATA, TSTATE_BBB_DCLEAR, TSTATE_BBB_STATUS1,
      TSTATE_BBB_SCLEAR, TSTATE_BBB_STATUS2, TSTATE_BBB_RESET1, TSTATE_BBB_RESET2,
      TSTATE_BBB_RESET3, TSTATE_IDLE, DIR_IN, DIR_NONE, DIR_OUT,
      hsig, htag, hst, CSWSTATUS_GOOD, CSWSTATUS_FAILED, CSWSTATUS_PHASE, STATUS_CMD_OK]

/-- C26 (amended) on the session `w_bbb_overrun`, and on a 512-byte read whose data transfer
delivers 600 bytes and whose CSW reports a good command: the state after the
CSW is RESET2, and after the two clear-stall completions the callback gets
`STATUS_CMD_OK` with residue 512. -/
theorem C26_overrun_falls_into_reset1_witness :
    (w_bbb_overrun.sc.transfer_state = TSTATE_BBB_STATUS1 ∧
      w_bbb_overrun.sc.transfer_actlen > w_bbb_overrun.sc.transfer_datalen ∧
      (512 : Int) < int_of_u32 600) ∧
    (umass_bbb_state K_std w_bbb_overrun 13 usbd_status.USBD_NORMAL_COMPLETION).sc.transfer_state =
      TSTATE_BBB_RESET2 ∧
    callbacks (bbb_run K_std
        (umass_bbb_transfer K_std w_bbb 0 [0x28, 0, 0, 0, 0, 0, 0, 0, 1, 0] 10 0x1000 512 DIR_IN
          1000 0 7 9)
        [completion usbd_status.USBD_NORMAL_COMPLETION 31,
         completion usbd_status.USBD_NORMAL_COMPLETION 600,
         completion_csw 42 0 CSWSTATUS_GOOD,
         completion usbd_status.USBD_NORMAL_COMPLETION 0,
         completion usbd_status.USBD_NORMAL_COMPLETION 0]).trace = [(7, 9, 512, STATUS_CMD_OK)] :=
  have h := C26_overrun_falls_into_reset1 K_std w_bbb_overrun 13 w_bbb 0
    [0x28, 0, 0, 0, 0, 0, 0, 0, 1, 0] 10 0x1000 512 1000 0 7 9
    (completion usbd_status.USBD_NORMAL_COMPLETION 31)
    (completion usbd_status.USBD_NORMAL_COMPLETION 600)
    (completion_csw 42 0 CSWSTATUS_GOOD)
    (completion usbd_status.USBD_NORMAL_COMPLETION 0)
    (completion usbd_status.USBD_NORMAL_COMPLETION 0)
    (by decide) (by decide) (by decide) (by decide) (by decide) (by decide) (by decide)
    (by decide) (by decide) (by decide) (by decide) (by decide) (by decide) (by decide)
    (by decide) (by decide) (by decide) (by decide) (by decide) (by decide) (by decide)
    (by decide) (by decide) (by decide) (by decide)
  ⟨by decide, h.1.2.1, h.2.2.2.2.1⟩

/-- C26 as stated fails on the code. A 512-byte read on the session `w_bbb`
(callback 7) whose data transfer delivers 600 bytes and whose CSW is valid with
status GOOD. With context 9, when the clear-stall of RESET2 completes with
`USBD_CANCELLED`, the callback receives `STATUS_TIMEOUT` with residue 0, not
`STATUS_CMD_OK` with residue 512, and the bulk-out stall is not cleared. With
the context NULL, after the normal completions of RESET2 and RESET3 the session
is idle and the callback has not been called. -/
theorem C26_overrun_ends_without_cmd_ok :
    ((bbb_run K_std
        (umass_bbb_transfer K_std w_bbb 0 [0x28, 0, 0, 0, 0, 0, 0, 0, 1, 0] 10 0x1000 512 DIR_IN
          1000 0 7 9)
        [completion usbd_status.USBD_NORMAL_COMPLETION 31,
         completion usbd_status.USBD_NORMAL_COMPLETION 600,
         completion_csw 42 0 CSWSTATUS_GOOD]).sc.transfer_state = TSTATE_BBB_RESET2 ∧
      callbacks (bbb_run K_std
        (umass_bbb_transfer K_std w_bbb 0 [0x28, 0, 0, 0, 0, 0, 0, 0, 1, 0] 10 0x1000 512 DIR_IN
          1000 0 7 9)
        [completion usbd_status.USBD_NORMAL_COMPLETION 31,
         completion usbd_status.USBD_NORMAL_COMPLETION 600,
         completion_csw 42 0 CSWSTATUS_GOOD,
         completion usbd_status.USBD_CANCELLED 0]).trace = [(7, 9, 0, STATUS_TIMEOUT)] ∧
      ctrl_requests (bbb_run K_std
        (umass_bbb_transfer K_std w_bbb 0 [0x28, 0, 0, 0, 0, 0, 0, 0, 1, 0] 10 0x1000 512 DIR_IN
          1000 0 7 9)
        [completion usbd_status.USBD_NORMAL_COMPLETION 31,
         completion usbd_status.USBD_NORMAL_COMPLETION 600,
         completion_csw 42 0 CSWSTATUS_GOOD,
         completion usbd_status.USBD_CANCELLED 0]).trace =
        [clear_halt_request K_std w_bbb.sc UMASS_BULKIN] ∧
      (bbb_run K_std
        (umass_bbb_transfer K_std w_bbb 0 [0x28, 0, 0, 0, 0, 0, 0, 0, 1, 0] 10 0x1000 512 DIR_IN
          1000 0 7 9)
        [completion usbd_status.USBD_NORMAL_COMPLETION 31,
         completion usbd_status.USBD_NORMAL_COMPLETION 600,
         completion_csw 42 0 CSWSTATUS_GOOD,
         completion usbd_status.USBD_CANCELLED 0]).sc.transfer_state = TSTATE_IDLE) ∧
    ((bbb_run K_std
        (umass_bbb_transfer K_std w_bbb 0 [0x28, 0, 0, 0, 0, 0, 0, 0, 1, 0] 10 0x1000 512 DIR_IN
          1000 0 7 0)
        [completion usbd_status.USBD_NORMAL_COMPLETION 31,
         completion usbd_status.USBD_NORMAL_COMPLETION 600,
         completion_csw 42 0 CSWSTATUS_GOOD]).sc.transfer_state = TSTATE_BBB_RESET2 ∧
      callbacks (bbb_run K_std
        (umass_bbb_transfer K_std w_bbb 0 [0x28, 0, 0, 0, 0, 0, 0, 0, 1, 0] 10 0x1000 512 DIR_IN
          1000 0 7 0)
        [completion usbd_status.USBD_NORMAL_COMPLETION 31,
         completion usbd_status.USBD_NORMAL_COMPLETION 600,
         completion_csw 42 0 CSWSTATUS_GOOD,
         completion usbd_status.USBD_NORMAL_COMPLETION 0,
         completion usbd_status.USBD_NORMAL_COMPLETION 0]).trace = [] ∧
      (bbb_run K_std
        (umass_bbb_transfer K_std w_bbb 0 [0x28, 0, 0, 0, 0, 0, 0, 0, 1, 0] 10 0x1000 512 DIR_IN
          1000 0 7 0)
        [completion usbd_status.USBD_NORMAL_COMPLETION 31,
         completion usbd_status.USBD_NORMAL_COMPLETION 600,
         completion_csw 42 0 CSWSTATUS_GOOD,
         completion usbd_status.USBD_NORMAL_COMPLETION 0,
         completion usbd_status.USBD_NORMAL_COMPLETION 0]).sc.transfer_state = TSTATE_IDLE) := by
  decide

/-! ## C27: commands without data phase -/

theorem memcpys_append (a b : List Event) : memcpys (a ++ b) = memcpys a ++ memcpys b := by
  induction a with
  | nil => rfl
  | cons e t ih => cases e <;> simp [memcpys, ih]

/-- C27: on a live BBB session in state COMMAND whose command has no data phase
(`transfer_dir` is `DIR_NONE`), with a transport that accepts the transfers, the
normal completion of the CBW transfer makes `umass_bbb_state` set up and submit
the first CSW read (13 bytes into `sc->csw`, transfer `XFER_BBB_CSW1`, which is
created on the bulk-in pipe) and nothing else: the state is STATUS1, the CSW
read is the one transfer added, no data transfer and no control request (hence
no clear-stall) is submitted, and no data is copied. -/
theorem C27_no_data_phase_goes_to_status (K : usb_h) (w : World) (n : Nat)
    (hlive : w.sc.sc_dying = false) (hacc : w.usbd_transfer_ret = [])
    (hst : w.sc.transfer_state = TSTATE_BBB_COMMAND) (hdir : w.sc.transfer_dir = DIR_NONE) :
    (umass_bbb_state K w n usbd_status.USBD_NORMAL_COMPLETION).trace =
      w.trace ++
        (if w.sc.sc_methods = K.UMASS_BBB then
          [Event.usbd_setup_xfer XFER_BBB_CSW1 Buf.csw UMASS_BBB_CSW_SIZE 0 w.sc.timeout]
         else []) ++
        [Event.usbd_transfer XFER_BBB_CSW1 usbd_status.USBD_IN_PROGRESS] ∧
    (umass_bbb_state K w n usbd_status.USBD_NORMAL_COMPLETION).sc =
      { w.sc with transfer_state := TSTATE_BBB_STATUS1 } ∧
    (umass_bbb_state K w n usbd_status.USBD_NORMAL_COMPLETION).inflight =
      w.inflight ++ [XFER_BBB_CSW1] ∧
    bbb_xfer_pipe XFER_BBB_CSW1 = some UMASS_BULKIN ∧
    submissions (umass_bbb_state K w n usbd_status.USBD_NORMAL_COMPLETION).trace =
      submissions w.trace ++ [XFER_BBB_CSW1] ∧
    ctrl_requests (umass_bbb_state K w n usbd_status.USBD_NORMAL_COMPLETION).trace =
      ctrl_requests w.trace ∧
    memcpys (umass_bbb_state K w n usbd_status.USBD_NORMAL_COMPLETION).trace =
      memcpys w.trace := by
  by_cases hm : w.sc.sc_methods = K.UMASS_BBB <;>
  simp [umass_bbb_state, hlive, hst, hdir, bbb_case_COMMAND, bbb_case_DATA, bbb_case_DCLEAR,
    bbb_case_SCLEAR, bbb_read_csw, umass_setup_transfer, usbd_transfer, hacc, World.log,
    World.set_state, hm, submissions_append, submissions, ctrl_requests_append, ctrl_requests,
    memcpys_append, memcpys, bbb_xfer_pipe,
    TSTATE_BBB_COMMAND, TSTATE_BBB_DATA, TSTATE_BBB_DCLEAR, TSTATE_BBB_STATUS1,
    TSTATE_BBB_SCLEAR, TSTATE_BBB_STATUS2, TSTATE_IDLE, DIR_IN, DIR_NONE, DIR_OUT,
    XFER_BBB_CSW1, XFER_BBB_CSW2, XFER_BBB_CBW, XFER_BBB_DATAIN, XFER_BBB_DATAOUT,
    UMASS_BULKIN, UMASS_BULKOUT]

/-- C27 on the command without data phase of `w_bbb_nodata`, when its CBW
transfer completes: the transfers submitted for the command are the CBW and the
first CSW read. -/
theorem C27_no_data_phase_goes_to_status_witness :
    (w_bbb_nodata.sc.sc_dying = false ∧ w_bbb_nodata.usbd_transfer_ret = [] ∧
      w_bbb_nodata.sc.transfer_state = TSTATE_BBB_COMMAND ∧
      w_bbb_nodata.sc.transfer_dir = DIR_NONE) ∧
    (umass_bbb_state K_std w_bbb_nodata 31 usbd_status.USBD_NORMAL_COMPLETION).sc =
      { w_bbb_nodata.sc with transfer_state := TSTATE_BBB_STATUS1 } ∧
    submissions (umass_bbb_state K_std w_bbb_nodata 31 usbd_status.USBD_NORMAL_COMPLETION).trace =
      [XFER_BBB_CBW, XFER_BBB_CSW1] :=
  ⟨by decide,
   (C27_no_data_phase_goes_to_status K_std w_bbb_nodata 31 (by decide) (by decide) (by decide)
     (by decide)).2.1,
   by decide⟩

/-! ## C28: errors during the reset -/

theorem bbb_state_reset_any_error (K : usb_h) (v : World) (n : Nat) (err : usbd_status)
    (hc : err ≠ usbd_status.USBD_CANCELLED)
    (hs : v.sc.transfer_state = TSTATE_BBB_RESET1 ∨ v.sc.transfer_state = TSTATE_BBB_RESET2 ∨
      v.sc.transfer_state = TSTATE_BBB_RESET3) :
    umass_bbb_state K v n err = umass_bbb_state K v n usbd_status.USBD_NORMAL_COMPLETION := by
  rcases hs with h | h | h <;>
  simp [umass_bbb_state, hc, h, TSTATE_BBB_COMMAND, TSTATE_BBB_DATA, TSTATE_BBB_DCLEAR,
    TSTATE_BBB_STATUS1, TSTATE_BBB_SCLEAR, TSTATE_BBB_STATUS2, TSTATE_BBB_RESET1,
    TSTATE_BBB_RESET2, TSTATE_BBB_RESET3]

theorem cbi_state_reset_any_error (K : usb_h) (v : World) (n : Nat) (err : usbd_status)
    (hc : err ≠ usbd_status.USBD_CANCELLED)
    (hs : v.sc.transfer_state = TSTATE_CBI_RESET1 ∨ v.sc.transfer_state = TSTATE_CBI_RESET2 ∨
      v.sc.transfer_state = TSTATE_CBI_RESET3) :
    umass_cbi_state K v n err = umass_cbi_state K v n usbd_status.USBD_NORMAL_COMPLETION := by
  rcases hs with h | h | h <;>
  simp [umass_cbi_state, hc, h, TSTATE_CBI_COMMAND, TSTATE_CBI_DATA, TSTATE_CBI_DCLEAR,
    TSTATE_CBI_STATUS, TSTATE_CBI_SCLEAR, TSTATE_CBI_RESET1,
    TSTATE_CBI_RESET2, TSTATE_CBI_RESET3]

theorem bbb_reset_run (K : usb_h) (w : World) (st : Int) (c1 c2 c3 : Completion)
    (hlive : w.sc.sc_dying = false) (hinf : w.inflight = []) (hacc : w.usbd_transfer_ret = [])
    (h1 : c1.err ≠ usbd_status.USBD_CANCELLED) (h1d : c1.dying = false)
    (h2 : c2.err ≠ usbd_status.USBD_CANCELLED) (h2d : c2.dying = false)
    (h3 : c3.err ≠ usbd_status.USBD_CANCELLED) (h3d : c3.dying = false) :
    (umass_bbb_reset K w st).sc.transfer_state = TSTATE_BBB_RESET1 ∧
    (bbb_run K (umass_bbb_reset K w st) [c1]).sc.transfer_state = TSTATE_BBB_RESET2 ∧
    (bbb_run K (umass_bbb_reset K w st) [c1, c2]).sc.transfer_state = TSTATE_BBB_RESET3 ∧
    (bbb_run K (umass_bbb_reset K w st) [c1, c2, c3]).sc.transfer_state = TSTATE_IDLE ∧
    (bbb_run K (umass_bbb_reset K w st) [c1, c2, c3]).inflight = [] ∧
    submissions (bbb_run K (umass_bbb_reset K w st) [c1, c2, c3]).trace =
      submissions w.trace ++ [XFER_BBB_RESET1, XFER_BBB_RESET2, XFER_BBB_RESET3] ∧
    ctrl_requests (bbb_run K (umass_bbb_reset K w st) [c1, c2, c3]).trace =
      ctrl_requests w.trace ++ [bbb_reset_request K w.sc, clear_halt_request K w.sc UMASS_BULKIN,
        clear_halt_request K w.sc UMASS_BULKOUT] := by
  by_cases hp : w.sc.transfer_priv = 0 <;>
  simp [bbb_run, umass_bbb_reset, hlive, umass_setup_ctrl_transfer, usbd_transfer, hacc,
    World.log, bbb_complete, hinf, umass_bbb_state, h1, h1d, h2, h2d, h3, h3d,
    bbb_case_RESET1, bbb_case_RESET2, bbb_case_RESET3, umass_clear_endpoint_stall,
    umass_transfer_reset, hp, World.set_state, bbb_reset_request, clear_halt_request,
    UR_BBB_RESET, submissions_append, submissions, ctrl_requests_append, ctrl_requests,
    TSTATE_BBB_COMMAND, TSTATE_BBB_DATA, TSTATE_BBB_DCLEAR, TSTATE_BBB_STATUS1,
    TSTATE_BBB_SCLEAR, TSTATE_BBB_STATUS2, TSTATE_BBB_RESET1, TSTATE_BBB_RESET2,
    TSTATE_BBB_RESET3, TSTATE_IDLE]

theorem cbi_reset_run (K : usb_h) (w : World) (st : Int) (c1 c2 c3 : Completion)
    (hlive : w.sc.sc_dying = false) (hinf : w.inflight = []) (hacc : w.usbd_transfer_ret = [])
    (h1 : c1.err ≠ usbd_status.USBD_CANCELLED) (h1d : c1.dying = false)
    (h2 : c2.err ≠ usbd_status.USBD_CANCELLED) (h2d : c2.dying = false)
    (h3 : c3.err ≠ usbd_status.USBD_CANCELLED) (h3d : c3.dying = false) :
    (umass_cbi_reset K w st).sc.transfer_state = TSTATE_CBI_RESET1 ∧
    (cbi_run K (umass_cbi_reset K w st) [c1]).sc.transfer_state = TSTATE_CBI_RESET2 ∧
    (cbi_run K (umass_cbi_reset K w st) [c1, c2]).sc.transfer_state = TSTATE_CBI_RESET3 ∧
    (cbi_run K (umass_cbi_reset K w st) [c1, c2, c3]).sc.transfer_state = TSTATE_IDLE ∧
    (cbi_run K (umass_cbi_reset K w st) [c1, c2, c3]).inflight = [] ∧
    submissions (cbi_run K (umass_cbi_reset K w st) [c1, c2, c3]).trace =
      submissions w.trace ++ [XFER_CBI_RESET1, XFER_CBI_RESET2, XFER_CBI_RESET3] := by
  by_cases hp : w.sc.transfer_priv = 0 <;>
  simp [cbi_run, umass_cbi_reset, umass_cbi_adsc, hlive, umass_setup_ctrl_transfer, usbd_transfer,
    hacc, World.log, cbi_complete, hinf, umass_cbi_state, h1, h1d, h2, h2d, h3, h3d,
    umass_clear_endpoint_stall,
    umass_transfer_reset, hp, World.set_state,
    submissions_append, submissions,
    TSTATE_CBI_COMMAND, TSTATE_CBI_DATA, TSTATE_CBI_DCLEAR, TSTATE_CBI_STATUS,
    TSTATE_CBI_SCLEAR, TSTATE_CBI_RESET1, TSTATE_CBI_RESET2,
    TSTATE_CBI_RESET3, TSTATE_IDLE]

/-- C28: in each of the reset states RESET1, RESET2, RESET3 of the BBB and of the
CBI state machine, a completion with an error other than `USBD_CANCELLED` is
handled exactly like a normal completion. So `umass_bbb_reset` and
`umass_cbi_reset`, called in any state (IDLE included) and with any status on a
session that is and stays live, with nothing in flight and a transport that
accepts the control requests, put the session in state RESET1; the three
completions, whatever their error (cancellation apart), move it to RESET2, to
RESET3 and to IDLE with nothing in flight, and the three requests of the reset
are each submitted once. -/
theorem C28_failed_reset_step_is_not_retried (K : usb_h) (v : World) (n : Nat)
    (err : usbd_status) (w : World) (st : Int) (c1 c2 c3 : Completion)
    (hc : err ≠ usbd_status.USBD_CANCELLED)
    (hlive : w.sc.sc_dying = false) (hinf : w.inflight = []) (hacc : w.usbd_transfer_ret = [])
    (h1 : c1.err ≠ usbd_status.USBD_CANCELLED) (h1d : c1.dying = false)
    (h2 : c2.err ≠ usbd_status.USBD_CANCELLED) (h2d : c2.dying = false)
    (h3 : c3.err ≠ usbd_status.USBD_CANCELLED) (h3d : c3.dying = false) :
    ((v.sc.transfer_state = TSTATE_BBB_RESET1 ∨ v.sc.transfer_state = TSTATE_BBB_RESET2 ∨
        v.sc.transfer_state = TSTATE_BBB_RESET3) →
      umass_bbb_state K v n err = umass_bbb_state K v n usbd_status.USBD_NORMAL_COMPLETION) ∧
    ((v.sc.transfer_state = TSTATE_CBI_RESET1 ∨ v.sc.transfer_state = TSTATE_CBI_RESET2 ∨
        v.sc.transfer_state = TSTATE_CBI_RESET3) →
      umass_cbi_state K v n err = umass_cbi_state K v n usbd_status.USBD_NORMAL_COMPLETION) ∧
    ((umass_bbb_reset K w st).sc.transfer_state = TSTATE_BBB_RESET1 ∧
      (bbb_run K (umass_bbb_reset K w st) [c1]).sc.transfer_state = TSTATE_BBB_RESET2 ∧
      (bbb_run K (umass_bbb_reset K w st) [c1, c2]).sc.transfer_state = TSTATE_BBB_RESET3 ∧
      (bbb_run K (umass_bbb_reset K w st) [c1, c2, c3]).sc.transfer_state = TSTATE_IDLE ∧
      (bbb_run K (umass_bbb_reset K w st) [c1, c2, c3]).inflight = [] ∧
      submissions (bbb_run K (umass_bbb_reset K w st) [c1, c2, c3]).trace =
        submissions w.trace ++ [XFER_BBB_RESET1, XFER_BBB_RESET2, XFER_BBB_RESET3] ∧
      ctrl_requests (bbb_run K (umass_bbb_reset K w st) [c1, c2, c3]).trace =
        ctrl_requests w.trace ++ [bbb_reset_request K w.sc,
          clear_halt_request K w.sc UMASS_BULKIN, clear_halt_request K w.sc UMASS_BULKOUT]) ∧
    ((umass_cbi_reset K w st).sc.transfer_state = TSTATE_CBI_RESET1 ∧
      (cbi_run K (umass_cbi_reset K w st) [c1]).sc.transfer_state = TSTATE_CBI_RESET2 ∧
      (cbi_run K (umass_cbi_reset K w st) [c1, c2]).sc.transfer_state = TSTATE_CBI_RESET3 ∧
      (cbi_run K (umass_cbi_reset K w st) [c1, c2, c3]).sc.transfer_state = TSTATE_IDLE ∧
      (cbi_run K (umass_cbi_reset K w st) [c1, c2, c3]).inflight = [] ∧
      submissions (cbi_run K (umass_cbi_reset K w st) [c1, c2, c3]).trace =
        submissions w.trace ++ [XFER_CBI_RESET1, XFER_CBI_RESET2, XFER_CBI_RESET3]) :=
  ⟨bbb_state_reset_any_error K v n err hc, cbi_state_reset_any_error K v n err hc,
    bbb_reset_run K w st c1 c2 c3 hlive hinf hacc h1 h1d h2 h2d h3 h3d,
    cbi_reset_run K w st c1 c2 c3 hlive hinf hacc h1 h1d h2 h2d h3 h3d⟩

/-- C28 on the idle session `w_bbb`: a reset whose three requests
fail with `USBD_IOERROR`, `USBD_STALLED` and `USBD_IOERROR` ends idle after the
third completion, with the three requests submitted once each. -/
theorem C28_failed_reset_step_is_not_retried_witness :
    (w_bbb.sc.transfer_state = TSTATE_IDLE ∧ w_bbb.sc.sc_dying = false ∧ w_bbb.inflight = [] ∧
      w_bbb.usbd_transfer_ret = []) ∧
    ((bbb_run K_std (umass_bbb_reset K_std w_bbb STATUS_WIRE_FAILED)
        [completion usbd_status.USBD_IOERROR 0]).sc.transfer_state = TSTATE_BBB_RESET2 ∧
      (bbb_run K_std (umass_bbb_reset K_std w_bbb STATUS_WIRE_FAILED)
        [completion usbd_status.USBD_IOERROR 0,
         completion usbd_status.USBD_STALLED 0]).sc.transfer_state = TSTATE_BBB_RESET3 ∧
      (bbb_run K_std (umass_bbb_reset K_std w_bbb STATUS_WIRE_FAILED)
        [completion usbd_status.USBD_IOERROR 0, completion usbd_status.USBD_STALLED 0,
         completion usbd_status.USBD_IOERROR 0]).sc.transfer_state = TSTATE_IDLE ∧
      (bbb_run K_std (umass_bbb_reset K_std w_bbb STATUS_WIRE_FAILED)
        [completion usbd_status.USBD_IOERROR 0, completion usbd_status.USBD_STALLED 0,
         completion usbd_status.USBD_IOERROR 0]).inflight = [] ∧
      submissions (bbb_run K_std (umass_bbb_reset K_std w_bbb STATUS_WIRE_FAILED)
        [completion usbd_status.USBD_IOERROR 0, completion usbd_status.USBD_STALLED 0,
         completion usbd_status.USBD_IOERROR 0]).trace =
        [XFER_BBB_RESET1, XFER_BBB_RESET2, XFER_BBB_RESET3]) :=
  ⟨by decide,
   have h := (C28_failed_reset_step_is_not_retried K_std w_bbb 0 usbd_status.USBD_IOERROR w_bbb
     STATUS_WIRE_FAILED (completion usbd_status.USBD_IOERROR 0)
     (completion usbd_status.USBD_STALLED 0) (completion usbd_status.USBD_IOERROR 0)
     (by decide) (by decide) (by decide) (by decide) (by decide) (by decide) (by decide)
     (by decide) (by decide) (by decide)).2.2.1
   ⟨h.2.1, h.2.2.1, h.2.2.2.1, h.2.2.2.2.1, h.2.2.2.2.2.1⟩⟩

/-! ## C29: the state number increases -/

theorem Advance.of_progress_step {w0 w' : World} {lo : Int} (h : Prog w0 lo w') :
    Advance w0 lo w' := by
  rcases h with h | ⟨s, h1, h2, h3⟩
  · exact Or.inl ⟨h.2.1, h.2.2.1⟩
  · exact Or.inr ⟨by rw [h3.2.1]; exact h1, by rw [h3.2.1]; exact h2, h3.2.2.1⟩

theorem advance_transfer_reset (w : World) (lo : Int) :
    Advance w lo (umass_transfer_reset w) := by
  unfold umass_transfer_reset
  simp only
  split_ifs <;> exact Or.inl ⟨rfl, rfl⟩

/-- One completion handled by `umass_bbb_state` in one of the states 1..9, with
any status and any context: the session ends in IDLE, or moves to a higher state
with one transfer added. -/
theorem bbb_state_advance (K : usb_h) (w : World) (n : Nat) (err : usbd_status)
    (hr : 1 ≤ w.sc.transfer_state ∧ w.sc.transfer_state ≤ 9) :
    Advance w w.sc.transfer_state (umass_bbb_state K w n err) := by
  have hs : Same w w := Same.refl w
  by_cases hc : err = usbd_status.USBD_CANCELLED
  · subst hc
    rw [bbb_state_cancelled]
    exact Advance.of_progress_step (Prog.fin (done_fin hs _ _))
  by_cases hd : w.sc.sc_dying = true
  · rw [bbb_state_dying K w n err hc hd]
    exact Advance.of_progress_step (Prog.fin (done_fin hs _ _))
  have hd' : w.sc.sc_dying = false := by simpa using hd
  have hcases : w.sc.transfer_state = 1 ∨ w.sc.transfer_state = 2 ∨
      w.sc.transfer_state = 3 ∨ w.sc.transfer_state = 4 ∨ w.sc.transfer_state = 5 ∨
      w.sc.transfer_state = 6 ∨ w.sc.transfer_state = 7 ∨ w.sc.transfer_state = 8 ∨
      w.sc.transfer_state = 9 := by omega
  rcases hcases with h | h | h | h | h | h | h | h | h
  · rw [bbb_state_COMMAND K w n err hc hd' h, h]
    exact Advance.of_progress_step (prog_case_COMMAND K w w 1 hs n err (by decide))
  · rw [bbb_state_DATA K w n err hc hd' h, h]
    exact Advance.of_progress_step (prog_case_DATA K w w 2 hs n err (by decide))
  · rw [bbb_state_DCLEAR K w n err hc hd' h, h]
    exact Advance.of_progress_step (prog_case_DCLEAR K w w 3 hs err (by decide))
  · rw [bbb_state_STATUS K w n err hc hd' (Or.inl h), h]
    exact Advance.of_progress_step
      (prog_case_STATUS K w w 4 hs err (by decide) (fun _ => by decide))
  · rw [bbb_state_SCLEAR K w n err hc hd' h, h]
    refine Advance.of_progress_step (prog_case_SCLEAR K w w 5 hs err (by decide) (fun h' => ?_))
    rw [h] at h'
    revert h'
    decide
  · rw [bbb_state_STATUS K w n err hc hd' (Or.inr h), h]
    refine Advance.of_progress_step (prog_case_STATUS K w w 6 hs err (by decide) (fun h' => ?_))
    rw [h] at h'
    revert h'
    decide
  · rw [bbb_state_RESET1 K w n err hc hd' h, h]
    exact Advance.of_progress_step (prog_case_RESET1 K w w 7 hs (by decide))
  · rw [bbb_state_RESET2 K w n err hc hd' h, h]
    exact Advance.of_progress_step (prog_case_RESET2 K w w 8 hs (by decide))
  · rw [bbb_state_RESET3 K w n err hc hd' h]
    exact advance_transfer_reset w _

theorem Within.of_advance {w w' : World} {lo : Int} (h : Advance w lo w')
    (hi : w.inflight = []) : Within (lo + 1) w' := by
  rcases h with ⟨h1, h2⟩ | ⟨h1, h2, x, h3⟩
  · exact Or.inl ⟨h1, h2.trans hi⟩
  · exact Or.inr ⟨by omega, h2, x, by rw [h3, hi]; rfl⟩

theorem bbb_complete_within (K : usb_h) (n : Int) (w : World) (c : Completion) (hn : 1 ≤ n)
    (h : Within n w) : Within (n + 1) (bbb_complete K w c) := by
  rcases h with ⟨h1, h2⟩ | ⟨h1, h2, x, h3⟩
  · rw [bbb_complete_nil K w c h2]
    exact Or.inl ⟨h1, h2⟩
  · rw [bbb_complete_cons K w c x [] h3]
    have ha := bbb_state_advance K
      { w with sc := { w.sc with
                         sc_dying := w.sc.sc_dying || c.dying
                         csw := if w.sc.transfer_state = TSTATE_BBB_STATUS1 ∨
                           w.sc.transfer_state = TSTATE_BBB_STATUS2 then c.csw else w.sc.csw }
               inflight := [] } c.actlen c.err ⟨by show 1 ≤ w.sc.transfer_state; omega, h2⟩
    rcases Within.of_advance ha rfl with hw | ⟨k1, k2, k3⟩
    · exact Or.inl hw
    · refine Or.inr ⟨?_, k2, k3⟩
      have : n ≤ w.sc.transfer_state := h1
      have k1' : w.sc.transfer_state + 1 ≤ _ := k1
      omega

theorem bbb_run_within (K : usb_h) (cs : List Completion) :
    ∀ (n : Int) (w : World), 1 ≤ n → Within n w → Within (n + cs.length) (bbb_run K w cs) := by
  induction cs with
  | nil => intro n w _ h; simpa [bbb_run] using h
  | cons c t ih =>
    intro n w hn h
    have h1 := ih (n + 1) (bbb_complete K w c) (by omega) (bbb_complete_within K n w c hn h)
    have e : n + 1 + (t.length : Int) = n + ((c :: t).length : Int) := by
      simp only [List.length_cons, Nat.cast_add, Nat.cast_one]; omega
    rw [e] at h1
    exact h1

theorem bbb_transfer_within (K : usb_h) (w : World) (lun : Int) (cmd : List Nat) (cmdlen : Int)
    (data : Nat) (datalen dir : Int) (timeout flags cb priv : Nat)
    (hidle : w.sc.transfer_state = TSTATE_IDLE) (hinf : w.inflight = []) :
    Within 1 (umass_bbb_transfer K w lun cmd cmdlen data datalen dir timeout flags cb priv) := by
  unfold umass_bbb_transfer
  by_cases hd : w.sc.sc_dying = true
  · rw [if_pos hd]
    exact Or.inl ⟨hidle, hinf⟩
  · rw [if_neg hd]
    have h := prog_setup_or_reset K
      (bbb_transfer_store K w lun cmd cmdlen data datalen dir timeout cb priv)
      (bbb_transfer_store K w lun cmd cmdlen data datalen dir timeout cb priv) 0
      (Same.refl _) UMASS_BULKOUT
      (Buf.cbw
        (bbb_transfer_store K w lun cmd cmdlen data datalen dir timeout cb priv).sc.cbw.bytes)
      UMASS_BBB_CBW_SIZE flags XFER_BBB_CBW STATUS_WIRE_FAILED
      (by simp [bbb_transfer_store, TSTATE_BBB_COMMAND])
      (by simp [bbb_transfer_store, TSTATE_BBB_COMMAND])
    exact Within.of_advance (Advance.of_progress_step h) (by simpa [bbb_transfer_store] using hinf)

/-- C29: every call of `umass_bbb_state` in one of the states COMMAND .. RESET3
(state numbers 1..9), with any completion status, either ends in IDLE with no
transfer added, or moves to a state with a strictly larger number (at most
RESET3) and adds one transfer to those in flight. Consequently a command issued
with `umass_bbb_transfer` on an idle session with nothing in flight is, after any
sequence of completions, idle with nothing in flight or in a state 1..9 with
one transfer in flight, and after nine completions or more it is idle. -/
theorem C29_bbb_state_number_increases (K : usb_h) (v : World) (n : Nat) (err : usbd_status)
    (w : World) (lun : Int) (cmd : List Nat) (cmdlen : Int) (data : Nat) (datalen dir : Int)
    (timeout flags cb priv : Nat) (cs : List Completion) :
    ((1 ≤ v.sc.transfer_state ∧ v.sc.transfer_state ≤ 9) →
      ((umass_bbb_state K v n err).sc.transfer_state = TSTATE_IDLE ∧
        (umass_bbb_state K v n err).inflight = v.inflight) ∨
      (v.sc.transfer_state < (umass_bbb_state K v n err).sc.transfer_state ∧
        (umass_bbb_state K v n err).sc.transfer_state ≤ 9 ∧
        ∃ x, (umass_bbb_state K v n err).inflight = v.inflight ++ [x])) ∧
    (w.sc.transfer_state = TSTATE_IDLE ∧ w.inflight = [] →
      (((bbb_run K (umass_bbb_transfer K w lun cmd cmdlen data datalen dir timeout flags cb priv)
            cs).sc.transfer_state = TSTATE_IDLE ∧
          (bbb_run K (umass_bbb_transfer K w lun cmd cmdlen data datalen dir timeout flags cb priv)
            cs).inflight = []) ∨
        (1 ≤ (bbb_run K
            (umass_bbb_transfer K w lun cmd cmdlen data datalen dir timeout flags cb priv)
            cs).sc.transfer_state ∧
          (bbb_run K (umass_bbb_transfer K w lun cmd cmdlen data datalen dir timeout flags cb priv)
            cs).sc.transfer_state ≤ 9 ∧
          ∃ x, (bbb_run K
            (umass_bbb_transfer K w lun cmd cmdlen data datalen dir timeout flags cb priv)
            cs).inflight = [x])) ∧
      (9 ≤ cs.length →
        (bbb_run K (umass_bbb_transfer K w lun cmd cmdlen data datalen dir timeout flags cb priv)
          cs).sc.transfer_state = TSTATE_IDLE ∧
        (bbb_run K (umass_bbb_transfer K w lun cmd cmdlen data datalen dir timeout flags cb priv)
          cs).inflight = [])) := by
  refine ⟨fun hr => bbb_state_advance K v n err hr, fun hw => ?_⟩
  have h := bbb_run_within K cs 1 _ (le_refl 1)
    (bbb_transfer_within K w lun cmd cmdlen data datalen dir timeout flags cb priv hw.1 hw.2)
  refine ⟨?_, fun h9 => ?_⟩
  · rcases h with h | ⟨h1, h2, h3⟩
    · exact Or.inl h
    · exact Or.inr ⟨by omega, h2, h3⟩
  · rcases h with h | ⟨h1, h2, _⟩
    · exact h
    · omega

/-- C29 on the session `w_bbb_data` (state DATA, the data transfer in flight)
when the data transfer stalls: the state becomes DCLEAR with one transfer
added; and on a command without data phase whose nine completions all fail with
an I/O error. -/
theorem C29_bbb_state_number_increases_witness :
    ((1 ≤ w_bbb_data.sc.transfer_state ∧ w_bbb_data.sc.transfer_state ≤ 9) ∧
      (w_bbb.sc.transfer_state = TSTATE_IDLE ∧ w_bbb.inflight = []) ∧
      9 ≤ (List.replicate 9 (completion usbd_status.USBD_IOERROR 0)).length) ∧
    (umass_bbb_state K_std w_bbb_data 0 usbd_status.USBD_STALLED).sc.transfer_state =
      TSTATE_BBB_DCLEAR ∧
    (bbb_run K_std (umass_bbb_transfer K_std w_bbb 0 [0, 0, 0, 0, 0, 0] 6 0 0 DIR_NONE 1000 0 7 9)
      (List.replicate 9 (completion usbd_status.USBD_IOERROR 0))).sc.transfer_state =
        TSTATE_IDLE ∧
    (bbb_run K_std (umass_bbb_transfer K_std w_bbb 0 [0, 0, 0, 0, 0, 0] 6 0 0 DIR_NONE 1000 0 7 9)
      (List.replicate 9 (completion usbd_status.USBD_IOERROR 0))).inflight = [] :=
  ⟨⟨by decide, by decide, by decide⟩, by decide,
   ((C29_bbb_state_number_increases K_std w_bbb_data 0 usbd_status.USBD_STALLED w_bbb 0
      [0, 0, 0, 0, 0, 0] 6 0 0 DIR_NONE 1000 0 7 9
      (List.replicate 9 (completion usbd_status.USBD_IOERROR 0))).2 (by decide)).2 (by decide)⟩

/-! ## C30: the callback is called in state IDLE -/

theorem quiet_same (w : World) : Quiet w w := ⟨rfl, rfl⟩

theorem quiet_log_memcpy {w0 w : World} (h : Quiet w0 w) (d s : Buf) (l : Int) :
    Quiet w0 (w.log (Event.memcpy d s l)) :=
  ⟨by simpa [World.log, callbacks_append, callbacks] using h.1, h.2⟩

theorem at_idle_done {w0 w : World} (hq : Quiet w0 w) (r s : Int) :
    CallbackAtIdle w0 (umass_transfer_done w r s) :=
  Or.inr ⟨rfl, by simp [umass_transfer_done, World.log, World.set_state, hq.2],
    w.sc.transfer_cb, w.sc.transfer_priv, r, s,
    by simp [umass_transfer_done, World.log, World.set_state, callbacks_append, callbacks, hq.1]⟩

theorem at_idle_transfer_reset {w0 w : World} (hq : Quiet w0 w) :
    CallbackAtIdle w0 (umass_transfer_reset w) := by
  unfold umass_transfer_reset
  simp only
  split_ifs
  · exact Or.inr ⟨rfl, by simp [World.log, World.set_state, hq.2],
      w.sc.transfer_cb, w.sc.transfer_priv, w.sc.transfer_datalen, w.sc.transfer_status,
      by simp [World.log, World.set_state, callbacks_append, callbacks, hq.1]⟩
  · exact Or.inl hq

theorem quiet_usbd_transfer (w : World) (x : Nat) :
    callbacks (usbd_transfer w x).1.trace = callbacks w.trace := by
  unfold usbd_transfer
  simp only
  split_ifs <;> simp [callbacks_append, callbacks]

theorem still_usbd_transfer (w : World) (x : Nat) :
    (usbd_transfer w x).1.cb_state = w.cb_state := by
  unfold usbd_transfer
  simp only
  split_ifs <;> rfl

theorem quiet_ctrl (w : World) (b : Buf) (l : Int) (f x : Nat) :
    callbacks (umass_setup_ctrl_transfer w b l f x).1.trace = callbacks w.trace := by
  unfold umass_setup_ctrl_transfer
  simp only
  split_ifs <;>
    first
      | rfl
      | (rw [quiet_usbd_transfer]; simp [World.log, callbacks_append, callbacks])

theorem still_ctrl (w : World) (b : Buf) (l : Int) (f x : Nat) :
    (umass_setup_ctrl_transfer w b l f x).1.cb_state = w.cb_state := by
  unfold umass_setup_ctrl_transfer
  simp only
  split_ifs <;>
    first
      | rfl
      | (rw [still_usbd_transfer]; rfl)

theorem quiet_setup (K : usb_h) (w : World) (p : Nat) (b : Buf) (l : Int) (f x : Nat) :
    callbacks (umass_setup_transfer K w p b l f x).1.trace = callbacks w.trace := by
  unfold umass_setup_transfer
  simp only
  split_ifs <;>
    first
      | rfl
      | (rw [quiet_usbd_transfer]; try simp [World.log, callbacks_append, callbacks])

theorem still_setup (K : usb_h) (w : World) (p : Nat) (b : Buf) (l : Int) (f x : Nat) :
    (umass_setup_transfer K w p b l f x).1.cb_state = w.cb_state := by
  unfold umass_setup_transfer
  simp only
  split_ifs <;>
    first
      | rfl
      | (rw [still_usbd_transfer]; try rfl)

theorem quiet_adsc (K : usb_h) (w : World) (b : List Nat) (l : Int) (f x : Nat) :
    callbacks (umass_cbi_adsc K w b l f x).1.trace = callbacks w.trace := by
  unfold umass_cbi_adsc
  simp only
  rw [quiet_ctrl]

theorem still_adsc (K : usb_h) (w : World) (b : List Nat) (l : Int) (f x : Nat) :
    (umass_cbi_adsc K w b l f x).1.cb_state = w.cb_state := by
  unfold umass_cbi_adsc
  simp only
  rw [still_ctrl]

theorem at_idle_clear_stall (K : usb_h) {w0 w : World}
    (hq : Quiet w0 w) (e x : Nat) :
    CallbackAtIdle w0 (umass_clear_endpoint_stall K w e x) := by
  unfold umass_clear_endpoint_stall
  by_cases hd : w.sc.sc_dying = true
  · rw [if_pos hd]
    exact at_idle_done hq _ _
  · rw [if_neg hd]
    simp only
    split_ifs
    · refine at_idle_done ⟨?_, ?_⟩ _ _
      · rw [quiet_ctrl]
        simpa [World.log, callbacks_append, callbacks] using hq.1
      · rw [still_ctrl]
        exact hq.2
    · refine Or.inl ⟨?_, ?_⟩
      · rw [quiet_ctrl]
        simpa [World.log, callbacks_append, callbacks] using hq.1
      · rw [still_ctrl]
        exact hq.2

theorem at_idle_bbb_reset (K : usb_h) {w0 w : World}
    (hq : Quiet w0 w) (st : Int) :
    CallbackAtIdle w0 (umass_bbb_reset K w st) := by
  unfold umass_bbb_reset
  by_cases hd : w.sc.sc_dying = true
  · rw [if_pos hd]
    exact at_idle_done hq _ _
  · rw [if_neg hd]
    simp only
    split_ifs
    · refine at_idle_done ⟨?_, ?_⟩ _ _
      · rw [quiet_ctrl]
        exact hq.1
      · rw [still_ctrl]
        exact hq.2
    · refine Or.inl ⟨?_, ?_⟩
      · rw [quiet_ctrl]
        exact hq.1
      · rw [still_ctrl]
        exact hq.2

theorem at_idle_cbi_reset (K : usb_h) {w0 w : World}
    (hq : Quiet w0 w) (st : Int) :
    CallbackAtIdle w0 (umass_cbi_reset K w st) := by
  unfold umass_cbi_reset
  by_cases hd : w.sc.sc_dying = true
  · rw [if_pos hd]
    exact at_idle_done hq _ _
  · rw [if_neg hd]
    simp only
    split_ifs
    · refine at_idle_done ⟨?_, ?_⟩ _ _
      · rw [quiet_adsc]
        exact hq.1
      · rw [still_adsc]
        exact hq.2
    · refine Or.inl ⟨?_, ?_⟩
      · rw [quiet_adsc]
        exact hq.1
      · rw [still_adsc]
        exact hq.2

theorem at_idle_setup_or_reset (K : usb_h) {w0 w : World}
    (hq : Quiet w0 w) (p : Nat) (b : Buf) (l : Int)
    (f x : Nat) (st : Int) :
    CallbackAtIdle w0
      (if (umass_setup_transfer K w p b l f x).2 ≠ usbd_status.USBD_NORMAL_COMPLETION
        then umass_bbb_reset K (umass_setup_transfer K w p b l f x).1 st
        else (umass_setup_transfer K w p b l f x).1) := by
  have h : Quiet w0 (umass_setup_transfer K w p b l f x).1 :=
    ⟨(quiet_setup K w p b l f x).trans hq.1, (still_setup K w p b l f x).trans hq.2⟩
  split_ifs
  · exact at_idle_bbb_reset K h st
  · exact Or.inl h

theorem at_idle_setup_or_cbi_reset (K : usb_h) {w0 w : World}
    (hq : Quiet w0 w) (p : Nat) (b : Buf) (l : Int)
    (f x : Nat) (st : Int) :
    CallbackAtIdle w0
      (if (umass_setup_transfer K w p b l f x).2 ≠ usbd_status.USBD_NORMAL_COMPLETION
        then umass_cbi_reset K (umass_setup_transfer K w p b l f x).1 st
        else (umass_setup_transfer K w p b l f x).1) := by
  have h : Quiet w0 (umass_setup_transfer K w p b l f x).1 :=
    ⟨(quiet_setup K w p b l f x).trans hq.1, (still_setup K w p b l f x).trans hq.2⟩
  split_ifs
  · exact at_idle_cbi_reset K h st
  · exact Or.inl h

theorem at_idle_case_RESET1 (K : usb_h) {w0 w : World}
    (hq : Quiet w0 w) : CallbackAtIdle w0 (bbb_case_RESET1 K w) :=
  @at_idle_clear_stall K w0 (w.set_state TSTATE_BBB_RESET2) hq _ _

theorem at_idle_case_RESET2 (K : usb_h) {w0 w : World}
    (hq : Quiet w0 w) : CallbackAtIdle w0 (bbb_case_RESET2 K w) :=
  @at_idle_clear_stall K w0 (w.set_state TSTATE_BBB_RESET3) hq _ _

theorem at_idle_csw_check (K : usb_h) {w0 w : World}
    (hq : Quiet w0 w) : CallbackAtIdle w0 (bbb_csw_check K w) := by
  have hr : ∀ st, CallbackAtIdle w0 (umass_bbb_reset K w st) := fun st => at_idle_bbb_reset K hq st
  have hdn : ∀ r s, CallbackAtIdle w0 (umass_transfer_done w r s) := fun r s => at_idle_done hq r s
  unfold bbb_csw_check
  by_cases h1 : UGETDW w.sc.csw.dCSWSignature ≠ CSWSIGNATURE
  · rw [if_pos h1]; exact hr _
  rw [if_neg h1]
  by_cases h2 : UGETDW w.sc.csw.dCSWTag ≠ UGETDW w.sc.cbw.dCBWTag
  · rw [if_pos h2]; exact hr _
  rw [if_neg h2]
  by_cases h3 : w.sc.csw.bCSWStatus > CSWSTATUS_PHASE
  · rw [if_pos h3]; exact hr _
  rw [if_neg h3]
  by_cases h4 : w.sc.csw.bCSWStatus = CSWSTATUS_PHASE
  · rw [if_pos h4]; exact hr _
  rw [if_neg h4]
  by_cases h5 : w.sc.transfer_actlen > w.sc.transfer_datalen
  · rw [if_pos h5]; exact at_idle_case_RESET1 K hq
  rw [if_neg h5]
  by_cases h6 : w.sc.csw.bCSWStatus = CSWSTATUS_FAILED
  · rw [if_pos h6]; exact hdn _ _
  · rw [if_neg h6]; exact hdn _ _

theorem at_idle_case_STATUS (K : usb_h) {w0 w : World}
    (hq : Quiet w0 w) (err : usbd_status) :
    CallbackAtIdle w0 (bbb_case_STATUS K w err) := by
  unfold bbb_case_STATUS
  split_ifs
  · exact @at_idle_clear_stall K w0 (w.set_state TSTATE_BBB_SCLEAR) hq _ _
  · exact at_idle_bbb_reset K hq _
  · exact @at_idle_csw_check K w0 { w with sc := { w.sc with csw := bbb_csw_quirks w.sc } } hq

theorem at_idle_read_csw (K : usb_h) {w0 w : World}
    (hq : Quiet w0 w) (x : Nat) :
    CallbackAtIdle w0 (bbb_read_csw K w x) :=
  at_idle_setup_or_reset K hq _ _ _ _ _ _

theorem at_idle_case_SCLEAR (K : usb_h) {w0 w : World}
    (hq : Quiet w0 w) (err : usbd_status) :
    CallbackAtIdle w0 (bbb_case_SCLEAR K w err) := by
  unfold bbb_case_SCLEAR
  split_ifs
  · exact at_idle_bbb_reset K hq _
  · exact @at_idle_read_csw K w0 (w.set_state TSTATE_BBB_STATUS1) hq _
  · exact @at_idle_read_csw K w0 (w.set_state TSTATE_BBB_STATUS2) hq _

theorem at_idle_case_DCLEAR (K : usb_h) {w0 w : World}
    (hq : Quiet w0 w) (err : usbd_status) :
    CallbackAtIdle w0 (bbb_case_DCLEAR K w err) := by
  unfold bbb_case_DCLEAR
  by_cases hdir : w.sc.transfer_dir = DIR_IN
  · simp only [if_pos hdir]
    exact at_idle_case_SCLEAR K (quiet_log_memcpy hq _ _ _) err
  · simp only [if_neg hdir]
    exact at_idle_case_SCLEAR K hq err

theorem at_idle_case_DATA (K : usb_h) {w0 w : World}
    (hq : Quiet w0 w) (n : Nat) (err : usbd_status) :
    CallbackAtIdle w0 (bbb_case_DATA K w n err) := by
  unfold bbb_case_DATA
  by_cases hdir : w.sc.transfer_dir ≠ DIR_NONE
  · simp only [if_pos hdir]
    by_cases he : err ≠ usbd_status.USBD_NORMAL_COMPLETION
    · simp only [if_pos he]
      by_cases hst : err = usbd_status.USBD_STALLED
      · simp only [if_pos hst]
        refine at_idle_clear_stall K ?_ _ _
        exact hq
      · simp only [if_neg hst]
        refine at_idle_bbb_reset K ?_ _
        exact hq
    · simp only [if_neg he]
      refine at_idle_case_DCLEAR K ?_ err
      exact hq
  · simp only [if_neg hdir]
    exact at_idle_case_DCLEAR K hq err

theorem at_idle_case_COMMAND (K : usb_h) {w0 w : World}
    (hq : Quiet w0 w) (n : Nat) (err : usbd_status) :
    CallbackAtIdle w0 (bbb_case_COMMAND K w n err) := by
  unfold bbb_case_COMMAND
  by_cases he : err ≠ usbd_status.USBD_NORMAL_COMPLETION
  · rw [if_pos he]
    exact at_idle_bbb_reset K hq _
  rw [if_neg he]
  simp only
  by_cases h1 : (w.set_state TSTATE_BBB_DATA).sc.transfer_dir = DIR_IN
  · rw [if_pos h1]
    exact @at_idle_setup_or_reset K w0 (w.set_state TSTATE_BBB_DATA) hq _ _ _ _ _ _
  rw [if_neg h1]
  by_cases h3 : (w.set_state TSTATE_BBB_DATA).sc.transfer_dir = DIR_OUT
  · rw [if_pos h3]
    exact @at_idle_setup_or_reset K w0 _
      (quiet_log_memcpy (w := w.set_state TSTATE_BBB_DATA) hq _ _ _) _ _ _ _ _ _
  rw [if_neg h3]
  exact @at_idle_case_DATA K w0 (w.set_state TSTATE_BBB_DATA) hq n err

/-- One call of `umass_bbb_state`, in any state: the callback is not called, or it
is called once, last, with the session in state IDLE. -/
theorem at_idle_bbb_state (K : usb_h) {w0 w : World} (hq : Quiet w0 w) (n : Nat)
    (err : usbd_status) : CallbackAtIdle w0 (umass_bbb_state K w n err) := by
  by_cases hc : err = usbd_status.USBD_CANCELLED
  · subst hc
    rw [bbb_state_cancelled]
    exact at_idle_done hq _ _
  by_cases hd : w.sc.sc_dying = true
  · rw [bbb_state_dying K w n err hc hd]
    exact at_idle_done hq _ _
  have hd' : w.sc.sc_dying = false := by simpa using hd
  by_cases hr : 1 ≤ w.sc.transfer_state ∧ w.sc.transfer_state ≤ 9
  · have hcases : w.sc.transfer_state = 1 ∨ w.sc.transfer_state = 2 ∨
        w.sc.transfer_state = 3 ∨ w.sc.transfer_state = 4 ∨ w.sc.transfer_state = 5 ∨
        w.sc.transfer_state = 6 ∨ w.sc.transfer_state = 7 ∨ w.sc.transfer_state = 8 ∨
        w.sc.transfer_state = 9 := by omega
    rcases hcases with h | h | h | h | h | h | h | h | h
    · rw [bbb_state_COMMAND K w n err hc hd' h]
      exact at_idle_case_COMMAND K hq n err
    · rw [bbb_state_DATA K w n err hc hd' h]
      exact at_idle_case_DATA K hq n err
    · rw [bbb_state_DCLEAR K w n err hc hd' h]
      exact at_idle_case_DCLEAR K hq err
    · rw [bbb_state_STATUS K w n err hc hd' (Or.inl h)]
      exact at_idle_case_STATUS K hq err
    · rw [bbb_state_SCLEAR K w n err hc hd' h]
      exact at_idle_case_SCLEAR K hq err
    · rw [bbb_state_STATUS K w n err hc hd' (Or.inr h)]
      exact at_idle_case_STATUS K hq err
    · rw [bbb_state_RESET1 K w n err hc hd' h]
      exact at_idle_case_RESET1 K hq
    · rw [bbb_state_RESET2 K w n err hc hd' h]
      exact at_idle_case_RESET2 K hq
    · rw [bbb_state_RESET3 K w n err hc hd' h]
      exact at_idle_transfer_reset hq
  · rw [bbb_state_default K w n err hc hd' hr]
    exact Or.inl hq

theorem at_idle_cbi_data_status (K : usb_h) {w0 w : World}
    (hq : Quiet w0 w) : CallbackAtIdle w0 (cbi_data_status K w) := by
  unfold cbi_data_status
  simp only
  have hq2 : Quiet w0 (if w.sc.transfer_dir = DIR_IN then
      w.log (Event.memcpy Buf.transfer_data Buf.datain_buffer w.sc.transfer_actlen)
    else w) := by
    split_ifs
    · exact quiet_log_memcpy hq _ _ _
    · exact hq
  by_cases hw : (if w.sc.transfer_dir = DIR_IN then
      w.log (Event.memcpy Buf.transfer_data Buf.datain_buffer w.sc.transfer_actlen)
    else w).sc.sc_wire = UMASS_WPROTO_CBI_I
  · rw [if_pos hw]
    refine at_idle_setup_or_cbi_reset K ?_ _ _ _ _ _ _
    exact hq2
  · rw [if_neg hw]
    exact at_idle_done hq2 _ _

theorem at_idle_cbi_case_DATA (K : usb_h) {w0 w : World}
    (hq : Quiet w0 w) (n : Nat) (err : usbd_status) :
    CallbackAtIdle w0 (cbi_case_DATA K w n err) := by
  unfold cbi_case_DATA
  by_cases hdir : w.sc.transfer_dir ≠ DIR_NONE
  · simp only [if_pos hdir]
    by_cases he : err ≠ usbd_status.USBD_NORMAL_COMPLETION
    · simp only [if_pos he]
      by_cases hst : err = usbd_status.USBD_STALLED
      · simp only [if_pos hst]
        refine at_idle_clear_stall K ?_ _ _
        exact hq
      · simp only [if_neg hst]
        refine at_idle_cbi_reset K ?_ _
        exact hq
    · simp only [if_neg he]
      refine at_idle_cbi_data_status K ?_
      exact hq
  · simp only [if_neg hdir]
    exact at_idle_cbi_data_status K hq

theorem at_idle_cbi_case_COMMAND (K : usb_h) {w0 w : World}
    (hq : Quiet w0 w) (n : Nat) (err : usbd_status) :
    CallbackAtIdle w0 (cbi_case_COMMAND K w n err) := by
  unfold cbi_case_COMMAND
  by_cases hs : err = usbd_status.USBD_STALLED
  · rw [if_pos hs]
    exact at_idle_done hq _ _
  rw [if_neg hs]
  by_cases he : err ≠ usbd_status.USBD_NORMAL_COMPLETION
  · rw [if_pos he]
    exact at_idle_cbi_reset K hq _
  rw [if_neg he]
  simp only
  by_cases h1 : (w.set_state TSTATE_CBI_DATA).sc.transfer_dir = DIR_IN
  · rw [if_pos h1]
    exact @at_idle_setup_or_cbi_reset K w0 (w.set_state TSTATE_CBI_DATA) hq _ _ _ _ _ _
  rw [if_neg h1]
  by_cases h3 : (w.set_state TSTATE_CBI_DATA).sc.transfer_dir = DIR_OUT
  · rw [if_pos h3]
    exact @at_idle_setup_or_cbi_reset K w0 _
      (quiet_log_memcpy (w := w.set_state TSTATE_CBI_DATA) hq _ _ _) _ _ _ _ _ _
  rw [if_neg h3]
  exact @at_idle_cbi_case_DATA K w0 (w.set_state TSTATE_CBI_DATA) hq n err

theorem at_idle_cbi_case_STATUS (K : usb_h) {w0 w : World}
    (hq : Quiet w0 w) (n : Nat) (err : usbd_status) :
    CallbackAtIdle w0 (cbi_case_STATUS K w n err) := by
  unfold cbi_case_STATUS
  by_cases he : err ≠ usbd_status.USBD_NORMAL_COMPLETION
  · rw [if_pos he]
    split_ifs
    · exact @at_idle_clear_stall K w0 (w.set_state TSTATE_CBI_SCLEAR) hq _ _
    · exact at_idle_cbi_reset K hq _
  rw [if_neg he]
  by_cases h2 : n % 4294967296 ≠ 2
  · rw [if_pos h2]
    exact Or.inl hq
  rw [if_neg h2]
  by_cases hu : w.sc.sc_cmd = UMASS_CPROTO_UFI
  · rw [if_pos hu]
    exact at_idle_done hq _ _
  rw [if_neg hu]
  by_cases hc : w.sc.sbl.byte0 = IDB_TYPE_CCI
  · rw [if_pos hc]
    exact at_idle_done hq _ _
  · rw [if_neg hc]
    exact at_idle_done hq _ _

theorem at_idle_cbi_case_CLEAR (K : usb_h) {w0 w : World}
    (hq : Quiet w0 w) (err : usbd_status) :
    CallbackAtIdle w0 (cbi_case_CLEAR K w err) := by
  unfold cbi_case_CLEAR
  split_ifs
  · exact at_idle_cbi_reset K hq _
  · exact at_idle_done hq _ _

/-- One call of `umass_cbi_state`, in any state: the callback is not called, or it
is called once, last, with the session in state IDLE. -/
theorem at_idle_cbi_state (K : usb_h) {w0 w : World} (hq : Quiet w0 w) (n : Nat)
    (err : usbd_status) : CallbackAtIdle w0 (umass_cbi_state K w n err) := by
  unfold umass_cbi_state
  by_cases hc : err = usbd_status.USBD_CANCELLED
  · rw [if_pos hc]
    exact at_idle_done hq _ _
  rw [if_neg hc]
  by_cases hd : w.sc.sc_dying = true
  · rw [if_pos hd]
    exact at_idle_done hq _ _
  rw [if_neg hd]
  by_cases h1 : w.sc.transfer_state = TSTATE_CBI_COMMAND
  · rw [if_pos h1]
    exact at_idle_cbi_case_COMMAND K hq n err
  rw [if_neg h1]
  by_cases h2 : w.sc.transfer_state = TSTATE_CBI_DATA
  · rw [if_pos h2]
    exact at_idle_cbi_case_DATA K hq n err
  rw [if_neg h2]
  by_cases h3 : w.sc.transfer_state = TSTATE_CBI_STATUS
  · rw [if_pos h3]
    exact at_idle_cbi_case_STATUS K hq n err
  rw [if_neg h3]
  by_cases h4 : w.sc.transfer_state = TSTATE_CBI_DCLEAR
  · rw [if_pos h4]
    exact at_idle_cbi_case_CLEAR K hq err
  rw [if_neg h4]
  by_cases h5 : w.sc.transfer_state = TSTATE_CBI_SCLEAR
  · rw [if_pos h5]
    exact at_idle_cbi_case_CLEAR K hq err
  rw [if_neg h5]
  by_cases h6 : w.sc.transfer_state = TSTATE_CBI_RESET1
  · rw [if_pos h6]
    refine at_idle_clear_stall K ?_ _ _
    exact hq
  rw [if_neg h6]
  by_cases h7 : w.sc.transfer_state = TSTATE_CBI_RESET2
  · rw [if_pos h7]
    refine at_idle_clear_stall K ?_ _ _
    exact hq
  rw [if_neg h7]
  by_cases h8 : w.sc.transfer_state = TSTATE_CBI_RESET3
  · rw [if_pos h8]
    exact at_idle_transfer_reset hq
  rw [if_neg h8]
  exact Or.inl hq

/-- One completion delivered to a BBB session: the callback is not called, or it
is called once and finds the session in state IDLE. -/
theorem at_idle_bbb_complete (K : usb_h) (w : World) (c : Completion) :
    CallbackAtIdle w (bbb_complete K w c) := by
  unfold bbb_complete
  cases h : w.inflight with
  | nil => exact Or.inl (quiet_same w)
  | cons x rest => exact at_idle_bbb_state K ⟨rfl, rfl⟩ _ _

/-- One completion delivered to a CBI session: the callback is not called, or it
is called once and finds the session in state IDLE. -/
theorem at_idle_cbi_complete (K : usb_h) (w : World) (c : Completion) :
    CallbackAtIdle w (cbi_complete K w c) := by
  unfold cbi_complete
  cases h : w.inflight with
  | nil => exact Or.inl (quiet_same w)
  | cons x rest => exact at_idle_cbi_state K ⟨rfl, rfl⟩ _ _

/-- Every call of the callback made while a sequence of completions is handled
finds the session in state IDLE: `step` is `bbb_complete` or `cbi_complete`. -/
theorem at_idle_run (step : World → Completion → World)
    (hstep : ∀ w c, CallbackAtIdle w (step w c)) (cs : List Completion) :
    ∀ w : World, ∃ l : List Int, (cs.foldl step w).cb_state = w.cb_state ++ l ∧
      (∀ s ∈ l, s = TSTATE_IDLE) ∧
      (callbacks (cs.foldl step w).trace).length = (callbacks w.trace).length + l.length := by
  induction cs with
  | nil => intro w; exact ⟨[], by simp, by simp, by simp⟩
  | cons c t ih =>
    intro w
    obtain ⟨l, h1, h2, h3⟩ := ih (step w c)
    rcases hstep w c with h | ⟨_, h, _, _, _, _, hcb⟩
    · refine ⟨l, ?_, h2, ?_⟩
      · rw [List.foldl_cons, h1, h.2]
      · rw [List.foldl_cons, h3, h.1]
    · refine ⟨TSTATE_IDLE :: l, ?_, ?_, ?_⟩
      · rw [List.foldl_cons, h1, h]
        simp
      · intro s hs
        rcases List.mem_cons.mp hs with e | e
        · exact e
        · exact h2 s e
      · rw [List.foldl_cons, h3, hcb]
        simp only [List.length_append, List.length_cons, List.length_nil]
        omega

/-- C30: whenever the completion callback is called from the state machines, it
finds `transfer_state` already set to IDLE. The model records, at each call of
the callback, the value of `sc->transfer_state` at that moment (`cb_state`):
setting the state after the call instead would record the state before.
`umass_transfer_done` records IDLE; `umass_transfer_reset`, `umass_bbb_state`,
`umass_cbi_state`, `umass_bbb_reset`, `umass_cbi_reset` and
`umass_clear_endpoint_stall`, in any state and with any arguments, either do not
call the callback, or call it once and record IDLE, and leave the session in
state IDLE; and over any sequence of completions delivered to a BBB or a CBI
session, every call of the callback recorded IDLE. -/
theorem C30_callback_is_called_in_idle (K : usb_h) (w : World) (n : Nat) (err : usbd_status)
    (status residue : Int) (endpt xfer : Nat) (cs : List Completion) :
    (umass_transfer_done w residue status).cb_state = w.cb_state ++ [TSTATE_IDLE] ∧
    ((w.log (Event.transfer_cb w.sc.transfer_cb w.sc.transfer_priv residue status)).set_state
      TSTATE_IDLE).cb_state = w.cb_state ++ [w.sc.transfer_state] ∧
    CallbackAtIdle w (umass_transfer_done w residue status) ∧
    CallbackAtIdle w (umass_transfer_reset w) ∧
    CallbackAtIdle w (umass_bbb_state K w n err) ∧
    CallbackAtIdle w (umass_cbi_state K w n err) ∧
    CallbackAtIdle w (umass_bbb_reset K w status) ∧
    CallbackAtIdle w (umass_cbi_reset K w status) ∧
    CallbackAtIdle w (umass_clear_endpoint_stall K w endpt xfer) ∧
    (∃ l : List Int, (bbb_run K w cs).cb_state = w.cb_state ++ l ∧
      (∀ s ∈ l, s = TSTATE_IDLE) ∧
      (callbacks (bbb_run K w cs).trace).length = (callbacks w.trace).length + l.length) ∧
    (∃ l : List Int, (cbi_run K w cs).cb_state = w.cb_state ++ l ∧
      (∀ s ∈ l, s = TSTATE_IDLE) ∧
      (callbacks (cbi_run K w cs).trace).length = (callbacks w.trace).length + l.length) :=
  ⟨rfl, rfl, at_idle_done (quiet_same w) _ _, at_idle_transfer_reset (quiet_same w),
    at_idle_bbb_state K (quiet_same w) n err, at_idle_cbi_state K (quiet_same w) n err,
    at_idle_bbb_reset K (quiet_same w) status, at_idle_cbi_reset K (quiet_same w) status,
    at_idle_clear_stall K (quiet_same w) endpt xfer,
    at_idle_run (bbb_complete K) (at_idle_bbb_complete K) cs w,
    at_idle_run (cbi_complete K) (at_idle_cbi_complete K) cs w⟩

/-! ## C2: residue and status of the callback -/

theorem bbb_run_nothing_in_flight (K : usb_h) (cs : List Completion) :
    ∀ w : World, w.inflight = [] → bbb_run K w cs = w := by
  induction cs with
  | nil => intro w _; rfl
  | cons c t ih =>
    intro w h
    simp only [bbb_run, List.foldl_cons, bbb_complete_nil K w c h]
    exact ih w h

theorem probe_phases_append (a b : List initq_event) :
    probe_phases (a ++ b) = probe_phases a ++ probe_phases b := by
  induction a with
  | nil => rfl
  | cons e t ih => cases e <;> simp [probe_phases, ih]

theorem set_entry_log (w : initq_world) (elm : Nat) (f : scsi_initq → scsi_initq)
    (ev : initq_event) : (w.log ev).set_entry elm f = (w.set_entry elm f).log ev := by
  unfold initq_world.set_entry initq_world.log
  cases w.kmem[elm]? <;> rfl

theorem store_log (w : initq_world) (p : tailq_ptr) (v : Option Nat) (ev : initq_event) :
    (w.log ev).store p v = (w.store p v).log ev := by
  cases p with
  | tqh_first => rfl
  | tqe_next elm => exact set_entry_log w elm _ ev

theorem TAILQ_REMOVE_log (w : initq_world) (e : scsi_initq) (ev : initq_event) :
    TAILQ_REMOVE (w.log ev) e = (TAILQ_REMOVE w e).log ev := by
  unfold TAILQ_REMOVE
  cases e.tqe_next with
  | none =>
    simp only
    exact store_log
      { w with scsi_initq_head := { w.scsi_initq_head with tqh_last := e.tqe_prev } } _ _ ev
  | some next =>
    simp only
    rw [set_entry_log, store_log]

theorem set_entry_trace (w : initq_world) (elm : Nat) (f : scsi_initq → scsi_initq) :
    (w.set_entry elm f).trace = w.trace := by
  unfold initq_world.set_entry
  cases w.kmem[elm]? <;> rfl

theorem store_trace (w : initq_world) (p : tailq_ptr) (v : Option Nat) :
    (w.store p v).trace = w.trace := by
  cases p with
  | tqh_first => rfl
  | tqe_next elm => exact set_entry_trace w elm _

theorem TAILQ_REMOVE_trace (w : initq_world) (e : scsi_initq) :
    (TAILQ_REMOVE w e).trace = w.trace := by
  unfold TAILQ_REMOVE
  cases e.tqe_next with
  | none =>
    simp only
    rw [store_trace]
  | some next =>
    simp only
    rw [store_trace, set_entry_trace]

/-- In the build with `SEL4`, `scsibusattach` returns, and when it returns the
probe of its channel has run from call to return (unless `scsipi_channel_init`
failed); no thread is created. -/
theorem attach_sel4 (w : initq_world) (chan : Nat) :
    ∃ w', scsibusattach true w chan = some w' ∧ w'.threads = w.threads ∧
      w'.channel_init_ret = w.channel_init_ret.tail ∧
      probe_phases w'.trace = probe_phases w.trace ++
        (if w.channel_init_ret.headD 0 ≠ 0 then [] else [(chan, true), (chan, false)]) := by
  by_cases hc : w.scsi_conf_ctrl = true <;>
  by_cases h : w.channel_init_ret.head?.getD 0 = 0 <;>
  simp [scsibusattach, scsibus_init, RUN_ONCE, TAILQ_INIT, TAILQ_INSERT_TAIL, TAILQ_REMOVE,
    TAILQ_FIRST, initq_world.log, initq_world.set_entry, initq_world.store, hc, h,
    scsibus_config, scsibus_config_step, probe_phases_append, probe_phases,
    List.headD_eq_head?_getD]

theorem run_thread_none (w : initq_world) (chan : Nat) (h : w.threads = []) :
    run_thread w chan = w := by
  simp [run_thread, h]

/-- In the build with `SEL4` every sequence of attaches (and of thread steps, of
which there are none) runs to its end, and the probe phases are the pairs call,
return of the channels served, in the order of the attaches. -/
theorem sel4_probes_in_attach_order (acts : List initq_action) :
    ∀ w : initq_world, w.threads = [] →
      ∃ w', initq_run true w acts = some w' ∧ w'.threads = [] ∧
        probe_phases w'.trace = probe_phases w.trace ++
          (served w.channel_init_ret acts).flatMap (fun c => [(c, true), (c, false)]) := by
  induction acts with
  | nil =>
    intro w h
    exact ⟨w, rfl, h, by simp [served]⟩
  | cons a t ih =>
    intro w h
    cases a with
    | attach chan =>
      obtain ⟨w1, e1, t1, r1, p1⟩ := attach_sel4 w chan
      obtain ⟨w2, e2, t2, p2⟩ := ih w1 (t1.trans h)
      refine ⟨w2, ?_, t2, ?_⟩
      · simp [initq_run, initq_step, e1, e2]
      · rw [p2, p1, r1]
        by_cases hc : w.channel_init_ret.headD 0 ≠ 0
        · rw [if_pos hc]
          simp only [served, if_pos hc, List.append_nil, List.nil_append]
        · rw [if_neg hc]
          simp only [served, if_neg hc, List.singleton_append, List.flatMap_cons,
            List.append_assoc]
    | run chan =>
      obtain ⟨w2, e2, t2, p2⟩ := ih w h
      refine ⟨w2, ?_, t2, ?_⟩
      · simp [initq_run, initq_step, run_thread_none w chan h, e2]
      · rw [p2]
        simp [served]

theorem serialized_pairs (l : List Nat) :
    serialized (l.flatMap (fun c => [(c, true), (c, false)])) = true := by
  induction l with
  | nil => rfl
  | cons c t ih => simpa [List.flatMap, serialized] using ih

/-- In the build with `SEL4`, from boot: whatever buses attach in whatever order
and whatever `scsipi_channel_init` answers, the probes run in the order of the
attaches and do not overlap. -/
theorem sel4_probes_serialized (acts : List initq_action) (rets : List Int) :
    ∃ w', initq_run true (initq_boot rets) acts = some w' ∧ w'.threads = [] ∧
      serialized (probe_phases w'.trace) = true ∧
      probe_order w'.trace = served rets acts := by
  obtain ⟨w', e, t, p⟩ := sel4_probes_in_attach_order acts (initq_boot rets) rfl
  refine ⟨w', e, t, ?_, ?_⟩
  · rw [p]
    simpa [initq_boot, probe_phases] using serialized_pairs (served rets acts)
  · unfold probe_order
    rw [p]
    simp only [initq_boot, probe_phases, List.nil_append]
    induction served rets acts with
    | nil => rfl
    | cons c t ih => simpa [List.flatMap] using ih

/-- The build with discovery threads (without `SEL4`), which this repository does
not build. `scsibus_init` runs twice at the first attach and once at the second.
When channel 1 attaches while channel 0 is inside `scsi_probe_bus`, the head is
initialised again and the thread of channel 1 finds its entry at the head: the
probes overlap. When the probe of channel 0 then returns first, `TAILQ_REMOVE`
of its entry, which is no longer in the queue, writes `NULL` into `tqh_first`:
the queue is empty and the thread of channel 1, had it not started, reads
`NULL`. -/
theorem kthread_build_probes_overlap :
    (∃ w', initq_run false (initq_boot []) [initq_action.attach 0] = some w' ∧
      init_count w'.trace = 2) ∧
    (∃ w', initq_run false (initq_boot [])
        [initq_action.attach 0, initq_action.run 0, initq_action.attach 1,
         initq_action.run 1] = some w' ∧
      init_count w'.trace = 3 ∧
      probe_phases w'.trace = [(0, true), (1, true)] ∧
      serialized (probe_phases w'.trace) = false ∧
      w'.threads = [(0, config_pc.probing 0), (1, config_pc.probing 1)]) ∧
    (∃ w', initq_run false (initq_boot [])
        [initq_action.attach 0, initq_action.run 0, initq_action.attach 1,
         initq_action.run 0, initq_action.run 1] = some w' ∧
      TAILQ_FIRST w' = none ∧
      w'.threads = [(0, config_pc.returned), (1, config_pc.faulted)]) := by
  refine ⟨⟨_, rfl, ?_⟩, ⟨_, rfl, ?_, ?_, ?_, ?_⟩, ⟨_, rfl, ?_, ?_⟩⟩ <;> decide

/-- C21, for the build of this repository (`SEL4` defined, `scsibus_config` called
by `scsibusattach` itself). The queue: `TAILQ_INSERT_TAIL` links the entry behind
the last one (on an empty queue it becomes the first; otherwise `tqe_next` of
the last entry points to it and the first stays), and it is the last entry
afterwards. `scsibus_config` calls `scsi_probe_bus` for a channel only when the
entry that `TAILQ_FIRST` returns is that of the channel, and `TAILQ_REMOVE` and
`cv_broadcast` follow the return of `scsi_probe_bus`. From boot, for every
sequence of attaches (thread steps do nothing, there are no threads) and
whatever `scsipi_channel_init` answers: every `scsibusattach` returns, the probe
phases do not overlap, and the channels are probed in the order in which they
were attached. -/
theorem C21_probes_in_attach_order (acts : List initq_action) (rets : List Int)
    (SEL4 : Bool) (w : initq_world) (chan elm last : Nat) (e : scsi_initq) :
    (w.scsi_initq_head.tqh_last = tailq_ptr.tqh_first →
      TAILQ_FIRST (TAILQ_INSERT_TAIL w elm) = some elm ∧
      (TAILQ_INSERT_TAIL w elm).scsi_initq_head.tqh_last = tailq_ptr.tqe_next elm) ∧
    (w.scsi_initq_head.tqh_last = tailq_ptr.tqe_next last → last ≠ elm →
      w.kmem[last]? = some e → elm < w.kmem.length →
      (TAILQ_INSERT_TAIL w elm).kmem[last]? = some { e with tqe_next := some elm } ∧
      (TAILQ_INSERT_TAIL w elm).kmem[elm]? =
        (w.kmem[elm]?).map (fun x => { x with tqe_next := none,
                                              tqe_prev := tailq_ptr.tqe_next last }) ∧
      TAILQ_FIRST (TAILQ_INSERT_TAIL w elm) = TAILQ_FIRST w ∧
      (TAILQ_INSERT_TAIL w elm).scsi_initq_head.tqh_last = tailq_ptr.tqe_next elm) ∧
    ((scsibus_config_step SEL4 w chan config_pc.waiting).2 = config_pc.probing elm →
      TAILQ_FIRST w = some elm ∧ (w.kmem[elm]?).map (fun x => x.sc_channel) = some chan ∧
      (scsibus_config_step SEL4 w chan config_pc.waiting).1 =
        w.log (initq_event.scsi_probe_bus_call chan)) ∧
    (w.kmem[elm]? = some e →
      (scsibus_config_step SEL4 w chan (config_pc.probing elm)).2 = config_pc.returned ∧
      (scsibus_config_step SEL4 w chan (config_pc.probing elm)).1.trace = w.trace ++
        [initq_event.scsi_probe_bus_return chan, initq_event.TAILQ_REMOVE chan,
         initq_event.cv_broadcast] ++ (if SEL4 then [] else [initq_event.free chan]) ++
        [initq_event.scsipi_adapter_delref chan, initq_event.config_pending_decr chan] ∧
      (scsibus_config_step SEL4 w chan (config_pc.probing elm)).1.scsi_initq_head =
        (TAILQ_REMOVE w e).scsi_initq_head) ∧
    ∃ w', initq_run true (initq_boot rets) acts = some w' ∧ w'.threads = [] ∧
      serialized (probe_phases w'.trace) = true ∧
      probe_order w'.trace = served rets acts := by
  refine ⟨?_, ?_, ?_, ?_, sel4_probes_serialized acts rets⟩
  · intro h
    cases hk : w.kmem[elm]? <;>
    simp [TAILQ_INSERT_TAIL, TAILQ_FIRST, initq_world.set_entry, initq_world.store, h, hk]
  · intro h hne hl he
    obtain ⟨hlast, heq⟩ := List.getElem?_eq_some_iff.mp hl
    simp [TAILQ_INSERT_TAIL, TAILQ_FIRST, initq_world.set_entry, initq_world.store, h, hl, he,
      hne, Ne.symm hne, List.getElem?_set, hlast, heq]
  · intro h
    simp only [scsibus_config_step, TAILQ_FIRST] at h ⊢
    cases hf : w.scsi_initq_head.tqh_first with
    | none => simp [hf] at h
    | some x =>
      cases hk : w.kmem[x]? with
      | none => simp [hf, hk] at h
      | some y =>
        by_cases hc : y.sc_channel = chan
        · simp [hf, hk, hc] at h ⊢
          subst h
          simp [hk, hc]
        · simp [hf, hk, hc] at h
  · intro h
    have hk : (w.log (initq_event.scsi_probe_bus_return chan)).kmem[elm]? = some e := h
    simp only [scsibus_config_step, hk, TAILQ_REMOVE_log]
    cases SEL4 <;> simp [initq_world.log, TAILQ_REMOVE_trace]

/-- C21 on three attaches, of the channels 4, 2 and 7, where `scsipi_channel_init`
fails for channel 2: the probes of 4 and 7 run one after the other. And on the
queue: the entry 0 of channel 4 is inserted into the empty queue and is its
first entry; the entry 1 is linked behind it; `scsibus_config` for channel 4
finds its entry at the head, and the removal follows the return of the probe. -/
theorem C21_probes_in_attach_order_witness :
    (∃ w', initq_run true (initq_boot [0, 1, 0])
        [initq_action.attach 4, initq_action.attach 2, initq_action.attach 7] = some w' ∧
      serialized (probe_phases w'.trace) = true ∧ probe_order w'.trace = [4, 7]) ∧
    (initq_one_allocated.scsi_initq_head.tqh_last = tailq_ptr.tqh_first ∧
      TAILQ_FIRST (TAILQ_INSERT_TAIL initq_one_allocated 0) = some 0) ∧
    (initq_second_allocated.scsi_initq_head.tqh_last = tailq_ptr.tqe_next 0 ∧
      (TAILQ_INSERT_TAIL initq_second_allocated 1).kmem[0]? =
        some { sc_channel := 4, tqe_next := some 1, tqe_prev := tailq_ptr.tqh_first } ∧
      TAILQ_FIRST (TAILQ_INSERT_TAIL initq_second_allocated 1) = some 0) ∧
    ((scsibus_config_step true initq_one_queued 4 config_pc.waiting).2 = config_pc.probing 0 ∧
      TAILQ_FIRST initq_one_queued = some 0) ∧
    (scsibus_config_step true initq_one_queued 4 (config_pc.probing 0)).1.trace =
      [initq_event.scsi_probe_bus_return 4, initq_event.TAILQ_REMOVE 4, initq_event.cv_broadcast,
       initq_event.scsipi_adapter_delref 4, initq_event.config_pending_decr 4] := by
  have h1 := C21_probes_in_attach_order
    [initq_action.attach 4, initq_action.attach 2, initq_action.attach 7] [0, 1, 0] true
    initq_one_allocated 4 0 0 { sc_channel := 4, tqe_next := none, tqe_prev := tailq_ptr.tqh_first }
  have h2 := C21_probes_in_attach_order [] [] true initq_second_allocated 4 1 0
    { sc_channel := 4, tqe_next := none, tqe_prev := tailq_ptr.tqh_first }
  have h3 := C21_probes_in_attach_order [] [] true initq_one_queued 4 0 0
    { sc_channel := 4, tqe_next := none, tqe_prev := tailq_ptr.tqh_first }
  obtain ⟨w', e, _, s1, s2⟩ := h1.2.2.2.2
  refine ⟨⟨w', e, s1, s2.trans (by decide)⟩, ⟨by decide, (h1.1 (by decide)).1⟩, ?_, ?_, ?_⟩
  · obtain ⟨a, _, c, _⟩ := h2.2.1 (by decide) (by decide) (by decide) (by decide)
    exact ⟨by decide, a, c.trans (by decide)⟩
  · exact ⟨by decide, (h3.2.2.1 (by decide)).1⟩
  · exact (h3.2.2.2.1 (by decide)).2.1.trans (by decide)

/-! ## C22, C23: the probe of a device -/

theorem attached_append (a b : List probe_event) :
    attached (a ++ b) = attached a ++ attached b := by
  induction a with
  | nil => rfl
  | cons e t ih => cases e <;> simp [attached, ih]

theorem quirk_patterns_with_inqmatch (K : scsipiconf_h)
    (f : scsipi_inquiry_pattern → List scsi_quirk_inquiry_pattern →
      Option scsi_quirk_inquiry_pattern) :
    scsi_quirk_patterns (K.with_inqmatch f) = scsi_quirk_patterns K := rfl

theorem probe_bad_outcome (K1 K2 : scsipiconf_h) (h : K1.SEL4 = K2.SEL4) (w1 w2 : probe_world)
    (d : Int) (hp : w1.periphs = w2.periphs) (ha : attached w1.trace = attached w2.trace) :
    probe_outcome (probe_bad K1 w1 d) = probe_outcome (probe_bad K2 w2 d) := by
  unfold probe_bad probe_outcome
  rw [h]
  split_ifs <;> simp [probe_world.log, attached_append, attached, hp, ha]

theorem probe_attach_outcome (K1 K2 : scsipiconf_h) (h : K1.SEL4 = K2.SEL4)
    (w1 w2 : probe_world) (periph : probe_periph) (sa : scsipi_inquiry_pattern) (d : Int)
    (hp : w1.periphs = w2.periphs) (ha : attached w1.trace = attached w2.trace)
    (hc : w1.config_search_ret = w2.config_search_ret) :
    probe_outcome (probe_attach K1 w1 periph sa d) =
      probe_outcome (probe_attach K2 w2 periph sa d) := by
  unfold probe_attach
  simp only [probe_world.log, hc]
  by_cases hs : w2.config_search_ret = true
  · simp only [hs, if_true]
    unfold probe_outcome
    split_ifs <;> simp [probe_world.log, attached_append, attached, hp, ha]
  · simp only [hs]
    exact probe_bad_outcome K1 K2 h _ _ d hp (by simp [attached_append, attached, ha])

theorem probe_identify_outcome (K : scsipiconf_h)
    (f : scsipi_inquiry_pattern → List scsi_quirk_inquiry_pattern →
      Option scsi_quirk_inquiry_pattern)
    (w : probe_world) (periph : probe_periph) (inqbuf : scsipi_inquiry_data) :
    probe_outcome (probe_identify (K.with_inqmatch f) w periph inqbuf) =
      probe_outcome (probe_identify K w periph inqbuf) := by
  unfold probe_identify
  exact probe_attach_outcome (K.with_inqmatch f) K rfl _ _ _ _ _ rfl
    (by simp [probe_world.log, attached_append, attached]) rfl

/-- The return value of `scsi_probe_device`, the slots with a periph and the
periphs handed to `config_attach` do not depend on the function
`scsipi_inqmatch`, hence not on what it finds in the table. -/
theorem probe_device_outcome (K : scsipiconf_h)
    (f : scsipi_inquiry_pattern → List scsi_quirk_inquiry_pattern →
      Option scsi_quirk_inquiry_pattern)
    (w : probe_world) (target lun : Int) :
    probe_outcome (scsi_probe_device (K.with_inqmatch f) w target lun) =
      probe_outcome (scsi_probe_device K w target lun) := by
  unfold scsi_probe_device
  simp only [scsipiconf_h.with_inqmatch]
  split_ifs <;>
    first
      | rfl
      | exact probe_bad_outcome _ K rfl _ _ _ rfl rfl
      | exact probe_identify_outcome K f _ _ _

/-- C22, as far as the code goes: the return value of `scsi_probe_device`, the
slots with a periph and the periphs handed to `config_attach` are the same
whatever the function `scsipi_inqmatch` is and returns: the value it returns is
not assigned to `finger`, so the quirks merged are always 0. On the fixed
direct-access device that identifies as "SEAGATE ", "ST15150N        " and
reports CmdQue with SCSI version 2, the match finds the entry of the table with
`PQUIRK_NOTAG`, and the periph attached has `PERIPH_CAP_TQING` and no quirk;
with the quirks of that entry the capabilities would not have it. -/
theorem C22_quirks_of_the_match_are_dropped (K : scsipiconf_h)
    (f : scsipi_inquiry_pattern → List scsi_quirk_inquiry_pattern →
      Option scsi_quirk_inquiry_pattern)
    (w : probe_world) (target lun : Int) :
    probe_outcome (scsi_probe_device (K.with_inqmatch f) w target lun) =
      probe_outcome (scsi_probe_device K w target lun) ∧
    (scsi_probe_device K_probe (w_probe inq_st15150n) 0 0).1.trace =
      [probe_event.scsipi_lookup_periph 0 0, probe_event.scsipi_alloc_periph,
       probe_event.scsipi_inquire 0 0,
       probe_event.scsipi_inqmatch
         { type := 0x00, removable := K_probe.T_FIXED, vendor := "SEAGATE ",
           product := "ST15150N        ", revision := "0023" }
         (some (quirk_pattern K_probe.T_DIRECT K_probe.T_FIXED "SEAGATE " "ST15150N        " ""
           K_probe.PQUIRK_NOTAG)),
       probe_event.config_search 0 0,
       probe_event.scsipi_insert_periph
         { periph_target := 0, periph_lun := 0, periph_quirks := 0, periph_type := 0,
           periph_flags := 0, periph_version := 2, periph_cap := K_probe.PERIPH_CAP_TQING },
       probe_event.config_attach
         { periph_target := 0, periph_lun := 0, periph_quirks := 0, periph_type := 0,
           periph_flags := 0, periph_version := 2, periph_cap := K_probe.PERIPH_CAP_TQING }
         { type := 0x00, removable := K_probe.T_FIXED, vendor := "SEAGATE ",
           product := "ST15150N        ", revision := "0023" }] ∧
    quirk_pattern K_probe.T_DIRECT K_probe.T_FIXED "SEAGATE " "ST15150N        " ""
      K_probe.PQUIRK_NOTAG ∈ scsi_quirk_patterns K_probe ∧
    (probe_capabilities K_probe
      { periph_target := 0, periph_lun := 0, periph_quirks := 0, periph_type := 0,
        periph_flags := 0, periph_version := 2, periph_cap := 0 }
      inq_st15150n K_probe.PQUIRK_NOTAG).periph_cap = 0 :=
  ⟨probe_device_outcome K f w target lun, by decide, by decide, by decide⟩

theorem probe_trace_rejected_qualifier (K : scsipiconf_h) (w : probe_world) (target lun : Int)
    (hfree : (target, lun) ∉ w.periphs) (hinq : w.inquire_ret.1 = 0)
    (hq : w.inquire_ret.2.device &&& K.SID_QUAL ≠ K.SID_QUAL_LU_PRESENT ∧
      (w.inquire_ret.2.device &&& K.SID_QUAL = K.SID_QUAL_LU_NOTPRESENT ∨
        w.inquire_ret.2.device &&& K.SID_QUAL = K.SID_QUAL_reserved ∨
        w.inquire_ret.2.device &&& K.SID_QUAL = K.SID_QUAL_LU_NOT_SUPP)) :
    scsi_probe_device K w target lun =
      probe_bad K (((w.log (probe_event.scsipi_lookup_periph target lun)).log
        probe_event.scsipi_alloc_periph).log (probe_event.scsipi_inquire target lun)) 0 := by
  unfold scsi_probe_device
  simp only [probe_world.log]
  rw [if_neg hfree, if_neg (by simpa using hinq), if_pos hq]

theorem probe_trace_nodevice (K : scsipiconf_h) (w : probe_world) (target lun : Int)
    (hfree : (target, lun) ∉ w.periphs) (hinq : w.inquire_ret.1 = 0)
    (hq : w.inquire_ret.2.device &&& K.SID_QUAL = K.SID_QUAL_LU_PRESENT)
    (ht : w.inquire_ret.2.device &&& K.SID_TYPE = K.T_NODEVICE) :
    scsi_probe_device K w target lun =
      probe_bad K
        (if w.adapt_accesschk.isSome then
          ((((w.log (probe_event.scsipi_lookup_periph target lun)).log
            probe_event.scsipi_alloc_periph).log (probe_event.scsipi_inquire target lun)).log
            (probe_event.adapt_accesschk target lun))
        else
          (((w.log (probe_event.scsipi_lookup_periph target lun)).log
            probe_event.scsipi_alloc_periph).log (probe_event.scsipi_inquire target lun))) 0 := by
  unfold scsi_probe_device
  simp only [probe_world.log]
  rw [if_neg hfree, if_neg (by simpa using hinq), if_neg (by simp [hq])]
  by_cases ha : w.adapt_accesschk.getD 0 ≠ 0
  · rw [if_pos ha]
  · rw [if_neg ha, if_pos ⟨by simpa using hq, ht⟩]

theorem probe_identify_trace (K : scsipiconf_h) (w : probe_world) (periph : probe_periph)
    (inqbuf : scsipi_inquiry_data) :
    probe_event.config_search periph.periph_target periph.periph_lun ∈
      (probe_identify K w periph inqbuf).1.trace ∧
    (w.config_search_ret = true →
      (periph.periph_target, periph.periph_lun) ∈ (probe_identify K w periph inqbuf).1.periphs ∧
      (attached (probe_identify K w periph inqbuf).1.trace).length =
        (attached w.trace).length + 1) := by
  have e1 : (probe_apply_quirks K (probe_capabilities K periph inqbuf 0) 0).periph_target =
      periph.periph_target := rfl
  have e2 : (probe_apply_quirks K (probe_capabilities K periph inqbuf 0) 0).periph_lun =
      periph.periph_lun := rfl
  unfold probe_identify probe_attach probe_bad
  simp only [probe_world.log, e1, e2]
  by_cases hc : w.config_search_ret = true
  · simp only [hc, if_true]
    split_ifs <;> simp [attached_append, attached]
  · simp only [hc]
    split_ifs <;> simp [attached_append, attached]

theorem probe_passes_other_qualifier (K : scsipiconf_h) (w : probe_world) (target lun : Int)
    (hfree : (target, lun) ∉ w.periphs) (hinq : w.inquire_ret.1 = 0)
    (hq : w.inquire_ret.2.device &&& K.SID_QUAL ≠ K.SID_QUAL_LU_PRESENT ∧
      w.inquire_ret.2.device &&& K.SID_QUAL ≠ K.SID_QUAL_LU_NOTPRESENT ∧
      w.inquire_ret.2.device &&& K.SID_QUAL ≠ K.SID_QUAL_reserved ∧
      w.inquire_ret.2.device &&& K.SID_QUAL ≠ K.SID_QUAL_LU_NOT_SUPP)
    (ha : w.adapt_accesschk.getD 0 = 0) :
    probe_event.config_search target lun ∈ (scsi_probe_device K w target lun).1.trace ∧
    (w.config_search_ret = true →
      (target, lun) ∈ (scsi_probe_device K w target lun).1.periphs ∧
      (attached (scsi_probe_device K w target lun).1.trace).length =
        (attached w.trace).length + 1) := by
  unfold scsi_probe_device
  simp only [probe_world.log]
  rw [if_neg hfree, if_neg (by simpa using hinq), if_neg (by simp [hq.2.1, hq.2.2.1, hq.2.2.2]),
    if_neg (by simpa using ha), if_neg (by simp [hq.1])]
  by_cases hs : w.adapt_accesschk.isSome = true
  · rw [if_pos hs]
    have h := probe_identify_trace K
      { trace := w.trace ++ [probe_event.scsipi_lookup_periph target lun] ++
          [probe_event.scsipi_alloc_periph] ++ [probe_event.scsipi_inquire target lun] ++
          [probe_event.adapt_accesschk target lun]
        periphs := w.periphs, chan_defquirks := w.chan_defquirks, inquire_ret := w.inquire_ret
        adapt_accesschk := w.adapt_accesschk, config_search_ret := w.config_search_ret }
      { periph_target := target, periph_lun := lun, periph_quirks := w.chan_defquirks
        periph_type := w.inquire_ret.2.device &&& K.SID_TYPE
        periph_flags := if w.inquire_ret.2.dev_qual2 &&& K.SID_REMOVABLE ≠ 0 then
          0 ||| K.PERIPH_REMOVABLE else 0
        periph_version := w.inquire_ret.2.version &&& K.SID_ANSII, periph_cap := 0 }
      w.inquire_ret.2
    simpa [attached_append, attached] using h
  · rw [if_neg hs]
    have h := probe_identify_trace K
      { trace := w.trace ++ [probe_event.scsipi_lookup_periph target lun] ++
          [probe_event.scsipi_alloc_periph] ++ [probe_event.scsipi_inquire target lun]
        periphs := w.periphs, chan_defquirks := w.chan_defquirks, inquire_ret := w.inquire_ret
        adapt_accesschk := w.adapt_accesschk, config_search_ret := w.config_search_ret }
      { periph_target := target, periph_lun := lun, periph_quirks := w.chan_defquirks
        periph_type := w.inquire_ret.2.device &&& K.SID_TYPE
        periph_flags := if w.inquire_ret.2.dev_qual2 &&& K.SID_REMOVABLE ≠ 0 then
          0 ||| K.PERIPH_REMOVABLE else 0
        periph_version := w.inquire_ret.2.version &&& K.SID_ANSII, periph_cap := 0 }
      w.inquire_ret.2
    simpa [attached_append, attached] using h

theorem qualifier_top_bit (device : Nat) (hd : device < 256) (hb : device &&& 0x80 ≠ 0) :
    device &&& K_probe.SID_QUAL ≠ K_probe.SID_QUAL_LU_PRESENT ∧
    device &&& K_probe.SID_QUAL ≠ K_probe.SID_QUAL_LU_NOTPRESENT ∧
    device &&& K_probe.SID_QUAL ≠ K_probe.SID_QUAL_reserved ∧
    device &&& K_probe.SID_QUAL ≠ K_probe.SID_QUAL_LU_NOT_SUPP := by
  have h128 : 128 ≤ device := by
    by_contra h
    have hlt : device < 128 := by omega
    apply hb
    have : device &&& 128 = 0 := by
      apply Nat.eq_of_testBit_eq
      intro i
      simp only [Nat.testBit_land, Nat.zero_testBit]
      by_cases hi : i = 7
      · subst hi
        rw [Nat.testBit_lt_two_pow (by omega : device < 2 ^ 7)]
        rfl
      · have : Nat.testBit 128 i = false := by
          have e : (128 : Nat) = 2 ^ 7 := by norm_num
          rw [e, Nat.testBit_two_pow]
          simp
          omega
        rw [this, Bool.and_false]
    exact this
  have hbit : (device &&& 0xe0).testBit 7 = true := by
    rw [Nat.testBit_land]
    have h1 : device.testBit 7 = true := by
      rw [Nat.testBit_to_div_mod]
      have : device / 2 ^ 7 = 1 := by omega
      rw [this]
      rfl
    rw [h1]
    rfl
  have key : ∀ v : Nat, v < 128 → device &&& 0xe0 ≠ v := by
    intro v hv e
    rw [e, Nat.testBit_lt_two_pow (by omega : v < 2 ^ 7)] at hbit
    exact Bool.noConfusion hbit
  exact ⟨key 0 (by decide), key 0x20 (by decide), key 0x40 (by decide), key 0x60 (by decide)⟩

/-- C23: for a slot without periph whose INQUIRY succeeds, `scsi_probe_device`
returns 0 with nothing attached (no call of `config_search`, the slots with a
periph unchanged) when the peripheral qualifier is LU not present, reserved or
LU not supported, and when it is LU present with the device type
`T_NODEVICE`. With any other qualifier (and an adapter that does not refuse the
device in `adapt_accesschk`) the device is offered to `config_search`, whatever
its device type, and is attached when a driver is found. With the qualifier
values of the SCSI standard (`K_probe`), every device byte with the top
qualifier bit set has such a qualifier. -/
theorem C23_probe_rejects_absent_units (K : scsipiconf_h) (w : probe_world) (target lun : Int)
    (hfree : (target, lun) ∉ w.periphs) (hinq : w.inquire_ret.1 = 0) :
    ((w.inquire_ret.2.device &&& K.SID_QUAL ≠ K.SID_QUAL_LU_PRESENT ∧
        (w.inquire_ret.2.device &&& K.SID_QUAL = K.SID_QUAL_LU_NOTPRESENT ∨
          w.inquire_ret.2.device &&& K.SID_QUAL = K.SID_QUAL_reserved ∨
          w.inquire_ret.2.device &&& K.SID_QUAL = K.SID_QUAL_LU_NOT_SUPP)) →
      (scsi_probe_device K w target lun).2 = 0 ∧
      (scsi_probe_device K w target lun).1.periphs = w.periphs ∧
      (scsi_probe_device K w target lun).1.trace =
        w.trace ++ [probe_event.scsipi_lookup_periph target lun, probe_event.scsipi_alloc_periph,
          probe_event.scsipi_inquire target lun] ++
          (if K.SEL4 then [] else [probe_event.scsipi_free_periph])) ∧
    ((w.inquire_ret.2.device &&& K.SID_QUAL = K.SID_QUAL_LU_PRESENT ∧
        w.inquire_ret.2.device &&& K.SID_TYPE = K.T_NODEVICE) →
      (scsi_probe_device K w target lun).2 = 0 ∧
      (scsi_probe_device K w target lun).1.periphs = w.periphs ∧
      (scsi_probe_device K w target lun).1.trace =
        w.trace ++ [probe_event.scsipi_lookup_periph target lun, probe_event.scsipi_alloc_periph,
          probe_event.scsipi_inquire target lun] ++
          (if w.adapt_accesschk.isSome then [probe_event.adapt_accesschk target lun] else []) ++
          (if K.SEL4 then [] else [probe_event.scsipi_free_periph])) ∧
    ((w.inquire_ret.2.device &&& K.SID_QUAL ≠ K.SID_QUAL_LU_PRESENT ∧
        w.inquire_ret.2.device &&& K.SID_QUAL ≠ K.SID_QUAL_LU_NOTPRESENT ∧
        w.inquire_ret.2.device &&& K.SID_QUAL ≠ K.SID_QUAL_reserved ∧
        w.inquire_ret.2.device &&& K.SID_QUAL ≠ K.SID_QUAL_LU_NOT_SUPP) →
      w.adapt_accesschk.getD 0 = 0 →
      probe_event.config_search target lun ∈ (scsi_probe_device K w target lun).1.trace ∧
      (w.config_search_ret = true →
        (target, lun) ∈ (scsi_probe_device K w target lun).1.periphs ∧
        (attached (scsi_probe_device K w target lun).1.trace).length =
          (attached w.trace).length + 1)) ∧
    (∀ device : Nat, device < 256 → device &&& 0x80 ≠ 0 →
      device &&& K_probe.SID_QUAL ≠ K_probe.SID_QUAL_LU_PRESENT ∧
      device &&& K_probe.SID_QUAL ≠ K_probe.SID_QUAL_LU_NOTPRESENT ∧
      device &&& K_probe.SID_QUAL ≠ K_probe.SID_QUAL_reserved ∧
      device &&& K_probe.SID_QUAL ≠ K_probe.SID_QUAL_LU_NOT_SUPP) := by
  refine ⟨fun hq => ?_, fun hq => ?_, fun hq ha => ?_, ?_⟩
  · rw [probe_trace_rejected_qualifier K w target lun hfree hinq hq]
    unfold probe_bad
    split_ifs <;> simp [probe_world.log]
  · rw [probe_trace_nodevice K w target lun hfree hinq hq.1 hq.2]
    unfold probe_bad
    split_ifs <;> simp [probe_world.log]
  · exact probe_passes_other_qualifier K w target lun hfree hinq hq ha
  · exact qualifier_top_bit

/-- C23 on four devices of the channel `w_probe`: qualifier LU not present (device
byte 0x20) and LU present with type `T_NODEVICE` (0x1f) are rejected with the
trace ending after the INQUIRY; the vendor-specific qualifier with type
`T_NODEVICE` (0x9f) is attached. -/
theorem C23_probe_rejects_absent_units_witness :
    (((0 : Int), (0 : Int)) ∉ (w_probe (inq_device 0x20)).periphs ∧
      (w_probe (inq_device 0x20)).inquire_ret.1 = 0) ∧
    ((scsi_probe_device K_probe (w_probe (inq_device 0x20)) 0 0).2 = 0 ∧
      (scsi_probe_device K_probe (w_probe (inq_device 0x20)) 0 0).1.periphs = [] ∧
      (scsi_probe_device K_probe (w_probe (inq_device 0x20)) 0 0).1.trace =
        [probe_event.scsipi_lookup_periph 0 0, probe_event.scsipi_alloc_periph,
         probe_event.scsipi_inquire 0 0]) ∧
    ((scsi_probe_device K_probe (w_probe (inq_device 0x1f)) 0 0).2 = 0 ∧
      (scsi_probe_device K_probe (w_probe (inq_device 0x1f)) 0 0).1.periphs = [] ∧
      (scsi_probe_device K_probe (w_probe (inq_device 0x1f)) 0 0).1.trace =
        [probe_event.scsipi_lookup_periph 0 0, probe_event.scsipi_alloc_periph,
         probe_event.scsipi_inquire 0 0]) ∧
    (probe_event.config_search 0 0 ∈
        (scsi_probe_device K_probe (w_probe (inq_device 0x9f)) 0 0).1.trace ∧
      (scsi_probe_device K_probe (w_probe (inq_device 0x9f)) 0 0).1.periphs = [(0, 0)]) :=
  ⟨by decide,
   (C23_probe_rejects_absent_units K_probe (w_probe (inq_device 0x20)) 0 0 (by decide)
     (by decide)).1 (by decide),
   (C23_probe_rejects_absent_units K_probe (w_probe (inq_device 0x1f)) 0 0 (by decide)
     (by decide)).2.1 (by decide),
   ((C23_probe_rejects_absent_units K_probe (w_probe (inq_device 0x9f)) 0 0 (by decide)
     (by decide)).2.2.1 (by decide) (by decide)).1,
   by decide⟩

/-! ## C31: the value returned by a probe -/

theorem probe_bad_ret (K : scsipiconf_h) (w : probe_world) (d : Int) :
    (probe_bad K w d).2 = d := rfl

theorem probe_attach_ret (K : scsipiconf_h) (w : probe_world) (periph : probe_periph)
    (sa : scsipi_inquiry_pattern) (d : Int) : (probe_attach K w periph sa d).2 = d := by
  unfold probe_attach
  simp only [probe_world.log]
  split_ifs <;> rfl

theorem probe_identify_ret (K : scsipiconf_h) (w : probe_world) (periph : probe_periph)
    (inqbuf : scsipi_inquiry_data) :
    (probe_identify K w periph inqbuf).2 =
      if (if periph.periph_version = 0 ∧ periph.periph_quirks &&& K.PQUIRK_FORCELUNS = 0 then
          periph.periph_quirks ||| K.PQUIRK_NOLUNS else periph.periph_quirks) &&&
          K.PQUIRK_NOLUNS = 0 then 1 else 0 := by
  unfold probe_identify
  simp only [probe_attach_ret, probe_apply_quirks, Nat.or_zero]
  rfl

theorem or_and_self_ne_zero (q n : Nat) (h : n ≠ 0) : (q ||| n) &&& n ≠ 0 := by
  intro h0
  apply h
  apply Nat.eq_of_testBit_eq
  intro i
  have := congrArg (fun m => Nat.testBit m i) h0
  simp only [Nat.testBit_and, Nat.testBit_or, Nat.zero_testBit] at this
  simp only [Nat.zero_testBit]
  cases hn : n.testBit i
  · rfl
  · simp [hn] at this

/-- C31: the value returned by `scsi_probe_device` is 1 exactly when the slot
(target, LUN) has no periph yet, `scsipi_inquire` returned 0, the peripheral
qualifier is `SID_QUAL_LU_PRESENT` or none of the three rejected ones, the hook
`adapt_accesschk` is absent or returned 0, the device type is not `T_NODEVICE`
for a present unit, and the merged quirks have no bit of `PQUIRK_NOLUNS`; it is 0
in every other case, so also for a slot that has a periph. The merged quirks are
`periph_quirks` as the code has them at that point: `chan_defquirks`, or-ed with
the value `quirks` (which is 0, `finger` being null), and with `PQUIRK_NOLUNS`
when the SCSI version reported is 0 and `PQUIRK_FORCELUNS` is absent; so, with a
`PQUIRK_NOLUNS` that is not 0, such a device gives 0. The value does not depend
on whether `config_search` finds a driver. And a sweep of `scsi_discover_luns`
whose probe returns 0 makes no further probe. -/
theorem C31_probe_return_value (K : scsipiconf_h) (w : probe_world) (target lun : Int) :
    (((scsi_probe_device K w target lun).2 = 1 ↔
      ((target, lun) ∉ w.periphs ∧ w.inquire_ret.1 = 0 ∧
        (w.inquire_ret.2.device &&& K.SID_QUAL = K.SID_QUAL_LU_PRESENT ∨
          (w.inquire_ret.2.device &&& K.SID_QUAL ≠ K.SID_QUAL_LU_NOTPRESENT ∧
           w.inquire_ret.2.device &&& K.SID_QUAL ≠ K.SID_QUAL_reserved ∧
           w.inquire_ret.2.device &&& K.SID_QUAL ≠ K.SID_QUAL_LU_NOT_SUPP)) ∧
        w.adapt_accesschk.getD 0 = 0 ∧
        ¬ (w.inquire_ret.2.device &&& K.SID_QUAL = K.SID_QUAL_LU_PRESENT ∧
            w.inquire_ret.2.device &&& K.SID_TYPE = K.T_NODEVICE) ∧
        (if w.inquire_ret.2.version &&& K.SID_ANSII = 0 ∧
              w.chan_defquirks &&& K.PQUIRK_FORCELUNS = 0 then
            w.chan_defquirks ||| K.PQUIRK_NOLUNS else w.chan_defquirks) &&&
          K.PQUIRK_NOLUNS = 0)) ∧
      ((scsi_probe_device K w target lun).2 = 1 ∨ (scsi_probe_device K w target lun).2 = 0)) ∧
    ((target, lun) ∈ w.periphs → (scsi_probe_device K w target lun).2 = 0) ∧
    (K.PQUIRK_NOLUNS ≠ 0 → w.inquire_ret.2.version &&& K.SID_ANSII = 0 →
      w.chan_defquirks &&& K.PQUIRK_FORCELUNS = 0 → (scsi_probe_device K w target lun).2 = 0) ∧
    (∀ b : Bool, (scsi_probe_device K { w with config_search_ret := b } target lun).2 =
      (scsi_probe_device K w target lun).2) ∧
    (∀ (v : scsi_world) (n : Nat), (scsi_probe_device_call v target lun).2 = 0 →
      discover_sweep v target (n + 1) lun = (scsi_probe_device_call v target lun).1) := by
  have key : ∀ w : probe_world, (scsi_probe_device K w target lun).2 =
      if ((target, lun) ∉ w.periphs ∧ w.inquire_ret.1 = 0 ∧
        (w.inquire_ret.2.device &&& K.SID_QUAL = K.SID_QUAL_LU_PRESENT ∨
          (w.inquire_ret.2.device &&& K.SID_QUAL ≠ K.SID_QUAL_LU_NOTPRESENT ∧
           w.inquire_ret.2.device &&& K.SID_QUAL ≠ K.SID_QUAL_reserved ∧
           w.inquire_ret.2.device &&& K.SID_QUAL ≠ K.SID_QUAL_LU_NOT_SUPP)) ∧
        w.adapt_accesschk.getD 0 = 0 ∧
        ¬ (w.inquire_ret.2.device &&& K.SID_QUAL = K.SID_QUAL_LU_PRESENT ∧
            w.inquire_ret.2.device &&& K.SID_TYPE = K.T_NODEVICE) ∧
        (if w.inquire_ret.2.version &&& K.SID_ANSII = 0 ∧
              w.chan_defquirks &&& K.PQUIRK_FORCELUNS = 0 then
            w.chan_defquirks ||| K.PQUIRK_NOLUNS else w.chan_defquirks) &&&
          K.PQUIRK_NOLUNS = 0) then 1 else 0 := by
    intro w
    have ret_eq : (scsi_probe_device K w target lun).2 =
        if (target, lun) ∈ w.periphs then 0
        else if w.inquire_ret.1 ≠ 0 then 0
        else if w.inquire_ret.2.device &&& K.SID_QUAL ≠ K.SID_QUAL_LU_PRESENT ∧
            (w.inquire_ret.2.device &&& K.SID_QUAL = K.SID_QUAL_LU_NOTPRESENT ∨
              w.inquire_ret.2.device &&& K.SID_QUAL = K.SID_QUAL_reserved ∨
              w.inquire_ret.2.device &&& K.SID_QUAL = K.SID_QUAL_LU_NOT_SUPP) then 0
        else if w.adapt_accesschk.getD 0 ≠ 0 then 0
        else if w.inquire_ret.2.device &&& K.SID_QUAL = K.SID_QUAL_LU_PRESENT ∧
            w.inquire_ret.2.device &&& K.SID_TYPE = K.T_NODEVICE then 0
        else if (if w.inquire_ret.2.version &&& K.SID_ANSII = 0 ∧
              w.chan_defquirks &&& K.PQUIRK_FORCELUNS = 0 then
            w.chan_defquirks ||| K.PQUIRK_NOLUNS else w.chan_defquirks) &&&
          K.PQUIRK_NOLUNS = 0 then 1 else 0 := by
      unfold scsi_probe_device
      simp only [probe_world.log, apply_ite Prod.snd, probe_bad_ret, probe_identify_ret,
        decide_eq_true_eq]
    rw [ret_eq]
    split_ifs <;> first | rfl | (exfalso; tauto)
  refine ⟨⟨?_, ?_⟩, ?_, ?_, ?_, ?_⟩
  · rw [key w]
    constructor
    · intro e
      by_contra hc
      rw [if_neg hc] at e
      exact absurd e (by decide)
    · intro hc
      rw [if_pos hc]
  · rw [key w]
    split_ifs <;> first | exact Or.inl rfl | exact Or.inr rfl
  · intro h
    rw [key w, if_neg (fun hc => hc.1 h)]
  · intro hn hv hf
    rw [key w, if_neg]
    rintro ⟨_, _, _, _, _, h6⟩
    rw [if_pos ⟨hv, hf⟩] at h6
    exact or_and_self_ne_zero _ _ hn h6
  · intro b
    rw [key w, key { w with config_search_ret := b }]
  · intro v n h
    simp only [discover_sweep, h, if_true]

/-- C31 on the channel `w_probe`: a device that reports the SCSI version 0 gives
0 whether or not a driver matches it, a device of version 2 gives 1 whether or
not a driver matches it, and a slot that already has a periph gives 0. -/
theorem C31_probe_return_value_witness :
    K_probe.PQUIRK_NOLUNS ≠ 0 ∧
    (w_probe inq_version0).inquire_ret.2.version &&& K_probe.SID_ANSII = 0 ∧
    (w_probe inq_version0).chan_defquirks &&& K_probe.PQUIRK_FORCELUNS = 0 ∧
    (scsi_probe_device K_probe (w_probe inq_version0) 0 0).2 = 0 ∧
    (scsi_probe_device K_probe { w_probe inq_version0 with config_search_ret := false } 0 0).2 =
      0 ∧
    (scsi_probe_device K_probe (w_probe (inq_device 0x00)) 0 0).2 = 1 ∧
    (scsi_probe_device K_probe { w_probe (inq_device 0x00) with config_search_ret := false }
      0 0).2 = 1 ∧
    (scsi_probe_device K_probe { w_probe (inq_device 0x00) with periphs := [(0, 0)] } 0 0).2 = 0 :=
  have h := C31_probe_return_value K_probe (w_probe inq_version0) 0 0
  have h' := C31_probe_return_value K_probe (w_probe (inq_device 0x00)) 0 0
  ⟨by decide, by decide, by decide, h.2.2.1 (by decide) (by decide) (by decide),
    (h.2.2.2.1 false).trans (h.2.2.1 (by decide) (by decide) (by decide)),
    h'.1.1.2 (by decide), (h'.2.2.2.1 false).trans (h'.1.1.2 (by decide)),
    (C31_probe_return_value K_probe { w_probe (inq_device 0x00) with periphs := [(0, 0)] } 0 0).2.1
      (by decide)⟩

/-! ## C32: the number of LUNs reported -/

theorem rlr_buffer_length (rlrlen : Nat) (data : List Nat) :
    (rlr_buffer rlrlen data).length = rlrlen := by
  unfold rlr_buffer
  simp only [List.length_append, List.length_replicate, List.length_take]
  omega

/-- The loop at `again`, started with a buffer of 16 to 32 bytes and sizes of 8
for the header and for an entry, ends without error only at the exit after the
size test, with a buffer of 16 to 32 bytes that the last command has filled. -/
theorem report_luns_again_ok (K : scsiconf_h) (hr : K.sizeof_rlr = 8) (heio : K.EIO ≠ 0)
    (target : Int) (rets : List (Int × List Nat)) :
    ∀ (trace : List scsi_event) (rlrlen : Nat), 16 ≤ rlrlen → rlrlen ≤ 32 →
      (scsi_report_luns_again K target 16 rets trace rlrlen).error = 0 →
      16 ≤ (scsi_report_luns_again K target 16 rets trace rlrlen).rlrlen ∧
      (scsi_report_luns_again K target 16 rets trace rlrlen).rlrlen ≤ 32 ∧
      (scsi_report_luns_again K target 16 rets trace rlrlen).rlr.length =
        (scsi_report_luns_again K target 16 rets trace rlrlen).rlrlen ∧
      (scsi_report_luns_again K target 16 rets trace rlrlen).trace.getLast? =
        some (scsi_event.scsipi_command target 0
          (scsi_report_luns_again K target 16 rets trace rlrlen).rlrlen) := by
  induction rets with
  | nil =>
    intro trace rlrlen _ _ he
    simp only [scsi_report_luns_again] at he
    exact absurd he heio
  | cons r rest ih =>
    intro trace rlrlen h1 h2
    simp only [scsi_report_luns_again, hr]
    by_cases e1 : r.1 ≠ 0
    · rw [if_pos e1]
      intro he
      exact absurd he e1
    rw [if_neg e1]
    by_cases e2 : 8 + K._4btol ((rlr_buffer rlrlen r.2).take 4) > rlrlen ∧
        8 + K._4btol ((rlr_buffer rlrlen r.2).take 4) ≤ 32
    · rw [if_pos e2]
      have hmin : min (K._4btol ((rlr_buffer rlrlen r.2).take 4)) (16383 * K.sizeof_lunp) ≤
          K._4btol ((rlr_buffer rlrlen r.2).take 4) := Nat.min_le_left _ _
      by_cases e3 : 8 + min (K._4btol ((rlr_buffer rlrlen r.2).take 4)) (16383 * K.sizeof_lunp) < 16
      · rw [if_pos e3]
        intro he
        exact absurd he heio
      · rw [if_neg e3]
        exact ih _ _ (by omega) (by omega)
    · rw [if_neg e2]
      intro _
      exact ⟨h1, h2, rlr_buffer_length _ _, by simp⟩

theorem kheapsort_length (l : List Nat) (compar : Nat → Nat → Int) :
    (kheapsort l compar).length = l.length := by
  unfold kheapsort
  exact List.length_insertionSort _ l

/-- The first round of the loop at `again` is the last one when the list length
reported is above 24 or is 0: the buffer stays at 16 bytes. -/
theorem report_luns_again_once (K : scsiconf_h) (hr : K.sizeof_rlr = 8) (target : Int)
    (r : Int × List Nat) (rest : List (Int × List Nat)) (trace : List scsi_event)
    (h0 : r.1 = 0)
    (h : K._4btol ((rlr_buffer 16 r.2).take 4) > 24 ∨ K._4btol ((rlr_buffer 16 r.2).take 4) ≤ 8) :
    scsi_report_luns_again K target 16 (r :: rest) trace 16 =
      { command_ret := rest, trace := trace ++ [scsi_event.scsipi_command target 0 16],
        error := 0, rlrlen := 16, rlr := rlr_buffer 16 r.2 } := by
  simp only [scsi_report_luns_again, hr]
  rw [if_neg (not_not.mpr h0), if_neg (by omega)]

theorem rlr_buffer_header_only (data : List Nat) (h : data.length ≤ 8) :
    ((rlr_buffer 16 data).drop 8).take 8 = List.replicate 8 0 := by
  unfold rlr_buffer
  have e : data.take 16 = data := List.take_of_length_le (by omega)
  rw [e, List.drop_append_eq_append_drop, List.drop_of_length_le h, List.nil_append,
    List.drop_replicate, List.take_replicate]
  congr 1
  omega

/-- C32: when `scsi_report_luns` succeeds (with 8-byte header and LUN entries, a
non-zero `EIO` and `ENOTSUP` and a big-endian `_2btol`), the last call made is the REPORT LUNS
command with the final buffer size `rlrlen`, between 16 and 32, and the number
of LUNs returned is `(rlrlen - 8) / 8`, computed from the size of the buffer and
not from the list length in the data: it is at least 1 and at most 3. The list
returned is the sorted list of the entries decoded from the buffer. A device
whose answer reports a list length above 24 yields one entry, the first of its
list; a device that reports the list length 0 and sends the header only yields
the one entry 0, read from the zeroed buffer; and an entry whose first byte has
the top two bits 10b or 11b is decoded as 0. -/
theorem C32_report_luns_count (K : scsiconf_h) (hr : K.sizeof_rlr = 8) (hl : K.sizeof_lunp = 8)
    (heio : K.EIO ≠ 0) (henotsup : K.ENOTSUP ≠ 0)
    (h2 : ∀ b : List Nat, K._2btol b = big_endian (b.take 2))
    (w : scsi_world) (target : Int) (hs : (scsi_report_luns K w target).2.1 = 0) :
    (∃ (rlrlen : Nat) (rlr : List Nat),
      (scsi_report_luns K w target).1.trace.getLast? =
        some (scsi_event.scsipi_command target 0 rlrlen) ∧
      16 ≤ rlrlen ∧ rlrlen ≤ 32 ∧ rlr.length = rlrlen ∧
      (scsi_report_luns K w target).2.2.length = (rlrlen - 8) / 8 ∧
      (scsi_report_luns K w target).2.2 =
        kheapsort ((List.range ((rlrlen - 8) / 8)).map (report_luns_entry K rlr)) lun_compar) ∧
    1 ≤ (scsi_report_luns K w target).2.2.length ∧
    (scsi_report_luns K w target).2.2.length ≤ 3 ∧
    (∀ (r : Int × List Nat) (rest : List (Int × List Nat)), w.command_ret = r :: rest →
      K._4btol ((rlr_buffer 16 r.2).take 4) > 24 →
      (scsi_report_luns K w target).2.2 = [report_luns_entry K (rlr_buffer 16 r.2) 0]) ∧
    (∀ (r : Int × List Nat) (rest : List (Int × List Nat)), w.command_ret = r :: rest →
      K._4btol ((rlr_buffer 16 r.2).take 4) = 0 → r.2.length ≤ 8 →
      (scsi_report_luns K w target).2.2 = [0]) ∧
    (∀ (rlr : List Nat) (i : Nat),
      ((rlr.drop (8 + 8 * i)).take 8).getD 0 0 &&& 0xC0 ≠ 0x00 →
      ((rlr.drop (8 + 8 * i)).take 8).getD 0 0 &&& 0xC0 ≠ 0x40 →
      report_luns_entry K rlr i = 0) := by
  have hi1 : ¬ (scsipi_inquire K w target 0).2.1 ≠ 0 := by
    intro hc
    apply hc
    unfold scsi_report_luns at hs
    simp only [if_pos hc] at hs
    exact hs
  have hi2 : ¬ (scsipi_inquire K w target 0).2.2 &&& K.SID_ANSII < 3 := by
    intro hc
    unfold scsi_report_luns at hs
    simp only [if_neg hi1, if_pos hc] at hs
    exact henotsup hs
  have hmin : K.sizeof_rlr + K.sizeof_lunp * 1 = 16 := by rw [hr, hl]
  have he : ¬ (scsi_report_luns_again K target 16 w.command_ret
      (w.trace ++ [scsi_event.scsipi_inquire target 0]) 16).error ≠ 0 := by
    intro hc
    apply hc
    unfold scsi_report_luns at hs
    simp only [if_neg hi1, if_neg hi2, hmin] at hs
    simp only [scsipi_inquire] at hs
    rw [if_pos hc] at hs
    exact hs
  have eq : scsi_report_luns K w target =
      ({ (scsipi_inquire K w target 0).1 with
          command_ret := (scsi_report_luns_again K target 16 w.command_ret
            (w.trace ++ [scsi_event.scsipi_inquire target 0]) 16).command_ret
          trace := (scsi_report_luns_again K target 16 w.command_ret
            (w.trace ++ [scsi_event.scsipi_inquire target 0]) 16).trace }, 0,
        kheapsort ((List.range (((scsi_report_luns_again K target 16 w.command_ret
            (w.trace ++ [scsi_event.scsipi_inquire target 0]) 16).rlrlen - 8) / 8)).map
          (report_luns_entry K (scsi_report_luns_again K target 16 w.command_ret
            (w.trace ++ [scsi_event.scsipi_inquire target 0]) 16).rlr)) lun_compar) := by
    unfold scsi_report_luns
    simp only [if_neg hi1, if_neg hi2, hmin]
    simp only [scsipi_inquire]
    rw [if_neg he]
    simp only [hr, hl]
  obtain ⟨k1, k2, k3, k4⟩ := report_luns_again_ok K hr heio target w.command_ret
    (w.trace ++ [scsi_event.scsipi_inquire target 0]) 16 (le_refl _) (by omega)
    (not_not.mp he)
  have hlen : (scsi_report_luns K w target).2.2.length =
      ((scsi_report_luns_again K target 16 w.command_ret
        (w.trace ++ [scsi_event.scsipi_inquire target 0]) 16).rlrlen - 8) / 8 := by
    rw [eq]
    simp only [kheapsort_length, List.length_map, List.length_range]
  have once : ∀ (r : Int × List Nat) (rest : List (Int × List Nat)), w.command_ret = r :: rest →
      (K._4btol ((rlr_buffer 16 r.2).take 4) > 24 ∨ K._4btol ((rlr_buffer 16 r.2).take 4) ≤ 8) →
      (scsi_report_luns K w target).2.2 = [report_luns_entry K (rlr_buffer 16 r.2) 0] := by
    intro r rest hw hc
    have h0 : r.1 = 0 := by
      by_contra hne
      apply he
      rw [hw]
      simp only [scsi_report_luns_again, if_pos hne]
      exact hne
    rw [eq, hw, report_luns_again_once K hr target r rest _ h0 hc]
    simp [kheapsort, List.range_succ]
  refine ⟨⟨_, _, ?_, k1, k2, k3, hlen, ?_⟩, ?_, ?_, ?_, ?_, ?_⟩
  · rw [eq]
    exact k4
  · rw [eq]
  · rw [hlen]
    omega
  · rw [hlen]
    omega
  · intro r rest hw hc
    exact once r rest hw (Or.inl hc)
  · intro r rest hw hc hd
    rw [once r rest hw (Or.inr (by omega))]
    have hz : report_luns_entry K (rlr_buffer 16 r.2) 0 = 0 := by
      unfold report_luns_entry
      simp only [hr, hl, Nat.mul_zero, Nat.add_zero, rlr_buffer_header_only r.2 hd, h2]
      decide
    rw [hz]
  · intro rlr i n0 n1
    unfold report_luns_entry
    simp only [hr, hl]
    rw [if_neg n1, if_neg n0]

/-- C32 on a device that reports eight LUNs (a list length of 64) and one that
reports an empty list: one LUN is returned in each case, LUN 5 (the first entry
of the list) and LUN 0. -/
theorem C32_report_luns_count_witness :
    (K_scsi.sizeof_rlr = 8 ∧ K_scsi.sizeof_lunp = 8 ∧ K_scsi.EIO ≠ 0 ∧ K_scsi.ENOTSUP ≠ 0 ∧
      (scsi_report_luns K_scsi
        { w_scsi_luns with command_ret := [(0, report_luns_data [5, 0, 2, 1, 3, 4, 6, 7])] }
        0).2.1 = 0 ∧
      (scsi_report_luns K_scsi { w_scsi_luns with command_ret := [(0, report_luns_data [])] }
        0).2.1 = 0) ∧
    (scsi_report_luns K_scsi
      { w_scsi_luns with command_ret := [(0, report_luns_data [5, 0, 2, 1, 3, 4, 6, 7])] }
      0).2.2 = [5] ∧
    (scsi_report_luns K_scsi { w_scsi_luns with command_ret := [(0, report_luns_data [])] }
      0).2.2 = [0] :=
  have h := C32_report_luns_count K_scsi rfl rfl (by decide) (by decide) (fun _ => rfl)
    { w_scsi_luns with command_ret := [(0, report_luns_data [5, 0, 2, 1, 3, 4, 6, 7])] } 0
    (by decide)
  have h' := C32_report_luns_count K_scsi rfl rfl (by decide) (by decide) (fun _ => rfl)
    { w_scsi_luns with command_ret := [(0, report_luns_data [])] } 0 (by decide)
  ⟨by decide, (h.2.2.2.1 _ _ rfl (by decide)).trans (by decide),
    h'.2.2.2.2.1 _ _ rfl (by decide) (by decide)⟩

/-! ## C33: the retry loop of REPORT LUNS ends -/

/-- The loop at `again` started at the command number `n` with a buffer of 16 to
32 bytes is left after at most `33 - rlrlen` commands, whatever the device
answers, with the same result for every amount of fuel that covers them; the
sizes of the buffers of the commands sent increase strictly within 16 to 32, and
the exit taken is not the one with `rlr = NULL`. -/
theorem report_luns_loop_ends (K : scsiconf_h) (hr : K.sizeof_rlr = 8) (hl : K.sizeof_lunp = 8)
    (target : Int) (answers : Nat → Int × List Nat) :
    ∀ (k rlrlen n : Nat) (trace : List scsi_event), 16 ≤ rlrlen → rlrlen ≤ 32 →
      33 ≤ k + rlrlen →
      ∃ (a : report_luns_loop_t) (sizes : List Nat),
        (∀ fuel, 33 ≤ fuel + rlrlen →
          report_luns_loop K target 16 answers fuel n trace rlrlen = some a) ∧
        a.trace = trace ++ (rlrlen :: sizes).map (scsi_event.scsipi_command target 0) ∧
        a.rounds = n + sizes.length + 1 ∧
        (rlrlen :: sizes).getLast? = some a.rlrlen ∧
        List.Chain (· < ·) rlrlen sizes ∧
        (∀ s ∈ sizes, 16 ≤ s ∧ s ≤ 32) ∧
        a.rlr ≠ none ∧
        sizes.length + rlrlen ≤ 32 := by
  intro k
  induction k with
  | zero =>
    intro rlrlen n trace _ h2 h3
    omega
  | succ k ih =>
    intro rlrlen n trace h1 h2 h3
    by_cases e1 : (answers n).1 ≠ 0
    · refine ⟨⟨n + 1, trace ++ [scsi_event.scsipi_command target 0 rlrlen], (answers n).1, rlrlen,
          some (rlr_buffer rlrlen (answers n).2)⟩, [], ?_, ?_, ?_, ?_, ?_, ?_, ?_, ?_⟩
      · intro fuel hf
        obtain ⟨f, rfl⟩ : ∃ f, fuel = f + 1 := ⟨fuel - 1, by omega⟩
        simp only [report_luns_loop, if_pos e1]
      · simp
      · simp
      · simp
      · exact List.Chain.nil
      · intro s hs
        simp at hs
      · simp
      · simpa using h2
    by_cases e2 : 8 + K._4btol ((rlr_buffer rlrlen (answers n).2).take 4) > rlrlen ∧
        8 + K._4btol ((rlr_buffer rlrlen (answers n).2).take 4) ≤ 32
    · have hmin : min (K._4btol ((rlr_buffer rlrlen (answers n).2).take 4))
          (16383 * K.sizeof_lunp) = K._4btol ((rlr_buffer rlrlen (answers n).2).take 4) := by
        rw [hl]
        exact Nat.min_eq_left (by omega)
      obtain ⟨a, sizes, g1, g2, g3, g4, g5, g6, g7, g8⟩ := ih
        (8 + K._4btol ((rlr_buffer rlrlen (answers n).2).take 4)) (n + 1)
        (trace ++ [scsi_event.scsipi_command target 0 rlrlen]) (by omega) e2.2 (by omega)
      refine ⟨a, (8 + K._4btol ((rlr_buffer rlrlen (answers n).2).take 4)) :: sizes,
        ?_, ?_, ?_, ?_, ?_, ?_, g7, ?_⟩
      · intro fuel hf
        obtain ⟨f, rfl⟩ : ∃ f, fuel = f + 1 := ⟨fuel - 1, by omega⟩
        simp only [report_luns_loop, if_neg e1, hr, if_pos e2, hmin]
        rw [if_neg (by omega)]
        exact g1 f (by omega)
      · rw [g2]
        simp
      · rw [g3]
        simp only [List.length_cons]
        omega
      · rw [← g4]
        simp [List.getLast?_cons_cons]
      · exact List.Chain.cons e2.1 g5
      · intro s hs
        rcases List.mem_cons.mp hs with h | h
        · rw [h]
          omega
        · exact g6 s h
      · simp only [List.length_cons]
        omega
    · refine ⟨⟨n + 1, trace ++ [scsi_event.scsipi_command target 0 rlrlen], 0, rlrlen,
          some (rlr_buffer rlrlen (answers n).2)⟩, [], ?_, ?_, ?_, ?_, ?_, ?_, ?_, ?_⟩
      · intro fuel hf
        obtain ⟨f, rfl⟩ : ∃ f, fuel = f + 1 := ⟨fuel - 1, by omega⟩
        simp only [report_luns_loop, if_neg e1, hr, if_neg e2]
      · simp
      · simp
      · simp
      · exact List.Chain.nil
      · intro s hs
        simp at hs
      · simp
      · simpa using h2

/-- One round of the loop at `again`: it starts again exactly when the command
succeeded and the list reported needs more than the buffer and at most 32 bytes,
and then with the buffer that the list needs; otherwise the loop is left at this
command, with the buffer as it is. -/
theorem report_luns_loop_round (K : scsiconf_h) (hr : K.sizeof_rlr = 8) (hl : K.sizeof_lunp = 8)
    (target : Int) (answers : Nat → Int × List Nat) (fuel n : Nat) (trace : List scsi_event)
    (rlrlen : Nat) (h1 : 16 ≤ rlrlen) :
    (((answers n).1 = 0 ∧
        rlrlen < 8 + K._4btol ((rlr_buffer rlrlen (answers n).2).take 4) ∧
        8 + K._4btol ((rlr_buffer rlrlen (answers n).2).take 4) ≤ 32) →
      report_luns_loop K target 16 answers (fuel + 1) n trace rlrlen =
        report_luns_loop K target 16 answers fuel (n + 1)
          (trace ++ [scsi_event.scsipi_command target 0 rlrlen])
          (8 + K._4btol ((rlr_buffer rlrlen (answers n).2).take 4))) ∧
    (¬ ((answers n).1 = 0 ∧
        rlrlen < 8 + K._4btol ((rlr_buffer rlrlen (answers n).2).take 4) ∧
        8 + K._4btol ((rlr_buffer rlrlen (answers n).2).take 4) ≤ 32) →
      report_luns_loop K target 16 answers (fuel + 1) n trace rlrlen =
        some ⟨n + 1, trace ++ [scsi_event.scsipi_command target 0 rlrlen], (answers n).1, rlrlen,
          some (rlr_buffer rlrlen (answers n).2)⟩) := by
  constructor
  · rintro ⟨e1, e2, e3⟩
    have hmin : min (K._4btol ((rlr_buffer rlrlen (answers n).2).take 4))
        (16383 * K.sizeof_lunp) = K._4btol ((rlr_buffer rlrlen (answers n).2).take 4) := by
      rw [hl]
      exact Nat.min_eq_left (by omega)
    simp only [report_luns_loop, hr, hmin]
    rw [if_neg (not_not.mpr e1), if_pos ⟨e2, e3⟩, if_neg (by omega)]
  · intro hn
    simp only [report_luns_loop, hr]
    by_cases e1 : (answers n).1 = 0
    · rw [if_neg (not_not.mpr e1), if_neg (fun hc => hn ⟨e1, hc.1, hc.2⟩), e1]
    · rw [if_pos e1]

/-- With the answers of a device given as a list, the loop at `again` of the
model of `scsi_report_luns` makes the same calls and ends with the same error
and buffer as the loop with a device that answers every command, as long as the
list holds the answers the loop takes. -/
theorem report_luns_again_of_loop (K : scsiconf_h) (target : Int) (rlrlenmin : Nat)
    (answers : Nat → Int × List Nat) :
    ∀ (fuel n : Nat) (trace : List scsi_event) (rlrlen : Nat) (a : report_luns_loop_t),
      report_luns_loop K target rlrlenmin answers fuel n trace rlrlen = some a →
      ∀ rest : List (Int × List Nat),
        scsi_report_luns_again K target rlrlenmin
          ((List.range' n (a.rounds - n)).map answers ++ rest) trace rlrlen =
        { command_ret := rest, trace := a.trace, error := a.error, rlrlen := a.rlrlen,
          rlr := a.rlr.getD [] } ∧ n < a.rounds := by
  intro fuel
  induction fuel with
  | zero =>
    intro n trace rlrlen a h
    simp [report_luns_loop] at h
  | succ f ih =>
    intro n trace rlrlen a h rest
    simp only [report_luns_loop] at h
    by_cases e1 : (answers n).1 ≠ 0
    · rw [if_pos e1] at h
      have ha := (Option.some.inj h).symm
      subst ha
      simp [List.range'_succ, scsi_report_luns_again, e1]
    rw [if_neg e1] at h
    by_cases e2 : K.sizeof_rlr + K._4btol ((rlr_buffer rlrlen (answers n).2).take 4) > rlrlen ∧
        K.sizeof_rlr + K._4btol ((rlr_buffer rlrlen (answers n).2).take 4) ≤ 32
    · rw [if_pos e2] at h
      by_cases e3 : K.sizeof_rlr + min (K._4btol ((rlr_buffer rlrlen (answers n).2).take 4))
          (16383 * K.sizeof_lunp) < rlrlenmin
      · rw [if_pos e3] at h
        have ha := (Option.some.inj h).symm
        subst ha
        simp [List.range'_succ, scsi_report_luns_again, e1, e2, e3]
      · rw [if_neg e3] at h
        obtain ⟨g1, g2⟩ := ih _ _ _ a h rest
        have hr : a.rounds - n = (a.rounds - (n + 1)) + 1 := by omega
        rw [hr, List.range'_succ]
        simp only [List.map_cons, List.cons_append, scsi_report_luns_again, if_neg e1, if_pos e2,
          if_neg e3]
        exact ⟨g1, by omega⟩
    · rw [if_neg e2] at h
      have ha := (Option.some.inj h).symm
      subst ha
      simp [List.range'_succ, scsi_report_luns_again, e1, e2]

/-- C33: the loop at the label `again` of `scsi_report_luns` (8-byte header and
LUN entries, so that the first buffer has 16 bytes), with a device that answers
every command, whatever it answers: the loop is left after at most 17 commands,
with the same result for every amount of fuel from 17 on. The buffer sizes of
the commands sent start at 16, increase strictly and stay within 16 to 32, and
the last of them is the final `rlrlen`; the exit taken is not the `EIO` exit,
at which `rlr` is `NULL`. A round starts the loop again exactly when the command
succeeded and the list reported needs more than the buffer and at most 32 bytes
together with the header, and then with a buffer of just that size; otherwise it
leaves the loop. The loop of the model of `scsi_report_luns`, which takes the
answers from a list, gives the same calls, error and buffer on the answers
taken. -/
theorem C33_report_luns_loop_terminates (K : scsiconf_h) (hr : K.sizeof_rlr = 8)
    (hl : K.sizeof_lunp = 8) (target : Int) (answers : Nat → Int × List Nat)
    (trace : List scsi_event) :
    ∃ (a : report_luns_loop_t) (sizes : List Nat),
      (∀ fuel, 17 ≤ fuel → report_luns_loop K target 16 answers fuel 0 trace 16 = some a) ∧
      a.rounds = sizes.length ∧ 1 ≤ a.rounds ∧ a.rounds ≤ 17 ∧
      a.trace = trace ++ sizes.map (scsi_event.scsipi_command target 0) ∧
      sizes.head? = some 16 ∧ sizes.getLast? = some a.rlrlen ∧
      List.Chain' (· < ·) sizes ∧
      (∀ s ∈ sizes, 16 ≤ s ∧ s ≤ 32) ∧
      16 ≤ a.rlrlen ∧ a.rlrlen ≤ 32 ∧
      a.rlr ≠ none ∧
      (∀ (fuel n : Nat) (tr : List scsi_event) (rlrlen : Nat), 16 ≤ rlrlen →
        (((answers n).1 = 0 ∧
            rlrlen < 8 + K._4btol ((rlr_buffer rlrlen (answers n).2).take 4) ∧
            8 + K._4btol ((rlr_buffer rlrlen (answers n).2).take 4) ≤ 32) →
          report_luns_loop K target 16 answers (fuel + 1) n tr rlrlen =
            report_luns_loop K target 16 answers fuel (n + 1)
              (tr ++ [scsi_event.scsipi_command target 0 rlrlen])
              (8 + K._4btol ((rlr_buffer rlrlen (answers n).2).take 4))) ∧
        (¬ ((answers n).1 = 0 ∧
            rlrlen < 8 + K._4btol ((rlr_buffer rlrlen (answers n).2).take 4) ∧
            8 + K._4btol ((rlr_buffer rlrlen (answers n).2).take 4) ≤ 32) →
          report_luns_loop K target 16 answers (fuel + 1) n tr rlrlen =
            some ⟨n + 1, tr ++ [scsi_event.scsipi_command target 0 rlrlen], (answers n).1,
              rlrlen, some (rlr_buffer rlrlen (answers n).2)⟩)) ∧
      (∀ rest : List (Int × List Nat),
        scsi_report_luns_again K target (K.sizeof_rlr + K.sizeof_lunp * 1)
          ((List.range a.rounds).map answers ++ rest) trace
          (K.sizeof_rlr + K.sizeof_lunp * 1) =
        { command_ret := rest, trace := a.trace, error := a.error, rlrlen := a.rlrlen,
          rlr := a.rlr.getD [] }) := by
  obtain ⟨a, sizes, g1, g2, g3, g4, g5, g6, g7, g8⟩ :=
    report_luns_loop_ends K hr hl target answers 17 16 0 trace (le_refl _) (by omega) (by omega)
  have hmem : a.rlrlen ∈ 16 :: sizes := List.mem_of_mem_getLast? g4
  have hb : 16 ≤ a.rlrlen ∧ a.rlrlen ≤ 32 := by
    rcases List.mem_cons.mp hmem with h | h
    · omega
    · exact g6 _ h
  refine ⟨a, 16 :: sizes, fun fuel hf => g1 fuel (by omega), ?_, ?_, ?_, g2, rfl, g4,
    g5, ?_, hb.1, hb.2, g7, ?_, ?_⟩
  · rw [g3]
    simp
  · omega
  · rw [g3]
    omega
  · intro s hs
    rcases List.mem_cons.mp hs with h | h
    · omega
    · exact g6 _ h
  · intro fuel n tr rlrlen h
    exact report_luns_loop_round K hr hl target answers fuel n tr rlrlen h
  · intro rest
    have h := (report_luns_again_of_loop K target 16 answers 17 0 trace 16 a
      (g1 17 (by omega)) rest).1
    rw [hr, hl]
    simpa [List.range_eq_range'] using h

/-- C33 on the device `answers_one_more`, which at every command reports a list
one byte longer than the buffer holds: the loop is left at the command 17, which
has the buffer size 32, without error; 16 rounds do not suffice. -/
theorem C33_report_luns_loop_terminates_witness :
    (K_scsi.sizeof_rlr = 8 ∧ K_scsi.sizeof_lunp = 8) ∧
    (∃ (a : report_luns_loop_t) (sizes : List Nat),
      (∀ fuel, 17 ≤ fuel →
        report_luns_loop K_scsi 0 16 answers_one_more fuel 0 [] 16 = some a) ∧
      a.rounds = sizes.length ∧ List.Chain' (· < ·) sizes ∧ a.rlr ≠ none) ∧
    (report_luns_loop K_scsi 0 16 answers_one_more 17 0 [] 16).map
      (fun a => (a.rounds, a.error, a.rlrlen)) = some (17, 0, 32) ∧
    report_luns_loop K_scsi 0 16 answers_one_more 16 0 [] 16 = none := by
  obtain ⟨a, sizes, h1, h2, _, _, _, _, _, h8, _, _, _, h12, _⟩ :=
    C33_report_luns_loop_terminates K_scsi rfl rfl 0 answers_one_more []
  exact ⟨⟨rfl, rfl⟩, ⟨a, sizes, h1, h2, h8, h12⟩, by decide, by decide⟩

/-! ## C34: the REQUEST SENSE command -/

/-- C34: for the wire status `STATUS_CMD_FAILED` or `STATUS_CMD_UNKNOWN`,
`umass_scsipi_cb` returns after one call of the wire method with the command
`scbus->sc_sense_cmd`, data-in into `xs->sense`. The command has the opcode
`SCSI_REQUEST_SENSE`, `byte2` the low eight bits of
`lun << SCSI_CMD_LUN_SHIFT` (the value itself when it fits a byte), the sense
length in `length`, and zero in its other bytes. The command length handed to the
wire method is 12 (`UFI_COMMAND_LENGTH`) when the command protocol is UFI or
ATAPI and `sizeof(struct scsi_request_sense)` otherwise; the sense length, which
is the field `length` of the command and the data length of the call, is 18 when
`periph_version < 4` and `sizeof(xs->sense)` otherwise. `sc_sense` is 1 when the
function returns, and 0 after `umass_scsipi_sense_cb` has run. The opcode and
`sizeof(xs->sense)` are taken to fit in a byte, as the fields of the command
are bytes. -/
theorem C34_request_sense_command (K : scsipi_h) (w : scsipi_world) (residue status : Int)
    (hs : status = STATUS_CMD_FAILED ∨ status = STATUS_CMD_UNKNOWN)
    (hop : K.SCSI_REQUEST_SENSE < 256)
    (hsz : 0 ≤ K.sizeof_xs_sense ∧ K.sizeof_xs_sense < 256) :
    ∃ (w' : scsipi_world) (cmdlen senselen : Int),
      umass_scsipi_cb K w residue status = some w' ∧
      cmdlen = (if w.sc.sc_cmd = UMASS_CPROTO_UFI ∨ w.sc.sc_cmd = UMASS_CPROTO_ATAPI then 12
        else K.sizeof_scsi_request_sense) ∧
      senselen = (if w.xs.xs_periph.periph_version < 4 then 18 else K.sizeof_xs_sense) ∧
      w'.sc_sense_cmd =
        { opcode := K.SCSI_REQUEST_SENSE
          byte2 := ((w.xs.xs_periph.periph_lun * 2 ^ K.SCSI_CMD_LUN_SHIFT) % 256).toNat
          unused0 := 0
          unused1 := 0
          length := senselen.toNat
          control := 0 } ∧
      ((0 ≤ w.xs.xs_periph.periph_lun ∧
          w.xs.xs_periph.periph_lun * 2 ^ K.SCSI_CMD_LUN_SHIFT < 256) →
        (w'.sc_sense_cmd.byte2 : Int) = w.xs.xs_periph.periph_lun * 2 ^ K.SCSI_CMD_LUN_SHIFT) ∧
      (w'.sc_sense_cmd.length : Int) = senselen ∧
      w'.calls = w.calls ++ [scsipi_call.wire_xfer w.xs.xs_periph.periph_lun
        (wire_cmd.sc_sense_cmd w'.sc_sense_cmd) cmdlen wire_data.xs_sense senselen DIR_IN
        (u_int_of_int w.xs.timeout) 0 umass_callback.umass_scsipi_sense_cb] ∧
      w'.sc.sc_sense = 1 ∧
      ∀ r s : Int, (umass_scsipi_sense_cb K w' r s).sc.sc_sense = 0 := by
  have h0 : status ≠ STATUS_CMD_OK := by
    rcases hs with h | h <;> rw [h] <;> decide
  have h1 : status = STATUS_CMD_UNKNOWN ∨ status = STATUS_CMD_FAILED := hs.symm
  have hsl : 0 ≤ (if w.xs.xs_periph.periph_version < 4 then (18 : Int) else K.sizeof_xs_sense) ∧
      (if w.xs.xs_periph.periph_version < 4 then (18 : Int) else K.sizeof_xs_sense) < 256 := by
    split_ifs
    · omega
    · exact hsz
  have hmod : ((if w.xs.xs_periph.periph_version < 4 then (18 : Int) else K.sizeof_xs_sense)
      % 256).toNat =
      (if w.xs.xs_periph.periph_version < 4 then (18 : Int) else K.sizeof_xs_sense).toNat := by
    rw [Int.emod_eq_of_lt hsl.1 hsl.2]
  refine ⟨({ w with
      xs := { w.xs with resid := residue }
      sc := { w.sc with sc_sense := 1 }
      sc_sense_cmd := request_sense_cmd K { w.xs with resid := residue }
        (if w.xs.xs_periph.periph_version < 4 then 18 else K.sizeof_xs_sense) } :
        scsipi_world).log
      (scsipi_call.wire_xfer w.xs.xs_periph.periph_lun
        (wire_cmd.sc_sense_cmd (request_sense_cmd K { w.xs with resid := residue }
          (if w.xs.xs_periph.periph_version < 4 then 18 else K.sizeof_xs_sense)))
        (if w.sc.sc_cmd = UMASS_CPROTO_UFI ∨ w.sc.sc_cmd = UMASS_CPROTO_ATAPI then
          UFI_COMMAND_LENGTH else K.sizeof_scsi_request_sense)
        wire_data.xs_sense (if w.xs.xs_periph.periph_version < 4 then 18 else K.sizeof_xs_sense)
        DIR_IN (u_int_of_int w.xs.timeout) 0 umass_callback.umass_scsipi_sense_cb),
    (if w.sc.sc_cmd = UMASS_CPROTO_UFI ∨ w.sc.sc_cmd = UMASS_CPROTO_ATAPI then 12
      else K.sizeof_scsi_request_sense),
    (if w.xs.xs_periph.periph_version < 4 then 18 else K.sizeof_xs_sense),
    ?_, rfl, rfl, ?_, ?_, ?_, ?_, ?_, ?_⟩
  · unfold umass_scsipi_cb
    simp only [if_neg h0, if_pos h1]
  · simp only [scsipi_world.log, request_sense_cmd, hmod, Nat.mod_eq_of_lt hop]
  · intro hl
    simp only [scsipi_world.log, request_sense_cmd]
    have hp : 0 ≤ w.xs.xs_periph.periph_lun * 2 ^ K.SCSI_CMD_LUN_SHIFT :=
      Int.mul_nonneg hl.1 (pow_nonneg (by decide) _)
    rw [Int.emod_eq_of_lt hp hl.2, Int.toNat_of_nonneg hp]
  · simp only [scsipi_world.log, request_sense_cmd, hmod]
    exact Int.toNat_of_nonneg hsl.1
  · simp only [scsipi_world.log, UFI_COMMAND_LENGTH]
  · rfl
  · intro r s
    simp only [umass_scsipi_sense_cb, scsipi_done, scsipi_world.log, scsipi_world.set_error]
    split_ifs <;> rfl

/-- C34 on the session `w_scsipi xs_read` (command protocol SCSI, LUN 0, SCSI
version 2), whose read ended with `STATUS_CMD_FAILED`: the wire method is called
with the 6-byte command 03 00 00 00 12 00 and a data length of 18. -/
theorem C34_request_sense_command_witness :
    ((STATUS_CMD_FAILED = STATUS_CMD_FAILED ∨ STATUS_CMD_FAILED = STATUS_CMD_UNKNOWN) ∧
      K_scsipi.SCSI_REQUEST_SENSE < 256 ∧
      (0 ≤ K_scsipi.sizeof_xs_sense ∧ K_scsipi.sizeof_xs_sense < 256)) ∧
    ∃ w' : scsipi_world, umass_scsipi_cb K_scsipi (w_scsipi xs_read) 512 STATUS_CMD_FAILED =
        some w' ∧
      w'.calls = [scsipi_call.wire_xfer 0
        (wire_cmd.sc_sense_cmd { opcode := 0x03, byte2 := 0, unused0 := 0, unused1 := 0,
                                 length := 18, control := 0 })
        6 wire_data.xs_sense 18 DIR_IN 10000 0 umass_callback.umass_scsipi_sense_cb] ∧
      w'.sc.sc_sense = 1 := by
  obtain ⟨w', cmdlen, senselen, h1, h2, h3, h4, _, _, h7, h8, _⟩ :=
    C34_request_sense_command K_scsipi (w_scsipi xs_read) 512 STATUS_CMD_FAILED
      (Or.inl rfl) (by decide) (by decide)
  refine ⟨by decide, w', h1, ?_, h8⟩
  rw [h7, h4, h2, h3]
  decide

/-! ## C35 to C39: the CBI data phase, status phase and reset -/

/-- C35 (amended): a CBI command with a data phase (`DIR_IN` or `DIR_OUT`) on a
session that is and stays live, with nothing else in flight and a transport that
accepts the transfers, whose command block completes normally. When the data
transfer completes with `USBD_STALLED` the state is CBI_DCLEAR and the one
control request added is CLEAR_FEATURE(ENDPOINT_HALT) for the endpoint of the
data pipe (bulk-in for `DIR_IN`, bulk-out for `DIR_OUT`), with no callback yet.
When that request completes normally the command ends: the callback is called
once with `STATUS_CMD_FAILED` and residue `datalen`, the session is idle with
nothing in flight, and no status transfer was submitted (the transfers are the
command block, the data transfer and the clear request). When the data transfer
completes with any other error except `USBD_CANCELLED`, the CBI reset protocol
is started with `STATUS_WIRE_FAILED`: state CBI_RESET1, stored status
`STATUS_WIRE_FAILED`, the reset request submitted and no callback yet. -/
theorem C35_cbi_data_stall_ends_with_cmd_failed (K : usb_h) (w : World) (lun : Int)
    (cmd : List Nat) (cmdlen : Int) (data : Nat) (datalen dir : Int)
    (timeout flags cb priv : Nat) (c1 c2 c3 c2e : Completion)
    (hdir : dir = DIR_IN ∨ dir = DIR_OUT)
    (hlive : w.sc.sc_dying = false) (hinf : w.inflight = []) (hacc : w.usbd_transfer_ret = [])
    (h1 : c1.err = usbd_status.USBD_NORMAL_COMPLETION) (h1d : c1.dying = false)
    (h2 : c2.err = usbd_status.USBD_STALLED) (h2d : c2.dying = false)
    (h3 : c3.err = usbd_status.USBD_NORMAL_COMPLETION) (h3d : c3.dying = false)
    (he1 : c2e.err ≠ usbd_status.USBD_STALLED)
    (he2 : c2e.err ≠ usbd_status.USBD_NORMAL_COMPLETION)
    (he3 : c2e.err ≠ usbd_status.USBD_CANCELLED) (hed : c2e.dying = false) :
    ((cbi_run K (umass_cbi_transfer K w lun cmd cmdlen data datalen dir timeout flags cb priv)
        [c1, c2]).sc.transfer_state = TSTATE_CBI_DCLEAR ∧
      ctrl_requests (cbi_run K
        (umass_cbi_transfer K w lun cmd cmdlen data datalen dir timeout flags cb priv)
        [c1, c2]).trace =
          ctrl_requests
            (umass_cbi_transfer K w lun cmd cmdlen data datalen dir timeout flags cb priv).trace
            ++ [clear_halt_request K w.sc (data_pipe dir)] ∧
      submissions (cbi_run K
        (umass_cbi_transfer K w lun cmd cmdlen data datalen dir timeout flags cb priv)
        [c1, c2]).trace = submissions w.trace ++
          [XFER_CBI_CB, cbi_data_xfer dir, XFER_CBI_DCLEAR] ∧
      callbacks (cbi_run K
        (umass_cbi_transfer K w lun cmd cmdlen data datalen dir timeout flags cb priv)
        [c1, c2]).trace = callbacks w.trace) ∧
    (callbacks (cbi_run K
        (umass_cbi_transfer K w lun cmd cmdlen data datalen dir timeout flags cb priv)
        [c1, c2, c3]).trace = callbacks w.trace ++ [(cb, priv, datalen, STATUS_CMD_FAILED)] ∧
      (cbi_run K (umass_cbi_transfer K w lun cmd cmdlen data datalen dir timeout flags cb priv)
        [c1, c2, c3]).sc.transfer_state = TSTATE_IDLE ∧
      (cbi_run K (umass_cbi_transfer K w lun cmd cmdlen data datalen dir timeout flags cb priv)
        [c1, c2, c3]).inflight = [] ∧
      submissions (cbi_run K
        (umass_cbi_transfer K w lun cmd cmdlen data datalen dir timeout flags cb priv)
        [c1, c2, c3]).trace = submissions w.trace ++
          [XFER_CBI_CB, cbi_data_xfer dir, XFER_CBI_DCLEAR]) ∧
    ((cbi_run K (umass_cbi_transfer K w lun cmd cmdlen data datalen dir timeout flags cb priv)
        [c1, c2e]).sc.transfer_state = TSTATE_CBI_RESET1 ∧
      (cbi_run K (umass_cbi_transfer K w lun cmd cmdlen data datalen dir timeout flags cb priv)
        [c1, c2e]).sc.transfer_status = STATUS_WIRE_FAILED ∧
      submissions (cbi_run K
        (umass_cbi_transfer K w lun cmd cmdlen data datalen dir timeout flags cb priv)
        [c1, c2e]).trace = submissions w.trace ++
          [XFER_CBI_CB, cbi_data_xfer dir, XFER_CBI_RESET1] ∧
      callbacks (cbi_run K
        (umass_cbi_transfer K w lun cmd cmdlen data datalen dir timeout flags cb priv)
        [c1, c2e]).trace = callbacks w.trace) := by
  by_cases hm : w.sc.sc_methods = K.UMASS_BBB <;> rcases hdir with hdir | hdir <;>
  simp [cbi_run, umass_cbi_transfer, cbi_send_cb, umass_cbi_adsc, cbi_transfer_store, hm,
    cbi_complete, hinf, umass_cbi_state, cbi_case_COMMAND, cbi_case_DATA, cbi_case_CLEAR,
    h1, h1d, h2, h2d, h3, h3d, he1, he2, he3, hed, hlive, World.set_state, umass_setup_transfer,
    usbd_transfer, hacc, umass_cbi_reset,
    World.log, umass_clear_endpoint_stall, umass_setup_ctrl_transfer, clear_halt_request,
    data_pipe, cbi_data_xfer, hdir,
    umass_transfer_done, callbacks_append, callbacks, ctrl_requests_append, ctrl_requests,
    submissions_append, submissions,
    TSTATE_CBI_COMMAND, TSTATE_CBI_DATA, TSTATE_CBI_DCLEAR, TSTATE_CBI_STATUS,
    TSTATE_CBI_SCLEAR, TSTATE_CBI_RESET1, TSTATE_IDLE, DIR_IN, DIR_NONE, DIR_OUT]

/-- C35 (amended) on a 512-byte read of the plain CBI session `w_cbi` whose data
transfer stalls after 100 bytes: the clear request is for the bulk-in endpoint
0x81, and after its normal completion the callback gets `STATUS_CMD_FAILED` with
residue 512. -/
theorem C35_cbi_data_stall_ends_with_cmd_failed_witness :
    ((DIR_IN = DIR_IN ∨ DIR_IN = DIR_OUT) ∧ w_cbi.sc.sc_dying = false ∧ w_cbi.inflight = [] ∧
      w_cbi.usbd_transfer_ret = []) ∧
    callbacks (cbi_run K_std
        (umass_cbi_transfer K_std w_cbi 0 [0x28, 0, 0, 0, 0, 0, 0, 0, 1, 0, 0, 0] 12 0x1000 512
          DIR_IN 1000 0 7 9)
        [completion usbd_status.USBD_NORMAL_COMPLETION 12,
         completion usbd_status.USBD_STALLED 100,
         completion usbd_status.USBD_NORMAL_COMPLETION 0]).trace =
      [(7, 9, 512, STATUS_CMD_FAILED)] ∧
    (cbi_run K_std
        (umass_cbi_transfer K_std w_cbi 0 [0x28, 0, 0, 0, 0, 0, 0, 0, 1, 0, 0, 0] 12 0x1000 512
          DIR_IN 1000 0 7 9)
        [completion usbd_status.USBD_NORMAL_COMPLETION 12,
         completion usbd_status.USBD_IOERROR 0]).sc.transfer_state = TSTATE_CBI_RESET1 :=
  have h := C35_cbi_data_stall_ends_with_cmd_failed K_std w_cbi 0
    [0x28, 0, 0, 0, 0, 0, 0, 0, 1, 0, 0, 0] 12 0x1000 512 DIR_IN 1000 0 7 9
    (completion usbd_status.USBD_NORMAL_COMPLETION 12) (completion usbd_status.USBD_STALLED 100)
    (completion usbd_status.USBD_NORMAL_COMPLETION 0) (completion usbd_status.USBD_IOERROR 0)
    (by decide) (by decide) (by decide) (by decide) (by decide) (by decide) (by decide)
    (by decide) (by decide) (by decide) (by decide) (by decide) (by decide) (by decide)
  ⟨by decide, h.2.1.1, h.2.2.1⟩

/-- C35 as stated fails on the code. On the CBI+CCI session `w_cbi_i_data` and on
the plain CBI session `w_cbi_data`, both in the data phase of a 512-byte read,
the data transfer stalls and the clear request completes normally: the command
is ended there with `STATUS_CMD_FAILED` and residue 512. For CBI+CCI the claim
has the interrupt status read submitted instead (`XFER_CBI_STATUS`, state
CBI_STATUS): it is not among the transfers submitted and the state is IDLE. For
plain CBI the claim has the report `STATUS_CMD_UNKNOWN`: the status delivered is
`STATUS_CMD_FAILED`. And a data transfer that completes with the error
`USBD_CANCELLED` starts no reset: the command ends with `STATUS_TIMEOUT`. -/
theorem C35_clear_completion_ends_the_command :
    (w_cbi_i_data.sc.transfer_state = TSTATE_CBI_DATA ∧
      w_cbi_i_data.sc.sc_wire = UMASS_WPROTO_CBI_I ∧
      (cbi_run K_std w_cbi_i_data [completion usbd_status.USBD_STALLED 0]).sc.transfer_state =
        TSTATE_CBI_DCLEAR ∧
      callbacks (cbi_run K_std w_cbi_i_data [completion usbd_status.USBD_STALLED 0,
        completion usbd_status.USBD_NORMAL_COMPLETION 0]).trace =
          [(7, 9, 512, STATUS_CMD_FAILED)] ∧
      (cbi_run K_std w_cbi_i_data [completion usbd_status.USBD_STALLED 0,
        completion usbd_status.USBD_NORMAL_COMPLETION 0]).sc.transfer_state = TSTATE_IDLE ∧
      XFER_CBI_STATUS ∉ submissions (cbi_run K_std w_cbi_i_data
        [completion usbd_status.USBD_STALLED 0,
         completion usbd_status.USBD_NORMAL_COMPLETION 0]).trace) ∧
    (w_cbi_data.sc.transfer_state = TSTATE_CBI_DATA ∧
      w_cbi_data.sc.sc_wire = UMASS_WPROTO_CBI ∧
      callbacks (cbi_run K_std w_cbi_data [completion usbd_status.USBD_STALLED 0,
        completion usbd_status.USBD_NORMAL_COMPLETION 0]).trace =
          [(7, 9, 512, STATUS_CMD_FAILED)] ∧
      STATUS_CMD_FAILED ≠ STATUS_CMD_UNKNOWN) ∧
    (callbacks (cbi_run K_std w_cbi_data [completion usbd_status.USBD_CANCELLED 0]).trace =
        [(7, 9, 0, STATUS_TIMEOUT)] ∧
      (cbi_run K_std w_cbi_data [completion usbd_status.USBD_CANCELLED 0]).sc.transfer_state =
        TSTATE_IDLE ∧
      submissions (cbi_run K_std w_cbi_data [completion usbd_status.USBD_CANCELLED 0]).trace =
        submissions w_cbi_data.trace) := by
  decide

/-- C36 (amended): the session is in state CBI_STATUS (reached by CBI+CCI devices
only) with the command protocol UFI, it is and stays live, and the interrupt
status read in flight completes normally with an actual length of 2. Then the
command ends: the callback is called once with residue `datalen - actlen`, the
session is idle and the transfer has left the list of those in flight. The
status is `STATUS_CMD_OK` exactly when ASC and ASCQ (the two bytes of the block)
are both 0 or a sense fetch is in progress (`sc_sense` is not 0), and
`STATUS_CMD_FAILED` otherwise. -/
theorem C36_ufi_status_block (K : usb_h) (w : World) (c : Completion) (x : Nat)
    (rest : List Nat)
    (hlive : w.sc.sc_dying = false) (hcd : c.dying = false)
    (hst : w.sc.transfer_state = TSTATE_CBI_STATUS) (hufi : w.sc.sc_cmd = UMASS_CPROTO_UFI)
    (hinf : w.inflight = x :: rest)
    (herr : c.err = usbd_status.USBD_NORMAL_COMPLETION) (hlen : c.actlen = 2) :
    ∃ status : Int,
      callbacks (cbi_complete K w c).trace = callbacks w.trace ++
        [(w.sc.transfer_cb, w.sc.transfer_priv,
          w.sc.transfer_datalen - w.sc.transfer_actlen, status)] ∧
      (status = STATUS_CMD_OK ↔
        (c.sbl.byte0 = 0 ∧ c.sbl.byte1 = 0) ∨ w.sc.sc_sense ≠ 0) ∧
      (status = STATUS_CMD_FAILED ↔
        ¬ ((c.sbl.byte0 = 0 ∧ c.sbl.byte1 = 0) ∨ w.sc.sc_sense ≠ 0)) ∧
      (cbi_complete K w c).sc.transfer_state = TSTATE_IDLE ∧
      (cbi_complete K w c).inflight = rest ∧
      submissions (cbi_complete K w c).trace = submissions w.trace := by
  refine ⟨if (c.sbl.byte0 = 0 ∧ c.sbl.byte1 = 0) ∨ w.sc.sc_sense ≠ 0 then STATUS_CMD_OK
    else STATUS_CMD_FAILED, ?_, ?_, ?_, ?_, ?_, ?_⟩
  · simp [cbi_complete, hinf, umass_cbi_state, herr, hlive, hcd, hst, hufi, hlen, cbi_case_STATUS,
      umass_transfer_done, World.log, World.set_state, callbacks_append, callbacks,
      TSTATE_CBI_COMMAND, TSTATE_CBI_DATA, TSTATE_CBI_STATUS]
  · by_cases h : (c.sbl.byte0 = 0 ∧ c.sbl.byte1 = 0) ∨ w.sc.sc_sense ≠ 0
    · simp [h]
    · simp [h, STATUS_CMD_OK, STATUS_CMD_FAILED]
  · by_cases h : (c.sbl.byte0 = 0 ∧ c.sbl.byte1 = 0) ∨ w.sc.sc_sense ≠ 0
    · simp [h, STATUS_CMD_OK, STATUS_CMD_FAILED]
    · simp [h]
  · simp [cbi_complete, hinf, umass_cbi_state, herr, hlive, hcd, hst, hufi, hlen, cbi_case_STATUS,
      umass_transfer_done, World.log, World.set_state,
      TSTATE_CBI_COMMAND, TSTATE_CBI_DATA, TSTATE_CBI_STATUS]
  · simp [cbi_complete, hinf, umass_cbi_state, herr, hlive, hcd, hst, hufi, hlen, cbi_case_STATUS,
      umass_transfer_done, World.log, World.set_state,
      TSTATE_CBI_COMMAND, TSTATE_CBI_DATA, TSTATE_CBI_STATUS]
  · simp [cbi_complete, hinf, umass_cbi_state, herr, hlive, hcd, hst, hufi, hlen, cbi_case_STATUS,
      umass_transfer_done, World.log, World.set_state, submissions_append, submissions,
      TSTATE_CBI_COMMAND, TSTATE_CBI_DATA, TSTATE_CBI_STATUS]

/-- C36 (amended) on the session `w_cbi_i_sense_status`, whose status block
carries ASC 0x3a and ASCQ 0 while sense data are fetched: the status delivered is
`STATUS_CMD_OK`, with residue 0. -/
theorem C36_ufi_status_block_witness :
    (w_cbi_i_sense_status.sc.sc_dying = false ∧
      w_cbi_i_sense_status.sc.transfer_state = TSTATE_CBI_STATUS ∧
      w_cbi_i_sense_status.sc.sc_cmd = UMASS_CPROTO_UFI ∧
      w_cbi_i_sense_status.inflight = [XFER_CBI_STATUS]) ∧
    ∃ status : Int,
      callbacks (cbi_complete K_std w_cbi_i_sense_status (completion_sbl 0x3a 0)).trace =
        callbacks w_cbi_i_sense_status.trace ++ [(7, 9, 18 - 18, status)] ∧
      status = STATUS_CMD_OK := by
  obtain ⟨s, h1, h2, _⟩ := C36_ufi_status_block K_std w_cbi_i_sense_status
    (completion_sbl 0x3a 0) XFER_CBI_STATUS [] (by decide) (by decide) (by decide) (by decide)
    (by decide) (by decide) (by decide)
  exact ⟨by decide, s, h1, h2.2 (Or.inr (by decide))⟩

/-- C36 as stated fails on the code: on the CBI+CCI session
`w_cbi_i_sense_status` with the command protocol UFI, in state CBI_STATUS while
sense data are fetched (`sc_sense` is 1), a 2-byte status block with ASC 0x3a
and ASCQ 0 ends the command with `STATUS_CMD_OK`, although ASC is not 0. -/
theorem C36_status_ok_during_sense_fetch :
    w_cbi_i_sense_status.sc.sc_wire = UMASS_WPROTO_CBI_I ∧
    w_cbi_i_sense_status.sc.sc_cmd = UMASS_CPROTO_UFI ∧
    w_cbi_i_sense_status.sc.transfer_state = TSTATE_CBI_STATUS ∧
    w_cbi_i_sense_status.sc.sc_sense = 1 ∧
    (completion_sbl 0x3a 0).actlen = 2 ∧ (completion_sbl 0x3a 0).sbl.byte0 ≠ 0 ∧
    callbacks (cbi_complete K_std w_cbi_i_sense_status (completion_sbl 0x3a 0)).trace =
      [(7, 9, 0, STATUS_CMD_OK)] ∧
    STATUS_CMD_OK ≠ STATUS_CMD_FAILED := by
  decide

/-- C37: the session is in state CBI_STATUS (reached by CBI+CCI devices only) with
a command protocol other than UFI, it is and stays live, and the interrupt status
read in flight completes normally with an actual length of 2. Then the command
ends: the callback is called once, the session is idle, the transfer has left
the list of those in flight and nothing is submitted. When the type byte of the
block is `IDB_TYPE_CCI` (0x00), the residue is `datalen - actlen` and the status
follows the value byte masked with 0x03, which is one of 0, 1, 2, 3: 0 gives
`STATUS_CMD_OK`, 1 and 3 give `STATUS_CMD_FAILED`, 2 gives `STATUS_WIRE_FAILED`.
With any other type byte the status is `STATUS_WIRE_FAILED` and the residue is
`datalen`. -/
theorem C37_cci_status_block (K : usb_h) (w : World) (c : Completion) (x : Nat)
    (rest : List Nat)
    (hlive : w.sc.sc_dying = false) (hcd : c.dying = false)
    (hst : w.sc.transfer_state = TSTATE_CBI_STATUS) (hufi : w.sc.sc_cmd ≠ UMASS_CPROTO_UFI)
    (hinf : w.inflight = x :: rest)
    (herr : c.err = usbd_status.USBD_NORMAL_COMPLETION) (hlen : c.actlen = 2) :
    (c.sbl.byte0 = 0x00 →
      (c.sbl.byte1 &&& 0x03 = 0 ∨ c.sbl.byte1 &&& 0x03 = 1 ∨ c.sbl.byte1 &&& 0x03 = 2 ∨
        c.sbl.byte1 &&& 0x03 = 3) ∧
      callbacks (cbi_complete K w c).trace = callbacks w.trace ++
        [(w.sc.transfer_cb, w.sc.transfer_priv, w.sc.transfer_datalen - w.sc.transfer_actlen,
          if c.sbl.byte1 &&& 0x03 = 0 then STATUS_CMD_OK
          else if c.sbl.byte1 &&& 0x03 = 1 ∨ c.sbl.byte1 &&& 0x03 = 3 then STATUS_CMD_FAILED
          else STATUS_WIRE_FAILED)]) ∧
    (c.sbl.byte0 ≠ 0x00 →
      callbacks (cbi_complete K w c).trace = callbacks w.trace ++
        [(w.sc.transfer_cb, w.sc.transfer_priv, w.sc.transfer_datalen, STATUS_WIRE_FAILED)]) ∧
    (cbi_complete K w c).sc.transfer_state = TSTATE_IDLE ∧
    (cbi_complete K w c).inflight = rest ∧
    submissions (cbi_complete K w c).trace = submissions w.trace := by
  have hv : c.sbl.byte1 &&& 0x03 < 4 := by
    have := @Nat.and_le_right c.sbl.byte1 3
    omega
  refine ⟨?_, ?_, ?_, ?_, ?_⟩
  · intro h0
    refine ⟨by omega, ?_⟩
    simp [cbi_complete, hinf, umass_cbi_state, herr, hlive, hcd, hst, hufi, hlen, cbi_case_STATUS,
      umass_transfer_done, World.log, World.set_state, callbacks_append, callbacks, h0,
      TSTATE_CBI_COMMAND, TSTATE_CBI_DATA, TSTATE_CBI_STATUS, IDB_TYPE_CCI, IDB_VALUE_PASS,
      IDB_VALUE_FAIL, IDB_VALUE_PERSISTENT, IDB_VALUE_STATUS_MASK]
  · intro h0
    simp [cbi_complete, hinf, umass_cbi_state, herr, hlive, hcd, hst, hufi, hlen, cbi_case_STATUS,
      umass_transfer_done, World.log, World.set_state, callbacks_append, callbacks, h0,
      TSTATE_CBI_COMMAND, TSTATE_CBI_DATA, TSTATE_CBI_STATUS, IDB_TYPE_CCI]
  · by_cases h0 : c.sbl.byte0 = 0 <;>
    simp [cbi_complete, hinf, umass_cbi_state, herr, hlive, hcd, hst, hufi, hlen, cbi_case_STATUS,
      umass_transfer_done, World.log, World.set_state, h0,
      TSTATE_CBI_COMMAND, TSTATE_CBI_DATA, TSTATE_CBI_STATUS, IDB_TYPE_CCI]
  · by_cases h0 : c.sbl.byte0 = 0 <;>
    simp [cbi_complete, hinf, umass_cbi_state, herr, hlive, hcd, hst, hufi, hlen, cbi_case_STATUS,
      umass_transfer_done, World.log, World.set_state, h0,
      TSTATE_CBI_COMMAND, TSTATE_CBI_DATA, TSTATE_CBI_STATUS, IDB_TYPE_CCI]
  · by_cases h0 : c.sbl.byte0 = 0 <;>
    simp [cbi_complete, hinf, umass_cbi_state, herr, hlive, hcd, hst, hufi, hlen, cbi_case_STATUS,
      umass_transfer_done, World.log, World.set_state, h0, submissions_append, submissions,
      TSTATE_CBI_COMMAND, TSTATE_CBI_DATA, TSTATE_CBI_STATUS, IDB_TYPE_CCI]

/-- C37 on the ATAPI session `w_cbi_i_atapi_status` (512 bytes requested, 500
read): the status block (0x00, 0x03) gives `STATUS_CMD_FAILED` with residue 12,
and the status block (0x01, 0x00) gives `STATUS_WIRE_FAILED` with residue 512. -/
theorem C37_cci_status_block_witness :
    (w_cbi_i_atapi_status.sc.sc_dying = false ∧
      w_cbi_i_atapi_status.sc.transfer_state = TSTATE_CBI_STATUS ∧
      w_cbi_i_atapi_status.sc.sc_cmd ≠ UMASS_CPROTO_UFI ∧
      w_cbi_i_atapi_status.inflight = [XFER_CBI_STATUS]) ∧
    callbacks (cbi_complete K_std w_cbi_i_atapi_status (completion_sbl 0x00 0x03)).trace =
      [(7, 9, 12, STATUS_CMD_FAILED)] ∧
    callbacks (cbi_complete K_std w_cbi_i_atapi_status (completion_sbl 0x01 0x00)).trace =
      [(7, 9, 512, STATUS_WIRE_FAILED)] :=
  ⟨by decide,
   ((C37_cci_status_block K_std w_cbi_i_atapi_status (completion_sbl 0x00 0x03) XFER_CBI_STATUS []
      (by decide) (by decide) (by decide) (by decide) (by decide) (by decide)
      (by decide)).1 (by decide)).2,
   (C37_cci_status_block K_std w_cbi_i_atapi_status (completion_sbl 0x01 0x00) XFER_CBI_STATUS []
      (by decide) (by decide) (by decide) (by decide) (by decide) (by decide)
      (by decide)).2.1 (by decide)⟩

/-- C38: a command on a plain CBI session (no command completion interrupt) that
is and stays live, with nothing else in flight and a transport that accepts the
transfers, whose command block completes normally. With a data phase (`DIR_IN`
or `DIR_OUT`) whose transfer completes normally with an actual length of at most
`datalen`, the callback is called once with `STATUS_CMD_UNKNOWN` and residue
`datalen - actlen`; without a data phase (`DIR_NONE`) this happens at the
completion of the command block, with the actual length 0. In both cases the
session is idle with nothing in flight, and no status transfer was submitted:
the transfers are the command block and, with a data phase, the data
transfer. -/
theorem C38_plain_cbi_reports_unknown (K : usb_h) (w : World) (lun : Int)
    (cmd : List Nat) (cmdlen : Int) (data : Nat) (datalen dir : Int)
    (timeout flags cb priv : Nat) (c1 c2 : Completion)
    (hwire : w.sc.sc_wire = UMASS_WPROTO_CBI)
    (hlive : w.sc.sc_dying = false) (hinf : w.inflight = []) (hacc : w.usbd_transfer_ret = [])
    (h1 : c1.err = usbd_status.USBD_NORMAL_COMPLETION) (h1d : c1.dying = false)
    (h2 : c2.err = usbd_status.USBD_NORMAL_COMPLETION) (h2d : c2.dying = false)
    (h2a : (c2.actlen : Int) ≤ datalen) (hdl : datalen < 2147483648) :
    ((dir = DIR_IN ∨ dir = DIR_OUT) →
      callbacks (cbi_run K
        (umass_cbi_transfer K w lun cmd cmdlen data datalen dir timeout flags cb priv)
        [c1, c2]).trace = callbacks w.trace ++
          [(cb, priv, datalen - c2.actlen, STATUS_CMD_UNKNOWN)] ∧
      callbacks (cbi_run K
        (umass_cbi_transfer K w lun cmd cmdlen data datalen dir timeout flags cb priv)
        [c1]).trace = callbacks w.trace ∧
      (cbi_run K (umass_cbi_transfer K w lun cmd cmdlen data datalen dir timeout flags cb priv)
        [c1, c2]).sc.transfer_state = TSTATE_IDLE ∧
      (cbi_run K (umass_cbi_transfer K w lun cmd cmdlen data datalen dir timeout flags cb priv)
        [c1, c2]).inflight = [] ∧
      submissions (cbi_run K
        (umass_cbi_transfer K w lun cmd cmdlen data datalen dir timeout flags cb priv)
        [c1, c2]).trace = submissions w.trace ++ [XFER_CBI_CB, cbi_data_xfer dir]) ∧
    (dir = DIR_NONE →
      callbacks (cbi_run K
        (umass_cbi_transfer K w lun cmd cmdlen data datalen dir timeout flags cb priv)
        [c1]).trace = callbacks w.trace ++ [(cb, priv, datalen - 0, STATUS_CMD_UNKNOWN)] ∧
      (cbi_run K (umass_cbi_transfer K w lun cmd cmdlen data datalen dir timeout flags cb priv)
        [c1]).sc.transfer_state = TSTATE_IDLE ∧
      (cbi_run K (umass_cbi_transfer K w lun cmd cmdlen data datalen dir timeout flags cb priv)
        [c1]).inflight = [] ∧
      submissions (cbi_run K
        (umass_cbi_transfer K w lun cmd cmdlen data datalen dir timeout flags cb priv)
        [c1]).trace = submissions w.trace ++ [XFER_CBI_CB]) := by
  have hact : int_of_u32 c2.actlen = (c2.actlen : Int) := by
    unfold int_of_u32; split_ifs <;> omega
  constructor
  · intro hdir
    by_cases hm : w.sc.sc_methods = K.UMASS_BBB <;> rcases hdir with hdir | hdir <;>
    simp [cbi_run, umass_cbi_transfer, cbi_send_cb, umass_cbi_adsc, cbi_transfer_store, hm,
      cbi_complete, hinf, umass_cbi_state, cbi_case_COMMAND, cbi_case_DATA, cbi_data_status,
      h1, h1d, h2, h2d, hlive, World.set_state, umass_setup_transfer, hwire,
      usbd_transfer, hacc, World.log, umass_setup_ctrl_transfer, cbi_data_xfer, hdir, hact,
      umass_transfer_done, callbacks_append, callbacks, submissions_append, submissions,
      TSTATE_CBI_COMMAND, TSTATE_CBI_DATA, TSTATE_CBI_DCLEAR, TSTATE_CBI_STATUS,
      TSTATE_IDLE, DIR_IN, DIR_NONE, DIR_OUT, UMASS_WPROTO_CBI, UMASS_WPROTO_CBI_I]
  · intro hdir
    simp [cbi_run, umass_cbi_transfer, cbi_send_cb, umass_cbi_adsc, cbi_transfer_store,
      cbi_complete, hinf, umass_cbi_state, cbi_case_COMMAND, cbi_case_DATA, cbi_data_status,
      h1, h1d, hlive, World.set_state, hwire,
      usbd_transfer, hacc, World.log, umass_setup_ctrl_transfer, hdir,
      umass_transfer_done, callbacks_append, callbacks, submissions_append, submissions,
      TSTATE_CBI_COMMAND, TSTATE_CBI_DATA, TSTATE_CBI_DCLEAR, TSTATE_CBI_STATUS,
      TSTATE_IDLE, DIR_IN, DIR_NONE, DIR_OUT, UMASS_WPROTO_CBI, UMASS_WPROTO_CBI_I]

/-- C38 on the plain CBI session `w_cbi`: a 512-byte read of which 500 bytes
arrive ends with `STATUS_CMD_UNKNOWN` and residue 12 after the transfers of the
command block and of the data; a command without data ends with
`STATUS_CMD_UNKNOWN` and residue 0 after the command block. -/
theorem C38_plain_cbi_reports_unknown_witness :
    (w_cbi.sc.sc_wire = UMASS_WPROTO_CBI ∧ w_cbi.sc.sc_dying = false ∧ w_cbi.inflight = [] ∧
      w_cbi.usbd_transfer_ret = [] ∧ ((500 : Nat) : Int) ≤ 512) ∧
    callbacks (cbi_run K_std
        (umass_cbi_transfer K_std w_cbi 0 [0x28, 0, 0, 0, 0, 0, 0, 0, 1, 0, 0, 0] 12 0x1000 512
          DIR_IN 1000 0 7 9)
        [completion usbd_status.USBD_NORMAL_COMPLETION 12,
         completion usbd_status.USBD_NORMAL_COMPLETION 500]).trace =
      [(7, 9, 512 - ((500 : Nat) : Int), STATUS_CMD_UNKNOWN)] ∧
    submissions (cbi_run K_std
        (umass_cbi_transfer K_std w_cbi 0 [0x28, 0, 0, 0, 0, 0, 0, 0, 1, 0, 0, 0] 12 0x1000 512
          DIR_IN 1000 0 7 9)
        [completion usbd_status.USBD_NORMAL_COMPLETION 12,
         completion usbd_status.USBD_NORMAL_COMPLETION 500]).trace =
      [XFER_CBI_CB, XFER_CBI_DATAIN] :=
  have h := (C38_plain_cbi_reports_unknown K_std w_cbi 0 [0x28, 0, 0, 0, 0, 0, 0, 0, 1, 0, 0, 0]
    12 0x1000 512 DIR_IN 1000 0 7 9
    (completion usbd_status.USBD_NORMAL_COMPLETION 12)
    (completion usbd_status.USBD_NORMAL_COMPLETION 500)
    (by decide) (by decide) (by decide) (by decide) (by decide) (by decide) (by decide)
    (by decide) (by decide) (by decide)).1 (Or.inl rfl)
  ⟨by decide, h.1, h.2.2.2.2⟩

/-- C39 (amended): `umass_cbi_reset`, called with a status `st` in any state of a session
that is and stays live, with nothing in flight, a transport that accepts the
control requests and a stored context `priv` that is not null. The calls made by
the reset and by the handling of its three completions (whatever their error,
cancellation apart) are, in this order: the ADSC request (the request of the
command phase, here with `wLength` 12) set up on `XFER_CBI_RESET1` with the
buffer `sc->cbl` and the length 12, whose first twelve bytes are 0x1d, 0x04 and
ten bytes 0xff, and submitted; then the toggle reset and the request
CLEAR_FEATURE(ENDPOINT_HALT) for the bulk-in endpoint on `XFER_CBI_RESET2`; then
the same for the bulk-out endpoint on `XFER_CBI_RESET3`; and last the callback,
with the residue `datalen` and the status `st`. -/
theorem C39_cbi_reset_sequence (K : usb_h) (w : World) (st : Int) (c1 c2 c3 : Completion)
    (hlive : w.sc.sc_dying = false) (hinf : w.inflight = []) (hacc : w.usbd_transfer_ret = [])
    (hpriv : w.sc.transfer_priv ≠ 0)
    (h1 : c1.err ≠ usbd_status.USBD_CANCELLED) (h1d : c1.dying = false)
    (h2 : c2.err ≠ usbd_status.USBD_CANCELLED) (h2d : c2.dying = false)
    (h3 : c3.err ≠ usbd_status.USBD_CANCELLED) (h3d : c3.dying = false) :
    ∃ cbl : List Nat, cbl.take 12 = cbi_reset_bytes ∧ cbl.drop 12 = w.sc.cbl.drop 12 ∧
      (umass_cbi_reset K w st).sc.cbl = cbl ∧
      (umass_cbi_reset K w st).trace = w.trace ++
        [Event.usbd_setup_default_xfer XFER_CBI_RESET1 (adsc_request K w.sc 12) (Buf.cmd cbl) 12 0,
         Event.usbd_transfer XFER_CBI_RESET1 usbd_status.USBD_IN_PROGRESS] ∧
      (cbi_run K (umass_cbi_reset K w st) [c1]).trace = (umass_cbi_reset K w st).trace ++
        [Event.usbd_clear_endpoint_toggle UMASS_BULKIN,
         Event.usbd_setup_default_xfer XFER_CBI_RESET2 (clear_halt_request K w.sc UMASS_BULKIN)
           Buf.NULL 0 0,
         Event.usbd_transfer XFER_CBI_RESET2 usbd_status.USBD_IN_PROGRESS] ∧
      (cbi_run K (umass_cbi_reset K w st) [c1, c2]).trace =
        (cbi_run K (umass_cbi_reset K w st) [c1]).trace ++
        [Event.usbd_clear_endpoint_toggle UMASS_BULKOUT,
         Event.usbd_setup_default_xfer XFER_CBI_RESET3 (clear_halt_request K w.sc UMASS_BULKOUT)
           Buf.NULL 0 0,
         Event.usbd_transfer XFER_CBI_RESET3 usbd_status.USBD_IN_PROGRESS] ∧
      (cbi_run K (umass_cbi_reset K w st) [c1, c2, c3]).trace =
        (cbi_run K (umass_cbi_reset K w st) [c1, c2]).trace ++
        [Event.transfer_cb w.sc.transfer_cb w.sc.transfer_priv w.sc.transfer_datalen st] ∧
      (cbi_run K (umass_cbi_reset K w st) [c1, c2, c3]).sc.transfer_state = TSTATE_IDLE ∧
      (cbi_run K (umass_cbi_reset K w st) [c1, c2, c3]).inflight = [] ∧
      ∀ (lun : Int) (cmd : List Nat) (cmdlen : Int) (data : Nat) (datalen dir : Int)
        (timeout flags cb priv : Nat),
        ctrl_requests
          (umass_cbi_transfer K w lun cmd cmdlen data datalen dir timeout flags cb priv).trace =
        ctrl_requests w.trace ++ [adsc_request K w.sc
          (if w.sc.sc_cmd = UMASS_CPROTO_RBC ∧
              w.sc.sc_quirks &&& UMASS_QUIRK_RBC_PAD_TO_12 ≠ 0 ∧ cmdlen < 12 then 12
            else cmdlen)] := by
  refine ⟨[0x1d, 0x04] ++ List.replicate (SEND_DIAGNOSTIC_CMDLEN - 2) 0xff ++
      w.sc.cbl.drop SEND_DIAGNOSTIC_CMDLEN, by simp [SEND_DIAGNOSTIC_CMDLEN, cbi_reset_bytes],
    by simp [SEND_DIAGNOSTIC_CMDLEN], ?_⟩
  simp [umass_cbi_transfer, cbi_send_cb, cbi_transfer_store, ctrl_requests_append, ctrl_requests,
    cbi_run, umass_cbi_reset, umass_cbi_adsc, hlive, umass_setup_ctrl_transfer, usbd_transfer,
    hacc, World.log, cbi_complete, hinf, umass_cbi_state, h1, h1d, h2, h2d, h3, h3d,
    umass_clear_endpoint_stall, adsc_request, clear_halt_request,
    umass_transfer_reset, hpriv, World.set_state, SEND_DIAGNOSTIC_CMDLEN,
    TSTATE_CBI_COMMAND, TSTATE_CBI_DATA, TSTATE_CBI_DCLEAR, TSTATE_CBI_STATUS,
    TSTATE_CBI_SCLEAR, TSTATE_CBI_RESET1, TSTATE_CBI_RESET2,
    TSTATE_CBI_RESET3, TSTATE_IDLE]

/-- C39 (amended) on the session `w_cbi_data_done` (callback 7, context 9, 512 bytes
requested), reset with `STATUS_WIRE_FAILED`: the ADSC request carries the twelve
bytes 1d 04 ff ff ff ff ff ff ff ff ff ff, and after the three completions the
callback has been called with residue 512 and `STATUS_WIRE_FAILED`. -/
theorem C39_cbi_reset_sequence_witness :
    (w_cbi_data_done.sc.sc_dying = false ∧ w_cbi_data_done.inflight = [] ∧
      w_cbi_data_done.usbd_transfer_ret = [] ∧ w_cbi_data_done.sc.transfer_priv ≠ 0) ∧
    ∃ cbl : List Nat, cbl.take 12 = cbi_reset_bytes ∧
      (umass_cbi_reset K_std w_cbi_data_done STATUS_WIRE_FAILED).trace =
        w_cbi_data_done.trace ++
        [Event.usbd_setup_default_xfer XFER_CBI_RESET1
          { bmRequestType := 0x21, bRequest := 0x00, wValue := [0, 0], wIndex := [0, 0],
            wLength := [12, 0] } (Buf.cmd cbl) 12 0,
         Event.usbd_transfer XFER_CBI_RESET1 usbd_status.USBD_IN_PROGRESS] ∧
      (cbi_run K_std (umass_cbi_reset K_std w_cbi_data_done STATUS_WIRE_FAILED)
        [completion usbd_status.USBD_NORMAL_COMPLETION 12,
         completion usbd_status.USBD_STALLED 0,
         completion usbd_status.USBD_NORMAL_COMPLETION 0]).trace =
        (cbi_run K_std (umass_cbi_reset K_std w_cbi_data_done STATUS_WIRE_FAILED)
          [completion usbd_status.USBD_NORMAL_COMPLETION 12,
           completion usbd_status.USBD_STALLED 0]).trace ++
        [Event.transfer_cb 7 9 512 STATUS_WIRE_FAILED] := by
  obtain ⟨cbl, h1, _, _, h4, _, _, h7, _⟩ := C39_cbi_reset_sequence K_std w_cbi_data_done
    STATUS_WIRE_FAILED (completion usbd_status.USBD_NORMAL_COMPLETION 12)
    (completion usbd_status.USBD_STALLED 0) (completion usbd_status.USBD_NORMAL_COMPLETION 0)
    (by decide) (by decide) (by decide) (by decide) (by decide) (by decide) (by decide)
    (by decide) (by decide) (by decide)
  exact ⟨by decide, cbl, h1, h4, h7⟩

/-- C39 as stated fails on the code. `umass_cbi_reset` with `STATUS_WIRE_FAILED` on
the live session `w_cbi_data_done` (callback 7, context 9, 512 bytes requested).
When the ADSC request completes with `USBD_CANCELLED`, neither stall is cleared
(the ADSC request is the one control request, `XFER_CBI_RESET2` and
`XFER_CBI_RESET3` are not submitted) and the callback receives `STATUS_TIMEOUT`
with residue 0, not the stored status. On the same session with the context
NULL, after the normal completions of the three requests the session is idle
and the callback has not been called. -/
theorem C39_cancelled_adsc_clears_no_stall :
    (ctrl_requests (cbi_run K_std (umass_cbi_reset K_std w_cbi_data_done STATUS_WIRE_FAILED)
        [completion usbd_status.USBD_CANCELLED 0]).trace =
        ctrl_requests w_cbi_data_done.trace ++ [adsc_request K_std w_cbi_data_done.sc 12] ∧
      XFER_CBI_RESET2 ∉ submissions (cbi_run K_std
        (umass_cbi_reset K_std w_cbi_data_done STATUS_WIRE_FAILED)
        [completion usbd_status.USBD_CANCELLED 0]).trace ∧
      XFER_CBI_RESET3 ∉ submissions (cbi_run K_std
        (umass_cbi_reset K_std w_cbi_data_done STATUS_WIRE_FAILED)
        [completion usbd_status.USBD_CANCELLED 0]).trace ∧
      callbacks (cbi_run K_std (umass_cbi_reset K_std w_cbi_data_done STATUS_WIRE_FAILED)
        [completion usbd_status.USBD_CANCELLED 0]).trace = [(7, 9, 0, STATUS_TIMEOUT)] ∧
      (cbi_run K_std (umass_cbi_reset K_std w_cbi_data_done STATUS_WIRE_FAILED)
        [completion usbd_status.USBD_CANCELLED 0]).sc.transfer_state = TSTATE_IDLE ∧
      (cbi_run K_std (umass_cbi_reset K_std w_cbi_data_done STATUS_WIRE_FAILED)
        [completion usbd_status.USBD_CANCELLED 0]).sc.transfer_status = STATUS_WIRE_FAILED) ∧
    (callbacks (cbi_run K_std
        (umass_cbi_reset K_std
          { w_cbi_data_done with sc := { w_cbi_data_done.sc with transfer_priv := 0 } }
          STATUS_WIRE_FAILED)
        [completion usbd_status.USBD_NORMAL_COMPLETION 12,
         completion usbd_status.USBD_NORMAL_COMPLETION 0,
         completion usbd_status.USBD_NORMAL_COMPLETION 0]).trace = [] ∧
      (cbi_run K_std
        (umass_cbi_reset K_std
          { w_cbi_data_done with sc := { w_cbi_data_done.sc with transfer_priv := 0 } }
          STATUS_WIRE_FAILED)
        [completion usbd_status.USBD_NORMAL_COMPLETION 12,
         completion usbd_status.USBD_NORMAL_COMPLETION 0,
         completion usbd_status.USBD_NORMAL_COMPLETION 0]).sc.transfer_state = TSTATE_IDLE) := by
  decide

/-! ## C40: byte swapping -/

theorem testBit_mask (k n i : Nat) :
    ((2 ^ n - 1) <<< k).testBit i = (decide (k ≤ i) && decide (i - k < n)) := by
  rw [Nat.testBit_shiftLeft, Nat.testBit_two_pow_sub_one]

theorem bswap64_LP64_testBit (x i : Nat) (hi : i < 64) :
    (bswap64 true x).testBit i = x.testBit (8 * (7 - i / 8) + i % 8) := by
  have m7 : (0xff00000000000000 : Nat) = (2 ^ 8 - 1) <<< 56 := by decide
  have m6 : (0x00ff000000000000 : Nat) = (2 ^ 8 - 1) <<< 48 := by decide
  have m5 : (0x0000ff0000000000 : Nat) = (2 ^ 8 - 1) <<< 40 := by decide
  have m4 : (0x000000ff00000000 : Nat) = (2 ^ 8 - 1) <<< 32 := by decide
  have m3 : (0x00000000ff000000 : Nat) = (2 ^ 8 - 1) <<< 24 := by decide
  have m2 : (0x0000000000ff0000 : Nat) = (2 ^ 8 - 1) <<< 16 := by decide
  have m1 : (0x000000000000ff00 : Nat) = (2 ^ 8 - 1) <<< 8 := by decide
  have m0 : (0x00000000000000ff : Nat) = (2 ^ 8 - 1) <<< 0 := by decide
  simp only [bswap64, if_true]
  rw [m7, m6, m5, m4, m3, m2, m1, m0]
  simp only [Nat.testBit_or, Nat.testBit_and, Nat.testBit_shiftLeft, Nat.testBit_shiftRight,
    Nat.testBit_mod_two_pow, Nat.testBit_two_pow_sub_one]
  interval_cases i <;> simp

theorem rorw_8_testBit (d i : Nat) :
    (rorw_8 d).testBit i = (decide (i < 32) &&
      d.testBit (if i < 8 then i + 8 else if i < 16 then i - 8 else i)) := by
  have m3 : (0xffff0000 : Nat) = (2 ^ 16 - 1) <<< 16 := by decide
  have m1 : (0x000000ff : Nat) = 2 ^ 8 - 1 := by decide
  simp only [rorw_8]
  rw [m3, m1]
  simp only [Nat.testBit_or, Nat.testBit_and, Nat.testBit_shiftLeft, Nat.testBit_shiftRight,
    Nat.testBit_two_pow_sub_one]
  by_cases hi : i < 32
  · interval_cases i <;> simp
  · have h16 : ¬ i - 16 < 16 := by omega
    have h8 : ¬ i - 8 < 8 := by omega
    have h0 : ¬ i < 8 := by omega
    simp [hi, h16, h8, h0]

theorem swap_words_testBit (d i : Nat) :
    (swap_words d).testBit i = (decide (i < 32) &&
      d.testBit (if i < 16 then i + 16 else i - 16)) := by
  have m2 : (0x0000ffff : Nat) = 2 ^ 16 - 1 := by decide
  simp only [swap_words]
  rw [m2]
  simp only [Nat.testBit_or, Nat.testBit_and, Nat.testBit_shiftLeft, Nat.testBit_shiftRight,
    Nat.testBit_two_pow_sub_one]
  by_cases hi : i < 32
  · interval_cases i <;> simp
  · have h16 : ¬ i - 16 < 16 := by omega
    have h0 : ¬ i < 16 := by omega
    simp [hi, h16, h0]

/-- Bit `i` of `bswap32(var)`: bit `i % 8` of the byte `3 - i / 8` of `var` for
`i < 32`, and no bit above. -/
theorem bswap32_testBit (var i : Nat) :
    (bswap32 var).testBit i = (decide (i < 32) && var.testBit (8 * (3 - i / 8) + i % 8)) := by
  simp only [bswap32, rorw_8_testBit, swap_words_testBit, Nat.testBit_mod_two_pow]
  by_cases hi : i < 32
  · interval_cases i <;> simp
  · simp [hi]

theorem bswap64_split_testBit (x i : Nat) (hi : i < 64) :
    (bswap64 false x).testBit i = x.testBit (8 * (7 - i / 8) + i % 8) := by
  have m0 : (0x00000000ffffffff : Nat) = 2 ^ 32 - 1 := by decide
  simp only [bswap64, Bool.false_eq_true, if_false]
  rw [m0]
  simp only [Nat.testBit_or, Nat.testBit_and, Nat.testBit_shiftLeft, Nat.testBit_shiftRight,
    Nat.testBit_mod_two_pow, Nat.testBit_two_pow_sub_one, bswap32_testBit]
  interval_cases i <;> simp

theorem bswap64_high_bits (LP64 : Bool) (x i : Nat) (hi : 64 ≤ i) :
    (bswap64 LP64 x).testBit i = false := by
  have m7 : (0xff00000000000000 : Nat) = (2 ^ 8 - 1) <<< 56 := by decide
  have m6 : (0x00ff000000000000 : Nat) = (2 ^ 8 - 1) <<< 48 := by decide
  have m5 : (0x0000ff0000000000 : Nat) = (2 ^ 8 - 1) <<< 40 := by decide
  have m4 : (0x000000ff00000000 : Nat) = (2 ^ 8 - 1) <<< 32 := by decide
  have m3 : (0x00000000ff000000 : Nat) = (2 ^ 8 - 1) <<< 24 := by decide
  have m2 : (0x0000000000ff0000 : Nat) = (2 ^ 8 - 1) <<< 16 := by decide
  have m1 : (0x000000000000ff00 : Nat) = (2 ^ 8 - 1) <<< 8 := by decide
  have m0 : (0x00000000000000ff : Nat) = 2 ^ 8 - 1 := by decide
  have h64 : ¬ i < 64 := by omega
  have h32 : ¬ i < 32 := by omega
  have h8 : ¬ i < 8 := by omega
  have k24 : ¬ i - 24 < 8 := by omega
  have k16 : ¬ i - 16 < 8 := by omega
  have k8 : ¬ i - 8 < 8 := by omega
  cases LP64
  · simp only [bswap64, Bool.false_eq_true, if_false]
    simp only [Nat.testBit_or, Nat.testBit_shiftLeft, Nat.testBit_mod_two_pow, bswap32_testBit]
    simp [h64, h32]
  · simp only [bswap64, if_true]
    rw [m7, m6, m5, m4, m3, m2, m1, m0]
    simp only [Nat.testBit_or, Nat.testBit_and, Nat.testBit_shiftLeft, Nat.testBit_shiftRight,
      Nat.testBit_mod_two_pow, Nat.testBit_two_pow_sub_one]
    simp [h64, h8, k24, k16, k8]

/-- Bit `i` of `bswap64(x)`, in either build: bit `i % 8` of the byte `7 - i / 8`
of `x` for `i < 64`, and no bit above. -/
theorem bswap64_testBit (LP64 : Bool) (x i : Nat) :
    (bswap64 LP64 x).testBit i = (decide (i < 64) && x.testBit (8 * (7 - i / 8) + i % 8)) := by
  by_cases hi : i < 64
  · cases LP64
    · rw [bswap64_split_testBit x i hi]
      simp [hi]
    · rw [bswap64_LP64_testBit x i hi]
      simp [hi]
  · rw [bswap64_high_bits LP64 x i (by omega)]
    simp [hi]

theorem byte_of_testBit (x i j : Nat) :
    (byte_of x i).testBit j = (decide (j < 8) && x.testBit (8 * i + j)) := by
  have e : byte_of x i = (x >>> (8 * i)) % 2 ^ 8 := by
    unfold byte_of
    rw [Nat.shiftRight_eq_div_pow, Nat.pow_mul]
    norm_num
  rw [e, Nat.testBit_mod_two_pow, Nat.testBit_shiftRight]

/-- C40: for every 64-bit `x`, in the build with `_LP64` (shifts and masks) and in
the build without it (two `bswap32` and an exchange of the halves): the byte `i`
of `bswap64(x)` is the byte `7 - i` of `x`, the result is a 64-bit value,
`bswap64(bswap64(x)) = x`, and the two variants compute the same value. -/
theorem C40_bswap64_reverses_bytes (x : Nat) (hx : x < 2 ^ 64) :
    (∀ (LP64 : Bool) (i : Nat), i < 8 → byte_of (bswap64 LP64 x) i = byte_of x (7 - i)) ∧
    (∀ LP64 : Bool, bswap64 LP64 x < 2 ^ 64) ∧
    (∀ LP64 : Bool, bswap64 LP64 (bswap64 LP64 x) = x) ∧
    bswap64 false x = bswap64 true x := by
  have hhigh : ∀ i, 64 ≤ i → x.testBit i = false := by
    intro i hi
    exact Nat.testBit_lt_two_pow (lt_of_lt_of_le hx (Nat.pow_le_pow_right (by decide) hi))
  refine ⟨?_, ?_, ?_, ?_⟩
  · intro LP64 i hi
    apply Nat.eq_of_testBit_eq
    intro j
    rw [byte_of_testBit, byte_of_testBit, bswap64_testBit]
    by_cases hj : j < 8
    · have e1 : 8 * (7 - (8 * i + j) / 8) + (8 * i + j) % 8 = 8 * (7 - i) + j := by omega
      have e2 : 8 * i + j < 64 := by omega
      rw [e1]
      simp [hj, e2]
    · simp [hj]
  · intro LP64
    apply Nat.lt_pow_two_of_testBit
    intro i hi
    exact bswap64_high_bits LP64 x i hi
  · intro LP64
    apply Nat.eq_of_testBit_eq
    intro i
    rw [bswap64_testBit, bswap64_testBit]
    by_cases hi : i < 64
    · have e1 : 8 * (7 - (8 * (7 - i / 8) + i % 8) / 8) + (8 * (7 - i / 8) + i % 8) % 8 = i := by
        omega
      have e2 : 8 * (7 - i / 8) + i % 8 < 64 := by omega
      rw [e1]
      simp [hi, e2]
    · simp [hi, hhigh i (by omega)]
  · apply Nat.eq_of_testBit_eq
    intro i
    rw [bswap64_testBit, bswap64_testBit]

/-- C40 on the value 0x0102030405060708: both variants give 0x0807060504030201,
whose byte 0 is the byte 7 of the argument, and swapping twice gives the
argument. -/
theorem C40_bswap64_reverses_bytes_witness :
    (0x0102030405060708 : Nat) < 2 ^ 64 ∧
    bswap64 true 0x0102030405060708 = 0x0807060504030201 ∧
    bswap64 false 0x0102030405060708 = 0x0807060504030201 ∧
    byte_of (bswap64 true 0x0102030405060708) 0 = byte_of 0x0102030405060708 (7 - 0) ∧
    bswap64 false (bswap64 false 0x0102030405060708) = 0x0102030405060708 :=
  have h := C40_bswap64_reverses_bytes 0x0102030405060708 (by decide)
  ⟨by decide, by decide, by decide, h.1 true 0 (by decide), h.2.2.1 false⟩

end Umass
